import Mathlib

/-!
Wi-SUN border router: frame codec and IE codec.

Shallow embedding of `common/ieee802154_frame.c`, of the schedule and PAN IE readers
and writers of `stack/source/6lowpan/ws/ws_ie_lib.c`, of the router-side frame
handlers and of the EAPOL target selection of `app_wsrd/app/ws.c`, of the br-info
persistence and the version counters of `6lbr/ws/ws_bbr_api.c`, of the PAN ID
selection, the channel check and the RCP reset handler of `app_wsbrd/app/wsbrd.c`, of
the TR51 channel function of `app_wshwsim/fhss/channel_functions.c`, of the neighbor
unreachability detection of `app_wsrd/ipv6/ndp.c`, of the certificate policy of
`tls_sec_prot_lib.c`, of the variable-length integers and strings of `common/hif.c`,
of the DHCPv6 server of `common/dhcp_common.c` and `common/dhcp_server.c`, of the
routing table of `6lbr/ws/ws_bbr_api.c` and of the DIO reception of
`app_wsrd/ipv6/rpl.c`, with the properties proved about them.

Conventions of the embedding:
* a byte buffer is a `List Nat`; every read of a cell is taken modulo 256
  (`uint8_t`), every wider machine integer carries its explicit `% 2^w`;
* a pointer into the received frame is an `Option Nat`: `none` is `NULL`,
  `some off` is `frame + off`;
* `BUG_ON` aborts the process: a function that contains one returns an `Option`,
  and `none` is the abort.
-/

set_option autoImplicit false

namespace Wisun

/-! ## Definitions -/

/-! ### errno, bit fields, endianness -/

/-- Modelled from the spec: errno value EINVAL of the host libc (`errno.h`, not under src/). -/
def EINVAL : Int := 22

/-- Modelled from the spec: errno value ENOENT of the host libc (`errno.h`, not under src/). -/
def ENOENT : Int := 2

/-- Modelled from the spec: errno value ENOTSUP of the host libc (`errno.h`, not under src/). -/
def ENOTSUP : Int := 95

/-- Loop of `__builtin_ctz`: number of trailing zero bits of `m`, at most `fuel`. -/
def ctz_loop : Nat → Nat → Nat → Nat
  | 0, _, acc => acc
  | fuel + 1, m, acc => if m % 2 = 1 then acc else ctz_loop fuel (m / 2) (acc + 1)

/-- Modelled from the spec: `__builtin_ctz` as used by the macros of common/bits.h
(not under src/), for the 32-bit masks of this code. -/
def ctz (m : Nat) : Nat := ctz_loop 32 m 0

/-- Modelled from the spec: macro FIELD_GET of common/bits.h (not under src/):
`((reg) & (mask)) >> __builtin_ctz(mask)`. -/
def FIELD_GET (mask reg : Nat) : Nat := (reg &&& mask) >>> ctz mask

/-- Modelled from the spec: macro FIELD_PREP of common/bits.h (not under src/):
`((val) << __builtin_ctz(mask)) & (mask)`. -/
def FIELD_PREP (mask val : Nat) : Nat := (val <<< ctz mask) &&& mask

/-- Value of a C `bool` used as an integer. -/
def b2n (b : Bool) : Nat := if b then 1 else 0

/-- Read of the `uint8_t` cell `i` of a buffer (0 outside the buffer). -/
def byte_at (mem : List Nat) (i : Nat) : Nat := mem.getD i 0 % 256

/-- Modelled from the spec: `read_le16` of common/endian.h (not under src/). -/
def read_le16 (mem : List Nat) (p : Nat) : Nat :=
  byte_at mem p + 256 * byte_at mem (p + 1)

/-- Modelled from the spec: `read_le24` of common/endian.h (not under src/). -/
def read_le24 (mem : List Nat) (p : Nat) : Nat :=
  byte_at mem p + 256 * byte_at mem (p + 1) + 65536 * byte_at mem (p + 2)

/-- Modelled from the spec: `read_le32` of common/endian.h (not under src/). -/
def read_le32 (mem : List Nat) (p : Nat) : Nat :=
  byte_at mem p + 256 * byte_at mem (p + 1) + 65536 * byte_at mem (p + 2)
    + 16777216 * byte_at mem (p + 3)

/-- Modelled from the spec: `read_le64` of common/endian.h (not under src/). -/
def read_le64 (mem : List Nat) (p : Nat) : Nat :=
  read_le32 mem p + 4294967296 * read_le32 mem (p + 4)

/-- Modelled from the spec: `read_be64` of common/endian.h (not under src/), on an
8-byte array. -/
def read_be64 (a : List Nat) : Nat :=
  byte_at a 7 + 256 * byte_at a 6 + 65536 * byte_at a 5 + 16777216 * byte_at a 4
    + 4294967296 * (byte_at a 3 + 256 * byte_at a 2 + 65536 * byte_at a 1
      + 16777216 * byte_at a 0)

/-- Modelled from the spec: `write_be64` of common/endian.h (not under src/): the 8
bytes it stores, most significant first. -/
def write_be64 (v : Nat) : List Nat :=
  [v / 72057594037927936 % 256, v / 281474976710656 % 256, v / 1099511627776 % 256,
   v / 4294967296 % 256, v / 16777216 % 256, v / 65536 % 256, v / 256 % 256, v % 256]

/-- Modelled from the spec: `write_le16` of common/endian.h (not under src/): the 2
bytes it stores. -/
def write_le16 (v : Nat) : List Nat := [v % 256, v / 256 % 256]

/-- Modelled from the spec: `write_le24` of common/endian.h (not under src/): the 3
bytes it stores. -/
def write_le24 (v : Nat) : List Nat := [v % 256, v / 256 % 256, v / 65536 % 256]

/-- Modelled from the spec: `write_le32` of common/endian.h (not under src/): the 4
bytes it stores. -/
def write_le32 (v : Nat) : List Nat :=
  [v % 256, v / 256 % 256, v / 65536 % 256, v / 16777216 % 256]

/-- Modelled from the spec: `write_le64` of common/endian.h (not under src/): the 8
bytes it stores. -/
def write_le64 (v : Nat) : List Nat :=
  write_le32 (v % 4294967296) ++ write_le32 (v / 4294967296 % 4294967296)

/-! ### iobuf -/

/-- Modelled from the spec: `struct iobuf_read` of common/iobuf.h (not under src/):
a read cursor `cnt` over the `data_size` bytes at `data`, with a sticky error
flag. -/
structure iobuf_read where
  data_size : Nat
  data : Option Nat
  cnt : Nat
  err : Bool
deriving DecidableEq, Repr

/-- The value `memset(buf, 0, sizeof(*buf))` leaves in a `struct iobuf_read`. -/
def iobuf_read_zero : iobuf_read :=
  { data_size := 0, data := none, cnt := 0, err := false }

/-- Modelled from the spec: `iobuf_remaining_size` of common/iobuf.c (not under
src/): 0 once the error flag is set, else the bytes not yet popped. -/
def iobuf_remaining_size (buf : iobuf_read) : Nat :=
  if buf.err then 0 else buf.data_size - buf.cnt

/-- Modelled from the spec: `iobuf_ptr` of common/iobuf.h (not under src/):
`buf->data + buf->cnt`. -/
def iobuf_ptr (buf : iobuf_read) : Option Nat :=
  buf.data.map (fun p => p + buf.cnt)

/-- Modelled from the spec: `iobuf_pop_data_ptr` of common/iobuf.c (not under
src/): `NULL` when the error flag is set; sets the flag and returns `NULL` when
fewer than `size` bytes remain; else returns the cursor and advances it. -/
def iobuf_pop_data_ptr (buf : iobuf_read) (size : Nat) : Option Nat × iobuf_read :=
  if buf.err then (none, buf)
  else if iobuf_remaining_size buf < size then (none, { buf with err := true })
  else (iobuf_ptr buf, { buf with cnt := buf.cnt + size })

/-- Modelled from the spec: `iobuf_pop_u8` of common/iobuf.c (not under src/): 0 and
the error flag when no byte can be popped. -/
def iobuf_pop_u8 (mem : List Nat) (buf : iobuf_read) : Nat × iobuf_read :=
  let r := iobuf_pop_data_ptr buf 1
  (match r.1 with
   | none => 0
   | some p => byte_at mem p, r.2)

/-- Modelled from the spec: `iobuf_pop_le16` of common/iobuf.c (not under src/). -/
def iobuf_pop_le16 (mem : List Nat) (buf : iobuf_read) : Nat × iobuf_read :=
  let r := iobuf_pop_data_ptr buf 2
  (match r.1 with
   | none => 0
   | some p => read_le16 mem p, r.2)

/-- Modelled from the spec: `iobuf_pop_le32` of common/iobuf.c (not under src/). -/
def iobuf_pop_le32 (mem : List Nat) (buf : iobuf_read) : Nat × iobuf_read :=
  let r := iobuf_pop_data_ptr buf 4
  (match r.1 with
   | none => 0
   | some p => read_le32 mem p, r.2)

/-- Modelled from the spec: `iobuf_pop_le64` of common/iobuf.c (not under src/). -/
def iobuf_pop_le64 (mem : List Nat) (buf : iobuf_read) : Nat × iobuf_read :=
  let r := iobuf_pop_data_ptr buf 8
  (match r.1 with
   | none => 0
   | some p => read_le64 mem p, r.2)

/-- Modelled from the spec: `iobuf_push_u8` of common/iobuf.c (not under src/): the
write buffer is the list of the bytes pushed so far. -/
def iobuf_push_u8 (buf : List Nat) (v : Nat) : List Nat := buf ++ [v % 256]

/-- Modelled from the spec: `iobuf_push_le16` of common/iobuf.c (not under src/). -/
def iobuf_push_le16 (buf : List Nat) (v : Nat) : List Nat := buf ++ write_le16 v

/-- Modelled from the spec: `iobuf_push_le64` of common/iobuf.c (not under src/). -/
def iobuf_push_le64 (buf : List Nat) (v : Nat) : List Nat := buf ++ write_le64 v

/-- Modelled from the spec: `iobuf_push_data_reserved` of common/iobuf.c (not under
src/): `size` bytes are appended for a later writer to fill; `fill i` is the
value the `i`-th of them ends up with. -/
def iobuf_push_data_reserved (buf : List Nat) (size : Nat) (fill : Nat → Nat) : List Nat :=
  buf ++ (List.range size).map (fun i => fill i % 256)

/-! ### common/ieee802154_frame.c -/

def IEEE802154_MASK_FCF_FRAME_TYPE : Nat := 0b0000000000000111
def IEEE802154_MASK_FCF_SECURED : Nat := 0b0000000000001000
def IEEE802154_MASK_FCF_FRAME_PENDING : Nat := 0b0000000000010000
def IEEE802154_MASK_FCF_ACK_REQ : Nat := 0b0000000000100000
def IEEE802154_MASK_FCF_PAN_ID_CMPR : Nat := 0b0000000001000000
/-- Bit 7 of the frame control field, reserved: ieee802154_frame.c has no mask for it. -/
def IEEE802154_MASK_FCF_RESERVED : Nat := 0b0000000010000000
def IEEE802154_MASK_FCF_DEL_SEQNO : Nat := 0b0000000100000000
def IEEE802154_MASK_FCF_HAS_IE : Nat := 0b0000001000000000
def IEEE802154_MASK_FCF_DST_ADDR_MODE : Nat := 0b0000110000000000
def IEEE802154_MASK_FCF_FRAME_VERSION : Nat := 0b0011000000000000
def IEEE802154_MASK_FCF_SRC_ADDR_MODE : Nat := 0b1100000000000000

def IEEE802154_MASK_SECHDR_LEVEL : Nat := 0b00000111
def IEEE802154_MASK_SECHDR_KEY_ID_MODE : Nat := 0b00011000
def IEEE802154_MASK_SECHDR_DEL_FRAMECTR : Nat := 0b00100000
def IEEE802154_MASK_SECHDR_ASN_IN_NONCE : Nat := 0b01000000

/-- Modelled from the spec: IEEE802154_FRAME_TYPE_DATA of common/specs/ieee802154.h
(not under src/), IEEE 802.15.4 frame type of a data frame. -/
def IEEE802154_FRAME_TYPE_DATA : Nat := 1

/-- Modelled from the spec: IEEE802154_FRAME_TYPE_ACK of common/specs/ieee802154.h
(not under src/), IEEE 802.15.4 frame type of an acknowledgment. -/
def IEEE802154_FRAME_TYPE_ACK : Nat := 2

/-- Modelled from the spec: MAC_FRAME_VERSION_2015 of common/specs/ieee802154.h (not
under src/), frame version 0b10. -/
def MAC_FRAME_VERSION_2015 : Nat := 2

/-- Modelled from the spec: MAC_ADDR_MODE_NONE of common/specs/ieee802154.h (not under src/). -/
def MAC_ADDR_MODE_NONE : Nat := 0

/-- Modelled from the spec: MAC_ADDR_MODE_16_BIT of common/specs/ieee802154.h (not under src/). -/
def MAC_ADDR_MODE_16_BIT : Nat := 2

/-- Modelled from the spec: MAC_ADDR_MODE_64_BIT of common/specs/ieee802154.h (not under src/). -/
def MAC_ADDR_MODE_64_BIT : Nat := 3

/-- Modelled from the spec: SEC_ENC_MIC64 of common/specs/ieee802154.h (not under
src/), security level ENC-MIC-64. -/
def SEC_ENC_MIC64 : Nat := 6

/-- Modelled from the spec: MAC_KEY_ID_MODE_IDX of common/specs/ieee802154.h (not
under src/), key identifier mode with a one-byte key index. -/
def MAC_KEY_ID_MODE_IDX : Nat := 1

/-- The broadcast address `ieee802154_addr_bc`. -/
def ieee802154_addr_bc : List Nat := [0xff, 0xff, 0xff, 0xff, 0xff, 0xff, 0xff, 0xff]

/-- Modelled from the spec: `struct ieee802154_hdr` of common/ieee802154_frame.h
(not under src/), with the fields ieee802154_frame.c reads and writes. -/
structure ieee802154_hdr where
  frame_type : Nat
  ack_req : Bool
  seqno : Int
  pan_id : Nat
  dst : List Nat
  src : List Nat
  key_index : Nat
  frame_counter : Nat
deriving DecidableEq, Repr

/-- One row of `ieee802154_table_pan_id_cmpr`. -/
structure pan_id_cmpr_row where
  dst_addr_mode : Nat
  src_addr_mode : Nat
  has_dst_pan_id : Bool
  has_src_pan_id : Bool
  pan_id_cmpr : Bool
deriving DecidableEq, Repr

/-- IEEE 802.15.4-2020 Table 7-2, the rows the code supports. -/
def ieee802154_table_pan_id_cmpr : List pan_id_cmpr_row :=
  [ { dst_addr_mode := MAC_ADDR_MODE_NONE, src_addr_mode := MAC_ADDR_MODE_64_BIT,
      has_dst_pan_id := false, has_src_pan_id := true, pan_id_cmpr := false },
    { dst_addr_mode := MAC_ADDR_MODE_NONE, src_addr_mode := MAC_ADDR_MODE_64_BIT,
      has_dst_pan_id := false, has_src_pan_id := false, pan_id_cmpr := true },
    { dst_addr_mode := MAC_ADDR_MODE_64_BIT, src_addr_mode := MAC_ADDR_MODE_64_BIT,
      has_dst_pan_id := false, has_src_pan_id := false, pan_id_cmpr := true } ]

/-- The `for (i = 0; i < ARRAY_SIZE(table); i++) if (...) break;` loops: index of the
first row satisfying `p`, counted from `i`; the table size when there is none. -/
def table_find (p : pan_id_cmpr_row → Bool) : List pan_id_cmpr_row → Nat → Nat
  | [], i => i
  | row :: rest, i => if p row then i else table_find p rest (i + 1)

/-- Result of `ieee802154_frame_parse_sec`: return value, cursor and header. -/
structure parse_sec_result where
  ret : Int
  iobuf : iobuf_read
  hdr : ieee802154_hdr
deriving DecidableEq, Repr

/-- Function `ieee802154_frame_parse_sec` over the frame `mem`. -/
def ieee802154_frame_parse_sec (mem : List Nat) (iobuf : iobuf_read) (hdr : ieee802154_hdr) :
    parse_sec_result :=
  let r0 := iobuf_pop_u8 mem iobuf
  let scf := r0.1
  if FIELD_GET IEEE802154_MASK_SECHDR_LEVEL scf ≠ SEC_ENC_MIC64 then
    { ret := -ENOTSUP, iobuf := r0.2, hdr := hdr }
  else if FIELD_GET IEEE802154_MASK_SECHDR_KEY_ID_MODE scf ≠ MAC_KEY_ID_MODE_IDX then
    { ret := -ENOTSUP, iobuf := r0.2, hdr := hdr }
  else if FIELD_GET IEEE802154_MASK_SECHDR_DEL_FRAMECTR scf ≠ 0 then
    { ret := -ENOTSUP, iobuf := r0.2, hdr := hdr }
  else
    let r1 := iobuf_pop_le32 mem r0.2
    let r2 := iobuf_pop_u8 mem r1.2
    let hdr1 := { hdr with frame_counter := r1.1, key_index := r2.1 }
    if iobuf_remaining_size r2.2 < 8 then
      { ret := -EINVAL, iobuf := r2.2, hdr := hdr1 }
    else
      { ret := 0, iobuf := { r2.2 with data_size := r2.2.data_size - 8 }, hdr := hdr1 }

/-- Modelled from the spec: IEEE802154_IE_TYPE_MASK of common/ieee802154_ie.h (not
under src/): bit 15 of an IE descriptor tells header IE (0) from payload IE (1). -/
def IEEE802154_IE_TYPE_MASK : Nat := 0b1000000000000000

/-- Modelled from the spec: header IE descriptor masks of common/ieee802154_ie.h (not
under src/): length in bits 0-6. -/
def IEEE802154_IE_HEADER_LEN_MASK : Nat := 0b0000000001111111

/-- Modelled from the spec: header IE descriptor masks of common/ieee802154_ie.h (not
under src/): element id in bits 7-14. -/
def IEEE802154_IE_HEADER_ID_MASK : Nat := 0b0111111110000000

/-- Modelled from the spec: payload IE descriptor masks of common/ieee802154_ie.h
(not under src/): length in bits 0-10. -/
def IEEE802154_IE_PAYLOAD_LEN_MASK : Nat := 0b0000011111111111

/-- Modelled from the spec: payload IE descriptor masks of common/ieee802154_ie.h
(not under src/): group id in bits 11-14. -/
def IEEE802154_IE_PAYLOAD_ID_MASK : Nat := 0b0111100000000000

/-- Modelled from the spec: IEEE802154_IE_ID_HT1 of common/specs/ieee802154.h (not
under src/), header termination 1 (payload IEs follow). -/
def IEEE802154_IE_ID_HT1 : Nat := 0x7e

/-- Modelled from the spec: IEEE802154_IE_ID_HT2 of common/specs/ieee802154.h (not
under src/), header termination 2 (no payload IE follows). -/
def IEEE802154_IE_ID_HT2 : Nat := 0x7f

/-- Modelled from the spec: IEEE802154_IE_ID_PT of common/specs/ieee802154.h (not
under src/), payload termination. -/
def IEEE802154_IE_ID_PT : Nat := 0xf

/-- What `ieee802154_ie_find` leaves in `ie_content` when it does not find the IE. -/
def ie_content_none : iobuf_read :=
  { data_size := 0, data := none, cnt := 0, err := true }

/-- Modelled from the spec: the `while (iobuf_remaining_size(&input))` loop of
`ieee802154_ie_find` in common/ieee802154_ie.c (not under src/), written after
its sibling `dhcp_get_option`: pop a 16-bit descriptor, fail with -EINVAL on the
wrong IE type, return the content of the first IE with the id looked for (its
length is the return value), skip the others; -ENOENT at the end of the list.
`none` is fuel exhausted. -/
def ieee802154_ie_find_loop (mem : List Nat) (ie_type id_mask len_mask ie_id : Nat) :
    Nat → iobuf_read → Option (Int × iobuf_read)
  | 0, _ => none
  | fuel + 1, input =>
    if iobuf_remaining_size input = 0 then some (-ENOENT, ie_content_none)
    else
      let r := iobuf_pop_le16 mem input
      if FIELD_GET IEEE802154_IE_TYPE_MASK r.1 ≠ ie_type then some (-EINVAL, ie_content_none)
      else
        let ie_len := FIELD_GET len_mask r.1
        let p := iobuf_pop_data_ptr r.2 ie_len
        if FIELD_GET id_mask r.1 = ie_id then
          match p.1 with
          | none => some (-EINVAL, ie_content_none)
          | some c => some ((ie_len : Int),
              { data_size := ie_len, data := some c, cnt := 0, err := false })
        else ieee802154_ie_find_loop mem ie_type id_mask len_mask ie_id fuel p.2

/-- Modelled from the spec: `ieee802154_ie_find` of common/ieee802154_ie.c (not under
src/) over the `len` bytes at `data`; `len + 1` iterations are enough for the
loop to end (see `ieee802154_ie_find_loop_isSome`). -/
def ieee802154_ie_find (mem : List Nat) (ie_type id_mask len_mask : Nat)
    (data : Option Nat) (len : Nat) (ie_id : Nat) : Int × iobuf_read :=
  (ieee802154_ie_find_loop mem ie_type id_mask len_mask ie_id (len + 1)
    { data_size := len, data := data, cnt := 0, err := false }).getD (-ENOENT, ie_content_none)

/-- Modelled from the spec: `ieee802154_ie_find_header` of common/ieee802154_ie.c (not
under src/). -/
def ieee802154_ie_find_header (mem : List Nat) (data : Option Nat) (len : Nat) (ie_id : Nat) :
    Int × iobuf_read :=
  ieee802154_ie_find mem 0 IEEE802154_IE_HEADER_ID_MASK IEEE802154_IE_HEADER_LEN_MASK
    data len ie_id

/-- Modelled from the spec: `ieee802154_ie_find_payload` of common/ieee802154_ie.c
(not under src/). -/
def ieee802154_ie_find_payload (mem : List Nat) (data : Option Nat) (len : Nat) (ie_id : Nat) :
    Int × iobuf_read :=
  ieee802154_ie_find mem 1 IEEE802154_IE_PAYLOAD_ID_MASK IEEE802154_IE_PAYLOAD_LEN_MASK
    data len ie_id

/-- Pointer difference `iobuf_ptr(&iobuf_ie) - 2 - iobuf_ptr(iobuf)`; an IE that was
found has its content at least 2 bytes after the start of the list searched, so
the difference is not negative. -/
def ie_window_size (iobuf_ie iobuf : iobuf_read) : Nat :=
  (iobuf_ptr iobuf_ie).getD 0 - 2 - (iobuf_ptr iobuf).getD 0

/-- Result of `ieee802154_frame_parse_ie`: return value, cursor and the two windows. -/
structure parse_ie_result where
  ret : Int
  iobuf : iobuf_read
  ie_header : iobuf_read
  ie_payload : iobuf_read
deriving DecidableEq, Repr

/-- Function `ieee802154_frame_parse_ie` over the frame `mem`. -/
def ieee802154_frame_parse_ie (mem : List Nat) (iobuf : iobuf_read) : parse_ie_result :=
  let f1 := ieee802154_ie_find_header mem (iobuf_ptr iobuf) (iobuf_remaining_size iobuf)
    IEEE802154_IE_ID_HT1
  let ret := f1.1
  if ret < 0 ∧ ret ≠ -ENOENT then
    { ret := ret, iobuf := iobuf, ie_header := iobuf_read_zero, ie_payload := iobuf_read_zero }
  else
    let f2 := ieee802154_ie_find_header mem (iobuf_ptr iobuf) (iobuf_remaining_size iobuf)
      IEEE802154_IE_ID_HT2
    let iobuf_ie := if ret = 0 then f1.2 else f2.2
    let hsize := if ret = 0 ∨ f2.1 = 0 then ie_window_size iobuf_ie iobuf
      else iobuf_remaining_size iobuf
    let h := iobuf_pop_data_ptr iobuf hsize
    let ie_header : iobuf_read := { data_size := hsize, data := h.1, cnt := 0, err := false }
    let iobuf1 := if ret = 0 ∨ f2.1 = 0 then (iobuf_pop_le16 mem h.2).2 else h.2
    if ret = -ENOENT then
      { ret := 0, iobuf := iobuf1, ie_header := ie_header, ie_payload := iobuf_read_zero }
    else
      let f3 := ieee802154_ie_find_payload mem (iobuf_ptr iobuf1) (iobuf_remaining_size iobuf1)
        IEEE802154_IE_ID_PT
      let ret3 := f3.1
      if ret3 < 0 ∧ ret3 ≠ -ENOENT then
        { ret := ret3, iobuf := iobuf1, ie_header := ie_header, ie_payload := iobuf_read_zero }
      else
        let psize := if ret3 = 0 then ie_window_size f3.2 iobuf1
          else iobuf_remaining_size iobuf1
        let q := iobuf_pop_data_ptr iobuf1 psize
        let ie_payload : iobuf_read := { data_size := psize, data := q.1, cnt := 0, err := false }
        let iobuf2 := if ret3 = 0 then (iobuf_pop_le16 mem q.2).2 else q.2
        { ret := 0, iobuf := iobuf2, ie_header := ie_header, ie_payload := ie_payload }

/-- What `ieee802154_frame_parse` returns and leaves in its three output arguments. -/
structure frame_parse_result where
  ret : Int
  hdr : ieee802154_hdr
  ie_header : iobuf_read
  ie_payload : iobuf_read
deriving DecidableEq, Repr

/-- Lines 209-223 of `ieee802154_frame_parse`: IE list and final error check, from
the cursor `iobuf` and the header `hdr` left by the security header. -/
def frame_parse_ies (frame : List Nat) (fcf : Nat) (iobuf : iobuf_read) (hdr : ieee802154_hdr)
    (ieh0 iep0 : iobuf_read) : frame_parse_result :=
  let ie := if FIELD_GET IEEE802154_MASK_FCF_HAS_IE fcf ≠ 0
    then ieee802154_frame_parse_ie frame iobuf
    else { ret := 0, iobuf := iobuf, ie_header := ieh0, ie_payload := iep0 }
  if ie.ret < 0 then
    { ret := ie.ret, hdr := hdr, ie_header := ie.ie_header, ie_payload := ie.ie_payload }
  else if ie.iobuf.err then
    { ret := -EINVAL, hdr := hdr, ie_header := ie.ie_header, ie_payload := ie.ie_payload }
  else
    { ret := 0, hdr := hdr, ie_header := ie.ie_header, ie_payload := ie.ie_payload }

/-- Lines 202-207 of `ieee802154_frame_parse`, then `frame_parse_ies`: auxiliary
security header, from the cursor `iobuf` left after the source address. -/
def frame_parse_tail (frame : List Nat) (fcf : Nat) (iobuf : iobuf_read) (hdr : ieee802154_hdr)
    (ieh0 iep0 : iobuf_read) : frame_parse_result :=
  let hdr6 := { hdr with key_index := 0 }
  let sec := if FIELD_GET IEEE802154_MASK_FCF_SECURED fcf ≠ 0
    then ieee802154_frame_parse_sec frame iobuf hdr6
    else { ret := 0, iobuf := iobuf, hdr := hdr6 }
  if sec.ret < 0 then
    { ret := sec.ret, hdr := sec.hdr, ie_header := ieh0, ie_payload := iep0 }
  else frame_parse_ies frame fcf sec.iobuf sec.hdr ieh0 iep0

/-- Lines 175-182 of `ieee802154_frame_parse`: the value of `i` after the loop over
`ieee802154_table_pan_id_cmpr`, `ARRAY_SIZE` of the table when no row matches. -/
def frame_parse_addr_index (fcf : Nat) : Nat :=
  let pan_id_cmpr := decide (FIELD_GET IEEE802154_MASK_FCF_PAN_ID_CMPR fcf ≠ 0)
  let dst_addr_mode := FIELD_GET IEEE802154_MASK_FCF_DST_ADDR_MODE fcf
  let src_addr_mode := FIELD_GET IEEE802154_MASK_FCF_SRC_ADDR_MODE fcf
  table_find (fun row => row.dst_addr_mode == dst_addr_mode &&
      row.src_addr_mode == src_addr_mode && row.pan_id_cmpr == pan_id_cmpr)
    ieee802154_table_pan_id_cmpr 0

/-- Lines 183-200 of `ieee802154_frame_parse`, then `frame_parse_tail`: rejection of the
addressing combinations not in the table, the two `BUG_ON` (`none`), destination
address, PAN ID and source address. -/
def frame_parse_addr (frame : List Nat) (fcf : Nat) (iobuf : iobuf_read) (hdr : ieee802154_hdr)
    (ieh0 iep0 : iobuf_read) : Option frame_parse_result :=
  match ieee802154_table_pan_id_cmpr.get? (frame_parse_addr_index fcf) with
  | none => some { ret := -ENOTSUP, hdr := hdr, ie_header := ieh0, ie_payload := iep0 }
  | some row =>
    if row.has_dst_pan_id then none
    else
      let r2 := if row.dst_addr_mode = MAC_ADDR_MODE_64_BIT then iobuf_pop_le64 frame iobuf
        else (0, iobuf)
      let dst := if row.dst_addr_mode = MAC_ADDR_MODE_64_BIT then write_be64 r2.1
        else ieee802154_addr_bc
      let r3 := if row.has_src_pan_id then iobuf_pop_le16 frame r2.2 else (0xffff, r2.2)
      if row.src_addr_mode ≠ MAC_ADDR_MODE_64_BIT then none
      else
        let r4 := iobuf_pop_le64 frame r3.2
        some (frame_parse_tail frame fcf r4.2
          { hdr with dst := dst, pan_id := r3.1, src := write_be64 r4.1 } ieh0 iep0)

/-- Function `ieee802154_frame_parse(frame, frame_len, hdr, ie_header, ie_payload)` with
`frame_len = frame.length`; `hdr0`, `ieh0`, `iep0` are the output arguments as the
caller passes them. `none` is an abort on one of the two `BUG_ON`. Lines 155-173
are here, the rest of the body is `frame_parse_addr`, `frame_parse_tail` and
`frame_parse_ies`. -/
def ieee802154_frame_parse (frame : List Nat) (hdr0 : ieee802154_hdr) (ieh0 iep0 : iobuf_read) :
    Option frame_parse_result :=
  let iobuf : iobuf_read := { data_size := frame.length, data := some 0, cnt := 0, err := false }
  let r0 := iobuf_pop_le16 frame iobuf
  let fcf := r0.1
  let hdr1 := { hdr0 with frame_type := FIELD_GET IEEE802154_MASK_FCF_FRAME_TYPE fcf }
  if hdr1.frame_type ≠ IEEE802154_FRAME_TYPE_DATA ∧ hdr1.frame_type ≠ IEEE802154_FRAME_TYPE_ACK then
    some { ret := -ENOTSUP, hdr := hdr1, ie_header := ieh0, ie_payload := iep0 }
  else if FIELD_GET IEEE802154_MASK_FCF_FRAME_VERSION fcf ≠ MAC_FRAME_VERSION_2015 then
    some { ret := -ENOTSUP, hdr := hdr1, ie_header := ieh0, ie_payload := iep0 }
  else
    let hdr2 := { hdr1 with ack_req := decide (FIELD_GET IEEE802154_MASK_FCF_ACK_REQ fcf ≠ 0),
                            seqno := -1 }
    let del_seqno := FIELD_GET IEEE802154_MASK_FCF_DEL_SEQNO fcf ≠ 0
    let r1 := if del_seqno then (0, r0.2) else iobuf_pop_u8 frame r0.2
    let hdr3 := if del_seqno then hdr2 else { hdr2 with seqno := (r1.1 : Int) }
    frame_parse_addr frame fcf r1.2 hdr3 ieh0 iep0

/-- Function `ieee802154_frame_write_hdr(iobuf, hdr)`: the write buffer after the call,
`none` on `BUG_ON`. `fc i` is the value the `i`-th reserved frame counter byte is
later filled with. -/
def ieee802154_frame_write_hdr (fc : Nat → Nat) (iobuf : List Nat) (hdr : ieee802154_hdr) :
    Option (List Nat) :=
  let dst_addr_mode := if hdr.dst = ieee802154_addr_bc then MAC_ADDR_MODE_NONE
    else MAC_ADDR_MODE_64_BIT
  let i := table_find (fun row => row.dst_addr_mode == dst_addr_mode &&
      row.has_src_pan_id == decide (hdr.pan_id ≠ 0xffff))
    ieee802154_table_pan_id_cmpr 0
  match ieee802154_table_pan_id_cmpr.get? i with
  | none => none
  | some row =>
    let b0 := iobuf_push_le16 iobuf
      (FIELD_PREP IEEE802154_MASK_FCF_FRAME_TYPE hdr.frame_type
        ||| FIELD_PREP IEEE802154_MASK_FCF_SECURED (b2n (decide (hdr.key_index ≠ 0)))
        ||| FIELD_PREP IEEE802154_MASK_FCF_ACK_REQ (b2n hdr.ack_req)
        ||| FIELD_PREP IEEE802154_MASK_FCF_PAN_ID_CMPR (b2n row.pan_id_cmpr)
        ||| FIELD_PREP IEEE802154_MASK_FCF_DEL_SEQNO (b2n (decide (hdr.seqno < 0)))
        ||| FIELD_PREP IEEE802154_MASK_FCF_HAS_IE (b2n true)
        ||| FIELD_PREP IEEE802154_MASK_FCF_DST_ADDR_MODE dst_addr_mode
        ||| FIELD_PREP IEEE802154_MASK_FCF_FRAME_VERSION MAC_FRAME_VERSION_2015
        ||| FIELD_PREP IEEE802154_MASK_FCF_SRC_ADDR_MODE MAC_ADDR_MODE_64_BIT)
    let b1 := if hdr.seqno ≥ 0 then iobuf_push_u8 b0 (hdr.seqno % 256).toNat else b0
    if row.has_dst_pan_id then none
    else
      let b2 := if dst_addr_mode = MAC_ADDR_MODE_64_BIT then iobuf_push_le64 b1 (read_be64 hdr.dst)
        else b1
      let b3 := if hdr.pan_id ≠ 0xffff then iobuf_push_le16 b2 hdr.pan_id else b2
      if row.src_addr_mode ≠ MAC_ADDR_MODE_64_BIT then none
      else
        let b4 := iobuf_push_le64 b3 (read_be64 hdr.src)
        if hdr.key_index ≠ 0 then
          let b5 := iobuf_push_u8 b4
            (FIELD_PREP IEEE802154_MASK_SECHDR_LEVEL SEC_ENC_MIC64
              ||| FIELD_PREP IEEE802154_MASK_SECHDR_KEY_ID_MODE MAC_KEY_ID_MODE_IDX)
          let b6 := iobuf_push_data_reserved b5 4 fc
          some (iobuf_push_u8 b6 hdr.key_index)
        else some b4

/-! ### Layout of a frame, for the statements -/

/-- The cursors `ieee802154_frame_parse` goes through: over the whole frame, from
its first byte. -/
def frame_cursor (n c : Nat) (e : Bool) : iobuf_read :=
  { data_size := n, data := some 0, cnt := c, err := e }


/-- Length of the sequence number field announced by the frame control field. -/
def fcf_seqno_len (fcf : Nat) : Nat :=
  if FIELD_GET IEEE802154_MASK_FCF_DEL_SEQNO fcf ≠ 0 then 0 else 1

/-- Length of the destination address field announced by the frame control field. -/
def fcf_dst_len (fcf : Nat) : Nat :=
  if FIELD_GET IEEE802154_MASK_FCF_DST_ADDR_MODE fcf = MAC_ADDR_MODE_64_BIT then 8 else 0

/-- Length of the PAN ID field announced by the frame control field, among the
addressing combinations the code supports. -/
def fcf_pan_len (fcf : Nat) : Nat :=
  if FIELD_GET IEEE802154_MASK_FCF_PAN_ID_CMPR fcf ≠ 0 then 0 else 2

/-- Offset of the end of the addressing fields: frame control, sequence number,
destination address, PAN ID and source address. -/
def fcf_hdr_len (fcf : Nat) : Nat :=
  2 + fcf_seqno_len fcf + fcf_dst_len fcf + fcf_pan_len fcf + 8

/-- The three addressing combinations of `ieee802154_table_pan_id_cmpr`: source
address 64-bit, and destination address absent, or 64-bit with PAN ID compression. -/
def fcf_addr_ok (fcf : Nat) : Prop :=
  FIELD_GET IEEE802154_MASK_FCF_SRC_ADDR_MODE fcf = MAC_ADDR_MODE_64_BIT ∧
    (FIELD_GET IEEE802154_MASK_FCF_DST_ADDR_MODE fcf = MAC_ADDR_MODE_NONE ∨
      (FIELD_GET IEEE802154_MASK_FCF_DST_ADDR_MODE fcf = MAC_ADDR_MODE_64_BIT ∧
        FIELD_GET IEEE802154_MASK_FCF_PAN_ID_CMPR fcf ≠ 0))

instance (fcf : Nat) : Decidable (fcf_addr_ok fcf) := by unfold fcf_addr_ok; infer_instance

/-- Frame type data or ack, frame version 2015. -/
def fcf_type_ok (fcf : Nat) : Prop :=
  (FIELD_GET IEEE802154_MASK_FCF_FRAME_TYPE fcf = IEEE802154_FRAME_TYPE_DATA ∨
    FIELD_GET IEEE802154_MASK_FCF_FRAME_TYPE fcf = IEEE802154_FRAME_TYPE_ACK) ∧
  FIELD_GET IEEE802154_MASK_FCF_FRAME_VERSION fcf = MAC_FRAME_VERSION_2015

/-- Header as `ieee802154_frame_parse` has filled it when it reaches the security
header of a frame at least `fcf_hdr_len` bytes long. -/
def parsed_addr_hdr (frame : List Nat) (hdr0 : ieee802154_hdr) : ieee802154_hdr :=
  let fcf := read_le16 frame 0
  { frame_type := FIELD_GET IEEE802154_MASK_FCF_FRAME_TYPE fcf
    ack_req := decide (FIELD_GET IEEE802154_MASK_FCF_ACK_REQ fcf ≠ 0)
    seqno := if FIELD_GET IEEE802154_MASK_FCF_DEL_SEQNO fcf ≠ 0 then -1 else (byte_at frame 2 : Int)
    pan_id := if FIELD_GET IEEE802154_MASK_FCF_PAN_ID_CMPR fcf ≠ 0 then 0xffff
      else read_le16 frame (2 + fcf_seqno_len fcf + fcf_dst_len fcf)
    dst := if FIELD_GET IEEE802154_MASK_FCF_DST_ADDR_MODE fcf = MAC_ADDR_MODE_64_BIT
      then write_be64 (read_le64 frame (2 + fcf_seqno_len fcf)) else ieee802154_addr_bc
    src := write_be64 (read_le64 frame (fcf_hdr_len fcf - 8))
    key_index := hdr0.key_index
    frame_counter := hdr0.frame_counter }

/-- The security control fields the code accepts: security level ENC-MIC-64, key
identifier mode INDEX, frame counter not suppressed. -/
def sechdr_ok (scf : Nat) : Prop :=
  FIELD_GET IEEE802154_MASK_SECHDR_LEVEL scf = SEC_ENC_MIC64 ∧
    FIELD_GET IEEE802154_MASK_SECHDR_KEY_ID_MODE scf = MAC_KEY_ID_MODE_IDX ∧
    FIELD_GET IEEE802154_MASK_SECHDR_DEL_FRAMECTR scf = 0

instance (scf : Nat) : Decidable (sechdr_ok scf) := by unfold sechdr_ok; infer_instance

/-- The frame control field as `ieee802154_frame_parse` reads it: 0 when the frame has
fewer than 2 bytes. -/
def frame_fcf (frame : List Nat) : Nat :=
  (iobuf_pop_le16 frame { data_size := frame.length, data := some 0, cnt := 0, err := false }).1

/-- Cursor invariant of `ieee802154_frame_parse`: over `n` bytes from the start of the
frame, never past the end. -/
def cursor_ok (n : Nat) (b : iobuf_read) : Prop :=
  b.data_size = n ∧ b.data = some 0 ∧ b.cnt ≤ n

instance (fcf : Nat) : Decidable (fcf_type_ok fcf) := by unfold fcf_type_ok; infer_instance

/-- The addressing combination of a frame control field: destination address mode,
source address mode, PAN ID compression bit. -/
def fcf_addr_combo (fcf : Nat) : Nat × Nat × Nat :=
  (FIELD_GET IEEE802154_MASK_FCF_DST_ADDR_MODE fcf,
   FIELD_GET IEEE802154_MASK_FCF_SRC_ADDR_MODE fcf,
   FIELD_GET IEEE802154_MASK_FCF_PAN_ID_CMPR fcf)

/-- Length of the auxiliary security header announced by the frame control field:
security control, frame counter and key index. -/
def fcf_sec_len (fcf : Nat) : Nat :=
  if FIELD_GET IEEE802154_MASK_FCF_SECURED fcf ≠ 0 then 6 else 0

/-- The IE window `w` leaves out the last 8 bytes (MIC-64) of a frame of `len` bytes. -/
def window_excludes_mic (len : Nat) (w : iobuf_read) : Prop :=
  ∀ p, w.data = some p → p + w.data_size + 8 ≤ len

/-- An all-zero header, for the output argument of the examples. -/
def hdr_zero : ieee802154_hdr :=
  { frame_type := 0, ack_req := false, seqno := 0, pan_id := 0, dst := [], src := [],
    key_index := 0, frame_counter := 0 }

/-- Example: a secured data frame, sequence number 5, PAN ID 0x1234, no destination
address, source 01:02:03:04:05:06:07:08, frame counter 0x04030201, key index 2, no
IE, followed by its 8 MIC bytes. -/
def frame_example_secured : List Nat :=
  [0x09, 0xe2, 5, 0x34, 0x12, 8, 7, 6, 5, 4, 3, 2, 1, 0x0e, 1, 2, 3, 4, 2,
   0xa0, 0xa1, 0xa2, 0xa3, 0xa4, 0xa5, 0xa6, 0xa7]

/-- Example: the frame `frame_example_secured` cut after the fourth MIC byte. -/
def frame_example_short_mic : List Nat :=
  [0x09, 0xe2, 5, 0x34, 0x12, 8, 7, 6, 5, 4, 3, 2, 1, 0x0e, 1, 2, 3, 4, 2,
   0xa0, 0xa1, 0xa2, 0xa3]

/-- Example: the frame `frame_example_secured` cut inside its source address. -/
def frame_example_truncated : List Nat :=
  [0x09, 0xe2, 5, 0x34, 0x12, 8, 7, 6]

/-- The frame control field `ieee802154_frame_write_hdr` writes for `hdr` when its
addressing combination is in the table: the PAN ID compression bit of the row found
is set exactly when `hdr.pan_id` is 0xffff. -/
def hdr_fcf (hdr : ieee802154_hdr) : Nat :=
  FIELD_PREP IEEE802154_MASK_FCF_FRAME_TYPE hdr.frame_type
    ||| FIELD_PREP IEEE802154_MASK_FCF_SECURED (b2n (decide (hdr.key_index ≠ 0)))
    ||| FIELD_PREP IEEE802154_MASK_FCF_ACK_REQ (b2n hdr.ack_req)
    ||| FIELD_PREP IEEE802154_MASK_FCF_PAN_ID_CMPR (b2n (decide (hdr.pan_id = 0xffff)))
    ||| FIELD_PREP IEEE802154_MASK_FCF_DEL_SEQNO (b2n (decide (hdr.seqno < 0)))
    ||| FIELD_PREP IEEE802154_MASK_FCF_HAS_IE (b2n true)
    ||| FIELD_PREP IEEE802154_MASK_FCF_DST_ADDR_MODE
      (if hdr.dst = ieee802154_addr_bc then MAC_ADDR_MODE_NONE else MAC_ADDR_MODE_64_BIT)
    ||| FIELD_PREP IEEE802154_MASK_FCF_FRAME_VERSION MAC_FRAME_VERSION_2015
    ||| FIELD_PREP IEEE802154_MASK_FCF_SRC_ADDR_MODE MAC_ADDR_MODE_64_BIT

/-- Sequence number field written for `hdr`. -/
def hdr_seqno_bytes (hdr : ieee802154_hdr) : List Nat :=
  if hdr.seqno ≥ 0 then [(hdr.seqno % 256).toNat % 256] else []

/-- Destination address field written for `hdr`. -/
def hdr_dst_bytes (hdr : ieee802154_hdr) : List Nat :=
  if hdr.dst = ieee802154_addr_bc then [] else write_le64 (read_be64 hdr.dst)

/-- PAN ID field written for `hdr`. -/
def hdr_pan_bytes (hdr : ieee802154_hdr) : List Nat :=
  if hdr.pan_id ≠ 0xffff then write_le16 hdr.pan_id else []

/-- Auxiliary security header written for `hdr`, its 4 reserved bytes filled by `fc`. -/
def hdr_sec_bytes (fc : Nat → Nat) (hdr : ieee802154_hdr) : List Nat :=
  if hdr.key_index ≠ 0 then
    [0x0e, fc 0 % 256, fc 1 % 256, fc 2 % 256, fc 3 % 256, hdr.key_index % 256]
  else []

/-- The fill of the reserved frame counter bytes with the 32-bit value `c`, least
significant byte first. -/
def fc_le32 (c : Nat) (i : Nat) : Nat := c / 256 ^ i % 256

/-- Example: an unsecured data frame with the frame-pending bit set, no sequence
number, no destination address, PAN ID compressed, source 01:02:03:04:05:06:07:08,
no IE. -/
def frame_example_pending : List Nat :=
  [0x51, 0xe3, 8, 7, 6, 5, 4, 3, 2, 1]

/-- Example: the header of `frame_example_secured`. -/
def hdr_example : ieee802154_hdr :=
  { frame_type := 1, ack_req := false, seqno := 5, pan_id := 0x1234,
    dst := ieee802154_addr_bc, src := [1, 2, 3, 4, 5, 6, 7, 8], key_index := 2,
    frame_counter := 0 }

/-! ### stack/source/6lowpan/ws/ws_ie_lib.c: schedule IEs -/

def WS_WP_SCHEDULE_IE_CHAN_PLAN_MASK : Nat := 0b00000111
def WS_WP_SCHEDULE_IE_CHAN_FUNC_MASK : Nat := 0b00111000
def WS_WP_SCHEDULE_IE_EXCL_CHAN_CTL_MASK : Nat := 0b11000000

/-- Modelled from the spec: WS_EXC_CHAN_CTRL_NONE of 6lowpan/ws/ws_common_defines.h
(not under src/). -/
def WS_EXC_CHAN_CTRL_NONE : Nat := 0

/-- Modelled from the spec: WS_EXC_CHAN_CTRL_RANGE of 6lowpan/ws/ws_common_defines.h
(not under src/). -/
def WS_EXC_CHAN_CTRL_RANGE : Nat := 1

/-- Modelled from the spec: WS_EXC_CHAN_CTRL_BITMASK of 6lowpan/ws/ws_common_defines.h
(not under src/). -/
def WS_EXC_CHAN_CTRL_BITMASK : Nat := 2

/-- Modelled from the spec: WP_PAYLOAD_IE_US_TYPE of 6lowpan/ws/ws_common_defines.h
(not under src/): long nested IE sub-ID of the unicast schedule. -/
def WP_PAYLOAD_IE_US_TYPE : Nat := 1

/-- Modelled from the spec: WP_PAYLOAD_IE_BS_TYPE of 6lowpan/ws/ws_common_defines.h
(not under src/): long nested IE sub-ID of the broadcast schedule. -/
def WP_PAYLOAD_IE_BS_TYPE : Nat := 2

/-- Modelled from the spec: WP_PAYLOAD_IE_LFN_CHANNEL_PLAN_TYPE of
6lowpan/ws/ws_common_defines.h (not under src/): long nested IE sub-ID of the LFN
channel plan. -/
def WP_PAYLOAD_IE_LFN_CHANNEL_PLAN_TYPE : Nat := 4

/-- Modelled from the spec: `mac_nested_payload_IE_t` of 6lowpan/mac/mac_ie_lib.h (not
under src/). `content_ptr` is an offset in the buffer that holds the IEs. -/
structure mac_nested_payload_IE_t where
  content_ptr : Nat
  length : Nat
  id : Nat
  type_long : Bool
deriving DecidableEq, Repr

/-- Modelled from the spec: `mac_ie_nested_id_parse` of 6lowpan/mac/mac_ie_lib.c (not
under src/): the 16-bit little-endian descriptor of a nested IE is, for the long
form, bit 15 set, sub-ID in bits 11..14, length in bits 0..10, and for the short
form, bit 15 clear, sub-ID in bits 8..14, length in bits 0..7. -/
def mac_ie_nested_id_parse (mem : List Nat) (ptr : Nat) : mac_nested_payload_IE_t :=
  let ie_dummy := read_le16 mem ptr
  if ie_dummy &&& 0x8000 ≠ 0 then
    { id := (ie_dummy &&& 0x7800) >>> 11, type_long := true, length := ie_dummy &&& 0x07ff,
      content_ptr := ptr + 2 }
  else
    { id := (ie_dummy &&& 0x7f00) >>> 8, type_long := false, length := ie_dummy &&& 0x00ff,
      content_ptr := ptr + 2 }

/-- Modelled from the spec: loop of `mac_ie_nested_discover` of
6lowpan/mac/mac_ie_lib.c (not under src/), at most `fuel` iterations: walk the
nested IEs of the `length` bytes at `payload_ptr` and stop at the first one whose
sub-ID and form are those asked for in `nested_ie`. -/
def mac_ie_nested_discover_loop :
    Nat → List Nat → Nat → Nat → mac_nested_payload_IE_t → Nat × mac_nested_payload_IE_t
  | 0, _, _, _, nested_ie => (0, nested_ie)
  | fuel + 1, mem, payload_ptr, length, nested_ie =>
    if 2 ≤ length then
      let ie_element := mac_ie_nested_id_parse mem payload_ptr
      if length < ie_element.length + 2 then (0, nested_ie)
      else if nested_ie.id = ie_element.id ∧ nested_ie.type_long = ie_element.type_long then
        (ie_element.length,
          { content_ptr := ie_element.content_ptr, length := ie_element.length,
            id := nested_ie.id, type_long := nested_ie.type_long })
      else
        mac_ie_nested_discover_loop fuel mem (payload_ptr + (ie_element.length + 2))
          (length - (ie_element.length + 2)) nested_ie
    else (0, nested_ie)

/-- Modelled from the spec: `mac_ie_nested_discover` of 6lowpan/mac/mac_ie_lib.c (not
under src/): returns the content length of the IE found (0 when there is none) and
the descriptor `nested_ie` as the call leaves it. Every iteration consumes at least
2 bytes, so `length` iterations are enough. -/
def mac_ie_nested_discover (mem : List Nat) (payload_ptr length : Nat)
    (nested_ie : mac_nested_payload_IE_t) : Nat × mac_nested_payload_IE_t :=
  mac_ie_nested_discover_loop length mem payload_ptr length nested_ie

/-- Modelled from the spec: loop of `mac_ie_nested_tagged_discover` of
6lowpan/mac/mac_ie_lib.c (not under src/), at most `fuel` iterations: as
`mac_ie_nested_discover`, for the first IE of more than 1 byte with the sub-ID asked
for whose first content byte is `sub_tag_id`. -/
def mac_ie_nested_tagged_discover_loop :
    Nat → List Nat → Nat → Nat → mac_nested_payload_IE_t → Nat →
      Nat × mac_nested_payload_IE_t
  | 0, _, _, _, nested_ie, _ => (0, nested_ie)
  | fuel + 1, mem, payload_ptr, length, nested_ie, sub_tag_id =>
    if 3 ≤ length then
      let ie_element := mac_ie_nested_id_parse mem payload_ptr
      if length < ie_element.length + 2 then (0, nested_ie)
      else if 1 < ie_element.length ∧ nested_ie.id = ie_element.id ∧
          byte_at mem ie_element.content_ptr = sub_tag_id then
        (ie_element.length,
          { content_ptr := ie_element.content_ptr, length := ie_element.length,
            id := nested_ie.id, type_long := nested_ie.type_long })
      else
        mac_ie_nested_tagged_discover_loop fuel mem (payload_ptr + (ie_element.length + 2))
          (length - (ie_element.length + 2)) nested_ie sub_tag_id
    else (0, nested_ie)

/-- Modelled from the spec: `mac_ie_nested_tagged_discover` of
6lowpan/mac/mac_ie_lib.c (not under src/). -/
def mac_ie_nested_tagged_discover (mem : List Nat) (payload_ptr length : Nat)
    (nested_ie : mac_nested_payload_IE_t) (sub_tag_id : Nat) :
    Nat × mac_nested_payload_IE_t :=
  mac_ie_nested_tagged_discover_loop length mem payload_ptr length nested_ie sub_tag_id

/-- Modelled from the spec: `mac_ie_nested_ie_long_base_write` of
6lowpan/mac/mac_ie_lib.c (not under src/): the 2 bytes of the descriptor of a long
nested IE. -/
def mac_ie_nested_ie_long_base_write (sub_id length : Nat) : List Nat :=
  write_le16 ((0x8000 ||| (length &&& 0x07ff) ||| ((sub_id <<< 11) &&& 0x7800)) % 65536)

/-- Modelled from the spec: `ws_excluded_channel_range_data_t` of
6lowpan/ws/ws_common_defines.h (not under src/). -/
structure ws_excluded_channel_range_data_t where
  range_start : Nat
  range_end : Nat
deriving DecidableEq, Repr

/-- Modelled from the spec: `ws_excluded_channel_data_t` of
6lowpan/ws/ws_common_defines.h (not under src/). The arrays `excluded_range` and
`channel_mask` are lists; a read past their end reads 0. -/
structure ws_excluded_channel_data_t where
  excluded_channel_ctrl : Nat
  excluded_range_length : Nat
  excluded_range : List ws_excluded_channel_range_data_t
  excluded_channel_count : Nat
  channel_mask_bytes_inline : Nat
  channel_mask : List Nat
deriving DecidableEq, Repr

/-- Modelled from the spec: `struct ws_hopping_schedule` of
6lowpan/ws/ws_common_defines.h (not under src/), with the fields ws_ie_lib.c
reads. -/
structure ws_hopping_schedule where
  fhss_uc_dwell_interval : Nat
  fhss_bc_dwell_interval : Nat
  regulatory_domain : Nat
  operating_class : Nat
  channel_plan_id : Nat
  channel_plan : Nat
  uc_channel_function : Nat
  bc_channel_function : Nat
  channel_spacing : Nat
  number_of_channels : Nat
  clock_drift : Nat
  timing_accuracy : Nat
  uc_fixed_channel : Nat
  bc_fixed_channel : Nat
  fhss_bsi : Nat
  fhss_broadcast_interval : Nat
  ch0_freq : Nat
  uc_excluded_channels : ws_excluded_channel_data_t
  bc_excluded_channels : ws_excluded_channel_data_t
deriving DecidableEq, Repr

/-- Modelled from the spec: `ws_channel_plan_zero_t` of 6lowpan/ws/ws_ie_lib.h (not
under src/). -/
structure ws_channel_plan_zero_t where
  regulatory_domain : Nat
  operating_class : Nat
deriving DecidableEq, Repr

/-- Modelled from the spec: `ws_channel_plan_one_t` of 6lowpan/ws/ws_ie_lib.h (not
under src/). -/
structure ws_channel_plan_one_t where
  ch0 : Nat
  channel_spacing : Nat
  number_of_channel : Nat
deriving DecidableEq, Repr

/-- Modelled from the spec: `ws_channel_plan_two_t` of 6lowpan/ws/ws_ie_lib.h (not
under src/). -/
structure ws_channel_plan_two_t where
  regulatory_domain : Nat
  channel_plan_id : Nat
deriving DecidableEq, Repr

/-- Modelled from the spec: the union `plan` of `ws_generic_channel_info_t`
(6lowpan/ws/ws_ie_lib.h, not under src/), as a record of its members: the code reads
only the member it wrote last. -/
structure ws_channel_plan where
  zero : ws_channel_plan_zero_t
  one : ws_channel_plan_one_t
  two : ws_channel_plan_two_t
deriving DecidableEq, Repr

/-- Modelled from the spec: `ws_channel_function_zero_t` of 6lowpan/ws/ws_ie_lib.h
(not under src/). -/
structure ws_channel_function_zero_t where
  fixed_channel : Nat
deriving DecidableEq, Repr

/-- Modelled from the spec: `ws_channel_function_three_t` of 6lowpan/ws/ws_ie_lib.h
(not under src/). The pointer `channel_list` is `none` for NULL and else the bytes it
points to. -/
structure ws_channel_function_three_t where
  channel_hop_count : Nat
  channel_list : Option (List Nat)
deriving DecidableEq, Repr

/-- Modelled from the spec: the union `function` of `ws_generic_channel_info_t`
(6lowpan/ws/ws_ie_lib.h, not under src/), as a record of its members. -/
structure ws_channel_function where
  zero : ws_channel_function_zero_t
  three : ws_channel_function_three_t
deriving DecidableEq, Repr

/-- Modelled from the spec: `ws_excluded_channel_range_t` of 6lowpan/ws/ws_ie_lib.h
(not under src/). The pointer `range_start` is the bytes it points to. -/
structure ws_excluded_channel_range_t where
  number_of_range : Nat
  range_start : List Nat
deriving DecidableEq, Repr

/-- Modelled from the spec: `ws_excluded_channel_mask_t` of 6lowpan/ws/ws_ie_lib.h
(not under src/), `mask_len_inline` being a `uint8_t`. The pointer `channel_mask` is
the bytes it points to. -/
structure ws_excluded_channel_mask_t where
  channel_mask : List Nat
  mask_len_inline : Nat
deriving DecidableEq, Repr

/-- Modelled from the spec: `ws_excluded_channel_range_out_t` of
6lowpan/ws/ws_ie_lib.h (not under src/), `excluded_range_length` being a
`uint8_t`. -/
structure ws_excluded_channel_range_out_t where
  excluded_range_length : Nat
  excluded_range : List ws_excluded_channel_range_data_t
deriving DecidableEq, Repr

/-- Modelled from the spec: `ws_excluded_channel_mask_out_t` of 6lowpan/ws/ws_ie_lib.h
(not under src/), `channel_mask_bytes_inline` being a `uint8_t`. -/
structure ws_excluded_channel_mask_out_t where
  excluded_channel_count : Nat
  channel_mask_bytes_inline : Nat
  channel_mask : List Nat
deriving DecidableEq, Repr

/-- Modelled from the spec: the union `excluded_channels` of
`ws_generic_channel_info_t` (6lowpan/ws/ws_ie_lib.h, not under src/), as a record of
its members. -/
structure ws_excluded_channel where
  range : ws_excluded_channel_range_t
  mask : ws_excluded_channel_mask_t
  range_out : ws_excluded_channel_range_out_t
  mask_out : ws_excluded_channel_mask_out_t
deriving DecidableEq, Repr

/-- Modelled from the spec: `ws_generic_channel_info_t` of 6lowpan/ws/ws_ie_lib.h
(not under src/): `channel_plan` and `channel_function` are 3-bit fields and
`excluded_channel_ctrl` a 2-bit field. -/
structure ws_generic_channel_info_t where
  channel_plan : Nat
  channel_function : Nat
  excluded_channel_ctrl : Nat
  plan : ws_channel_plan
  function : ws_channel_function
  excluded_channels : ws_excluded_channel
deriving DecidableEq, Repr

/-- A `ws_generic_channel_info_t` with every field 0: stands for the local variable
that `ws_wp_nested_hopping_schedule_write` declares without initialising it, and for
the `chan_plan` of the structure a reader fills. -/
def ws_generic_channel_info_zero : ws_generic_channel_info_t :=
  { channel_plan := 0, channel_function := 0, excluded_channel_ctrl := 0,
    plan := { zero := { regulatory_domain := 0, operating_class := 0 },
              one := { ch0 := 0, channel_spacing := 0, number_of_channel := 0 },
              two := { regulatory_domain := 0, channel_plan_id := 0 } },
    function := { zero := { fixed_channel := 0 },
                  three := { channel_hop_count := 0, channel_list := none } },
    excluded_channels := { range := { number_of_range := 0, range_start := [] },
                           mask := { channel_mask := [], mask_len_inline := 0 },
                           range_out := { excluded_range_length := 0, excluded_range := [] },
                           mask_out := { excluded_channel_count := 0,
                                         channel_mask_bytes_inline := 0,
                                         channel_mask := [] } } }

/-- Modelled from the spec: `struct ws_us_ie` of 6lowpan/ws/ws_ie_lib.h (not under
src/). -/
structure ws_us_ie where
  dwell_interval : Nat
  clock_drift : Nat
  timing_accuracy : Nat
  chan_plan : ws_generic_channel_info_t
deriving DecidableEq, Repr

/-- Modelled from the spec: `struct ws_bs_ie` of 6lowpan/ws/ws_ie_lib.h (not under
src/). -/
structure ws_bs_ie where
  broadcast_interval : Nat
  broadcast_schedule_identifier : Nat
  dwell_interval : Nat
  clock_drift : Nat
  timing_accuracy : Nat
  chan_plan : ws_generic_channel_info_t
deriving DecidableEq, Repr

/-- Modelled from the spec: `struct ws_lcp_ie` of 6lowpan/ws/ws_ie_lib.h (not under
src/). -/
structure ws_lcp_ie where
  lfn_channel_plan_tag : Nat
  chan_plan : ws_generic_channel_info_t
deriving DecidableEq, Repr

/-- Embedding of `ws_channel_plan_length`. -/
def ws_channel_plan_length (channel_plan : Nat) : Nat :=
  match channel_plan with
  | 0 => 2
  | 1 => 6
  | 2 => 2
  | _ => 0

/-- Embedding of `ws_channel_function_length`. -/
def ws_channel_function_length (channel_function hop_channel_count : Nat) : Nat :=
  match channel_function with
  | 0 => 2
  | 1 => 0
  | 2 => 0
  | 3 => (1 + hop_channel_count) % 65536
  | _ => 0

/-- Embedding of `ws_excluded_channel_length`. -/
def ws_excluded_channel_length (generic_channel_info : ws_generic_channel_info_t) : Nat :=
  if generic_channel_info.excluded_channel_ctrl = WS_EXC_CHAN_CTRL_RANGE then
    (generic_channel_info.excluded_channels.range_out.excluded_range_length * 4 + 1) % 65536
  else if generic_channel_info.excluded_channel_ctrl = WS_EXC_CHAN_CTRL_BITMASK then
    generic_channel_info.excluded_channels.mask_out.channel_mask_bytes_inline
  else 0

/-- Embedding of `ws_generic_channel_info_init`. -/
def ws_generic_channel_info_init (hopping_schedule : ws_hopping_schedule)
    (generic_channel_info : ws_generic_channel_info_t) (unicast_schedule : Bool) :
    ws_generic_channel_info_t :=
  let g := { generic_channel_info with channel_plan := hopping_schedule.channel_plan % 8 }
  if unicast_schedule then
    let g := { g with
      channel_function := hopping_schedule.uc_channel_function % 8,
      excluded_channel_ctrl := hopping_schedule.uc_excluded_channels.excluded_channel_ctrl % 4 }
    if g.excluded_channel_ctrl = WS_EXC_CHAN_CTRL_RANGE then
      { g with excluded_channels := { g.excluded_channels with
          range_out := {
            excluded_range_length :=
              hopping_schedule.uc_excluded_channels.excluded_range_length % 256,
            excluded_range := hopping_schedule.uc_excluded_channels.excluded_range } } }
    else if g.excluded_channel_ctrl = WS_EXC_CHAN_CTRL_BITMASK then
      { g with excluded_channels := { g.excluded_channels with
          mask_out := {
            channel_mask_bytes_inline :=
              hopping_schedule.uc_excluded_channels.channel_mask_bytes_inline % 256,
            excluded_channel_count :=
              hopping_schedule.uc_excluded_channels.excluded_channel_count % 65536,
            channel_mask := hopping_schedule.uc_excluded_channels.channel_mask } } }
    else g
  else
    let g := { g with
      channel_function := hopping_schedule.bc_channel_function % 8,
      excluded_channel_ctrl := hopping_schedule.bc_excluded_channels.excluded_channel_ctrl % 4 }
    if g.excluded_channel_ctrl = WS_EXC_CHAN_CTRL_RANGE then
      { g with excluded_channels := { g.excluded_channels with
          range_out := {
            excluded_range_length :=
              hopping_schedule.bc_excluded_channels.excluded_range_length % 256,
            excluded_range := hopping_schedule.bc_excluded_channels.excluded_range } } }
    else if g.excluded_channel_ctrl = WS_EXC_CHAN_CTRL_BITMASK then
      { g with excluded_channels := { g.excluded_channels with
          mask_out := {
            channel_mask_bytes_inline :=
              hopping_schedule.bc_excluded_channels.channel_mask_bytes_inline % 256,
            excluded_channel_count :=
              hopping_schedule.bc_excluded_channels.excluded_channel_count % 65536,
            channel_mask := hopping_schedule.bc_excluded_channels.channel_mask } } }
    else g

/-- Embedding of `ws_wp_channel_plan_set`. -/
def ws_wp_channel_plan_set (generic_channel_info : ws_generic_channel_info_t)
    (hopping_schedule : ws_hopping_schedule) : ws_generic_channel_info_t :=
  match generic_channel_info.channel_plan with
  | 0 =>
    { generic_channel_info with plan := { generic_channel_info.plan with
        zero := { regulatory_domain := hopping_schedule.regulatory_domain % 256,
                  operating_class := hopping_schedule.operating_class % 256 } } }
  | 1 =>
    { generic_channel_info with plan := { generic_channel_info.plan with
        one := { ch0 := hopping_schedule.ch0_freq / 1000,
                 channel_spacing := hopping_schedule.channel_spacing % 256,
                 number_of_channel := hopping_schedule.number_of_channels % 65536 } } }
  | 2 =>
    { generic_channel_info with plan := { generic_channel_info.plan with
        two := { regulatory_domain := hopping_schedule.regulatory_domain % 256,
                 channel_plan_id := hopping_schedule.channel_plan_id % 256 } } }
  | _ => generic_channel_info

/-- Embedding of `ws_wp_channel_function_set`. -/
def ws_wp_channel_function_set (generic_channel_info : ws_generic_channel_info_t)
    (hopping_schedule : ws_hopping_schedule) (unicast_schedule : Bool) :
    ws_generic_channel_info_t :=
  match generic_channel_info.channel_function with
  | 0 =>
    if unicast_schedule then
      { generic_channel_info with function := { generic_channel_info.function with
          zero := { fixed_channel := hopping_schedule.uc_fixed_channel % 65536 } } }
    else
      { generic_channel_info with function := { generic_channel_info.function with
          zero := { fixed_channel := hopping_schedule.bc_fixed_channel % 65536 } } }
  | 1 => generic_channel_info
  | 2 => generic_channel_info
  | 3 =>
    { generic_channel_info with function := { generic_channel_info.function with
        three := { channel_hop_count := 1, channel_list := none } } }
  | _ => generic_channel_info

/-- Embedding of `ws_wp_generic_schedule_length_get`. -/
def ws_wp_generic_schedule_length_get (generic_channel_info : ws_generic_channel_info_t) :
    Nat :=
  let length := 1
  let length := (length + ws_channel_plan_length generic_channel_info.channel_plan) % 65536
  let number_of_channels :=
    if generic_channel_info.channel_plan = 3 then
      generic_channel_info.function.three.channel_hop_count
    else 1
  let length := (length + ws_channel_function_length generic_channel_info.channel_function
    number_of_channels) % 65536
  let length := (length + ws_excluded_channel_length generic_channel_info) % 65536
  length

/-- Embedding of `ws_wp_nested_hopping_schedule_length`. -/
def ws_wp_nested_hopping_schedule_length (hopping_schedule : ws_hopping_schedule)
    (unicast_schedule : Bool) : Nat :=
  let generic_channel_info :=
    ws_generic_channel_info_init hopping_schedule ws_generic_channel_info_zero unicast_schedule
  let generic_channel_info :=
    ws_wp_channel_function_set generic_channel_info hopping_schedule unicast_schedule
  let length := if unicast_schedule then 3 else 9
  (length + ws_wp_generic_schedule_length_get generic_channel_info) % 65536

/-- Embedding of `ws_wp_channel_info_base_get`: the `uint8_t` it returns. -/
def ws_wp_channel_info_base_get (generic_channel_info : ws_generic_channel_info_t) : Nat :=
  let channel_info_base := generic_channel_info.channel_plan % 256
  let channel_info_base :=
    (channel_info_base ||| (generic_channel_info.channel_function <<< 3)) % 256
  let channel_info_base :=
    (channel_info_base ||| (generic_channel_info.excluded_channel_ctrl <<< 6)) % 256
  channel_info_base

/-- Embedding of `ws_wp_channel_plan_write`: the bytes it stores at `ptr`. -/
def ws_wp_channel_plan_write (generic_channel_info : ws_generic_channel_info_t) : List Nat :=
  match generic_channel_info.channel_plan with
  | 0 =>
    [generic_channel_info.plan.zero.regulatory_domain % 256,
     generic_channel_info.plan.zero.operating_class % 256]
  | 1 =>
    write_le24 generic_channel_info.plan.one.ch0
      ++ [generic_channel_info.plan.one.channel_spacing % 256]
      ++ write_le16 generic_channel_info.plan.one.number_of_channel
  | 2 =>
    [generic_channel_info.plan.two.regulatory_domain % 256,
     generic_channel_info.plan.two.channel_plan_id % 256]
  | _ => []

/-- The `n` bytes `memcpy` copies from the array `src` (0 past its end). -/
def memcpy_bytes (src : List Nat) (n : Nat) : List Nat :=
  (List.range n).map (fun i => byte_at src i)

/-- Embedding of `ws_wp_channel_function_write`: the bytes it stores at `ptr`. -/
def ws_wp_channel_function_write (generic_channel_info : ws_generic_channel_info_t) :
    List Nat :=
  match generic_channel_info.channel_function with
  | 0 => write_le16 generic_channel_info.function.zero.fixed_channel
  | 1 => []
  | 2 => []
  | 3 =>
    match generic_channel_info.function.three.channel_list with
    | some channel_list =>
      if generic_channel_info.function.three.channel_hop_count ≠ 0 then
        [generic_channel_info.function.three.channel_hop_count % 256]
          ++ memcpy_bytes channel_list generic_channel_info.function.three.channel_hop_count
      else [1, 0]
    | none => [1, 0]
  | _ => []

/-- Loop of `ws_wp_nested_excluded_channel_write`: the bytes stored for the
`range_length` ranges at `range_ptr` (a range past the end of the array reads 0). -/
def excluded_range_write : Nat → List ws_excluded_channel_range_data_t → List Nat
  | 0, _ => []
  | range_length + 1, range_ptr =>
    write_le16 (range_ptr.headD { range_start := 0, range_end := 0 }).range_start
      ++ write_le16 (range_ptr.headD { range_start := 0, range_end := 0 }).range_end
      ++ excluded_range_write range_length range_ptr.tail

/-- Embedding of `ws_wp_nested_excluded_channel_write`: the bytes it stores at
`ptr`. -/
def ws_wp_nested_excluded_channel_write (generic_channel_info : ws_generic_channel_info_t) :
    List Nat :=
  if generic_channel_info.excluded_channel_ctrl = WS_EXC_CHAN_CTRL_RANGE then
    let range_length :=
      generic_channel_info.excluded_channels.range_out.excluded_range_length % 256
    [range_length]
      ++ excluded_range_write range_length
        generic_channel_info.excluded_channels.range_out.excluded_range
  else if generic_channel_info.excluded_channel_ctrl = WS_EXC_CHAN_CTRL_BITMASK then
    memcpy_bytes generic_channel_info.excluded_channels.mask_out.channel_mask
      generic_channel_info.excluded_channels.mask_out.channel_mask_bytes_inline
  else []

/-- Embedding of `ws_wp_nested_hopping_schedule_write`: the bytes it stores at `ptr`
(the pointer it returns is `ptr` plus their number). -/
def ws_wp_nested_hopping_schedule_write (hopping_schedule : ws_hopping_schedule)
    (unicast_schedule : Bool) : List Nat :=
  let generic_channel_info :=
    ws_generic_channel_info_init hopping_schedule ws_generic_channel_info_zero unicast_schedule
  let generic_channel_info := ws_wp_channel_plan_set generic_channel_info hopping_schedule
  let generic_channel_info :=
    ws_wp_channel_function_set generic_channel_info hopping_schedule unicast_schedule
  let length := if unicast_schedule then 3 else 9
  let length := (length + ws_wp_generic_schedule_length_get generic_channel_info) % 65536
  (if ¬ unicast_schedule then
      mac_ie_nested_ie_long_base_write WP_PAYLOAD_IE_BS_TYPE length
        ++ write_le32 hopping_schedule.fhss_broadcast_interval
        ++ write_le16 hopping_schedule.fhss_bsi
        ++ [hopping_schedule.fhss_bc_dwell_interval % 256]
    else
      mac_ie_nested_ie_long_base_write WP_PAYLOAD_IE_US_TYPE length
        ++ [hopping_schedule.fhss_uc_dwell_interval % 256])
    ++ [hopping_schedule.clock_drift % 256]
    ++ [hopping_schedule.timing_accuracy % 256]
    ++ [ws_wp_channel_info_base_get generic_channel_info]
    ++ ws_wp_channel_plan_write generic_channel_info
    ++ ws_wp_channel_function_write generic_channel_info
    ++ ws_wp_nested_excluded_channel_write generic_channel_info

/-- Embedding of `ws_channel_plan_zero_read`: the new `ptr` and the plan read. -/
def ws_channel_plan_zero_read (mem : List Nat) (ptr : Nat) : Nat × ws_channel_plan_zero_t :=
  (ptr + 2, { regulatory_domain := byte_at mem ptr, operating_class := byte_at mem (ptr + 1) })

/-- Embedding of `ws_channel_plan_one_read`: the new `ptr` and the plan read. -/
def ws_channel_plan_one_read (mem : List Nat) (ptr : Nat) : Nat × ws_channel_plan_one_t :=
  (ptr + 6, { ch0 := read_le24 mem ptr, channel_spacing := byte_at mem (ptr + 3),
              number_of_channel := read_le16 mem (ptr + 4) })

/-- Embedding of `ws_channel_plan_two_read`: the new `ptr` and the plan read. -/
def ws_channel_plan_two_read (mem : List Nat) (ptr : Nat) : Nat × ws_channel_plan_two_t :=
  (ptr + 2, { regulatory_domain := byte_at mem ptr, channel_plan_id := byte_at mem (ptr + 1) })

/-- Embedding of `ws_channel_function_zero_read`: the new `ptr` and the function
read. -/
def ws_channel_function_zero_read (mem : List Nat) (ptr : Nat) :
    Nat × ws_channel_function_zero_t :=
  (ptr + 2, { fixed_channel := read_le16 mem ptr })

/-- Embedding of `ws_channel_function_three_read`: the new `ptr` and the function
read. -/
def ws_channel_function_three_read (mem : List Nat) (ptr : Nat) :
    Nat × ws_channel_function_three_t :=
  (ptr + 1, { channel_hop_count := byte_at mem ptr, channel_list := some (mem.drop (ptr + 1)) })

/-- State of a schedule reader between two of its parts: the pointer `data`, the
bytes left `length` (`nested_payload_ie.length`, a `uint16_t`) and the channel
information read so far. -/
structure schedule_cursor where
  data : Nat
  length : Nat
  chan_plan : ws_generic_channel_info_t
deriving DecidableEq, Repr

/-- The part of `ws_wp_nested_us_read` (lines 969-988), `ws_wp_nested_bs_read` (lines
1081-1099) and `ws_wp_nested_lfn_channel_plan_read` (lines 1339-1357) that reads the
channel plan; `none` is `return false`. -/
def schedule_plan_read (mem : List Nat) (c : schedule_cursor) : Option schedule_cursor :=
  let info_length := ws_channel_plan_length c.chan_plan.channel_plan
  if c.length < info_length then none
  else
    let length := c.length - info_length
    match c.chan_plan.channel_plan with
    | 0 =>
      let r := ws_channel_plan_zero_read mem c.data
      some { data := r.1, length := length,
             chan_plan := { c.chan_plan with plan := { c.chan_plan.plan with zero := r.2 } } }
    | 1 =>
      let r := ws_channel_plan_one_read mem c.data
      some { data := r.1, length := length,
             chan_plan := { c.chan_plan with plan := { c.chan_plan.plan with one := r.2 } } }
    | 2 =>
      let r := ws_channel_plan_two_read mem c.data
      some { data := r.1, length := length,
             chan_plan := { c.chan_plan with plan := { c.chan_plan.plan with two := r.2 } } }
    | _ => none

/-- The part of `ws_wp_nested_us_read` (lines 990-1021), `ws_wp_nested_bs_read` (lines
1101-1130) and `ws_wp_nested_lfn_channel_plan_read` (lines 1359-1383) that reads the
channel function; `none` is `return false`. -/
def schedule_function_read (mem : List Nat) (c : schedule_cursor) : Option schedule_cursor :=
  let info_length := ws_channel_function_length c.chan_plan.channel_function 0
  if c.length < info_length then none
  else
    let length := c.length - info_length
    match c.chan_plan.channel_function with
    | 0 =>
      let r := ws_channel_function_zero_read mem c.data
      some { data := r.1, length := length,
             chan_plan := { c.chan_plan with
               function := { c.chan_plan.function with zero := r.2 } } }
    | 1 => some { data := c.data, length := length, chan_plan := c.chan_plan }
    | 2 => some { data := c.data, length := length, chan_plan := c.chan_plan }
    | 3 =>
      let r := ws_channel_function_three_read mem c.data
      let info_length := r.2.channel_hop_count
      if length < info_length then none
      else
        some { data := r.1 + info_length, length := length - info_length,
               chan_plan := { c.chan_plan with
                 function := { c.chan_plan.function with three := r.2 } } }
    | _ => none

/-- The part of `ws_wp_nested_us_read` (lines 1023-1050) and `ws_wp_nested_bs_read`
(lines 1132-1159) that reads the excluded channels; `none` is `return false`. -/
def schedule_excluded_read (mem : List Nat) (c : schedule_cursor) :
    Option ws_generic_channel_info_t :=
  if c.chan_plan.excluded_channel_ctrl = WS_EXC_CHAN_CTRL_NONE then some c.chan_plan
  else if c.chan_plan.excluded_channel_ctrl = WS_EXC_CHAN_CTRL_RANGE then
    let number_of_range := byte_at mem c.data
    if c.length < number_of_range * 4 + 1 then none
    else
      some { c.chan_plan with excluded_channels := { c.chan_plan.excluded_channels with
        range := { number_of_range := number_of_range, range_start := mem.drop (c.data + 1) } } }
  else if c.chan_plan.excluded_channel_ctrl = WS_EXC_CHAN_CTRL_BITMASK then
    if c.chan_plan.channel_plan = 1 then
      let mask_len_inline := (c.chan_plan.plan.one.number_of_channel + 7) / 8 % 256
      if mask_len_inline ≠ c.length then none
      else
        some { c.chan_plan with excluded_channels := { c.chan_plan.excluded_channels with
          mask := { mask_len_inline := mask_len_inline, channel_mask := mem.drop c.data } } }
    else
      some { c.chan_plan with excluded_channels := { c.chan_plan.excluded_channels with
        mask := { mask_len_inline := c.length % 256, channel_mask := mem.drop c.data } } }
  else none

/-- The part of `ws_wp_nested_lfn_channel_plan_read` (lines 1385-1409) that reads the
excluded channels; `none` is `return false`. -/
def lcp_excluded_read (mem : List Nat) (c : schedule_cursor) :
    Option ws_generic_channel_info_t :=
  if c.chan_plan.excluded_channel_ctrl = WS_EXC_CHAN_CTRL_NONE then some c.chan_plan
  else if c.chan_plan.excluded_channel_ctrl = WS_EXC_CHAN_CTRL_RANGE then
    let number_of_range := byte_at mem c.data
    if c.length < number_of_range * 4 + 1 then none
    else
      some { c.chan_plan with excluded_channels := { c.chan_plan.excluded_channels with
        range := { number_of_range := number_of_range, range_start := mem.drop (c.data + 1) } } }
  else if c.chan_plan.excluded_channel_ctrl = WS_EXC_CHAN_CTRL_BITMASK then
    if c.chan_plan.channel_plan = 1 ∧
        (c.chan_plan.plan.one.number_of_channel + 7) / 8 ≠ c.length then none
    else
      some { c.chan_plan with excluded_channels := { c.chan_plan.excluded_channels with
        mask := { mask_len_inline := c.length % 256, channel_mask := mem.drop c.data } } }
  else none

/-- The channel information a reader takes from the byte `info`: the three
`FIELD_GET` of the readers, stored in the bit fields of `chan_plan`. -/
def schedule_info_read (chan_plan : ws_generic_channel_info_t) (info : Nat) :
    ws_generic_channel_info_t :=
  { chan_plan with
    channel_plan := FIELD_GET WS_WP_SCHEDULE_IE_CHAN_PLAN_MASK info,
    channel_function := FIELD_GET WS_WP_SCHEDULE_IE_CHAN_FUNC_MASK info,
    excluded_channel_ctrl := FIELD_GET WS_WP_SCHEDULE_IE_EXCL_CHAN_CTL_MASK info }

/-- Embedding of `ws_wp_nested_us_read` on the `length` bytes at offset `data` of
`mem`: `none` is `return false`, `some us_ie` is `return true` with the structure
filled. -/
def ws_wp_nested_us_read (mem : List Nat) (data length : Nat) : Option ws_us_ie :=
  let r := mac_ie_nested_discover mem data length
    { id := WP_PAYLOAD_IE_US_TYPE, type_long := true, length := 0, content_ptr := 0 }
  if 4 > r.1 then none
  else
    let nested_payload_ie := r.2
    let data := nested_payload_ie.content_ptr
    let dwell_interval := byte_at mem data
    let clock_drift := byte_at mem (data + 1)
    let timing_accuracy := byte_at mem (data + 2)
    let chan_plan := schedule_info_read ws_generic_channel_info_zero (byte_at mem (data + 3))
    let c : schedule_cursor :=
      { data := data + 4, length := (nested_payload_ie.length + 65536 - 4) % 65536,
        chan_plan := chan_plan }
    (((schedule_plan_read mem c).bind (schedule_function_read mem)).bind
        (schedule_excluded_read mem)).map
      (fun chan_plan =>
        { dwell_interval := dwell_interval, clock_drift := clock_drift,
          timing_accuracy := timing_accuracy, chan_plan := chan_plan })

/-- Embedding of `ws_wp_nested_bs_read` on the `length` bytes at offset `data` of
`mem`: `none` is `return false`, `some bs_ie` is `return true` with the structure
filled. -/
def ws_wp_nested_bs_read (mem : List Nat) (data length : Nat) : Option ws_bs_ie :=
  let r := mac_ie_nested_discover mem data length
    { id := WP_PAYLOAD_IE_BS_TYPE, type_long := true, length := 0, content_ptr := 0 }
  if 10 > r.1 then none
  else
    let nested_payload_ie := r.2
    let data := nested_payload_ie.content_ptr
    let broadcast_interval := read_le32 mem data
    let broadcast_schedule_identifier := read_le16 mem (data + 4)
    let dwell_interval := byte_at mem (data + 6)
    let clock_drift := byte_at mem (data + 7)
    let timing_accuracy := byte_at mem (data + 8)
    let chan_plan := schedule_info_read ws_generic_channel_info_zero (byte_at mem (data + 9))
    let c : schedule_cursor :=
      { data := data + 10, length := (nested_payload_ie.length + 65536 - 10) % 65536,
        chan_plan := chan_plan }
    (((schedule_plan_read mem c).bind (schedule_function_read mem)).bind
        (schedule_excluded_read mem)).map
      (fun chan_plan =>
        { broadcast_interval := broadcast_interval,
          broadcast_schedule_identifier := broadcast_schedule_identifier,
          dwell_interval := dwell_interval, clock_drift := clock_drift,
          timing_accuracy := timing_accuracy, chan_plan := chan_plan })

/-- Embedding of `ws_wp_nested_lfn_channel_plan_read` on the `length` bytes at offset
`data` of `mem`: `none` is `return false`, `some ws_lcp` is `return true` with the
structure filled. -/
def ws_wp_nested_lfn_channel_plan_read (mem : List Nat) (data length : Nat) :
    Option ws_lcp_ie :=
  let r := mac_ie_nested_discover mem data length
    { id := WP_PAYLOAD_IE_LFN_CHANNEL_PLAN_TYPE, type_long := true, length := 0,
      content_ptr := 0 }
  if 2 > r.1 then none
  else
    let plan_tag_id := byte_at mem r.2.content_ptr
    let t := mac_ie_nested_tagged_discover mem data length r.2 plan_tag_id
    if 1 < t.1 then none
    else
      let nested_payload_ie := t.2
      let data := nested_payload_ie.content_ptr
      let lfn_channel_plan_tag := byte_at mem data
      let chan_plan := schedule_info_read ws_generic_channel_info_zero (byte_at mem (data + 1))
      let c : schedule_cursor :=
        { data := data + 2, length := (nested_payload_ie.length + 65536 - 1) % 65536,
          chan_plan := chan_plan }
      (((schedule_plan_read mem c).bind (schedule_function_read mem)).bind
          (lcp_excluded_read mem)).map
        (fun chan_plan =>
          { lfn_channel_plan_tag := lfn_channel_plan_tag, chan_plan := chan_plan })

/-! ### Schedule IEs: well-formed schedules and examples, for the statements -/

/-- The channel information `ws_wp_nested_hopping_schedule_write` builds in its local
variable `generic_channel_info` before it writes. -/
def hopping_schedule_channel_info (hopping_schedule : ws_hopping_schedule)
    (unicast_schedule : Bool) : ws_generic_channel_info_t :=
  ws_wp_channel_function_set
    (ws_wp_channel_plan_set
      (ws_generic_channel_info_init hopping_schedule ws_generic_channel_info_zero
        unicast_schedule)
      hopping_schedule)
    hopping_schedule unicast_schedule


/-- The channel-information byte `info` of a schedule IE declares a reserved value:
a channel plan in 3..7, a channel function in 4..7 or the excluded-channel
control 3. -/
def schedule_info_reserved (info : Nat) : Prop :=
  3 ≤ FIELD_GET WS_WP_SCHEDULE_IE_CHAN_PLAN_MASK info ∨
  4 ≤ FIELD_GET WS_WP_SCHEDULE_IE_CHAN_FUNC_MASK info ∨
  FIELD_GET WS_WP_SCHEDULE_IE_EXCL_CHAN_CTL_MASK info = 3

instance (info : Nat) : Decidable (schedule_info_reserved info) := by
  unfold schedule_info_reserved; infer_instance

/-- The excluded channels `excl` of a hopping schedule are consistent: the control
value is none, range or bitmask; a range count is a `uint8_t` within the array of
ranges; a bitmask length is a `uint8_t` within the mask array and, for channel
plan 1, the number of bytes that `number_of_channels` bits take. -/
def excluded_channels_ok (hs : ws_hopping_schedule) (excl : ws_excluded_channel_data_t) :
    Prop :=
  excl.excluded_channel_ctrl ≤ 2 ∧
  (excl.excluded_channel_ctrl = WS_EXC_CHAN_CTRL_RANGE →
    excl.excluded_range_length < 256 ∧
    excl.excluded_range_length ≤ excl.excluded_range.length) ∧
  (excl.excluded_channel_ctrl = WS_EXC_CHAN_CTRL_BITMASK →
    excl.channel_mask_bytes_inline < 256 ∧
    excl.channel_mask_bytes_inline ≤ excl.channel_mask.length ∧
    (hs.channel_plan = 1 →
      hs.number_of_channels < 65536 ∧
      (hs.number_of_channels + 7) / 8 = excl.channel_mask_bytes_inline))

instance (hs : ws_hopping_schedule) (excl : ws_excluded_channel_data_t) :
    Decidable (excluded_channels_ok hs excl) := by
  unfold excluded_channels_ok; infer_instance

/-- The hopping schedule `hs` holds no reserved value and consistent excluded
channels, for the unicast (`unicast_schedule`) or the broadcast schedule: channel
plan 0..2, channel function 0..3. -/
def hopping_schedule_ok (hs : ws_hopping_schedule) (unicast_schedule : Bool) : Prop :=
  hs.channel_plan ≤ 2 ∧
  (if unicast_schedule then hs.uc_channel_function else hs.bc_channel_function) ≤ 3 ∧
  excluded_channels_ok hs
    (if unicast_schedule then hs.uc_excluded_channels else hs.bc_excluded_channels)

instance (hs : ws_hopping_schedule) (unicast_schedule : Bool) :
    Decidable (hopping_schedule_ok hs unicast_schedule) := by
  unfold hopping_schedule_ok; infer_instance

/-- The excluded channels `excl` hold values of their C types: `uint8_t` control,
range count and mask length, `uint16_t` channel count and range bounds, `uint8_t`
mask bytes. -/
def excluded_channels_typed (excl : ws_excluded_channel_data_t) : Prop :=
  excl.excluded_channel_ctrl < 256 ∧ excl.excluded_range_length < 256 ∧
  (∀ r ∈ excl.excluded_range, r.range_start < 65536 ∧ r.range_end < 65536) ∧
  excl.excluded_channel_count < 65536 ∧ excl.channel_mask_bytes_inline < 256 ∧
  (∀ b ∈ excl.channel_mask, b < 256)

instance (excl : ws_excluded_channel_data_t) : Decidable (excluded_channels_typed excl) := by
  unfold excluded_channels_typed; infer_instance

/-- The hopping schedule `hs` holds values of its C types: `uint8_t` dwell
intervals, regulatory domain, operating class, channel plan ID, channel plan,
channel functions, channel spacing, clock drift and timing accuracy; `uint16_t`
number of channels, fixed channels and BSI; 32-bit broadcast interval and channel 0
frequency. -/
def hopping_schedule_typed (hs : ws_hopping_schedule) : Prop :=
  hs.fhss_uc_dwell_interval < 256 ∧ hs.fhss_bc_dwell_interval < 256 ∧
  hs.regulatory_domain < 256 ∧ hs.operating_class < 256 ∧ hs.channel_plan_id < 256 ∧
  hs.channel_plan < 256 ∧ hs.uc_channel_function < 256 ∧ hs.bc_channel_function < 256 ∧
  hs.channel_spacing < 256 ∧ hs.number_of_channels < 65536 ∧ hs.clock_drift < 256 ∧
  hs.timing_accuracy < 256 ∧ hs.uc_fixed_channel < 65536 ∧ hs.bc_fixed_channel < 65536 ∧
  hs.fhss_bsi < 65536 ∧ hs.fhss_broadcast_interval < 4294967296 ∧
  hs.ch0_freq < 4294967296 ∧
  excluded_channels_typed hs.uc_excluded_channels ∧
  excluded_channels_typed hs.bc_excluded_channels

instance (hs : ws_hopping_schedule) : Decidable (hopping_schedule_typed hs) := by
  unfold hopping_schedule_typed; infer_instance

/-- The channel information `g` a reader returns is the one of the hopping schedule
`hs`, for the unicast (`unicast_schedule`) or the broadcast schedule: same channel
plan, channel function and excluded-channel control; the fields of the channel plan
(with channel 0 in kHz); the fixed channel of channel function 0; for excluded
ranges the same count and the same start and end of every range, read as 16-bit
little-endian pairs at `range_start`; for an excluded bitmask the same length and
the same bytes at `channel_mask`. -/
def chan_plan_read_back (hs : ws_hopping_schedule) (unicast_schedule : Bool)
    (g : ws_generic_channel_info_t) : Prop :=
  g.channel_plan = hs.channel_plan ∧
  g.channel_function =
    (if unicast_schedule then hs.uc_channel_function else hs.bc_channel_function) ∧
  g.excluded_channel_ctrl =
    (if unicast_schedule then hs.uc_excluded_channels
      else hs.bc_excluded_channels).excluded_channel_ctrl ∧
  (hs.channel_plan = 0 →
    g.plan.zero =
      { regulatory_domain := hs.regulatory_domain, operating_class := hs.operating_class }) ∧
  (hs.channel_plan = 1 →
    g.plan.one =
      { ch0 := hs.ch0_freq / 1000, channel_spacing := hs.channel_spacing,
        number_of_channel := hs.number_of_channels }) ∧
  (hs.channel_plan = 2 →
    g.plan.two =
      { regulatory_domain := hs.regulatory_domain, channel_plan_id := hs.channel_plan_id }) ∧
  ((if unicast_schedule then hs.uc_channel_function else hs.bc_channel_function) = 0 →
    g.function.zero.fixed_channel =
      (if unicast_schedule then hs.uc_fixed_channel else hs.bc_fixed_channel)) ∧
  ((if unicast_schedule then hs.uc_excluded_channels
      else hs.bc_excluded_channels).excluded_channel_ctrl = WS_EXC_CHAN_CTRL_RANGE →
    g.excluded_channels.range.number_of_range =
      (if unicast_schedule then hs.uc_excluded_channels
        else hs.bc_excluded_channels).excluded_range_length ∧
    ∀ i, i < (if unicast_schedule then hs.uc_excluded_channels
        else hs.bc_excluded_channels).excluded_range_length →
      read_le16 g.excluded_channels.range.range_start (4 * i) =
        ((if unicast_schedule then hs.uc_excluded_channels
          else hs.bc_excluded_channels).excluded_range.getD i
            { range_start := 0, range_end := 0 }).range_start ∧
      read_le16 g.excluded_channels.range.range_start (4 * i + 2) =
        ((if unicast_schedule then hs.uc_excluded_channels
          else hs.bc_excluded_channels).excluded_range.getD i
            { range_start := 0, range_end := 0 }).range_end) ∧
  ((if unicast_schedule then hs.uc_excluded_channels
      else hs.bc_excluded_channels).excluded_channel_ctrl = WS_EXC_CHAN_CTRL_BITMASK →
    g.excluded_channels.mask.mask_len_inline =
      (if unicast_schedule then hs.uc_excluded_channels
        else hs.bc_excluded_channels).channel_mask_bytes_inline ∧
    g.excluded_channels.mask.channel_mask.take
        (if unicast_schedule then hs.uc_excluded_channels
          else hs.bc_excluded_channels).channel_mask_bytes_inline =
      (if unicast_schedule then hs.uc_excluded_channels
        else hs.bc_excluded_channels).channel_mask.take
          (if unicast_schedule then hs.uc_excluded_channels
            else hs.bc_excluded_channels).channel_mask_bytes_inline)

/-- Example: the first 17 channels with the channels 3 and 12 excluded, as a
bitmask of 3 bytes. -/
def excluded_example_mask : ws_excluded_channel_data_t :=
  { excluded_channel_ctrl := 2, excluded_range_length := 0, excluded_range := [],
    excluded_channel_count := 2, channel_mask_bytes_inline := 3,
    channel_mask := [0x08, 0x10, 0x00] }

/-- Example: a hopping schedule with channel plan 1 (17 channels), unicast channel
function 0 on channel 4 with an excluded bitmask, broadcast channel function 2 with
excluded ranges. -/
def schedule_example_mask : ws_hopping_schedule :=
  { fhss_uc_dwell_interval := 100, fhss_bc_dwell_interval := 200, regulatory_domain := 3,
    operating_class := 2, channel_plan_id := 1, channel_plan := 1,
    uc_channel_function := 0, bc_channel_function := 2, channel_spacing := 1,
    number_of_channels := 17, clock_drift := 255, timing_accuracy := 10,
    uc_fixed_channel := 4, bc_fixed_channel := 0, fhss_bsi := 7,
    fhss_broadcast_interval := 1020, ch0_freq := 863100000,
    uc_excluded_channels := excluded_example_mask,
    bc_excluded_channels :=
      { excluded_channel_ctrl := 1, excluded_range_length := 2,
        excluded_range :=
          [{ range_start := 2, range_end := 3 }, { range_start := 8, range_end := 10 }],
        excluded_channel_count := 5, channel_mask_bytes_inline := 0, channel_mask := [] } }

/-- Example: no excluded channel. -/
def excluded_example_none : ws_excluded_channel_data_t :=
  { excluded_channel_ctrl := 0, excluded_range_length := 0, excluded_range := [],
    excluded_channel_count := 0, channel_mask_bytes_inline := 0, channel_mask := [] }

/-- Example: the channels 2..3 and 8..10 excluded, as ranges. -/
def excluded_example_range : ws_excluded_channel_data_t :=
  { excluded_channel_ctrl := 1, excluded_range_length := 2,
    excluded_range := [{ range_start := 2, range_end := 3 }, { range_start := 8, range_end := 10 }],
    excluded_channel_count := 5, channel_mask_bytes_inline := 0, channel_mask := [] }

/-- Example: a hopping schedule with channel plan 1 (application-defined, 129
channels), unicast channel function 2 with excluded ranges, broadcast channel
function 0 without excluded channels. -/
def schedule_example : ws_hopping_schedule :=
  { fhss_uc_dwell_interval := 255, fhss_bc_dwell_interval := 255, regulatory_domain := 1,
    operating_class := 1, channel_plan_id := 255, channel_plan := 1,
    uc_channel_function := 2, bc_channel_function := 0, channel_spacing := 0,
    number_of_channels := 129, clock_drift := 255, timing_accuracy := 10,
    uc_fixed_channel := 0, bc_fixed_channel := 5, fhss_bsi := 0x1234,
    fhss_broadcast_interval := 1020, ch0_freq := 902200000,
    uc_excluded_channels := excluded_example_range,
    bc_excluded_channels := excluded_example_none }

/-- Example: the hopping schedule `schedule_example` with the reserved channel
plan 7. -/
def schedule_example_reserved : ws_hopping_schedule :=
  { fhss_uc_dwell_interval := 255, fhss_bc_dwell_interval := 255, regulatory_domain := 1,
    operating_class := 1, channel_plan_id := 255, channel_plan := 7,
    uc_channel_function := 2, bc_channel_function := 0, channel_spacing := 0,
    number_of_channels := 129, clock_drift := 255, timing_accuracy := 10,
    uc_fixed_channel := 0, bc_fixed_channel := 5, fhss_bsi := 0x1234,
    fhss_broadcast_interval := 1020, ch0_freq := 902200000,
    uc_excluded_channels := excluded_example_range,
    bc_excluded_channels := excluded_example_none }

/-- Example: a US-IE (long nested IE 1, 6 bytes) whose channel-information byte 0x07
declares the reserved channel plan 7. -/
def ie_example_us_plan7 : List Nat := [0x06, 0x88, 255, 0, 10, 0x07, 1, 1]

/-- Example: a BS-IE (long nested IE 2, 12 bytes) whose channel-information byte 0x20
declares the reserved channel function 4 with channel plan 0. -/
def ie_example_bs_function4 : List Nat :=
  [0x0c, 0x90, 0xfc, 0x03, 0, 0, 0x34, 0x12, 255, 0, 10, 0x20, 1, 1]

/-- Example: an LCP-IE (long nested IE 4, 4 bytes) with channel plan tag 0 whose
channel-information byte 0xc2 declares the excluded-channel control 3 with channel
plan 2 and channel function 0. -/
def ie_example_lcp_excl3 : List Nat := [0x06, 0xa0, 0, 0xc2, 1, 1, 5, 0]

/-! ### app_wsrd/app/ws.c: frame handlers of the router -/

/-- Modelled from the spec: `struct ws_bt_ie` of common/ws_ie.h (not under src/). -/
structure ws_bt_ie where
  broadcast_slot_number : Nat
  broadcast_interval_offset : Nat
deriving DecidableEq, Repr

/-- Modelled from the spec: `struct mpx_ie` of common/mpx.h (not under src/);
`frame_ptr` is an offset in the received frame. -/
structure mpx_ie where
  transfer_type : Nat
  multiplex_id : Nat
  frame_ptr : Nat
  frame_length : Nat
deriving DecidableEq, Repr

/-- Modelled from the spec: MPX_ID_6LOWPAN of common/mpx.h (not under src/). -/
def MPX_ID_6LOWPAN : Nat := 0xA0ED

/-- Modelled from the spec: MPX_FT_FULL_FRAME of common/mpx.h (not under src/). -/
def MPX_FT_FULL_FRAME : Nat := 0

/-- Modelled from the spec: WS_GTK_COUNT of common/ws_types.h (not under src/). -/
def WS_GTK_COUNT : Nat := 4

/-- Modelled from the spec: WS_CAND_PARENT_THRESHOLD_DB of common/ws/ws_types.h (not
under src/). -/
def WS_CAND_PARENT_THRESHOLD_DB : Int := 10

/-- Modelled from the spec: WS_CAND_PARENT_HYSTERESIS_DB of common/ws/ws_types.h (not
under src/). -/
def WS_CAND_PARENT_HYSTERESIS_DB : Int := 3

/-- A finite value of the C type `float`: the fraction `num / den`, with `den > 0`
(every finite `float` is such a fraction). -/
structure c_float where
  num : Int
  den : Nat
deriving DecidableEq, Repr

/-- The comparison `x < k` of a `float` with an `int`. -/
def c_float_lt_int (x : c_float) (k : Int) : Bool := decide (x.num < k * x.den)

/-- The conversion `(uint16_t)x` of a `float`: the value truncated toward zero when
it is in the range of `uint16_t`; `none` when it is not, where the behaviour is
undefined. -/
def c_float_to_uint16 (x : c_float) : Option Nat :=
  if 0 ≤ Int.tdiv x.num x.den ∧ Int.tdiv x.num x.den ≤ 65535 then
    some (Int.tdiv x.num x.den).toNat
  else none

/-- Modelled from the spec: `struct ws_pan_ie` of common/ws/ws_ie.h (not under src/).
-/
structure ws_pan_ie where
  pan_size : Nat
  routing_cost : Nat
  use_parent_bs_ie : Bool
  routing_method : Bool
  lfn_window_style : Bool
  fan_tps_version : Nat
deriving DecidableEq, Repr

/-- Modelled from the spec: `struct ws_jm_ie` of common/ws/ws_ie.h (not under src/):
the content version and the array of metrics, as its bytes. -/
structure ws_jm_ie where
  version : Nat
  metrics : List Nat
deriving DecidableEq, Repr

/-- Modelled from the spec: the FHSS schedule kept for a neighbour
(`struct ws_neigh_fhss` of common/ws_neigh.h, not under src/), with the broadcast
fields `ws_sync_fhss_bc` reads and the unicast schedule as the channel information
and dwell interval last stored. -/
structure ws_neigh_fhss where
  uc_chan_plan : ws_generic_channel_info_t
  uc_dwell_interval_ms : Nat
  bc_interval_ms : Nat
  bsi : Nat
  bc_dwell_interval_ms : Nat
  bc_channel_list : List Nat
  bt_rx_tstamp_us : Nat
  bc_slot_number : Nat
  bc_interval_offset_ms : Nat
deriving DecidableEq, Repr

/-- Modelled from the spec: `struct ws_neigh` of common/ws_neigh.h (not under src/),
with the fields ws.c uses in the handlers embedded here. -/
structure ws_neigh where
  eui64 : List Nat
  fhss_data : ws_neigh_fhss
  fhss_data_unsecured : ws_neigh_fhss
  frame_counter_min : List Nat
  pan_id : Nat
  last_pa_rx_time_s : Nat
  rsl_in_dbm_unsecured : c_float
  plf : Nat
  ie_pan : ws_pan_ie
  etx : c_float
deriving DecidableEq, Repr

/-- Modelled from the spec: `struct ws_fhss_config` of common/ws_chan_mask.h (not
under src/), with the fields `ws_sync_fhss_bc` writes. -/
structure ws_fhss_config where
  bc_interval : Nat
  bc_dwell_interval : Nat
  bsi : Nat
  bc_chan_mask : List Nat
deriving DecidableEq, Repr

/-- A call that the handlers make into a part of the program that is not under src/.
The calls leave the fields of `struct wsrd` modelled here unchanged, except the two
join state transitions, whose effect on the state is a field of `ws_deps`. -/
inductive ws_call where
  | trickle_consistent_pc
  | trickle_inconsistent_pc
  | supp_start_key_request
  | ws_ie_list_update
  | dbus_emit_change_PanVersion
  | rcp_set_fhss_ffn_bc (neigh : ws_neigh) (parent : Option ws_neigh)
  | join_state_transition_pc_rx
  | join_state_transition_pa_from_new_pan
  | trickle_consistent_pa
  | rcp_set_filter_pan_id (pan_id : Nat)
  | dbus_emit_change_PanId
deriving DecidableEq, Repr

/-- A call of `lowpan_recv`: the payload (offset and length in the received frame,
and the frame) with the source and destination addresses. -/
structure lowpan_recv_call where
  frame : List Nat
  frame_ptr : Nat
  frame_length : Nat
  src : List Nat
  dst : List Nat
deriving DecidableEq, Repr

/-- Modelled from the spec: `struct ws_ctx` of app_wsrd/ws (not under src/), with the
fields the handlers embedded here read and write; the neighbour table is a list, in
the order of `neigh_list`, and a neighbour is designated by its index;
`rail_sensitivity_dbm` is `sensitivity_dbm` of the RAIL configuration in use
(`rcp.rail_config_list[phy.rcp_rail_config_index]`). -/
structure ws_ctx where
  pan_id : Nat
  pan_version : Int
  gtkhash : List (List Nat)
  gak_index : Nat
  fhss : ws_fhss_config
  neigh_table : List ws_neigh
  jm : ws_jm_ie
  netname : List Nat
  rail_sensitivity_dbm : Int
deriving DecidableEq, Repr

/-- The fields of `struct wsrd` (app_wsrd/app/wsrd.h) the handlers embedded here read
and write, with the calls made so far into the other parts of the program: `calls`,
and for `lowpan_recv` on `wsrd->ipv6`, `lowpan_rx`; `pan_selection_timer_stopped` is
what `timer_stopped(&wsrd->pan_selection_timer)` returns and `rpl_pref_parent` the
EUI-64 of the neighbour `rpl_neigh_pref_parent(&wsrd->ipv6)` returns, `none` for
NULL. -/
structure wsrd where
  ws : ws_ctx
  eapol_target_eui64 : List Nat
  fhss_bc_synced_to_target : Bool
  calls : List ws_call
  lowpan_rx : List lowpan_recv_call
  pan_selection_timer_stopped : Bool
  rpl_pref_parent : Option (List Nat)
deriving DecidableEq, Repr

/-- Modelled from the spec: `struct ws_ind` of common/ws_interface.h (not under
src/): a received frame `frame` at time `timestamp_us` (`ind->hif`), its parsed
header, its IE windows and the index of the neighbour it comes from. -/
structure ws_ind where
  frame : List Nat
  timestamp_us : Nat
  hdr : ieee802154_hdr
  ie_hdr : iobuf_read
  ie_wp : iobuf_read
  ie_mpx : iobuf_read
  neigh : Nat
deriving DecidableEq, Repr

/-- Modelled from the spec: the functions ws.c calls in the handlers embedded here
whose code is not under src/, as parameters: readers and validators of IEs (`none`
is `return false`), updates of a neighbour schedule, the comparisons of sequence
numbers, the GTK hash check of the supplicant, the PLF metric of a JM-IE
(`ws_wp_nested_jm_get_metric(ie_jm, WS_JM_PLF)`, `none` for NULL), the clock, the PAN
cost of a neighbour and the join state machine. The theorems about the handlers
hold for every value of them, under the hypotheses they state. -/
structure ws_deps where
  ws_wh_bt_read : List Nat → iobuf_read → Option ws_bt_ie
  ws_ie_validate_us : ws_fhss_config → List Nat → iobuf_read → Option ws_us_ie
  ws_ie_validate_bs : ws_fhss_config → List Nat → iobuf_read → Option ws_bs_ie
  ws_wp_nested_panver_read : List Nat → iobuf_read → Option Nat
  ws_wp_nested_gtkhash_read : List Nat → iobuf_read → Option (List (List Nat))
  mpx_ie_parse : List Nat → iobuf_read → Option mpx_ie
  ws_neigh_us_update : ws_fhss_config → ws_neigh_fhss → ws_generic_channel_info_t → Nat →
    ws_neigh_fhss
  ws_neigh_bs_update : ws_fhss_config → ws_neigh_fhss → ws_bs_ie → ws_neigh_fhss
  ws_neigh_bt_update : ws_neigh_fhss → Nat → Nat → Nat → ws_neigh_fhss
  seqno_cmp16 : Nat → Int → Int
  supp_gtkhash_mismatch : List Nat → Nat → Bool
  join_state_transition_pc_rx : wsrd → wsrd
  ws_ie_validate_netname : List Nat → List Nat → iobuf_read → Bool
  ws_ie_validate_pan : List Nat → iobuf_read → Option ws_pan_ie
  ws_wp_nested_jm_read : List Nat → iobuf_read → Bool × ws_jm_ie
  ws_wp_nested_jm_get_metric_plf : ws_jm_ie → Option Nat
  seqno_cmp8 : Nat → Nat → Int
  time_now_s : Nat
  ws_neigh_get_pan_cost : ws_neigh → Nat
  join_state_transition_pa_from_new_pan : wsrd → wsrd

/-- A `struct ws_neigh_fhss` with every field 0. -/
def ws_neigh_fhss_zero : ws_neigh_fhss :=
  { uc_chan_plan := ws_generic_channel_info_zero, uc_dwell_interval_ms := 0,
    bc_interval_ms := 0, bsi := 0, bc_dwell_interval_ms := 0, bc_channel_list := [],
    bt_rx_tstamp_us := 0, bc_slot_number := 0, bc_interval_offset_ms := 0 }

/-- A `struct ws_neigh` with every field 0. -/
def ws_neigh_zero : ws_neigh :=
  { eui64 := [], fhss_data := ws_neigh_fhss_zero, fhss_data_unsecured := ws_neigh_fhss_zero,
    frame_counter_min := [], pan_id := 0, last_pa_rx_time_s := 0,
    rsl_in_dbm_unsecured := { num := 0, den := 1 }, plf := 0,
    ie_pan := { pan_size := 0, routing_cost := 0, use_parent_bs_ie := false,
                routing_method := false, lfn_window_style := false, fan_tps_version := 0 },
    etx := { num := 0, den := 1 } }

/-- The neighbour `ind->neigh` designates. -/
def ind_neigh (wsrd : wsrd) (ind : ws_ind) : ws_neigh :=
  wsrd.ws.neigh_table.getD ind.neigh ws_neigh_zero

/-- Store of `neigh` in the entry of the neighbour table `ind->neigh` designates. -/
def set_ind_neigh (wsrd : wsrd) (ind : ws_ind) (neigh : ws_neigh) : Wisun.wsrd :=
  { wsrd with ws := { wsrd.ws with neigh_table := wsrd.ws.neigh_table.set ind.neigh neigh } }

/-- Modelled from the spec: `ws_neigh_get` of common/ws_neigh.c (not under src/): the
neighbour of the table with the EUI-64 given, `none` for NULL. -/
def ws_neigh_get (neigh_table : List ws_neigh) (eui64 : List Nat) : Option ws_neigh :=
  neigh_table.find? (fun n => decide (n.eui64 = eui64))

/-- Embedding of `ws_sync_fhss_bc`. -/
def ws_sync_fhss_bc (wsrd : wsrd) (ws_neigh : ws_neigh) : Wisun.wsrd :=
  let parent := ws_neigh_get wsrd.ws.neigh_table wsrd.eapol_target_eui64
  { wsrd with
    calls := wsrd.calls ++ [ws_call.rcp_set_fhss_ffn_bc ws_neigh parent],
    fhss_bc_synced_to_target := parent.isSome,
    ws := { wsrd.ws with
      fhss := { wsrd.ws.fhss with
        bc_interval := ws_neigh.fhss_data_unsecured.bc_interval_ms,
        bc_dwell_interval := ws_neigh.fhss_data_unsecured.bc_dwell_interval_ms,
        bsi := ws_neigh.fhss_data_unsecured.bsi,
        bc_chan_mask := ws_neigh.fhss_data_unsecured.bc_channel_list } } }

/-- Embedding of `ws_update_gak_index`. -/
def ws_update_gak_index (ws : ws_ctx) (key_index : Nat) : ws_ctx :=
  if key_index > 4 then ws
  else { ws with gak_index := key_index }

/-- Loop of `ws_pan_version_update` over the GTK slots `i`, ..., `WS_GTK_COUNT - 1`:
the key requests started. -/
def pan_version_update_key_requests (deps : ws_deps) (gtkhash : List (List Nat)) :
    Nat → Nat → List ws_call
  | 0, _ => []
  | n + 1, i =>
    (if deps.supp_gtkhash_mismatch (gtkhash.getD i []) (i + 1) then
        [ws_call.supp_start_key_request] else [])
      ++ pan_version_update_key_requests deps gtkhash n (i + 1)

/-- Embedding of `ws_pan_version_update`; the indication and the BS-IE are used only
to rebuild the list of stored IEs, recorded as a call. -/
def ws_pan_version_update (deps : ws_deps) (wsrd : wsrd) (new_pan_version : Nat)
    (gtkhash : List (List Nat)) (_ind : ws_ind) (_ie_bs : ws_bs_ie) : Wisun.wsrd :=
  let wsrd := { wsrd with ws := { wsrd.ws with pan_version := (new_pan_version : Int) } }
  let wsrd := { wsrd with ws := { wsrd.ws with gtkhash := gtkhash } }
  let wsrd := { wsrd with
    calls := wsrd.calls ++ pan_version_update_key_requests deps gtkhash WS_GTK_COUNT 0 }
  let wsrd := { wsrd with calls := wsrd.calls ++ [ws_call.ws_ie_list_update] }
  let wsrd := { wsrd with calls := wsrd.calls ++ [ws_call.join_state_transition_pc_rx] }
  let wsrd := deps.join_state_transition_pc_rx wsrd
  { wsrd with calls := wsrd.calls ++ [ws_call.dbus_emit_change_PanVersion] }

/-- Embedding of `ws_recv_pc`. -/
def ws_recv_pc (deps : ws_deps) (wsrd : wsrd) (ind : ws_ind) : Wisun.wsrd :=
  if wsrd.ws.pan_id = 0xffff then wsrd
  else if ind.hdr.pan_id ≠ wsrd.ws.pan_id then wsrd
  else if ind.hdr.key_index = 0 then wsrd
  else
    match deps.ws_wh_bt_read ind.frame ind.ie_hdr with
    | none => wsrd
    | some ie_bt =>
    match deps.ws_ie_validate_us wsrd.ws.fhss ind.frame ind.ie_wp with
    | none => wsrd
    | some ie_us =>
    match deps.ws_ie_validate_bs wsrd.ws.fhss ind.frame ind.ie_wp with
    | none => wsrd
    | some ie_bs =>
    match deps.ws_wp_nested_panver_read ind.frame ind.ie_wp with
    | none => wsrd
    | some pan_version =>
    match deps.ws_wp_nested_gtkhash_read ind.frame ind.ie_wp with
    | none => wsrd
    | some gtkhash =>
      let wsrd := { wsrd with ws := ws_update_gak_index wsrd.ws ind.hdr.key_index }
      let wsrd :=
        if (pan_version : Int) ≠ wsrd.ws.pan_version then
          { wsrd with calls := wsrd.calls ++ [ws_call.trickle_inconsistent_pc] }
        else
          { wsrd with calls := wsrd.calls ++ [ws_call.trickle_consistent_pc] }
      let pan_version_update : Bool :=
        decide (wsrd.ws.pan_version = -1) ||
          decide (deps.seqno_cmp16 pan_version wsrd.ws.pan_version > 0)
      let wsrd :=
        if pan_version_update then
          ws_pan_version_update deps wsrd pan_version gtkhash ind ie_bs
        else wsrd
      let neigh := ind_neigh wsrd ind
      let fhss_data :=
        deps.ws_neigh_us_update wsrd.ws.fhss neigh.fhss_data ie_us.chan_plan
          ie_us.dwell_interval
      let neigh := { neigh with fhss_data := fhss_data }
      let fhss_data_unsecured :=
        deps.ws_neigh_us_update wsrd.ws.fhss neigh.fhss_data_unsecured ie_us.chan_plan
          ie_us.dwell_interval
      let neigh := { neigh with fhss_data_unsecured := fhss_data_unsecured }
      let fhss_data :=
        deps.ws_neigh_bs_update wsrd.ws.fhss neigh.fhss_data ie_bs
      let neigh := { neigh with fhss_data := fhss_data }
      let fhss_data_unsecured :=
        deps.ws_neigh_bs_update wsrd.ws.fhss neigh.fhss_data_unsecured ie_bs
      let neigh := { neigh with fhss_data_unsecured := fhss_data_unsecured }
      let fhss_data :=
        deps.ws_neigh_bt_update neigh.fhss_data ie_bt.broadcast_slot_number
          ie_bt.broadcast_interval_offset ind.timestamp_us
      let neigh := { neigh with fhss_data := fhss_data }
      let fhss_data_unsecured :=
        deps.ws_neigh_bt_update neigh.fhss_data_unsecured ie_bt.broadcast_slot_number
          ie_bt.broadcast_interval_offset ind.timestamp_us
      let neigh := { neigh with fhss_data_unsecured := fhss_data_unsecured }
      let wsrd := set_ind_neigh wsrd ind neigh
      if pan_version_update ||
          (decide (wsrd.eapol_target_eui64 = neigh.eui64) &&
            !wsrd.fhss_bc_synced_to_target &&
            decide (deps.seqno_cmp16 pan_version wsrd.ws.pan_version ≥ 0)) then
        ws_sync_fhss_bc wsrd neigh
      else wsrd

/-- Embedding of `ws_recv_data`. -/
def ws_recv_data (deps : ws_deps) (wsrd : wsrd) (ind : ws_ind) : Wisun.wsrd :=
  if wsrd.ws.pan_id = 0xffff then wsrd
  else if ind.hdr.dst = ieee802154_addr_bc ∧ ind.hdr.pan_id ≠ wsrd.ws.pan_id then wsrd
  else if ind.hdr.key_index = 0 then wsrd
  else
    match deps.mpx_ie_parse ind.frame ind.ie_mpx with
    | none => wsrd
    | some ie_mpx =>
      if ie_mpx.multiplex_id ≠ MPX_ID_6LOWPAN ∨ ie_mpx.transfer_type ≠ MPX_FT_FULL_FRAME then
        wsrd
      else
        let wsrd :=
          match deps.ws_ie_validate_us wsrd.ws.fhss ind.frame ind.ie_wp with
          | some ie_us =>
            let neigh := ind_neigh wsrd ind
            let fhss_data :=
              deps.ws_neigh_us_update wsrd.ws.fhss neigh.fhss_data ie_us.chan_plan
                ie_us.dwell_interval
            let neigh := { neigh with fhss_data := fhss_data }
            let fhss_data_unsecured :=
              deps.ws_neigh_us_update wsrd.ws.fhss neigh.fhss_data_unsecured ie_us.chan_plan
                ie_us.dwell_interval
            let neigh := { neigh with fhss_data_unsecured := fhss_data_unsecured }
            set_ind_neigh wsrd ind neigh
          | none => wsrd
        let wsrd :=
          match deps.ws_wh_bt_read ind.frame ind.ie_hdr with
          | some ie_bt =>
            let neigh := ind_neigh wsrd ind
            let fhss_data :=
              deps.ws_neigh_bt_update neigh.fhss_data ie_bt.broadcast_slot_number
                ie_bt.broadcast_interval_offset ind.timestamp_us
            let neigh := { neigh with fhss_data := fhss_data }
            let fhss_data_unsecured :=
              deps.ws_neigh_bt_update neigh.fhss_data_unsecured ie_bt.broadcast_slot_number
                ie_bt.broadcast_interval_offset ind.timestamp_us
            let neigh := { neigh with fhss_data_unsecured := fhss_data_unsecured }
            set_ind_neigh wsrd ind neigh
          | none => wsrd
        let wsrd := { wsrd with ws := ws_update_gak_index wsrd.ws ind.hdr.key_index }
        { wsrd with lowpan_rx := wsrd.lowpan_rx ++
            [{ frame := ind.frame, frame_ptr := ie_mpx.frame_ptr,
               frame_length := ie_mpx.frame_length, src := ind.hdr.src, dst := ind.hdr.dst }] }

/-! ### Frame handlers: examples, for the statements -/

/-- Example: helpers that find a 6LoWPAN payload of 40 bytes at offset 30 in the
MPX-IE, a BT-IE, a US-IE, a BS-IE, a PAN version 8 and four empty GTK hashes in
every frame, that store what they are given in the schedule of the neighbour, and
that compare sequence numbers as signed 16-bit and 8-bit differences; they also find
a PAN-IE and a JM-IE with content version 4 and PLF 20 in every frame, and the PAN
cost of a neighbour is `routing_cost / 256 + pan_size / 64`. -/
def ws_deps_example : ws_deps :=
  { ws_wh_bt_read := fun _ _ => some { broadcast_slot_number := 3, broadcast_interval_offset := 7 },
    ws_ie_validate_us := fun _ _ _ =>
      some { dwell_interval := 255, clock_drift := 0, timing_accuracy := 0,
             chan_plan := ws_generic_channel_info_zero },
    ws_ie_validate_bs := fun _ _ _ =>
      some { broadcast_interval := 1020, broadcast_schedule_identifier := 9,
             dwell_interval := 255, clock_drift := 0, timing_accuracy := 0,
             chan_plan := ws_generic_channel_info_zero },
    ws_wp_nested_panver_read := fun _ _ => some 8,
    ws_wp_nested_gtkhash_read := fun _ _ => some [[], [], [], []],
    mpx_ie_parse := fun _ _ =>
      some { transfer_type := MPX_FT_FULL_FRAME, multiplex_id := MPX_ID_6LOWPAN,
             frame_ptr := 30, frame_length := 40 },
    ws_neigh_us_update := fun _ fhss chan_plan dwell =>
      { fhss with uc_chan_plan := chan_plan, uc_dwell_interval_ms := dwell },
    ws_neigh_bs_update := fun _ fhss ie_bs =>
      { fhss with bc_interval_ms := ie_bs.broadcast_interval,
                  bsi := ie_bs.broadcast_schedule_identifier,
                  bc_dwell_interval_ms := ie_bs.dwell_interval },
    ws_neigh_bt_update := fun fhss slot offset tstamp =>
      { fhss with bc_slot_number := slot, bc_interval_offset_ms := offset,
                  bt_rx_tstamp_us := tstamp },
    seqno_cmp16 := fun a b => ((a : Int) - b + 32768) % 65536 - 32768,
    supp_gtkhash_mismatch := fun _ _ => false,
    join_state_transition_pc_rx := fun wsrd => wsrd,
    ws_ie_validate_netname := fun _ _ _ => true,
    ws_ie_validate_pan := fun _ _ =>
      some { pan_size := 64, routing_cost := 512, use_parent_bs_ie := true,
             routing_method := true, lfn_window_style := false, fan_tps_version := 1 },
    ws_wp_nested_jm_read := fun _ _ => (true, { version := 4, metrics := [1, 20] }),
    ws_wp_nested_jm_get_metric_plf := fun ie_jm => some (ie_jm.metrics.getD 1 0),
    seqno_cmp8 := fun a b => ((a : Int) - b + 128) % 256 - 128,
    time_now_s := 1000,
    ws_neigh_get_pan_cost := fun neigh =>
      neigh.ie_pan.routing_cost / 256 + neigh.ie_pan.pan_size / 64,
    join_state_transition_pa_from_new_pan := fun wsrd => wsrd }

/-- Example: a router in PAN 0x1234 at PAN version 5 with one neighbour. -/
def wsrd_example : wsrd :=
  { ws := { pan_id := 0x1234, pan_version := 5, gtkhash := [[1], [2], [3], [4]],
            gak_index := 1,
            fhss := { bc_interval := 0, bc_dwell_interval := 0, bsi := 0, bc_chan_mask := [] },
            neigh_table := [{ eui64 := [1, 2, 3, 4, 5, 6, 7, 8], fhss_data := ws_neigh_fhss_zero,
                              fhss_data_unsecured := ws_neigh_fhss_zero,
                              frame_counter_min := [], pan_id := 0x1234,
                              last_pa_rx_time_s := 0,
                              rsl_in_dbm_unsecured := { num := -60, den := 1 }, plf := 0xff,
                              ie_pan := { pan_size := 64, routing_cost := 512,
                                          use_parent_bs_ie := true, routing_method := true,
                                          lfn_window_style := false, fan_tps_version := 1 },
                              etx := { num := 3, den := 2 } }],
            jm := { version := 3, metrics := [1, 10] }, netname := [87, 105],
            rail_sensitivity_dbm := -93 },
    eapol_target_eui64 := [1, 2, 3, 4, 5, 6, 7, 8], fhss_bc_synced_to_target := false,
    calls := [], lowpan_rx := [], pan_selection_timer_stopped := false,
    rpl_pref_parent := some [1, 2, 3, 4, 5, 6, 7, 8] }

/-- Example: an indication for a frame of PAN 0x1234 from neighbour 0, with the key
index given. -/
def ws_ind_example (key_index : Nat) : ws_ind :=
  { frame := [], timestamp_us := 1000,
    hdr := { frame_type := 1, ack_req := false, seqno := 5, pan_id := 0x1234,
             dst := ieee802154_addr_bc, src := [1, 2, 3, 4, 5, 6, 7, 8],
             key_index := key_index, frame_counter := 0 },
    ie_hdr := iobuf_read_zero, ie_wp := iobuf_read_zero, ie_mpx := iobuf_read_zero,
    neigh := 0 }

/-! ### stack/source/6lowpan/ws/ws_ie_lib.c: PAN-IE -/

def WS_WP_PAN_IE_USE_PARENT_BS_IE_MASK : Nat := 0b00000001
def WS_WP_PAN_IE_ROUTING_METHOD_MASK : Nat := 0b00000010
def WS_WP_PAN_IE_LFN_WINDOW_STYLE_MASK : Nat := 0b00000100
def WS_WP_PAN_IE_FAN_TPS_VERSION_MASK : Nat := 0b11100000

/-- Modelled from the spec: WP_PAYLOAD_IE_PAN_TYPE of 6lowpan/ws/ws_common_defines.h
(not under src/): short nested IE sub-ID of the PAN-IE. -/
def WP_PAYLOAD_IE_PAN_TYPE : Nat := 4

/-- Modelled from the spec: WS_FAN_VERSION_1_0 of 6lowpan/ws/ws_common_defines.h (not
under src/). -/
def WS_FAN_VERSION_1_0 : Nat := 1

/-- Modelled from the spec: `struct ws_pan_information` of 6lowpan/ws/ws_common.h (not
under src/), with the fields ws_ie_lib.c, ws_bbr_api.c and wsbrd.c read and write:
16-bit sizes, costs and versions, the PAN ID (an `int`, -1 when it is not set), three
flags and the FAN version. -/
structure ws_pan_information where
  pan_id : Int
  pan_size : Nat
  routing_cost : Nat
  pan_version : Nat
  lfn_version : Nat
  use_parent_bs : Bool
  rpl_routing_method : Bool
  lfn_window_style : Bool
  version : Nat
deriving DecidableEq, Repr

/-- Modelled from the spec: `mac_ie_nested_ie_short_base_write` of
6lowpan/mac/mac_ie_lib.c (not under src/): the 2 bytes of the descriptor of a short
nested IE. -/
def mac_ie_nested_ie_short_base_write (sub_id length : Nat) : List Nat :=
  write_le16 (((length &&& 0x00ff) ||| ((sub_id <<< 8) &&& 0x7f00)) % 65536)

/-- Embedding of `ws_wp_nested_pan_info_write`: the bytes it stores at `ptr`;
`pan_configuration` is `none` for NULL. -/
def ws_wp_nested_pan_info_write (pan_configuration : Option ws_pan_information) : List Nat :=
  match pan_configuration with
  | none => mac_ie_nested_ie_short_base_write WP_PAYLOAD_IE_PAN_TYPE 0
  | some pan_configuration =>
    let lfn_window_style :=
      if pan_configuration.version > WS_FAN_VERSION_1_0 then pan_configuration.lfn_window_style
      else false
    let tmp8 := 0
    let tmp8 := (tmp8 ||| FIELD_PREP WS_WP_PAN_IE_USE_PARENT_BS_IE_MASK
      (b2n pan_configuration.use_parent_bs)) % 256
    let tmp8 := (tmp8 ||| FIELD_PREP WS_WP_PAN_IE_ROUTING_METHOD_MASK
      (b2n pan_configuration.rpl_routing_method)) % 256
    let tmp8 := (tmp8 ||| FIELD_PREP WS_WP_PAN_IE_LFN_WINDOW_STYLE_MASK
      (b2n lfn_window_style)) % 256
    let tmp8 := (tmp8 ||| FIELD_PREP WS_WP_PAN_IE_FAN_TPS_VERSION_MASK
      pan_configuration.version) % 256
    mac_ie_nested_ie_short_base_write WP_PAYLOAD_IE_PAN_TYPE 5
      ++ write_le16 pan_configuration.pan_size
      ++ write_le16 pan_configuration.routing_cost
      ++ [tmp8]

/-- Embedding of `ws_wp_nested_pan_read` on the `length` bytes at offset `data` of
`mem`: `none` is `return false`, `some p` is `return true` with `p` the structure
`pan_configuration` as the call leaves it. -/
def ws_wp_nested_pan_read (mem : List Nat) (data length : Nat)
    (pan_configuration : ws_pan_information) : Option ws_pan_information :=
  let r := mac_ie_nested_discover mem data length
    { id := WP_PAYLOAD_IE_PAN_TYPE, type_long := false, length := 0, content_ptr := 0 }
  if 5 > r.1 then none
  else
    let nested_payload_ie := r.2
    let version := FIELD_GET WS_WP_PAN_IE_FAN_TPS_VERSION_MASK
      (byte_at mem (nested_payload_ie.content_ptr + 4))
    some
      { pan_id := pan_configuration.pan_id,
        pan_size := read_le16 mem nested_payload_ie.content_ptr,
        routing_cost := read_le16 mem (nested_payload_ie.content_ptr + 2),
        pan_version := pan_configuration.pan_version,
        lfn_version := pan_configuration.lfn_version,
        use_parent_bs := decide (FIELD_GET WS_WP_PAN_IE_USE_PARENT_BS_IE_MASK
          (byte_at mem (nested_payload_ie.content_ptr + 4)) ≠ 0),
        rpl_routing_method := decide (FIELD_GET WS_WP_PAN_IE_ROUTING_METHOD_MASK
          (byte_at mem (nested_payload_ie.content_ptr + 4)) ≠ 0),
        lfn_window_style :=
          if version > WS_FAN_VERSION_1_0 then
            decide (FIELD_GET WS_WP_PAN_IE_LFN_WINDOW_STYLE_MASK
              (byte_at mem (nested_payload_ie.content_ptr + 4)) ≠ 0)
          else false,
        version := version }

/-- Example: a PAN of 300 nodes at routing cost 700, FAN 1.0, with the LFN window
style flag set in the structure. -/
def pan_information_example : ws_pan_information :=
  { pan_id := 0x1234, pan_size := 300, routing_cost := 700, pan_version := 5,
    lfn_version := 6, use_parent_bs := true, rpl_routing_method := true, lfn_window_style := true,
    version := 1 }

/-- A `struct ws_pan_information` with every field 0. -/
def ws_pan_information_zero : ws_pan_information :=
  { pan_id := 0, pan_size := 0, routing_cost := 0, pan_version := 0, lfn_version := 0,
    use_parent_bs := false, rpl_routing_method := false, lfn_window_style := false,
    version := 0 }

/-! ### app_wsrd/app/ws.c: routing cost, EAPOL target selection, PAN advertisements -/

/-- Embedding of `ws_get_own_routing_cost`: `none` is an abort of `BUG_ON` (the
preferred parent is not in the neighbour table) or the undefined conversion of an
ETX outside the range of `uint16_t`. -/
def ws_get_own_routing_cost (wsrd : wsrd) : Option Nat :=
  match wsrd.rpl_pref_parent with
  | none => some 0xffff
  | some eui64 =>
    match ws_neigh_get wsrd.ws.neigh_table eui64 with
    | none => none
    | some ws_parent =>
      match c_float_to_uint16 ws_parent.etx with
      | none => none
      | some etx =>
        if ws_parent.ie_pan.routing_cost + etx > 0xffff then some 0xffff
        else some (ws_parent.ie_pan.routing_cost + etx)

/-- The test of the two loops of `ws_on_pan_selection_timer_timeout` that skips a
candidate: no PA received, or a signal level below the threshold. -/
def pan_selection_skip (wsrd : wsrd) (candidate : ws_neigh) : Bool :=
  decide (candidate.last_pa_rx_time_s = 0) ||
    c_float_lt_int candidate.rsl_in_dbm_unsecured
      (wsrd.ws.rail_sensitivity_dbm + WS_CAND_PARENT_THRESHOLD_DB + WS_CAND_PARENT_HYSTERESIS_DB)

/-- First loop of `ws_on_pan_selection_timer_timeout` (lines 115-133) over the
candidates left in the list, from the candidate selected so far. -/
def pan_selection_first_loop (deps : ws_deps) (wsrd : wsrd) :
    List ws_neigh → Option ws_neigh → Option ws_neigh
  | [], selected_candidate => selected_candidate
  | candidate :: rest, selected_candidate =>
    if pan_selection_skip wsrd candidate then
      pan_selection_first_loop deps wsrd rest selected_candidate
    else
      let selected_candidate :=
        match selected_candidate with
        | none => candidate
        | some s => s
      let selected_candidate :=
        if candidate.plf ≠ 0xff ∧ candidate.plf < selected_candidate.plf then candidate
        else if deps.ws_neigh_get_pan_cost candidate <
            deps.ws_neigh_get_pan_cost selected_candidate then candidate
        else selected_candidate
      pan_selection_first_loop deps wsrd rest (some selected_candidate)

/-- Second loop of `ws_on_pan_selection_timer_timeout` (lines 139-146) over the
candidates left in the list, from the candidate selected so far. -/
def pan_selection_second_loop (deps : ws_deps) (wsrd : wsrd) (selected_pan_id : Nat) :
    List ws_neigh → ws_neigh → ws_neigh
  | [], selected_candidate => selected_candidate
  | candidate :: rest, selected_candidate =>
    if decide (candidate.last_pa_rx_time_s = 0) || decide (candidate.pan_id ≠ selected_pan_id) ||
        c_float_lt_int candidate.rsl_in_dbm_unsecured
          (wsrd.ws.rail_sensitivity_dbm + WS_CAND_PARENT_THRESHOLD_DB +
            WS_CAND_PARENT_HYSTERESIS_DB) then
      pan_selection_second_loop deps wsrd selected_pan_id rest selected_candidate
    else if deps.ws_neigh_get_pan_cost candidate <
        deps.ws_neigh_get_pan_cost selected_candidate then
      pan_selection_second_loop deps wsrd selected_pan_id rest candidate
    else
      pan_selection_second_loop deps wsrd selected_pan_id rest selected_candidate

/-- Embedding of `ws_on_pan_selection_timer_timeout`. -/
def ws_on_pan_selection_timer_timeout (deps : ws_deps) (wsrd : wsrd) : Wisun.wsrd :=
  match pan_selection_first_loop deps wsrd wsrd.ws.neigh_table none with
  | none => wsrd
  | some selected_candidate =>
    let selected_pan_id := selected_candidate.pan_id
    let selected_candidate :=
      pan_selection_second_loop deps wsrd selected_pan_id wsrd.ws.neigh_table selected_candidate
    let wsrd := { wsrd with eapol_target_eui64 := selected_candidate.eui64 }
    let wsrd := { wsrd with ws := { wsrd.ws with pan_id := selected_pan_id } }
    let wsrd := { wsrd with fhss_bc_synced_to_target := false }
    let wsrd := { wsrd with calls := wsrd.calls ++ [ws_call.rcp_set_filter_pan_id wsrd.ws.pan_id] }
    let wsrd := { wsrd with calls := wsrd.calls ++ [ws_call.dbus_emit_change_PanId] }
    let wsrd := { wsrd with ws := { wsrd.ws with
      neigh_table := wsrd.ws.neigh_table.map
        (fun (candidate : ws_neigh) => { candidate with last_pa_rx_time_s := 0 }) } }
    let wsrd := { wsrd with
      calls := wsrd.calls ++ [ws_call.join_state_transition_pa_from_new_pan] }
    deps.join_state_transition_pa_from_new_pan wsrd

/-- Embedding of `ws_eapol_target_add`; its argument `ie_pan` is not used, and the PAN
cost it computes is only logged. -/
def ws_eapol_target_add (deps : ws_deps) (wsrd : wsrd) (ind : ws_ind) (ie_jm : ws_jm_ie) :
    Wisun.wsrd :=
  let jm := deps.ws_wp_nested_jm_get_metric_plf ie_jm
  let neigh := ind_neigh wsrd ind
  let neigh := { neigh with pan_id := ind.hdr.pan_id }
  let neigh := { neigh with last_pa_rx_time_s := deps.time_now_s }
  let neigh :=
    match jm with
    | some plf => { neigh with plf := plf }
    | none => { neigh with plf := 0xff }
  let wsrd := set_ind_neigh wsrd ind neigh
  if wsrd.pan_selection_timer_stopped then ws_on_pan_selection_timer_timeout deps wsrd
  else wsrd

/-- Embedding of `ws_recv_pa`: `none` is an abort in `ws_get_own_routing_cost`. The
reader of the JM-IE gives its return value and the content of `ie_jm` after the call. -/
def ws_recv_pa (deps : ws_deps) (wsrd : wsrd) (ind : ws_ind) : Option Wisun.wsrd :=
  match ws_get_own_routing_cost wsrd with
  | none => none
  | some own_routing_cost =>
    if ind.hdr.pan_id = 0xffff then some wsrd
    else if wsrd.ws.pan_id ≠ 0xffff ∧ wsrd.ws.pan_id ≠ ind.hdr.pan_id then some wsrd
    else if ¬ deps.ws_ie_validate_netname wsrd.ws.netname ind.frame ind.ie_wp then some wsrd
    else
      match deps.ws_ie_validate_pan ind.frame ind.ie_wp with
      | none => some wsrd
      | some ie_pan =>
      match deps.ws_ie_validate_us wsrd.ws.fhss ind.frame ind.ie_wp with
      | none => some wsrd
      | some ie_us =>
        let has_jm := (deps.ws_wp_nested_jm_read ind.frame ind.ie_wp).1
        let ie_jm := (deps.ws_wp_nested_jm_read ind.frame ind.ie_wp).2
        let neigh := ind_neigh wsrd ind
        let fhss_data_unsecured :=
          deps.ws_neigh_us_update wsrd.ws.fhss neigh.fhss_data_unsecured ie_us.chan_plan
            ie_us.dwell_interval
        let neigh := { neigh with fhss_data_unsecured := fhss_data_unsecured }
        let wsrd := set_ind_neigh wsrd ind neigh
        let wsrd :=
          if ie_pan.routing_cost ≠ 0xffff ∧ ie_pan.routing_cost ≥ own_routing_cost then
            { wsrd with calls := wsrd.calls ++ [ws_call.trickle_consistent_pa] }
          else wsrd
        let neigh := ind_neigh wsrd ind
        let neigh := { neigh with ie_pan := ie_pan }
        let wsrd := set_ind_neigh wsrd ind neigh
        let wsrd :=
          if wsrd.eapol_target_eui64 = ieee802154_addr_bc then
            ws_eapol_target_add deps wsrd ind ie_jm
          else wsrd
        if ¬ has_jm then some wsrd
        else if (∀ b ∈ wsrd.ws.jm.metrics, b % 256 = 0) ∨
            deps.seqno_cmp8 ie_jm.version wsrd.ws.jm.version > 0 then
          some { wsrd with ws := { wsrd.ws with jm := ie_jm } }
        else some wsrd

/-! ### 6lbr/ws/ws_bbr_api.c: the br-info file and the version counters -/

/-- The bytes of a C string literal, without the terminating NUL. -/
def c_str (s : String) : List Nat := s.toList.map Char.toNat

/-- The C library test `isspace` in the C locale: space, and the controls from
horizontal tab (9) to carriage return (13). -/
def c_isspace (c : Nat) : Bool := decide (c = 32) || (decide (9 ≤ c) && decide (c ≤ 13))

/-- The digits of `n` in base `base`, most significant first, without leading zero
(`[0]` for 0); `fuel` bounds the number of digits and `n + 1` is always enough. -/
def utoa (base : Nat) : Nat → Nat → List Nat
  | 0, _ => []
  | fuel + 1, n => if n < base then [n] else utoa base fuel (n / base) ++ [n % base]

/-- The character `printf` prints for a digit: `0`..`9`, then `a`..`f`. -/
def digit_char (d : Nat) : Nat := if d < 10 then 48 + d else 87 + d

/-- The conversion `%d` of `printf` for a non-negative `int`. -/
def printf_d (n : Nat) : List Nat := (utoa 10 (n + 1) n).map digit_char

/-- The conversions `%#04x` and `%#08x` of `printf` (`width` 4 and 8) for an
`unsigned int`: lower-case hexadecimal digits, after the prefix `0x` unless the value
is 0, with zeroes between the prefix and the digits up to `width` characters. -/
def printf_hash_0x (width n : Nat) : List Nat :=
  let digits := (utoa 16 (n + 1) n).map digit_char
  let pfx := if n = 0 then [] else c_str "0x"
  pfx ++ List.replicate (width - (pfx.length + digits.length)) 48 ++ digits

/-- The value of a character as a digit for `strtoul`: `0`..`9`, and the letters of
either case from 10 on. -/
def digit_value (c : Nat) : Option Nat :=
  if 48 ≤ c ∧ c ≤ 57 then some (c - 48)
  else if 97 ≤ c ∧ c ≤ 122 then some (c - 87)
  else if 65 ≤ c ∧ c ≤ 90 then some (c - 55)
  else none

/-- The digits loop of `strtoul`: the value of the longest prefix of digits of the
base, from the value `acc` read so far. -/
def strtoul_digits (base : Nat) : List Nat → Nat → Nat
  | [], acc => acc
  | c :: rest, acc =>
    match digit_value c with
    | some d => if d < base then strtoul_digits base rest (acc * base + d) else acc
    | none => acc

/-- The greatest `unsigned long` (64 bits). -/
def ULONG_MAX : Nat := 2 ^ 64 - 1

/-- The C library function `strtoul(nptr, NULL, 0)` on a 64-bit `unsigned long`: white
space is skipped, a sign is accepted, the base is 16 after `0x` or `0X` followed by a
hexadecimal digit, 8 after another `0`, 10 otherwise; a value out of range gives
`ULONG_MAX` and a minus sign negates the value read. -/
def strtoul (nptr : List Nat) : Nat :=
  let s := nptr.dropWhile c_isspace
  let neg : Bool := decide (s.head? = some 45)
  let s := if s.head? = some 45 ∨ s.head? = some 43 then s.tail else s
  let hex : Bool :=
    decide (s.head? = some 48) &&
      (decide (s.tail.head? = some 120) || decide (s.tail.head? = some 88)) &&
      (match s.tail.tail.head?.bind digit_value with
       | some d => decide (d < 16)
       | none => false)
  let v :=
    if hex then strtoul_digits 16 (s.drop 2) 0
    else if s.head? = some 48 then strtoul_digits 8 s 0
    else strtoul_digits 10 s 0
  if v > ULONG_MAX then ULONG_MAX
  else if neg then (2 ^ 64 - v) % 2 ^ 64
  else v

/-- The C library function `fnmatch(pattern, string, 0)` for a pattern without
special character, as the five patterns of the file: 0 when the string is the
pattern, `FNM_NOMATCH` (1) otherwise. -/
def fnmatch (pattern string : List Nat) : Int := if pattern = string then 0 else 1

/-- The lines `fgets` reads from a file one after the other, without their newline
(lines are taken to fit the buffer of `struct storage_parse_info`). -/
def file_lines : List Nat → List (List Nat)
  | [] => []
  | c :: rest =>
    if c = 10 then [] :: file_lines rest
    else
      match file_lines rest with
      | [] => [[c]]
      | l :: ls => (c :: l) :: ls

/-- Modelled from the spec: `storage_parse_line` of common/key_value_storage.c (not
under src/) on one line of a file of `key = value` lines: `none` for a line that is
skipped (blank once the comment that starts at `#` is removed), else the value
returned (0, or an error for an invalid line) with `info->key` and `info->value`. The
key is the text before the space or `=`, the value the text without space after the
`=`, and nothing may follow the value. -/
def storage_parse_line (line : List Nat) : Option (Int × List Nat × List Nat) :=
  let line := line.takeWhile (fun c => decide (c ≠ 35))
  let s := line.dropWhile c_isspace
  if s = [] then none
  else
    let key := s.takeWhile (fun c => decide (c ≠ 61) && decide (c ≠ 32))
    let s := s.dropWhile (fun c => decide (c ≠ 61) && decide (c ≠ 32))
    let s := s.dropWhile c_isspace
    match s with
    | 61 :: s =>
      let s := s.dropWhile c_isspace
      let value := s.takeWhile (fun c => !c_isspace c)
      let s := s.dropWhile (fun c => !c_isspace c)
      if key = [] ∨ value = [] ∨ s.dropWhile c_isspace ≠ [] then some (-EINVAL, [], [])
      else some (0, key, value)
    | _ => some (-EINVAL, [], [])

/-- The four `uint16_t` that `ws_bbr_nvm_info_read` writes through its pointers. -/
structure br_info where
  bsi : Nat
  pan_id : Nat
  pan_version : Nat
  lfn_version : Nat
deriving DecidableEq, Repr

/-- A call of ws_bbr_api.c into a part of the program that is not under src/. -/
inductive bbr_call where
  | ws_mngt_async_trickle_reset_pc
deriving DecidableEq, Repr

/-- The surroundings of ws_bbr_api.c: whether `storage_open_prefix` succeeds, the
constant `version_daemon_api` of app/version.h (not under src/), the content of the
file `br-info` (`none` when there is none) and the calls made so far. -/
structure bbr_env where
  storage_open_ok : Bool
  version_daemon_api : Nat
  br_info_file : Option (List Nat)
  calls : List bbr_call
deriving DecidableEq, Repr

/-- Body of the loop of `ws_bbr_nvm_info_read` once `storage_parse_line` has returned
`ret` with the key and the value of a line: `PAN_VERSION_STORAGE_READ_INCREMENT`
(ws_bbr_api.h, not under src/) is a parameter. -/
def ws_bbr_nvm_info_read_line (PAN_VERSION_STORAGE_READ_INCREMENT : Nat) (ret : Int)
    (key value : List Nat) (out : br_info) : br_info :=
  if ret ≠ 0 then out
  else if fnmatch (c_str "bsi") key = 0 then
    { out with bsi := strtoul value % 65536 }
  else if fnmatch (c_str "pan_id") key = 0 then
    { out with pan_id := strtoul value % 65536 }
  else if fnmatch (c_str "pan_version") key = 0 then
    { out with
      pan_version := (strtoul value + PAN_VERSION_STORAGE_READ_INCREMENT) % 65536 }
  else if fnmatch (c_str "lfn_version") key = 0 then
    { out with lfn_version := strtoul value % 65536 }
  else if fnmatch (c_str "api_version") key = 0 then out
  else out

/-- Loop of `ws_bbr_nvm_info_read` over the lines left in the file. -/
def ws_bbr_nvm_info_read_loop (PAN_VERSION_STORAGE_READ_INCREMENT : Nat) :
    List (List Nat) → br_info → br_info
  | [], out => out
  | line :: rest, out =>
    match storage_parse_line line with
    | none => ws_bbr_nvm_info_read_loop PAN_VERSION_STORAGE_READ_INCREMENT rest out
    | some (ret, key, value) =>
      ws_bbr_nvm_info_read_loop PAN_VERSION_STORAGE_READ_INCREMENT rest
        (ws_bbr_nvm_info_read_line PAN_VERSION_STORAGE_READ_INCREMENT ret key value out)

/-- Embedding of `ws_bbr_nvm_info_read`: `out` holds the values the four pointers
designate before the call, the result the values after it. -/
def ws_bbr_nvm_info_read (PAN_VERSION_STORAGE_READ_INCREMENT : Nat) (env : bbr_env)
    (out : br_info) : br_info :=
  if ¬ env.storage_open_ok then out
  else
    match env.br_info_file with
    | none => out
    | some file =>
      ws_bbr_nvm_info_read_loop PAN_VERSION_STORAGE_READ_INCREMENT (file_lines file) out

/-- The text the six `fprintf` of `ws_bbr_nvm_info_write` print. -/
def br_info_text (version_daemon_api bsi pan_id pan_version lfn_version : Nat) : List Nat :=
  (c_str "api_version = " ++ printf_hash_0x 8 version_daemon_api ++ [10]) ++
  (c_str "# Broadcast Schedule Identifier" ++ [10]) ++
  (c_str "bsi = " ++ printf_d bsi ++ [10]) ++
  (c_str "pan_id = " ++ printf_hash_0x 4 pan_id ++ [10]) ++
  (c_str "pan_version = " ++ printf_d pan_version ++ [10]) ++
  (c_str "lfn_version = " ++ printf_d lfn_version ++ [10])

/-- Embedding of `ws_bbr_nvm_info_write`, the four arguments being `uint16_t`. -/
def ws_bbr_nvm_info_write (env : bbr_env) (bsi pan_id pan_version lfn_version : Nat) :
    bbr_env :=
  if ¬ env.storage_open_ok then env
  else
    { env with
      br_info_file :=
        some (br_info_text env.version_daemon_api bsi pan_id pan_version lfn_version) }

/-- The field of `struct fhss_ws_configuration` (ws_common.h) that ws_bbr_api.c
uses. -/
structure fhss_ws_configuration where
  bsi : Int
deriving DecidableEq, Repr

/-- The fields of `struct ws_info` (ws_common.h) that ws_bbr_api.c uses. -/
structure ws_info where
  pan_information : ws_pan_information
  fhss_conf : fhss_ws_configuration
deriving DecidableEq, Repr

/-- Modelled from the spec: `struct net_if` of net/protocol.h (not under src/), with
its Wi-SUN information. -/
structure net_if where
  ws_info : ws_info
deriving DecidableEq, Repr

/-- Conversion of an `int` to `uint16_t`. -/
def to_uint16 (x : Int) : Nat := (x % 65536).toNat

/-- Embedding of `ws_bbr_pan_version_increase`: `cur` is `none` for NULL. -/
def ws_bbr_pan_version_increase (env : bbr_env) (cur : Option net_if) :
    bbr_env × Option net_if :=
  match cur with
  | none => (env, none)
  | some cur =>
    let pan_version := (cur.ws_info.pan_information.pan_version + 1) % 65536
    let cur : net_if :=
      { ws_info :=
        { pan_information := { cur.ws_info.pan_information with pan_version := pan_version },
          fhss_conf := cur.ws_info.fhss_conf } }
    let env := { env with calls := env.calls ++ [bbr_call.ws_mngt_async_trickle_reset_pc] }
    let env := ws_bbr_nvm_info_write env (to_uint16 cur.ws_info.fhss_conf.bsi)
      (to_uint16 cur.ws_info.pan_information.pan_id)
      cur.ws_info.pan_information.pan_version cur.ws_info.pan_information.lfn_version
    (env, some cur)

/-- Embedding of `ws_bbr_lfn_version_increase`: `cur` is `none` for NULL. -/
def ws_bbr_lfn_version_increase (env : bbr_env) (cur : Option net_if) :
    bbr_env × Option net_if :=
  match cur with
  | none => (env, none)
  | some cur =>
    let lfn_version := (cur.ws_info.pan_information.lfn_version + 1) % 65536
    let cur : net_if :=
      { ws_info :=
        { pan_information := { cur.ws_info.pan_information with lfn_version := lfn_version },
          fhss_conf := cur.ws_info.fhss_conf } }
    let env := { env with calls := env.calls ++ [bbr_call.ws_mngt_async_trickle_reset_pc] }
    let env := ws_bbr_nvm_info_write env (to_uint16 cur.ws_info.fhss_conf.bsi)
      (to_uint16 cur.ws_info.pan_information.pan_id)
      cur.ws_info.pan_information.pan_version cur.ws_info.pan_information.lfn_version
    ws_bbr_pan_version_increase env (some cur)

/-- Example: storage available, no file yet. -/
def bbr_env_example : bbr_env :=
  { storage_open_ok := true, version_daemon_api := 0x02000000, br_info_file := none,
    calls := [] }

/-- Example: an interface of PAN 0xabcd at PAN version 65535 and LFN version 7. -/
def net_if_example : net_if :=
  { ws_info :=
    { pan_information :=
        { pan_size := 0, routing_cost := 0, pan_id := 0xabcd, pan_version := 65535,
          lfn_version := 7, use_parent_bs := false, rpl_routing_method := false,
          lfn_window_style := false, version := 1 },
      fhss_conf := { bsi := 30 } } }

/-! ### app_wsbrd/app/wsbrd.c: PAN ID selection -/

/-- Modelled from the spec: `rand_get_random_in_range` of common/rand.c (not under
src/): a value of the range from `min` to `max` included, drawn from the random word
`r`. -/
def rand_get_random_in_range (r min max : Nat) : Nat := min + r % (max - min + 1)

/-- The PAN ID selection of `wsbr_configure_ws` (lines 295-301): `pan_id` is
`ws_info->pan_information.pan_id` as read from the storage (-1 when there is none),
`ws_pan_id` is `ctxt->config.ws_pan_id` (-1 when it is not configured) and `r` the
random word drawn. The result is the PAN ID after the selection, `none` for an exit
through `FATAL`. -/
def wsbr_configure_ws_pan_id (r : Nat) (ws_pan_id pan_id : Int) : Option Int :=
  if ws_pan_id ≠ -1 ∧ pan_id ≠ -1 ∧ pan_id ≠ ws_pan_id then none
  else
    let pan_id := if pan_id = -1 then ws_pan_id else pan_id
    let pan_id := if pan_id = -1 then (rand_get_random_in_range r 0 0xfffe : Int) else pan_id
    some pan_id

/-! ### Router state: further examples, for the statements -/

/-- Example: the router of `wsrd_example` once it is at PAN version 8. -/
def wsrd_example_v8 : wsrd :=
  { wsrd_example with ws := { wsrd_example.ws with pan_version := 8 } }

/-- Example: a neighbour with the EUI-64, the PAN ID, the PLF, the routing cost of its
PAN-IE and the ETX given, that has sent a PA at -60 dBm and advertises a PAN of 64
nodes. -/
def ws_neigh_example (eui64 : List Nat) (pan_id plf routing_cost : Nat) (etx : c_float) :
    ws_neigh :=
  { eui64 := eui64, fhss_data := ws_neigh_fhss_zero, fhss_data_unsecured := ws_neigh_fhss_zero,
    frame_counter_min := [], pan_id := pan_id, last_pa_rx_time_s := 900,
    rsl_in_dbm_unsecured := { num := -60, den := 1 }, plf := plf,
    ie_pan := { pan_size := 64, routing_cost := routing_cost, use_parent_bs_ie := true,
                routing_method := true, lfn_window_style := false, fan_tps_version := 1 },
    etx := etx }

/-- Example: the router of `wsrd_example` with a preferred parent at routing cost
65000 and ETX 1000.5. -/
def wsrd_example_far : wsrd :=
  { wsrd_example with
    ws := { wsrd_example.ws with
      neigh_table :=
        [ws_neigh_example [1, 2, 3, 4, 5, 6, 7, 8] 0x1234 0xff 65000 { num := 2001, den := 2 }] } }

/-- Example: a router in join state 1 that has heard two candidates of PAN 0x1234:
first one with PLF 50 at routing cost 256 (PAN cost 2), then one with PLF 10 at
routing cost 2560 (PAN cost 11). -/
def wsrd_example_two_candidates : wsrd :=
  { wsrd_example with
    ws := { wsrd_example.ws with
      pan_id := 0xffff,
      neigh_table :=
        [ws_neigh_example [2, 2, 2, 2, 2, 2, 2, 2] 0x1234 50 256 { num := 1, den := 1 },
         ws_neigh_example [1, 1, 1, 1, 1, 1, 1, 1] 0x1234 10 2560 { num := 1, den := 1 }] },
    eapol_target_eui64 := ieee802154_addr_bc }

/-! ### app_wshwsim/fhss/channel_functions.c: TR51 channel function -/

/-- The loop of `tr51_calc_nearest_prime_number` on the `uint16_t` variables
`start_value` and `divider`: `none` is a division by zero, or a loop that has not
ended when the fuel is used up. -/
def tr51_calc_nearest_prime_number_loop : Nat → Nat → Nat → Option Nat
  | 0, _, _ => none
  | fuel + 1, start_value, divider =>
    if start_value = 0 then some start_value
    else if divider = 0 then none
    else
      let rem := start_value % divider
      let divider := (divider + 65535) % 65536
      if rem ≠ 0 then
        if divider = 1 then some start_value
        else tr51_calc_nearest_prime_number_loop fuel start_value divider
      else
        let start_value := (start_value + 1) % 65536
        let divider := (start_value + 65535) % 65536
        tr51_calc_nearest_prime_number_loop fuel start_value divider

/-- Embedding of `tr51_calc_nearest_prime_number` for a `uint16_t` argument; the fuel
2^32 is more than the loop can use on 16-bit variables before it ends. -/
def tr51_calc_nearest_prime_number (start_value : Nat) : Option Nat :=
  if start_value < 2 then some 0
  else
    tr51_calc_nearest_prime_number_loop (65536 * 65536) start_value
      ((start_value + 65535) % 65536)

/-- Embedding of `tr51_get_rand` on the global `global_seed`: the value returned,
which is also the new seed. -/
def tr51_get_rand (global_seed : Nat) : Nat :=
  ((global_seed * 1103515245) % 4294967296 + 12345) % 4294967296 &&& 0x7fffffff

/-- The second loop nest of `tr51_calculate_channel_table` from the state `i`, `j`,
`k` and the seed: the table once filled, `none` when the fuel is used up before the
loops end. -/
def tr51_calculate_channel_table_loop (number_of_channels : Nat) :
    Nat → List Int → Nat → Nat → Int → Nat → Option (List Int)
  | 0, _, _, _, _, _ => none
  | fuel + 1, channel_table, global_seed, i, j, k =>
    if k ≤ i then
      if j = channel_table.getD k 0 then
        let r := tr51_get_rand global_seed
        tr51_calculate_channel_table_loop number_of_channels fuel channel_table r i
          ((r % number_of_channels : Nat) : Int) 0
      else
        tr51_calculate_channel_table_loop number_of_channels fuel channel_table global_seed i j
          (k + 1)
    else
      let channel_table := channel_table.set i j
      let i := i + 1
      if i < number_of_channels then
        let r := tr51_get_rand global_seed
        tr51_calculate_channel_table_loop number_of_channels fuel channel_table r i
          ((r % number_of_channels : Nat) : Int) 0
      else some channel_table

/-- Embedding of `tr51_calculate_channel_table` on the array `channel_table`, of at
least `nearest_prime` elements, for a number of channels that fits `int16_t`. -/
def tr51_calculate_channel_table (fuel number_of_channels nearest_prime : Nat)
    (channel_table : List Int) : Option (List Int) :=
  let global_seed := 1
  let channel_table := List.replicate nearest_prime (-1) ++ channel_table.drop nearest_prime
  if 0 < number_of_channels then
    let r := tr51_get_rand global_seed
    tr51_calculate_channel_table_loop number_of_channels fuel channel_table r 0
      ((r % number_of_channels : Nat) : Int) 0
  else some channel_table

/-- Embedding of `tr51_find_excluded`: `excluded_channels` is `none` for NULL and else
the 32-bit words of the mask. -/
def tr51_find_excluded (channel : Int) (excluded_channels : Option (List Nat)) : Bool :=
  match excluded_channels with
  | some excluded_channels =>
    let index := (channel / 32).toNat % 256
    let channel := (channel % 32).toNat
    decide (excluded_channels.getD index 0 % 4294967296 &&& (1 <<< channel) ≠ 0)
  | none => false

/-- The loop of `tr51_calculate_hopping_sequence` for the `cntr` turns left: the
`uint8_t` variables `index` and `slot` and the array `output_table`. -/
def tr51_calculate_hopping_sequence_loop (channel_table : List Int) (channel_table_length : Nat)
    (step_size : Nat) (excluded_channels : Option (List Nat)) :
    Nat → Nat → Nat → List Nat → Nat × List Nat
  | 0, _, slot, output_table => (slot, output_table)
  | cntr + 1, index, slot, output_table =>
    let write : Bool :=
      decide (channel_table.getD index 0 ≠ -1) &&
        !tr51_find_excluded (channel_table.getD index 0) excluded_channels
    let output_table :=
      if write then output_table.set slot ((channel_table.getD index 0 % 256).toNat)
      else output_table
    let slot := if write then (slot + 1) % 256 else slot
    let index := (index + step_size) % 256
    let index := index % channel_table_length % 256
    tr51_calculate_hopping_sequence_loop channel_table channel_table_length step_size
      excluded_channels cntr index slot output_table

/-- Embedding of `tr51_calculate_hopping_sequence`: the value returned and the array
`output_table` after the call. -/
def tr51_calculate_hopping_sequence (channel_table : List Int) (channel_table_length : Nat)
    (first_element step_size : Nat) (output_table : List Nat)
    (excluded_channels : Option (List Nat)) : Nat × List Nat :=
  tr51_calculate_hopping_sequence_loop channel_table channel_table_length step_size
    excluded_channels channel_table_length first_element 0 output_table

/-- Embedding of `tr51_compute_cfd`: `first_element` and `step_size`, `none` for a
division by zero. -/
def tr51_compute_cfd (mac : List Nat) (channel_table_length : Nat) : Option (Nat × Nat) :=
  if channel_table_length = 0 ∨ channel_table_length = 1 then none
  else
    some (((byte_at mac 5 ^^^ byte_at mac 6 ^^^ byte_at mac 7) % channel_table_length) % 256,
      (byte_at mac 7 % (channel_table_length - 1) + 1) % 256)

/-- Embedding of `tr51_init_channel_table` for a positive `int16_t` number of
channels: the array `channel_table` after the call. -/
def tr51_init_channel_table (fuel : Nat) (channel_table : List Int) (number_of_channels : Nat) :
    Option (List Int) :=
  match tr51_calc_nearest_prime_number number_of_channels with
  | none => none
  | some nearest_prime =>
    tr51_calculate_channel_table fuel number_of_channels nearest_prime channel_table

/-- The rows of `tr51_calculate_channel_table` from the row `i` on, as long as no
value has to be drawn again: `j` is the value drawn for the row `i`, and the result
is `none` when `j` is already in the table up to the element `i`, or when `rows`
rows do not finish the table. It serves to evaluate the loop nest row by row when
the values drawn are all different. -/
def tr51_calculate_channel_table_distinct (number_of_channels : Nat) :
    Nat → List Int → Nat → Nat → Int → Option (List Int)
  | 0, _, _, _, _ => none
  | rows + 1, channel_table, global_seed, i, j =>
    if i < channel_table.length ∧ j ∉ channel_table.take (i + 1) then
      if i + 1 < number_of_channels then
        let r := tr51_get_rand global_seed
        tr51_calculate_channel_table_distinct number_of_channels rows (channel_table.set i j) r
          (i + 1) ((r % number_of_channels : Nat) : Int)
      else some (channel_table.set i j)
    else none

/-- Example: the channel table of 131 elements that `tr51_init_channel_table` builds
for 128 channels. -/
def tr51_channel_table_128 : List Int :=
  [38, 103, 20, 61, 50, 3, 0, 57, 126, 95, 44, 117, 10, 123, 24, 113, 86, 87, 68, 45, 98, 115,
   48, 41, 46, 79, 92, 101, 58, 107, 72, 97, 6, 71, 116, 29, 18, 99, 96, 25, 94, 63, 12, 85,
   106, 91, 120, 81, 54, 55, 36, 13, 66, 83, 16, 9, 14, 47, 60, 69, 26, 75, 40, 65, 102, 39, 84,
   125, 114, 67, 64, 121, 62, 31, 108, 53, 74, 59, 88, 49, 22, 23, 4, 109, 34, 51, 112, 105,
   110, 15, 28, 37, 122, 43, 8, 33, 70, 7, 52, 93, 82, 35, 32, 89, 30, 127, 76, 21, 42, 27, 56,
   17, 118, 119, 100, 77, 2, 19, 80, 73, 78, 111, 124, 5, 90, 11, 104, 1, -1, -1, -1]

/-! ### app_wsrd/ipv6/ndp.c: neighbor unreachability detection -/

/-- Modelled from the spec: the NUD states of app_wsrd/ipv6/ndp.h (not under src/), in
the order of the table of `tr_nud_state`. -/
def IPV6_NUD_INCOMPLETE : Int := 0
/-- Modelled from the spec: NUD state of app_wsrd/ipv6/ndp.h (not under src/). -/
def IPV6_NUD_REACHABLE : Int := 1
/-- Modelled from the spec: NUD state of app_wsrd/ipv6/ndp.h (not under src/). -/
def IPV6_NUD_STALE : Int := 2
/-- Modelled from the spec: NUD state of app_wsrd/ipv6/ndp.h (not under src/). -/
def IPV6_NUD_DELAY : Int := 3
/-- Modelled from the spec: NUD state of app_wsrd/ipv6/ndp.h (not under src/). -/
def IPV6_NUD_PROBE : Int := 4

/-- Modelled from the spec: `struct ipv6_neigh` of app_wsrd/ipv6/ndp.h (not under
src/). The timer `nud_timer` is `none` when it is stopped and `some d` when it has
been started for `d` milliseconds; `rpl_neigh` tells whether the pointer is set. -/
structure ipv6_neigh where
  gua : List Nat
  eui64 : List Nat
  nud_state : Int
  nud_probe_count : Int
  nud_timer : Option Nat
  rpl_neigh : Bool
deriving DecidableEq, Repr

/-- A call that ndp.c makes and the model records: a neighbor solicitation handed to
`ipv6_sendto_mac` (not under src/) for the neighbor with the GUA given (with an ARO
when the node has a global address), and the call of `rpl_neigh_del` for the entry
that `ipv6_neigh_del` removes from the cache. -/
inductive ndp_call where
  | ipv6_sendto_mac_ns (gua : List Nat) (has_gua : Bool)
  | rpl_neigh_del (gua : List Nat)
deriving DecidableEq, Repr

/-- Modelled from the spec: the fields of `struct ipv6_ctx` of app_wsrd/ipv6/ipv6.h
(not under src/) that ndp.c uses. `reach_ms` stands for the value `randf_range`
draws between 0.5 and 1.5 times `reach_base_ms`; `calls` records the calls made. -/
structure ipv6_ctx where
  addr_uc_global : List Nat
  neigh_cache : List ipv6_neigh
  probe_delay_ms : Nat
  reach_base_ms : Nat
  reach_ms : Nat
  calls : List ndp_call
deriving DecidableEq, Repr

/-- A `struct ipv6_neigh` with every field 0. -/
def ipv6_neigh_zero : ipv6_neigh :=
  { gua := [], eui64 := [], nud_state := 0, nud_probe_count := 0, nud_timer := none,
    rpl_neigh := false }

/-- The entry of the neighbor cache a pointer `neigh` designates, as its position in
the cache. -/
def neigh_at (ipv6 : ipv6_ctx) (neigh : Nat) : ipv6_neigh :=
  ipv6.neigh_cache.getD neigh ipv6_neigh_zero

/-- Store of an entry of the neighbor cache. -/
def set_neigh_at (ipv6 : ipv6_ctx) (neigh : Nat) (n : ipv6_neigh) : ipv6_ctx :=
  { ipv6 with neigh_cache := ipv6.neigh_cache.set neigh n }

/-- Embedding of `ipv6_neigh_del`. -/
def ipv6_neigh_del (ipv6 : ipv6_ctx) (neigh : Nat) : ipv6_ctx :=
  let n := neigh_at ipv6 neigh
  let ipv6 := set_neigh_at ipv6 neigh { n with nud_timer := none }
  let ipv6 := { ipv6 with neigh_cache := ipv6.neigh_cache.eraseIdx neigh }
  if n.rpl_neigh then { ipv6 with calls := ipv6.calls ++ [ndp_call.rpl_neigh_del n.gua] }
  else ipv6

mutual

/-- Embedding of `ipv6_send_ns`: the solicitation is recorded as a call, without its
bytes. `none` is an abort of `BUG`, or fuel used up. -/
def ipv6_send_ns : Nat → ipv6_ctx → Nat → Option ipv6_ctx
  | 0, _, _ => none
  | fuel + 1, ipv6, neigh =>
    let has_gua := decide (ipv6.addr_uc_global ≠ List.replicate 16 0)
    let ipv6 := { ipv6 with
      calls := ipv6.calls ++ [ndp_call.ipv6_sendto_mac_ns (neigh_at ipv6 neigh).gua has_gua] }
    ipv6_nud_set_state fuel ipv6 neigh IPV6_NUD_REACHABLE

/-- Embedding of `ipv6_nud_probe`. -/
def ipv6_nud_probe : Nat → ipv6_ctx → Nat → Option ipv6_ctx
  | 0, _, _ => none
  | fuel + 1, ipv6, neigh =>
    if (neigh_at ipv6 neigh).nud_probe_count ≥ 3 then some (ipv6_neigh_del ipv6 neigh)
    else
      match ipv6_send_ns fuel ipv6 neigh with
      | none => none
      | some ipv6 =>
        let n := neigh_at ipv6 neigh
        let n := { n with nud_probe_count := n.nud_probe_count + 1 }
        let n := { n with nud_timer := some ipv6.probe_delay_ms }
        some (set_neigh_at ipv6 neigh n)

/-- Embedding of `ipv6_nud_set_state`. -/
def ipv6_nud_set_state : Nat → ipv6_ctx → Nat → Int → Option ipv6_ctx
  | 0, _, _, _ => none
  | fuel + 1, ipv6, neigh, state =>
    let n := neigh_at ipv6 neigh
    let n := { n with nud_timer := none }
    let n := { n with nud_state := state }
    let n := { n with nud_probe_count := 0 }
    if state = IPV6_NUD_REACHABLE then
      some (set_neigh_at ipv6 neigh { n with nud_timer := some ipv6.reach_ms })
    else if state = IPV6_NUD_STALE then some (set_neigh_at ipv6 neigh n)
    else if state = IPV6_NUD_DELAY then
      some (set_neigh_at ipv6 neigh { n with nud_timer := some (5 * 1000) })
    else if state = IPV6_NUD_PROBE then ipv6_nud_probe fuel (set_neigh_at ipv6 neigh n) neigh
    else none

end

/-- Embedding of `ipv6_nud_expire`, the callback of the timer `nud_timer`: the timer
that expires is no longer running when its callback is called. -/
def ipv6_nud_expire (fuel : Nat) (ipv6 : ipv6_ctx) (neigh : Nat) : Option ipv6_ctx :=
  let n := neigh_at ipv6 neigh
  let ipv6 := set_neigh_at ipv6 neigh { n with nud_timer := none }
  if n.nud_state = IPV6_NUD_REACHABLE then ipv6_nud_set_state fuel ipv6 neigh IPV6_NUD_STALE
  else if n.nud_state = IPV6_NUD_DELAY then ipv6_nud_set_state fuel ipv6 neigh IPV6_NUD_PROBE
  else if n.nud_state = IPV6_NUD_PROBE then ipv6_nud_probe fuel ipv6 neigh
  else none

/-- Example: a node with a global address and one reachable neighbor. -/
def ipv6_ctx_example : ipv6_ctx :=
  { addr_uc_global := [0x20, 1, 0xd, 0xb8, 0, 0, 0, 0, 0, 0, 0, 0, 0, 0, 0, 1],
    neigh_cache :=
      [{ gua := [0x20, 1, 0xd, 0xb8, 0, 0, 0, 0, 0, 0, 0, 0, 0, 0, 0, 2],
         eui64 := [1, 2, 3, 4, 5, 6, 7, 8], nud_state := 3, nud_probe_count := 0,
         nud_timer := none, rpl_neigh := true }],
    probe_delay_ms := 1000, reach_base_ms := 30000, reach_ms := 20000, calls := [] }

/-! ### app_wsbrd/app/wsbrd.c: channel masks and RCP reset -/

/-- Modelled from the spec: `memzcmp` of common/memutils.h (not under src/) as a
truth value: true when it returns a non-zero value, that is when one of the `size`
bytes at `ptr` is not 0. -/
def memzcmp (ptr : List Nat) (size : Nat) : Bool :=
  (List.range size).any (fun i => decide (byte_at ptr i ≠ 0))

/-- Modelled from the spec: `bitand` of common/bits.h (not under src/) for a number of
bits that is a multiple of 8: the bytes of `dst` after the call, each the bitwise
and of the bytes of `dst` and `src`. -/
def bitand (dst src : List Nat) (nbits : Nat) : List Nat :=
  (List.range (nbits / 8)).map (fun i => byte_at dst i &&& byte_at src i)

/-- Modelled from the spec: `bittest` of common/bits.h (not under src/): bit `i` of a
bit array, least significant bit of each byte first. -/
def bittest (bits : List Nat) (i : Nat) : Bool :=
  decide (byte_at bits (i / 8) &&& (1 <<< (i % 8)) ≠ 0)

/-- The fields of `struct ws_fhss_config` (common/ws/ws_interface.h, not under src/)
that the channel check of `wsbr_configure_ws` uses; `chan_params` stands for the
pointer to the entry of the regulatory database. -/
structure wsbr_fhss_config where
  chan_params : Nat
  regional_regulation : Nat
  uc_chan_mask : List Nat
  bc_chan_mask : List Nat
deriving DecidableEq, Repr

/-- The fields of `struct wsbrd_conf` (app_wsbrd/app/commandline.h, not under src/)
that the channel check of `wsbr_configure_ws` uses. -/
structure wsbrd_conf where
  ws_regional_regulation : Nat
  ws_allowed_channels : List Nat
deriving DecidableEq, Repr

/-- The channel check of `wsbr_configure_ws` (lines 266-277): `ws_chan_mask_calc_reg`
(common/ws/ws_chan_mask.c, not under src/) is a parameter that gives the 32 bytes it
stores for channel parameters and a regional regulation, and the call to
`rcp_set_radio_regulation` is left out. The result is `fhss` after the check, `none`
for an exit through `FATAL`. -/
def wsbr_configure_ws_chan_mask (ws_chan_mask_calc_reg : Nat → Nat → List Nat)
    (config : wsbrd_conf) (fhss : wsbr_fhss_config) : Option wsbr_fhss_config :=
  let fhss :=
    if config.ws_regional_regulation ≠ 0 then
      { fhss with regional_regulation := config.ws_regional_regulation }
    else fhss
  let fhss := { fhss with
    uc_chan_mask := ws_chan_mask_calc_reg fhss.chan_params fhss.regional_regulation }
  let fhss := { fhss with
    bc_chan_mask := ws_chan_mask_calc_reg fhss.chan_params fhss.regional_regulation }
  let fhss := { fhss with
    uc_chan_mask := bitand fhss.uc_chan_mask config.ws_allowed_channels 256 }
  let fhss := { fhss with
    bc_chan_mask := bitand fhss.bc_chan_mask config.ws_allowed_channels 256 }
  if ¬ memzcmp fhss.uc_chan_mask 32 then none
  else some fhss

/-- Example: the regulatory mask allows the channels 0 to 15, whatever the
parameters. -/
def ws_chan_mask_calc_reg_example (_chan_params _regional_regulation : Nat) : List Nat :=
  [0xff, 0xff] ++ List.replicate 30 0

/-- Example: a configuration that allows the channels 8 to 23. -/
def wsbrd_conf_example : wsbrd_conf :=
  { ws_regional_regulation := 0,
    ws_allowed_channels := [0, 0xff, 0xff] ++ List.replicate 29 0 }

/-- Example: a FHSS configuration before the channel check. -/
def wsbr_fhss_config_example : wsbr_fhss_config :=
  { chan_params := 1, regional_regulation := 0, uc_chan_mask := [], bc_chan_mask := [] }

/-- Modelled from the spec: macro VERSION of common/version.h (not under src/): major
version in the bits 24..31, minor version in the bits 8..23, patch in the bits
0..7. -/
def VERSION (major minor patch : Nat) : Nat :=
  FIELD_PREP 0xFF000000 major ||| FIELD_PREP 0x00FFFF00 minor ||| FIELD_PREP 0x000000FF patch

/-- Modelled from the spec: `version_older_than` of common/version.h (not under
src/). -/
def version_older_than (version major minor patch : Nat) : Bool :=
  decide (version < VERSION major minor patch)

/-- Modelled from the spec: the fields of `struct rcp` (common/rcp_api.h, not under
src/) that `wsbr_handle_reset` uses. -/
structure rcp where
  has_rf_list : Bool
  version_fw : Nat
  version_api : Nat
deriving DecidableEq, Repr

/-- Embedding of `wsbr_handle_reset`: `some c` is an exit of the process with the code
`c` through `FATAL`, `none` a normal return. -/
def wsbr_handle_reset (rcp : rcp) : Option Nat :=
  if rcp.has_rf_list then some 3
  else if version_older_than rcp.version_api 2 0 0 then some 3
  else none

/-! ### app_wsbrd/security/protocols/tls_sec_prot/tls_sec_prot_lib.c -/

/-- Modelled from the spec: MBEDTLS_ERR_X509_CERT_VERIFY_FAILED of mbedtls/x509.h (not
under src/). -/
def MBEDTLS_ERR_X509_CERT_VERIFY_FAILED : Int := -0x2700

/-- Modelled from the spec: MBEDTLS_X509_BADCERT_OTHER of mbedtls/x509.h (not under
src/). -/
def MBEDTLS_X509_BADCERT_OTHER : Nat := 0x0100

/-- Modelled from the spec: MBEDTLS_X509_SAN_OTHER_NAME of mbedtls/x509_crt.h (not
under src/). -/
def MBEDTLS_X509_SAN_OTHER_NAME : Int := 0

/-- Modelled from the spec: MBEDTLS_OID_ON_HW_MODULE_NAME of mbedtls/oid.h (not under
src/): the bytes of the OID 1.3.6.1.5.5.7.8.4. -/
def MBEDTLS_OID_ON_HW_MODULE_NAME : List Nat := [0x2b, 0x06, 0x01, 0x05, 0x05, 0x07, 0x08, 0x04]

/-- Modelled from the spec: macro MBEDTLS_OID_CMP of mbedtls/oid.h (not under src/):
true when the OID of the buffer is not the OID given. -/
def MBEDTLS_OID_CMP (oid_str oid_buf : List Nat) : Bool := decide (oid_str ≠ oid_buf)

/-- Modelled from the spec: whether `mbedtls/mbedtls_config.h` (not under src/)
defines MBEDTLS_X509_CHECK_EXTENDED_KEY_USAGE: the spec has the authenticator check
the extended key usage. -/
def MBEDTLS_X509_CHECK_EXTENDED_KEY_USAGE : Bool := true

/-- An element of the list `subject_alt_names` of a certificate, as
`mbedtls_x509_parse_subject_alt_name` (mbedtls, not under src/) sees it: the value it
returns, and the type and the hardware module name OID of the name it parses. -/
structure mbedtls_san where
  parse_ret : Int
  type : Int
  hardware_module_name_oid : List Nat
deriving DecidableEq, Repr

/-- The parts of `mbedtls_x509_crt` (mbedtls, not under src/) that the policy reads:
the first element of the list `subject_alt_names`, which is a member of the
certificate, the elements that follow it, and the value that
`mbedtls_x509_crt_check_extended_key_usage` returns for the Wi-SUN FAN usage. -/
structure mbedtls_x509_crt where
  subject_alt_names : mbedtls_san
  subject_alt_names_next : List mbedtls_san
  check_extended_key_usage_wisun_fan : Int
deriving DecidableEq, Repr

/-- The field of `tls_security_t` that the policy reads. -/
structure tls_security_t where
  ext_cert_valid : Bool
deriving DecidableEq, Repr

/-- Loop of `tls_sec_prot_lib_subject_alternative_name_validate` over the elements of
the list from `seq` on. -/
def subject_alternative_name_validate_loop : List mbedtls_san → Int → Int
  | [], result => result
  | seq :: next, result =>
    let result :=
      if seq.parse_ret = 0 ∧ seq.type = MBEDTLS_X509_SAN_OTHER_NAME then
        if MBEDTLS_OID_CMP MBEDTLS_OID_ON_HW_MODULE_NAME seq.hardware_module_name_oid then 0
        else result
      else result
    subject_alternative_name_validate_loop next result

/-- Embedding of `tls_sec_prot_lib_subject_alternative_name_validate`. -/
def tls_sec_prot_lib_subject_alternative_name_validate (crt : mbedtls_x509_crt) : Int :=
  subject_alternative_name_validate_loop (crt.subject_alt_names :: crt.subject_alt_names_next)
    (-1)

/-- Embedding of `tls_sec_prot_lib_extended_key_usage_validate`. -/
def tls_sec_prot_lib_extended_key_usage_validate (crt : mbedtls_x509_crt) : Int :=
  if MBEDTLS_X509_CHECK_EXTENDED_KEY_USAGE ∧ crt.check_extended_key_usage_wisun_fan ≠ 0 then -1
  else 0

/-- Embedding of `tls_sec_prot_lib_x509_crt_idevid_ldevid_verify`: the value returned
and `*flags` after the call. -/
def tls_sec_prot_lib_x509_crt_idevid_ldevid_verify (sec : tls_security_t)
    (crt : mbedtls_x509_crt) (flags : Nat) : Int × Nat :=
  if tls_sec_prot_lib_subject_alternative_name_validate crt < 0 ∨
      tls_sec_prot_lib_extended_key_usage_validate crt < 0 then
    if sec.ext_cert_valid then
      ((MBEDTLS_ERR_X509_CERT_VERIFY_FAILED, (flags ||| MBEDTLS_X509_BADCERT_OTHER) % 4294967296))
    else (0, flags)
  else (0, flags)

/-- Example: a certificate with a hardware module name and without the Wi-SUN FAN
extended key usage. -/
def mbedtls_x509_crt_example : mbedtls_x509_crt :=
  { subject_alt_names :=
      { parse_ret := 0, type := 0,
        hardware_module_name_oid := [0x2b, 0x06, 0x01, 0x04, 0x01, 0x82, 0xe4, 0x25, 0x01] },
    subject_alt_names_next := [], check_extended_key_usage_wisun_fan := -0x2800 }

/-- Example: a certificate with the Wi-SUN FAN extended key usage whose only subject
alternative name parses as an other name, the OID that the policy compares being
id-on-hardwareModuleName (1.3.6.1.5.5.7.8.4). -/
def mbedtls_x509_crt_example_on_hw_module_name : mbedtls_x509_crt :=
  { subject_alt_names :=
      { parse_ret := 0, type := 0,
        hardware_module_name_oid := [0x2b, 0x06, 0x01, 0x05, 0x05, 0x07, 0x08, 0x04] },
    subject_alt_names_next := [], check_extended_key_usage_wisun_fan := 0 }

/-! ### stack/source/6lowpan/ws/ws_ie_lib.c: LCP-IE writer and LGTKHASH-IE -/

/-- Embedding of `ws_wp_nested_lfn_channel_plan_length`. -/
def ws_wp_nested_lfn_channel_plan_length (ws_lcp : ws_lcp_ie) : Nat :=
  let length := 1
  (length + ws_wp_generic_schedule_length_get ws_lcp.chan_plan) % 65536

/-- Embedding of `ws_wp_nested_lfn_channel_plan_write`: the bytes it stores at
`ptr`. -/
def ws_wp_nested_lfn_channel_plan_write (ws_lcp : ws_lcp_ie) : List Nat :=
  let length := ws_wp_nested_lfn_channel_plan_length ws_lcp
  mac_ie_nested_ie_long_base_write WP_PAYLOAD_IE_LFN_CHANNEL_PLAN_TYPE length
    ++ [ws_lcp.lfn_channel_plan_tag % 256]
    ++ [ws_wp_channel_info_base_get ws_lcp.chan_plan]
    ++ ws_wp_channel_plan_write ws_lcp.chan_plan
    ++ ws_wp_channel_function_write ws_lcp.chan_plan
    ++ ws_wp_nested_excluded_channel_write ws_lcp.chan_plan

/-- Example: an LCP-IE with channel plan 0, the vendor defined channel function 3
with a hop list of 5 channels, and no excluded channel. -/
def ws_lcp_ie_example : ws_lcp_ie :=
  { lfn_channel_plan_tag := 1,
    chan_plan :=
      { ws_generic_channel_info_zero with
        channel_plan := 0, channel_function := 3, excluded_channel_ctrl := 0,
        function := { zero := { fixed_channel := 0 },
                      three := { channel_hop_count := 5,
                                 channel_list := some [10, 11, 12, 13, 14] } } } }

def WS_WP_LGTKHASH_IE_INCLUDE_LGTK0_MASK : Nat := 0b00000001
def WS_WP_LGTKHASH_IE_INCLUDE_LGTK1_MASK : Nat := 0b00000010
def WS_WP_LGTKHASH_IE_INCLUDE_LGTK2_MASK : Nat := 0b00000100
def WS_WP_LGTKHASH_IE_ACTIVE_INDEX_MASK : Nat := 0b00011000

/-- Modelled from the spec: WP_PAYLOAD_IE_LGTKHASH_TYPE of
6lowpan/ws/ws_common_defines.h (not under src/): short nested IE sub-ID of the
LGTKHASH-IE. -/
def WP_PAYLOAD_IE_LGTKHASH_TYPE : Nat := 0x41

/-- Embedding of `ws_wp_nested_lgtkhash_length`: `lgtkhash` is the array of the three
hashes, of 8 bytes each. -/
def ws_wp_nested_lgtkhash_length (lgtkhash : List (List Nat)) : Nat :=
  let length := 1
  let length := if memzcmp (lgtkhash.getD 0 []) 8 then (length + 8) % 65536 else length
  let length := if memzcmp (lgtkhash.getD 1 []) 8 then (length + 8) % 65536 else length
  let length := if memzcmp (lgtkhash.getD 2 []) 8 then (length + 8) % 65536 else length
  length

/-- Embedding of `ws_wp_nested_lgtkhash_write`: the bytes it stores at `ptr`. -/
def ws_wp_nested_lgtkhash_write (lgtkhash : List (List Nat)) (active_lgtk_index : Nat) :
    List Nat :=
  let length := ws_wp_nested_lgtkhash_length lgtkhash
  let tmp8 := 0
  let tmp8 := (tmp8 ||| FIELD_PREP WS_WP_LGTKHASH_IE_INCLUDE_LGTK0_MASK
    (b2n (memzcmp (lgtkhash.getD 0 []) 8))) % 256
  let tmp8 := (tmp8 ||| FIELD_PREP WS_WP_LGTKHASH_IE_INCLUDE_LGTK1_MASK
    (b2n (memzcmp (lgtkhash.getD 1 []) 8))) % 256
  let tmp8 := (tmp8 ||| FIELD_PREP WS_WP_LGTKHASH_IE_INCLUDE_LGTK2_MASK
    (b2n (memzcmp (lgtkhash.getD 2 []) 8))) % 256
  let tmp8 := (tmp8 ||| FIELD_PREP WS_WP_LGTKHASH_IE_ACTIVE_INDEX_MASK active_lgtk_index) % 256
  mac_ie_nested_ie_short_base_write WP_PAYLOAD_IE_LGTKHASH_TYPE length
    ++ [tmp8]
    ++ (if memzcmp (lgtkhash.getD 0 []) 8 then memcpy_bytes (lgtkhash.getD 0 []) 8 else [])
    ++ (if memzcmp (lgtkhash.getD 1 []) 8 then memcpy_bytes (lgtkhash.getD 1 []) 8 else [])
    ++ (if memzcmp (lgtkhash.getD 2 []) 8 then memcpy_bytes (lgtkhash.getD 2 []) 8 else [])

/-- Modelled from the spec: `__builtin_popcount` for the 3-bit value
`valid_hashs`. -/
def popcount3 (x : Nat) : Nat := x % 2 + x / 2 % 2 + x / 4 % 2

/-- The 8 bytes `memcpy` reads at the offset `data` of the buffer. -/
def read_bytes8 (mem : List Nat) (data : Nat) : List Nat :=
  (List.range 8).map (fun i => byte_at mem (data + i))

/-- Embedding of `ws_wp_nested_lgtkhash_read`: `none` when it returns false, else the
three hashes and the active index it stores. -/
def ws_wp_nested_lgtkhash_read (mem : List Nat) (data length : Nat) :
    Option (List (List Nat) × Nat) :=
  let r := mac_ie_nested_discover mem data length
    { id := WP_PAYLOAD_IE_LGTKHASH_TYPE, type_long := false, length := 0, content_ptr := 0 }
  if 1 > r.1 then none
  else
    let nested_payload_ie := r.2
    let data := nested_payload_ie.content_ptr
    let valid_hashs := FIELD_GET (WS_WP_LGTKHASH_IE_INCLUDE_LGTK0_MASK |||
      WS_WP_LGTKHASH_IE_INCLUDE_LGTK1_MASK ||| WS_WP_LGTKHASH_IE_INCLUDE_LGTK2_MASK)
      (byte_at mem data)
    let active_lgtk_index := FIELD_GET WS_WP_LGTKHASH_IE_ACTIVE_INDEX_MASK (byte_at mem data)
    if popcount3 valid_hashs * 8 > nested_payload_ie.length then none
    else
      let data := data + 1
      let h0 := if valid_hashs &&& (1 <<< 0) ≠ 0 then read_bytes8 mem data else List.replicate 8 0
      let data := if valid_hashs &&& (1 <<< 0) ≠ 0 then data + 8 else data
      let h1 := if valid_hashs &&& (1 <<< 1) ≠ 0 then read_bytes8 mem data else List.replicate 8 0
      let data := if valid_hashs &&& (1 <<< 1) ≠ 0 then data + 8 else data
      let h2 := if valid_hashs &&& (1 <<< 2) ≠ 0 then read_bytes8 mem data else List.replicate 8 0
      some ([h0, h1, h2], active_lgtk_index)

/-- Example: an LGTKHASH-IE whose content is 8 bytes long, with the include bit of
LGTK0 set and 7 bytes of hash, followed by the first byte of another IE. -/
def ie_example_lgtkhash_short : List Nat := [0x08, 0x41, 0x01, 1, 2, 3, 4, 5, 6, 7, 0xaa]

/-! ### common/hif.c: variable-length integers and strings -/

/-- The loop of `hif_push_uint`: one byte for each group of 7 bits of `val`, least
significant group first, each with bit 7 set. `none` is fuel used up. -/
def hif_push_uint_loop : Nat → List Nat → Nat → Option (List Nat)
  | 0, _, _ => none
  | fuel + 1, buf, val =>
    let buf := iobuf_push_u8 buf ((val &&& 0x7F) ||| 0x80)
    let val := val >>> 7
    if val ≠ 0 then hif_push_uint_loop fuel buf val else some buf

/-- Embedding of `hif_push_uint`: `val` is an `unsigned int` of 32 bits, for which
the loop runs at most 5 times; bit 7 of the last byte pushed is cleared. -/
def hif_push_uint (buf : List Nat) (val : Nat) : Option (List Nat) :=
  match hif_push_uint_loop 5 buf (val % 4294967296) with
  | none => none
  | some buf => some (buf.set (buf.length - 1) (byte_at buf (buf.length - 1) &&& 0x7F))

/-- The loop of `__hif_pop_uint`. The shift `(cur & 0x7F) << i` is kept to 32 bits.
`none` is fuel used up. -/
def hif_pop_uint_loop (mem : List Nat) : Nat → iobuf_read → Nat → Nat → Option (Nat × iobuf_read)
  | 0, _, _, _ => none
  | fuel + 1, buf, val, i =>
    let r := iobuf_pop_u8 mem buf
    let cur := r.1
    let buf := r.2
    let val := (val ||| ((cur &&& 0x7F) <<< i)) % 4294967296
    let i := i + 7
    if i > 32 then some (0, { buf with err := true })
    else if cur &&& 0x80 ≠ 0 then hif_pop_uint_loop mem fuel buf val i
    else some (val, buf)

/-- Embedding of `__hif_pop_uint`: the loop ends at the fifth byte at the latest,
where `i` is 35. -/
def __hif_pop_uint (mem : List Nat) (buf : iobuf_read) : Option (Nat × iobuf_read) :=
  hif_pop_uint_loop mem 5 buf 0 0

/-- Embedding of `hif_pop_uint`. -/
def hif_pop_uint (mem : List Nat) (buf : iobuf_read) : Option (Nat × iobuf_read) :=
  __hif_pop_uint mem buf

/-- The C library function `strlen` on an array of bytes: the number of bytes before
the first 0 (the length of the array when it holds no 0, the cell after it reading
0). -/
def strlen (val : List Nat) : Nat := (val.takeWhile (fun c => decide (c % 256 ≠ 0))).length

/-- The C library function `strnlen` on the string at `s` in memory: the number of
bytes before the first 0 among the first `maxlen`. -/
def strnlen (mem : List Nat) (s maxlen : Nat) : Nat :=
  ((List.range maxlen).takeWhile (fun i => decide (byte_at mem (s + i) ≠ 0))).length

/-- Modelled from the spec: `iobuf_push_data` of common/iobuf.c (not under src/) for
a source array: the first `num` bytes of `val` are appended. -/
def iobuf_push_data (buf : List Nat) (val : List Nat) (num : Nat) : List Nat :=
  buf ++ memcpy_bytes val num

/-- Embedding of `hif_push_str`. -/
def hif_push_str (buf : List Nat) (val : List Nat) : List Nat :=
  iobuf_push_data buf val (strlen val + 1)

/-- Embedding of `hif_pop_str`: the pointer returned (`none` is `NULL`) and the
buffer after the call. The outer `none` is a read outside the memory modelled: a
`NULL` buffer, or `val[len - 1]` before the first cell. -/
def hif_pop_str (mem : List Nat) (buf : iobuf_read) : Option (Option Nat × iobuf_read) :=
  match iobuf_ptr buf with
  | none => none
  | some val =>
    let len := strnlen mem val (iobuf_remaining_size buf)
    if len = iobuf_remaining_size buf then
      if val + len = 0 then none
      else if byte_at mem (val + len - 1) ≠ 0 then some (none, { buf with err := true })
      else some (some val, { buf with cnt := buf.cnt + len + 1 })
    else some (some val, { buf with cnt := buf.cnt + len + 1 })

/-! ### common/dhcp_common.c and common/dhcp_server.c: DHCPv6 server -/

/-- Modelled from the spec: errno value EFAULT of the host libc (`errno.h`, not under src/). -/
def EFAULT : Int := 14

def DHCPV6_MSG_SOLICIT : Nat := 1
def DHCPV6_MSG_REPLY : Nat := 7
def DHCPV6_MSG_RELAY_FWD : Nat := 12
def DHCPV6_MSG_RELAY_REPLY : Nat := 13

def DHCPV6_OPT_CLIENT_ID : Nat := 0x0001
def DHCPV6_OPT_SERVER_ID : Nat := 0x0002
def DHCPV6_OPT_IA_NA : Nat := 0x0003
def DHCPV6_OPT_IA_ADDRESS : Nat := 0x0005
def DHCPV6_OPT_ELAPSED_TIME : Nat := 0x0008
def DHCPV6_OPT_RELAY : Nat := 0x0009
def DHCPV6_OPT_STATUS_CODE : Nat := 0x000d
def DHCPV6_OPT_RAPID_COMMIT : Nat := 0x000e
def DHCPV6_OPT_INTERFACE_ID : Nat := 0x0012

def DHCPV6_DUID_TYPE_LINK_LAYER : Nat := 0x0003
def DHCPV6_DUID_HW_TYPE_IEEE802 : Nat := 0x0006
def DHCPV6_DUID_HW_TYPE_EUI64 : Nat := 0x001b

/-- The value `UINT32_MAX` of `stdint.h`. -/
def UINT32_MAX : Nat := 4294967295

/-- The value `UINT16_MAX` of `stdint.h`. -/
def UINT16_MAX : Nat := 65535

/-- Modelled from the spec: `read_be16` of common/endian.h (not under src/). -/
def read_be16 (mem : List Nat) (p : Nat) : Nat :=
  256 * byte_at mem p + byte_at mem (p + 1)

/-- Modelled from the spec: `read_be24` of common/endian.h (not under src/). -/
def read_be24 (mem : List Nat) (p : Nat) : Nat :=
  65536 * byte_at mem p + 256 * byte_at mem (p + 1) + byte_at mem (p + 2)

/-- Modelled from the spec: `read_be32` of common/endian.h (not under src/). -/
def read_be32 (mem : List Nat) (p : Nat) : Nat :=
  16777216 * byte_at mem p + 65536 * byte_at mem (p + 1) + 256 * byte_at mem (p + 2)
    + byte_at mem (p + 3)

/-- Modelled from the spec: `write_be16` of common/endian.h (not under src/): the 2
bytes it stores. -/
def write_be16 (v : Nat) : List Nat := [v / 256 % 256, v % 256]

/-- Modelled from the spec: `write_be24` of common/endian.h (not under src/): the 3
bytes it stores. -/
def write_be24 (v : Nat) : List Nat := [v / 65536 % 256, v / 256 % 256, v % 256]

/-- Modelled from the spec: `write_be32` of common/endian.h (not under src/): the 4
bytes it stores. -/
def write_be32 (v : Nat) : List Nat :=
  [v / 16777216 % 256, v / 65536 % 256, v / 256 % 256, v % 256]

/-- Modelled from the spec: `iobuf_pop_be16` of common/iobuf.c (not under src/): 0
and the error flag when 2 bytes cannot be popped. -/
def iobuf_pop_be16 (mem : List Nat) (buf : iobuf_read) : Nat × iobuf_read :=
  let r := iobuf_pop_data_ptr buf 2
  (match r.1 with
   | none => 0
   | some p => read_be16 mem p, r.2)

/-- Modelled from the spec: `iobuf_pop_be24` of common/iobuf.c (not under src/). -/
def iobuf_pop_be24 (mem : List Nat) (buf : iobuf_read) : Nat × iobuf_read :=
  let r := iobuf_pop_data_ptr buf 3
  (match r.1 with
   | none => 0
   | some p => read_be24 mem p, r.2)

/-- Modelled from the spec: `iobuf_pop_be32` of common/iobuf.c (not under src/). -/
def iobuf_pop_be32 (mem : List Nat) (buf : iobuf_read) : Nat × iobuf_read :=
  let r := iobuf_pop_data_ptr buf 4
  (match r.1 with
   | none => 0
   | some p => read_be32 mem p, r.2)

/-- Modelled from the spec: `iobuf_push_be16` of common/iobuf.c (not under src/). -/
def iobuf_push_be16 (buf : List Nat) (v : Nat) : List Nat := buf ++ write_be16 v

/-- Modelled from the spec: `iobuf_push_be24` of common/iobuf.c (not under src/). -/
def iobuf_push_be24 (buf : List Nat) (v : Nat) : List Nat := buf ++ write_be24 v

/-- Modelled from the spec: `iobuf_push_be32` of common/iobuf.c (not under src/). -/
def iobuf_push_be32 (buf : List Nat) (v : Nat) : List Nat := buf ++ write_be32 v

/-- The result `dhcp_get_option` leaves in `option_payload` when it fails: the
structure is zeroed and its error flag set. -/
def dhcp_option_payload_err : iobuf_read :=
  { data_size := 0, data := none, cnt := 0, err := true }

/-- The loop of `dhcp_get_option` on the cursor `input`: the value returned and
`option_payload`. `none` is fuel used up. -/
def dhcp_get_option_loop (mem : List Nat) (option : Nat) :
    Nat → iobuf_read → Option (Int × iobuf_read)
  | 0, _ => none
  | fuel + 1, input =>
    if iobuf_remaining_size input ≠ 0 then
      let opt_type := (iobuf_pop_be16 mem input).1
      let input := (iobuf_pop_be16 mem input).2
      let opt_len := (iobuf_pop_be16 mem input).1
      let input := (iobuf_pop_be16 mem input).2
      if opt_type = option then
        match (iobuf_pop_data_ptr input opt_len).1 with
        | none => some (-EINVAL, dhcp_option_payload_err)
        | some p =>
          some ((opt_len : Int), { data_size := opt_len, data := some p, cnt := 0, err := false })
      else dhcp_get_option_loop mem option fuel (iobuf_pop_data_ptr input opt_len).2
    else some (-ENOENT, dhcp_option_payload_err)

/-- Embedding of `dhcp_get_option`: the value returned and `option_payload` after the
call. Each turn of the loop takes bytes from the input or sets its error flag, so
that `len + 1` turns are enough; `none` is fuel used up. -/
def dhcp_get_option (mem : List Nat) (data : Option Nat) (len option : Nat) :
    Option (Int × iobuf_read) :=
  dhcp_get_option_loop mem (option % 65536) (len + 1)
    { data_size := len, data := data, cnt := 0, err := false }

/-- Embedding of `dhcp_opt_push`: the offset returned and the buffer. -/
def dhcp_opt_push (buf : List Nat) (opt : Nat) : Nat × List Nat :=
  let buf := iobuf_push_be16 buf opt
  let offset := buf.length
  (offset, iobuf_push_be16 buf 0)

/-- Embedding of `dhcp_opt_fill`; `none` is an abort of `BUG_ON`. -/
def dhcp_opt_fill (buf : List Nat) (offset : Nat) : Option (List Nat) :=
  let len := buf.length - offset - 2
  if byte_at buf offset ≠ 0 then none
  else if len > UINT16_MAX then none
  else some ((buf.set offset ((write_be16 len).getD 0 0)).set (offset + 1)
    ((write_be16 len).getD 1 0))

/-- Embedding of `dhcp_fill_client_id`; `hwaddr` is `none` for `NULL` and else the
array pointed to; `none` is an abort of `BUG_ON`. -/
def dhcp_fill_client_id (buf : List Nat) (hwaddr_type : Nat) (hwaddr : Option (List Nat)) :
    Option (List Nat) :=
  match hwaddr with
  | none => none
  | some hwaddr =>
    if hwaddr_type ≠ DHCPV6_DUID_HW_TYPE_EUI64 ∧ hwaddr_type ≠ DHCPV6_DUID_HW_TYPE_IEEE802 then
      none
    else
      let len_offset := (dhcp_opt_push buf DHCPV6_OPT_CLIENT_ID).1
      let buf := (dhcp_opt_push buf DHCPV6_OPT_CLIENT_ID).2
      let buf := iobuf_push_be16 buf DHCPV6_DUID_TYPE_LINK_LAYER
      let buf := iobuf_push_be16 buf hwaddr_type
      let buf := iobuf_push_data buf hwaddr 8
      dhcp_opt_fill buf len_offset

/-- Embedding of `dhcp_fill_rapid_commit`. -/
def dhcp_fill_rapid_commit (buf : List Nat) : Option (List Nat) :=
  let len_offset := (dhcp_opt_push buf DHCPV6_OPT_RAPID_COMMIT).1
  dhcp_opt_fill (dhcp_opt_push buf DHCPV6_OPT_RAPID_COMMIT).2 len_offset

/-- Embedding of `dhcp_fill_identity_association`; `ipv6` is `none` for `NULL`. -/
def dhcp_fill_identity_association (buf : List Nat) (ia_id : Nat) (ipv6 : Option (List Nat))
    (preferred_lifetime valid_lifetime : Nat) : Option (List Nat) :=
  let len_offset := (dhcp_opt_push buf DHCPV6_OPT_IA_NA).1
  let buf := (dhcp_opt_push buf DHCPV6_OPT_IA_NA).2
  let buf := iobuf_push_be32 buf ia_id
  let buf := iobuf_push_be32 buf 0
  let buf := iobuf_push_be32 buf 0
  match ipv6 with
  | some ipv6 =>
    let addr_len_offset := (dhcp_opt_push buf DHCPV6_OPT_IA_ADDRESS).1
    let buf := (dhcp_opt_push buf DHCPV6_OPT_IA_ADDRESS).2
    let buf := iobuf_push_data buf ipv6 16
    let buf := iobuf_push_be32 buf preferred_lifetime
    let buf := iobuf_push_be32 buf valid_lifetime
    match dhcp_opt_fill buf addr_len_offset with
    | none => none
    | some buf => dhcp_opt_fill buf len_offset
  | none => dhcp_opt_fill buf len_offset

/-- Embedding of `dhcp_fill_server_id` of dhcp_common.c. -/
def dhcp_fill_server_id (buf : List Nat) (eui64 : List Nat) : Option (List Nat) :=
  let len_offset := (dhcp_opt_push buf DHCPV6_OPT_SERVER_ID).1
  let buf := (dhcp_opt_push buf DHCPV6_OPT_SERVER_ID).2
  let buf := iobuf_push_be16 buf DHCPV6_DUID_TYPE_LINK_LAYER
  let buf := iobuf_push_be16 buf DHCPV6_DUID_HW_TYPE_EUI64
  let buf := iobuf_push_data buf eui64 8
  dhcp_opt_fill buf len_offset

/-- Embedding of `dhcp_get_client_hwaddr`, which dhcp_server.c and dhcp_common.c
both define with the same body: the value returned and `*hwaddr`, a pointer into the
request (left as it was, here `none`, when the function fails). `none` is fuel used
up in `dhcp_get_option`. -/
def dhcp_get_client_hwaddr (mem : List Nat) (req : Option Nat) (req_len : Nat) :
    Option (Int × Option Nat) :=
  match dhcp_get_option mem req req_len DHCPV6_OPT_CLIENT_ID with
  | none => none
  | some r =>
    let opt := r.2
    if opt.err then some (-EINVAL, none)
    else
      let duid_type := (iobuf_pop_be16 mem opt).1
      let opt := (iobuf_pop_be16 mem opt).2
      let ll_type := (iobuf_pop_be16 mem opt).1
      let opt := (iobuf_pop_be16 mem opt).2
      if duid_type ≠ DHCPV6_DUID_TYPE_LINK_LAYER ∨
          (ll_type ≠ DHCPV6_DUID_HW_TYPE_EUI64 ∧ ll_type ≠ DHCPV6_DUID_HW_TYPE_IEEE802) then
        some (-ENOTSUP, none)
      else
        let hwaddr := (iobuf_pop_data_ptr opt 8).1
        let opt := (iobuf_pop_data_ptr opt 8).2
        if opt.err then some (-EINVAL, hwaddr)
        else some ((ll_type : Int), hwaddr)

/-- Embedding of `dhcp_check_status_code`. -/
def dhcp_check_status_code (mem : List Nat) (req : Option Nat) (req_len : Nat) : Option Int :=
  match dhcp_get_option mem req req_len DHCPV6_OPT_STATUS_CODE with
  | none => none
  | some r =>
    if r.2.err then some 0
    else if (iobuf_pop_be16 mem r.2).1 ≠ 0 then some (-EFAULT)
    else some 0

/-- Embedding of `dhcp_check_rapid_commit`, which dhcp_server.c and dhcp_common.c
both define with the same body. -/
def dhcp_check_rapid_commit (mem : List Nat) (req : Option Nat) (req_len : Nat) : Option Int :=
  match dhcp_get_option mem req req_len DHCPV6_OPT_RAPID_COMMIT with
  | none => none
  | some r => if r.2.err then some (-ENOTSUP) else some 0

/-- Embedding of `dhcp_check_elapsed_time`. -/
def dhcp_check_elapsed_time (mem : List Nat) (req : Option Nat) (req_len : Nat) : Option Int :=
  match dhcp_get_option mem req req_len DHCPV6_OPT_ELAPSED_TIME with
  | none => none
  | some r => if r.2.err then some (-EINVAL) else some 0

/-- Embedding of `dhcp_get_identity_association_id`. -/
def dhcp_get_identity_association_id (mem : List Nat) (req : Option Nat) (req_len : Nat) :
    Option Nat :=
  match dhcp_get_option mem req req_len DHCPV6_OPT_IA_NA with
  | none => none
  | some r =>
    let ia_id := (iobuf_pop_be32 mem r.2).1
    if (iobuf_pop_be32 mem r.2).2.err then some UINT32_MAX
    else some ia_id

/-- Modelled from the spec: the fields of `struct dhcp_server` of
common/dhcp_server.h (not under src/) that the request handler uses. -/
structure dhcp_server where
  hwaddr : List Nat
  prefix_ : List Nat
  preferred_lifetime : Nat
  valid_lifetime : Nat
deriving DecidableEq, Repr

/-- Embedding of the static function `dhcp_fill_server_id` of dhcp_server.c, which
has the name of the function of dhcp_common.c. -/
def dhcp_server_fill_server_id (dhcp : dhcp_server) (reply : List Nat) : List Nat :=
  let reply := iobuf_push_be16 reply DHCPV6_OPT_SERVER_ID
  let reply := iobuf_push_be16 reply (2 + 2 + 8)
  let reply := iobuf_push_be16 reply DHCPV6_DUID_TYPE_LINK_LAYER
  let reply := iobuf_push_be16 reply DHCPV6_DUID_HW_TYPE_EUI64
  iobuf_push_data reply dhcp.hwaddr 8

/-- Modelled from the spec: `iobuf_push_data` of common/iobuf.c (not under src/) for
a pointer into memory: `none` is a copy from `NULL`, which aborts the process. -/
def iobuf_push_data_ptr (buf : List Nat) (mem : List Nat) (val : Option Nat) (num : Nat) :
    Option (List Nat) :=
  match val with
  | none => none
  | some p => some (iobuf_push_data buf (mem.drop p) num)

/-- The address `dhcp_handle_request` builds in `ipv6`: the 8 bytes of the prefix of
the server, then the 8 bytes at `hwaddr`, bit 0x02 of the first one inverted. -/
def dhcp_ipv6_addr (dhcp : dhcp_server) (hwaddr : List Nat) : List Nat :=
  let ipv6 := memcpy_bytes dhcp.prefix_ 8 ++ memcpy_bytes hwaddr 8
  ipv6.set 8 (byte_at ipv6 8 ^^^ 0x02)

mutual

/-- Embedding of `dhcp_handle_request_fwd`: the value returned and the reply. The
outer `none` is fuel used up; the inner `none` is an abort of the process, by a copy
from `NULL` or by `BUG_ON`. -/
def dhcp_handle_request_fwd (mem : List Nat) (dhcp : dhcp_server) :
    Nat → iobuf_read → List Nat → Option (Option (Int × List Nat))
  | 0, _, _ => none
  | fuel + 1, req, reply =>
    let hopcount := (iobuf_pop_u8 mem req).1
    let req := (iobuf_pop_u8 mem req).2
    let linkaddr := (iobuf_pop_data_ptr req 16).1
    let req := (iobuf_pop_data_ptr req 16).2
    let peeraddr := (iobuf_pop_data_ptr req 16).1
    let req := (iobuf_pop_data_ptr req 16).2
    let reply := iobuf_push_u8 reply DHCPV6_MSG_RELAY_REPLY
    let reply := iobuf_push_u8 reply hopcount
    match iobuf_push_data_ptr reply mem linkaddr 16 with
    | none => some none
    | some reply =>
      match iobuf_push_data_ptr reply mem peeraddr 16 with
      | none => some none
      | some reply =>
        match dhcp_get_option mem (iobuf_ptr req) (iobuf_remaining_size req)
            DHCPV6_OPT_INTERFACE_ID with
        | none => none
        | some r_interface_id =>
          let opt_interface_id := r_interface_id.2
          match (if r_interface_id.1 > 0 then
              iobuf_push_data_ptr
                (iobuf_push_be16 (iobuf_push_be16 reply DHCPV6_OPT_INTERFACE_ID)
                  opt_interface_id.data_size)
                mem opt_interface_id.data opt_interface_id.data_size
            else some reply) with
          | none => some none
          | some reply =>
            match dhcp_get_option mem (iobuf_ptr req) (iobuf_remaining_size req)
                DHCPV6_OPT_RELAY with
            | none => none
            | some r_relay =>
              if r_relay.1 < 0 then some (some (-EINVAL, reply))
              else
                match dhcp_handle_request mem dhcp fuel r_relay.2 [] with
                | none => none
                | some none => some none
                | some (some relay) =>
                  if relay.1 ≠ 0 then some (some (-EINVAL, reply))
                  else
                    let relay_reply := relay.2
                    let reply := iobuf_push_be16 reply DHCPV6_OPT_RELAY
                    let reply := iobuf_push_be16 reply relay_reply.length
                    let reply := iobuf_push_data reply relay_reply relay_reply.length
                    some (some (0, reply))

/-- Embedding of `dhcp_handle_request`: the value returned and the reply. The outer
`none` is fuel used up; the inner `none` is an abort of the process. -/
def dhcp_handle_request (mem : List Nat) (dhcp : dhcp_server) :
    Nat → iobuf_read → List Nat → Option (Option (Int × List Nat))
  | 0, _, _ => none
  | fuel + 1, req, reply =>
    let msg_type := (iobuf_pop_u8 mem req).1
    let req := (iobuf_pop_u8 mem req).2
    if msg_type = DHCPV6_MSG_RELAY_FWD then dhcp_handle_request_fwd mem dhcp fuel req reply
    else if msg_type ≠ DHCPV6_MSG_SOLICIT then some (some (-EINVAL, reply))
    else
      let transaction := (iobuf_pop_be24 mem req).1
      let req := (iobuf_pop_be24 mem req).2
      match dhcp_check_status_code mem (iobuf_ptr req) (iobuf_remaining_size req) with
      | none => none
      | some status =>
        if status ≠ 0 then some (some (-EINVAL, reply))
        else
          match dhcp_check_rapid_commit mem (iobuf_ptr req) (iobuf_remaining_size req) with
          | none => none
          | some rapid =>
            if rapid ≠ 0 then some (some (-EINVAL, reply))
            else
              match dhcp_check_elapsed_time mem (iobuf_ptr req) (iobuf_remaining_size req) with
              | none => none
              | some elapsed =>
                if elapsed ≠ 0 then some (some (-EINVAL, reply))
                else
                  match dhcp_get_identity_association_id mem (iobuf_ptr req)
                      (iobuf_remaining_size req) with
                  | none => none
                  | some iaid =>
                    if iaid = UINT32_MAX then some (some (-EINVAL, reply))
                    else
                      match dhcp_get_client_hwaddr mem (iobuf_ptr req)
                          (iobuf_remaining_size req) with
                      | none => none
                      | some r_hwaddr =>
                        let hwaddr_type := r_hwaddr.1
                        let hwaddr := r_hwaddr.2
                        if hwaddr_type < 0 then some (some (-EINVAL, reply))
                        else
                          match hwaddr with
                          | none => some none
                          | some hwaddr =>
                            let ipv6 := dhcp_ipv6_addr dhcp (mem.drop hwaddr)
                            let reply := iobuf_push_u8 reply DHCPV6_MSG_REPLY
                            let reply := iobuf_push_be24 reply transaction
                            let reply := dhcp_server_fill_server_id dhcp reply
                            match dhcp_fill_client_id reply hwaddr_type.toNat
                                (some (mem.drop hwaddr)) with
                            | none => some none
                            | some reply =>
                              match dhcp_fill_identity_association reply iaid (some ipv6)
                                  dhcp.preferred_lifetime dhcp.valid_lifetime with
                              | none => some none
                              | some reply =>
                                match dhcp_fill_rapid_commit reply with
                                | none => some none
                                | some reply => some (some (0, reply))

end

/-! ### DHCPv6: wire format of a well-formed option list, and examples -/

/-- The bytes of a DHCPv6 option with the code `o.1` and the content `o.2`: code and
length of the content on 16 bits each, most significant byte first, then the
content. -/
def dhcp_opt_bytes (o : Nat × List Nat) : List Nat :=
  write_be16 o.1 ++ write_be16 o.2.length ++ o.2

/-- The bytes of a well-formed list of DHCPv6 options. -/
def dhcp_opts_bytes : List (Nat × List Nat) → List Nat
  | [] => []
  | o :: opts => dhcp_opt_bytes o ++ dhcp_opts_bytes opts

/-- Example: a DHCPv6 server. -/
def dhcp_server_example : dhcp_server :=
  { hwaddr := [1, 2, 3, 4, 5, 6, 7, 8], prefix_ := [0x20, 1, 0xd, 0xb8, 0, 0, 0, 0],
    preferred_lifetime := 1800, valid_lifetime := 3600 }

/-- Example: the options of a Solicit: Rapid Commit, Elapsed Time, the IA_NA options
given, and a Client ID with a link-layer DUID of hardware type EUI-64. -/
def dhcp_solicit_opts_example (ia_na : List (Nat × List Nat)) : List (Nat × List Nat) :=
  [(DHCPV6_OPT_RAPID_COMMIT, []), (DHCPV6_OPT_ELAPSED_TIME, [0, 0])] ++ ia_na ++
    [(DHCPV6_OPT_CLIENT_ID, [0, 3, 0, 0x1b, 0x11, 0x12, 0x13, 0x14, 0x15, 0x16, 0x17, 0x18])]

/-- Example: a Solicit with the transaction id aa bb cc and the options of
`dhcp_solicit_opts_example`. -/
def dhcp_solicit_example (ia_na : List (Nat × List Nat)) : List Nat :=
  [DHCPV6_MSG_SOLICIT, 0xaa, 0xbb, 0xcc] ++ dhcp_opts_bytes (dhcp_solicit_opts_example ia_na)

/-- Example: a Relay-forward with hop count 3, link and peer addresses of 16 bytes
each, an Interface ID option and a Relay Message option that holds `inner`. -/
def dhcp_relay_example (inner : List Nat) : List Nat :=
  [DHCPV6_MSG_RELAY_FWD, 3] ++ List.replicate 32 7 ++
    dhcp_opts_bytes [(DHCPV6_OPT_INTERFACE_ID, [9, 9]), (DHCPV6_OPT_RELAY, inner)]

/-- The read cursor at the start of a message that fills the memory. -/
def dhcp_req (msg : List Nat) : iobuf_read :=
  { data_size := msg.length, data := some 0, cnt := 0, err := false }

/-! ### 6lbr/ws/ws_bbr_api.c: routing table -/

/-- Modelled from the spec: the field of `struct rpl_target` (rpl/rpl.h of the border
router, not under src/) that the routing table uses: the 16 bytes of the prefix. -/
structure rpl_target where
  prefix_ : List Nat
deriving DecidableEq, Repr

/-- Modelled from the spec: the field of `struct rpl_transit` (rpl/rpl.h of the border
router, not under src/) that the routing table uses: the 16 bytes of the address of
the parent. -/
structure rpl_transit where
  parent : List Nat
deriving DecidableEq, Repr

/-- Modelled from the spec: `bbr_route_info_t` of ws/ws_bbr_api.h (not under src/):
two arrays of 8 bytes. -/
structure bbr_route_info_t where
  parent : List Nat
  target : List Nat
deriving DecidableEq, Repr

/-- The loop of `ws_bbr_routing_table_get` over the targets that are left: `cnt` and
the stores made into `table_ptr` so far, each with the index of the entry stored.
`rpl_transit_preferred` (rpl/rpl.c of the border router, not under src/) gives the
preferred transit of a target, `none` for `NULL`. -/
def ws_bbr_routing_table_get_loop (rpl_transit_preferred : rpl_target → Option rpl_transit)
    (table_len : Nat) :
    List rpl_target → Nat → List (Nat × bbr_route_info_t) → Nat × List (Nat × bbr_route_info_t)
  | [], cnt, stores => (cnt, stores)
  | target :: targets, cnt, stores =>
    match rpl_transit_preferred target with
    | none => ws_bbr_routing_table_get_loop rpl_transit_preferred table_len targets cnt stores
    | some transit =>
      let stores := stores ++
        [(cnt, { target := memcpy_bytes (target.prefix_.drop 8) 8,
                 parent := memcpy_bytes (transit.parent.drop 8) 8 })]
      let cnt := cnt + 1
      if cnt ≥ table_len then (cnt, stores)
      else ws_bbr_routing_table_get_loop rpl_transit_preferred table_len targets cnt stores

/-- Embedding of `ws_bbr_routing_table_get`: the value returned and the stores made
into `table_ptr`, in order; `targets` is the list `g_ctxt.rpl_root.targets`. -/
def ws_bbr_routing_table_get (rpl_transit_preferred : rpl_target → Option rpl_transit)
    (targets : List rpl_target) (table_len : Nat) : Nat × List (Nat × bbr_route_info_t) :=
  ws_bbr_routing_table_get_loop rpl_transit_preferred (table_len % 65536) targets 0 []

/-- Example: one target, whose preferred transit is given by
`rpl_transit_preferred_example`. -/
def rpl_targets_example : List rpl_target :=
  [{ prefix_ := [0x20, 1, 0xd, 0xb8, 0, 0, 0, 0, 1, 2, 3, 4, 5, 6, 7, 8] }]

/-- Example: every target has the same preferred transit. -/
def rpl_transit_preferred_example (_ : rpl_target) : Option rpl_transit :=
  some { parent := [0x20, 1, 0xd, 0xb8, 0, 0, 0, 0, 11, 12, 13, 14, 15, 16, 17, 18] }

/-! ### app_wsrd/ipv6/rpl.c: DIO reception and preferred parent -/

/-- Modelled from the spec: RPL constants of common/specs/rpl.h (not under src/). -/
def RPL_MASK_INSTANCE_ID_TYPE : Nat := 0x80
/-- Modelled from the spec: RPL constant of common/specs/rpl.h (not under src/). -/
def RPL_INSTANCE_ID_TYPE_LOCAL : Nat := 1
/-- Modelled from the spec: RPL constant of common/specs/rpl.h (not under src/). -/
def RPL_MASK_DIO_G : Nat := 0x80
/-- Modelled from the spec: RPL constant of common/specs/rpl.h (not under src/). -/
def RPL_MASK_DIO_MOP : Nat := 0x38
/-- Modelled from the spec: RPL constant of common/specs/rpl.h (not under src/). -/
def RPL_MOP_NON_STORING : Nat := 1
/-- Modelled from the spec: RPL constant of common/specs/rpl.h (not under src/). -/
def RPL_OPT_PAD1 : Nat := 0
/-- Modelled from the spec: RPL constant of common/specs/rpl.h (not under src/). -/
def RPL_OPT_PADN : Nat := 1
/-- Modelled from the spec: RPL constant of common/specs/rpl.h (not under src/). -/
def RPL_OPT_CONFIG : Nat := 4
/-- Modelled from the spec: RPL constant of common/specs/rpl.h (not under src/). -/
def RPL_OPT_PREFIX : Nat := 8
/-- Modelled from the spec: RPL constant of common/specs/rpl.h (not under src/). -/
def RPL_MASK_OPT_PREFIX_R : Nat := 0x20
/-- Modelled from the spec: RPL constant of common/specs/rpl.h (not under src/). -/
def RPL_OCP_MRHOF : Nat := 1

/-- Modelled from the spec: size of the packed `struct rpl_dio_base` of
app_wsrd/ipv6/rpl_pkt.h (not under src/): instance_id, dodag_verno, rank (2 bytes),
g_mop_prf, dtsn, flags, reserved and the 16 bytes of dodag_id. -/
def sizeof_rpl_dio_base : Nat := 24
/-- Modelled from the spec: size of the packed `struct rpl_opt` (type, len). -/
def sizeof_rpl_opt : Nat := 2
/-- Modelled from the spec: size of the packed `struct rpl_opt_config`, whose field
`ocp` is at offset 8. -/
def sizeof_rpl_opt_config : Nat := 14
/-- Modelled from the spec: size of the packed `struct rpl_opt_prefix`: prefix_len,
flags, three fields of 4 bytes, and the 16 bytes of the prefix at offset 14. -/
def sizeof_rpl_opt_prefix_t : Nat := 30

/-- The glibc test `IN6_IS_ADDR_LINKLOCAL`: the address starts with fe80::/10. -/
def IN6_IS_ADDR_LINKLOCAL (a : List Nat) : Bool :=
  decide (byte_at a 0 = 0xfe) && decide (byte_at a 1 &&& 0xc0 = 0x80)

/-- Modelled from the spec: `ipv6_addr_conv_iid_eui64` of app_wsrd/ipv6/ipv6_addr.h
(not under src/): the 8 bytes of the source with bit 0x02 of the first one
inverted. -/
def ipv6_addr_conv_iid_eui64 (src : List Nat) : List Nat :=
  (memcpy_bytes src 8).set 0 (byte_at src 0 ^^^ 0x02)

/-- Embedding of `ipv6_neigh_get`: the position in the cache of the first entry with
the address `gua`, `none` for `NULL`. -/
def ipv6_neigh_get (ipv6 : ipv6_ctx) (gua : List Nat) : Option Nat :=
  ipv6.neigh_cache.findIdx? (fun neigh => decide (neigh.gua = gua))

/-- Embedding of `ipv6_neigh_add`: the new entry is the head of the cache, position 0.
One unit of fuel is enough for `ipv6_nud_set_state` with the state REACHABLE. -/
def ipv6_neigh_add (ipv6 : ipv6_ctx) (gua eui64 : List Nat) : Option ipv6_ctx :=
  let neigh : ipv6_neigh :=
    { gua := gua, eui64 := memcpy_bytes eui64 8, nud_state := 0, nud_probe_count := 0,
      nud_timer := none, rpl_neigh := false }
  ipv6_nud_set_state 1
    { addr_uc_global := ipv6.addr_uc_global, neigh_cache := neigh :: ipv6.neigh_cache,
      probe_delay_ms := ipv6.probe_delay_ms, reach_base_ms := ipv6.reach_base_ms,
      reach_ms := ipv6.reach_ms, calls := ipv6.calls } 0 IPV6_NUD_REACHABLE

/-- Store of the field `rpl_neigh` of an entry of the neighbor cache. -/
def set_rpl_neigh (ipv6 : ipv6_ctx) (nce : Nat) (rpl_neigh : Bool) : ipv6_ctx :=
  set_neigh_at ipv6 nce
    { gua := (neigh_at ipv6 nce).gua, eui64 := (neigh_at ipv6 nce).eui64,
      nud_state := (neigh_at ipv6 nce).nud_state,
      nud_probe_count := (neigh_at ipv6 nce).nud_probe_count,
      nud_timer := (neigh_at ipv6 nce).nud_timer, rpl_neigh := rpl_neigh }

/-- Embedding of `rpl_neigh_add`; `none` is an abort of `BUG_ON`. The content of the
`struct rpl_neigh` allocated is not part of the model. -/
def rpl_neigh_add (ipv6 : ipv6_ctx) (nce : Nat) : Option ipv6_ctx :=
  if (neigh_at ipv6 nce).rpl_neigh then none
  else some (set_rpl_neigh ipv6 nce true)

/-- Embedding of `rpl_neigh_del`. -/
def rpl_neigh_del (ipv6 : ipv6_ctx) (nce : Nat) : ipv6_ctx :=
  set_rpl_neigh ipv6 nce false

/-- Embedding of `rpl_neigh_pref_parent`: the position of the first entry of the
cache with an `rpl_neigh`, `none` for `NULL`. -/
def rpl_neigh_pref_parent (ipv6 : ipv6_ctx) : Option Nat :=
  ipv6.neigh_cache.findIdx? (fun nce => nce.rpl_neigh)

/-- The way the option loop of `rpl_recv_dio` ends: by a jump to `malformed` or
`drop_neigh`, with the value `prefix` has then, or at the end of the options, with
the cursor and the options found. -/
inductive rpl_dio_opts where
  | drop_neigh (prefix_ : Option Nat)
  | done (iobuf : iobuf_read) (config : Option Nat) (prefix_ : Option Nat)
deriving DecidableEq, Repr

/-- The option loop of `rpl_recv_dio`; `config` and `prefix_` are the pointers
`config` and `prefix`. The outer `none` is fuel used up, the inner `none` a read at
`NULL`. -/
def rpl_recv_dio_opts (mem : List Nat) :
    Nat → iobuf_read → Option Nat → Option Nat → Option (Option rpl_dio_opts)
  | 0, _, _, _ => none
  | fuel + 1, iobuf, config, prefix_ =>
    if iobuf_remaining_size iobuf ≠ 0 then
      match iobuf_ptr iobuf with
      | none => some none
      | some opt =>
        if byte_at mem opt = RPL_OPT_PAD1 then
          rpl_recv_dio_opts mem fuel (iobuf_pop_u8 mem iobuf).2 config prefix_
        else
          match (iobuf_pop_data_ptr iobuf sizeof_rpl_opt).1 with
          | none => some (some (rpl_dio_opts.drop_neigh prefix_))
          | some _ =>
            let iobuf := (iobuf_pop_data_ptr iobuf sizeof_rpl_opt).2
            let len := byte_at mem (opt + 1)
            match (iobuf_pop_data_ptr iobuf len).1 with
            | none => some (some (rpl_dio_opts.drop_neigh prefix_))
            | some _ =>
              let iobuf := (iobuf_pop_data_ptr iobuf len).2
              if byte_at mem opt = RPL_OPT_PADN then
                rpl_recv_dio_opts mem fuel iobuf config prefix_
              else if byte_at mem opt = RPL_OPT_CONFIG then
                if len < sizeof_rpl_opt_config then
                  some (some (rpl_dio_opts.drop_neigh prefix_))
                else rpl_recv_dio_opts mem fuel iobuf (some (opt + sizeof_rpl_opt)) prefix_
              else if byte_at mem opt = RPL_OPT_PREFIX then
                if len < sizeof_rpl_opt_prefix_t then
                  some (some (rpl_dio_opts.drop_neigh prefix_))
                else
                  let prefix_ := opt + sizeof_rpl_opt
                  if byte_at mem prefix_ > 128 then
                    some (some (rpl_dio_opts.drop_neigh (some prefix_)))
                  else if FIELD_GET RPL_MASK_OPT_PREFIX_R (byte_at mem (prefix_ + 1)) = 0 then
                    some (some (rpl_dio_opts.drop_neigh (some prefix_)))
                  else rpl_recv_dio_opts mem fuel iobuf config (some prefix_)
              else rpl_recv_dio_opts mem fuel iobuf config prefix_
    else some (some (rpl_dio_opts.done iobuf config prefix_))

/-- The labels `malformed` and `drop_neigh` of `rpl_recv_dio`: the RPL state of the
neighbor with the address of the prefix option is deleted. `none` is the read of
`prefix->prefix` when `prefix` is `NULL`. -/
def rpl_recv_dio_drop_neigh (mem : List Nat) (ipv6 : ipv6_ctx) (prefix_ : Option Nat) :
    Option ipv6_ctx :=
  match prefix_ with
  | none => none
  | some p =>
    let addr := memcpy_bytes (mem.drop (p + 14)) 16
    match ipv6_neigh_get ipv6 addr with
    | none => some ipv6
    | some nce => if (neigh_at ipv6 nce).rpl_neigh then some (rpl_neigh_del ipv6 nce) else some ipv6

/-- The neighbor of a DIO in `rpl_recv_dio`: the entry of the cache with the address
`addr` of the prefix option, which is added to the cache when it is not there, with
the EUI-64 derived from the source address. `none` is an abort in `ipv6_neigh_add`. -/
def rpl_recv_dio_neigh (ipv6 : ipv6_ctx) (addr src : List Nat) : Option (ipv6_ctx × Nat) :=
  match ipv6_neigh_get ipv6 addr with
  | some nce => some (ipv6, nce)
  | none =>
    (ipv6_neigh_add ipv6 addr (ipv6_addr_conv_iid_eui64 (src.drop 8))).map (fun c => (c, 0))

/-- The end of `rpl_recv_dio`, for a DIO that has passed the checks: `p` is the
pointer `prefix`. The neighbor with the address of the prefix option is looked up, or
added; when it has no RPL state, the DIO is dropped if a preferred parent exists, and
else the neighbor gets an RPL state and the callback `on_pref_parent_change` is
called. `none` is an abort of `BUG_ON`. -/
def rpl_recv_dio_accept (mem : List Nat)
    (on_pref_parent_change : Option (ipv6_ctx → Nat → ipv6_ctx)) (ipv6 : ipv6_ctx) (p : Nat)
    (src : List Nat) : Option ipv6_ctx :=
  match rpl_recv_dio_neigh ipv6 (memcpy_bytes (mem.drop (p + 14)) 16) src with
  | none => none
  | some (ipv6, nce) =>
    if ¬ (neigh_at ipv6 nce).rpl_neigh then
      if (rpl_neigh_pref_parent ipv6).isSome then rpl_recv_dio_drop_neigh mem ipv6 (some p)
      else
        match rpl_neigh_add ipv6 nce with
        | none => none
        | some ipv6 =>
          match on_pref_parent_change with
          | some callback => some (callback ipv6 nce)
          | none => some ipv6
    else some ipv6

/-- Embedding of `rpl_recv_dio`: the context after the call. `on_pref_parent_change`
is the callback `ipv6->rpl.on_pref_parent_change`, `none` for `NULL`. The option loop
takes at least one byte a turn, so that `buf_len + 1` turns are enough. The outer
`none` is fuel used up; the inner `none` is an abort of the process, by a read at
`NULL` or by `BUG_ON`. -/
def rpl_recv_dio (mem : List Nat) (on_pref_parent_change : Option (ipv6_ctx → Nat → ipv6_ctx))
    (ipv6 : ipv6_ctx) (buf buf_len : Nat) (src : List Nat) : Option (Option ipv6_ctx) :=
  let iobuf : iobuf_read := { data_size := buf_len, data := some buf, cnt := 0, err := false }
  if ¬ IN6_IS_ADDR_LINKLOCAL src then some (some ipv6)
  else
    match (iobuf_pop_data_ptr iobuf sizeof_rpl_dio_base).1 with
    | none => some (rpl_recv_dio_drop_neigh mem ipv6 none)
    | some dio_base =>
      let iobuf := (iobuf_pop_data_ptr iobuf sizeof_rpl_dio_base).2
      if FIELD_GET RPL_MASK_INSTANCE_ID_TYPE (byte_at mem dio_base) = RPL_INSTANCE_ID_TYPE_LOCAL then
        some (rpl_recv_dio_drop_neigh mem ipv6 none)
      else if FIELD_GET RPL_MASK_DIO_G (byte_at mem (dio_base + 4)) = 0 then
        some (rpl_recv_dio_drop_neigh mem ipv6 none)
      else if FIELD_GET RPL_MASK_DIO_MOP (byte_at mem (dio_base + 4)) ≠ RPL_MOP_NON_STORING then
        some (rpl_recv_dio_drop_neigh mem ipv6 none)
      else
        match rpl_recv_dio_opts mem (buf_len + 1) iobuf none none with
        | none => none
        | some none => some none
        | some (some (rpl_dio_opts.drop_neigh prefix_)) =>
          some (rpl_recv_dio_drop_neigh mem ipv6 prefix_)
        | some (some (rpl_dio_opts.done iobuf config prefix_)) =>
          if iobuf.err then some (rpl_recv_dio_drop_neigh mem ipv6 prefix_)
          else
            match config with
            | none => some (rpl_recv_dio_drop_neigh mem ipv6 prefix_)
            | some config =>
              if read_be16 mem (config + 8) ≠ RPL_OCP_MRHOF then
                some (rpl_recv_dio_drop_neigh mem ipv6 prefix_)
              else
                match prefix_ with
                | none => some (rpl_recv_dio_drop_neigh mem ipv6 none)
                | some p => some (rpl_recv_dio_accept mem on_pref_parent_change ipv6 p src)

/-- Example: a DIO of a global instance, grounded, in non-storing mode, with a DODAG
Configuration option for the objective function MRHOF and a Prefix Information
option with the flag R for the address given. -/
def rpl_dio_example (addr : List Nat) : List Nat :=
  [0x1e, 0, 0, 1, 0x88, 0, 0, 0] ++ List.replicate 16 0 ++
  [RPL_OPT_CONFIG, 14, 0, 0, 0, 0, 0, 0, 0, 0, 0, 1, 0, 0, 0, 0] ++
  [RPL_OPT_PREFIX, 30, 64, 0x20, 0, 0, 0, 0, 0, 0, 0, 0, 0, 0, 0, 0] ++ addr

/-- Example: a neighbor cache with one entry, which is the preferred parent. -/
def rpl_ctx_example : ipv6_ctx :=
  { addr_uc_global := List.replicate 16 0,
    neigh_cache :=
      [{ gua := [0x20, 1, 0xd, 0xb8, 0, 0, 0, 0, 0, 0, 0, 0, 0, 0, 0, 2],
         eui64 := [1, 2, 3, 4, 5, 6, 7, 8], nud_state := 1, nud_probe_count := 0,
         nud_timer := some 20000, rpl_neigh := true }],
    probe_delay_ms := 1000, reach_base_ms := 30000, reach_ms := 20000, calls := [] }

/-- Example: a link-local source address. -/
def rpl_src_example : List Nat := [0xfe, 0x80, 0, 0, 0, 0, 0, 0, 2, 0, 0, 0, 0, 0, 0, 9]

/-- The routing table entries of the targets that have a preferred transit, in the
order of the list: for each one the last 8 bytes of the prefix of the target and the
last 8 bytes of the address of the parent of the transit. -/
def ws_bbr_routing_table_entries (rpl_transit_preferred : rpl_target → Option rpl_transit)
    (targets : List rpl_target) : List bbr_route_info_t :=
  targets.filterMap (fun target =>
    (rpl_transit_preferred target).map (fun transit =>
      { target := memcpy_bytes (target.prefix_.drop 8) 8,
        parent := memcpy_bytes (transit.parent.drop 8) 8 }))

/-! ## Theorems -/



/-! ### Bit fields -/

theorem shiftRight_and (a b s : Nat) : (a &&& b) >>> s = (a >>> s) &&& (b >>> s) := by
  apply Nat.eq_of_testBit_eq
  intro j
  simp [Nat.testBit_shiftRight, Nat.testBit_and]

theorem FIELD_GET_eq (k s mask reg : Nat) (hs : ctz mask = s) (hm : mask >>> s = 2 ^ k - 1) :
    FIELD_GET mask reg = reg / 2 ^ s % 2 ^ k := by
  unfold FIELD_GET
  rw [hs, shiftRight_and, hm, Nat.and_pow_two_sub_one_eq_mod, Nat.shiftRight_eq_div_pow]

theorem fcf_frame_type (r : Nat) : FIELD_GET IEEE802154_MASK_FCF_FRAME_TYPE r = r % 8 := by
  simpa using FIELD_GET_eq 3 0 IEEE802154_MASK_FCF_FRAME_TYPE r (by decide) (by decide)

theorem fcf_secured (r : Nat) : FIELD_GET IEEE802154_MASK_FCF_SECURED r = r / 8 % 2 := by
  simpa using FIELD_GET_eq 1 3 IEEE802154_MASK_FCF_SECURED r (by decide) (by decide)

theorem fcf_ack_req (r : Nat) : FIELD_GET IEEE802154_MASK_FCF_ACK_REQ r = r / 32 % 2 := by
  simpa using FIELD_GET_eq 1 5 IEEE802154_MASK_FCF_ACK_REQ r (by decide) (by decide)

theorem fcf_pan_id_cmpr (r : Nat) : FIELD_GET IEEE802154_MASK_FCF_PAN_ID_CMPR r = r / 64 % 2 := by
  simpa using FIELD_GET_eq 1 6 IEEE802154_MASK_FCF_PAN_ID_CMPR r (by decide) (by decide)

theorem fcf_del_seqno (r : Nat) : FIELD_GET IEEE802154_MASK_FCF_DEL_SEQNO r = r / 256 % 2 := by
  simpa using FIELD_GET_eq 1 8 IEEE802154_MASK_FCF_DEL_SEQNO r (by decide) (by decide)

theorem fcf_has_ie (r : Nat) : FIELD_GET IEEE802154_MASK_FCF_HAS_IE r = r / 512 % 2 := by
  simpa using FIELD_GET_eq 1 9 IEEE802154_MASK_FCF_HAS_IE r (by decide) (by decide)

theorem fcf_dst_addr_mode (r : Nat) :
    FIELD_GET IEEE802154_MASK_FCF_DST_ADDR_MODE r = r / 1024 % 4 := by
  simpa using FIELD_GET_eq 2 10 IEEE802154_MASK_FCF_DST_ADDR_MODE r (by decide) (by decide)

theorem fcf_frame_version (r : Nat) :
    FIELD_GET IEEE802154_MASK_FCF_FRAME_VERSION r = r / 4096 % 4 := by
  simpa using FIELD_GET_eq 2 12 IEEE802154_MASK_FCF_FRAME_VERSION r (by decide) (by decide)

theorem fcf_src_addr_mode (r : Nat) :
    FIELD_GET IEEE802154_MASK_FCF_SRC_ADDR_MODE r = r / 16384 % 4 := by
  simpa using FIELD_GET_eq 2 14 IEEE802154_MASK_FCF_SRC_ADDR_MODE r (by decide) (by decide)

theorem sechdr_level (r : Nat) : FIELD_GET IEEE802154_MASK_SECHDR_LEVEL r = r % 8 := by
  simpa using FIELD_GET_eq 3 0 IEEE802154_MASK_SECHDR_LEVEL r (by decide) (by decide)

theorem sechdr_key_id_mode (r : Nat) :
    FIELD_GET IEEE802154_MASK_SECHDR_KEY_ID_MODE r = r / 8 % 4 := by
  simpa using FIELD_GET_eq 2 3 IEEE802154_MASK_SECHDR_KEY_ID_MODE r (by decide) (by decide)

theorem sechdr_del_framectr (r : Nat) :
    FIELD_GET IEEE802154_MASK_SECHDR_DEL_FRAMECTR r = r / 32 % 2 := by
  simpa using FIELD_GET_eq 1 5 IEEE802154_MASK_SECHDR_DEL_FRAMECTR r (by decide) (by decide)

/-! ### iobuf -/

theorem iobuf_pop_data_ptr_err (buf : iobuf_read) (n : Nat) (h : buf.err = true) :
    (iobuf_pop_data_ptr buf n).2.err = true := by
  simp [iobuf_pop_data_ptr, h]

theorem iobuf_pop_data_ptr_remaining (buf : iobuf_read) (n : Nat) :
    iobuf_remaining_size (iobuf_pop_data_ptr buf n).2 + n ≤ iobuf_remaining_size buf ∨
      iobuf_remaining_size (iobuf_pop_data_ptr buf n).2 = 0 := by
  unfold iobuf_pop_data_ptr
  by_cases he : buf.err = true
  · right; simp [he, iobuf_remaining_size]
  · by_cases hn : iobuf_remaining_size buf < n
    · right
      simp only [iobuf_remaining_size, he, if_false, Bool.false_eq_true] at hn
      simp [he, hn, iobuf_remaining_size]
    · left
      simp only [he, hn, if_false, Bool.false_eq_true]
      simp only [iobuf_remaining_size, he, if_false, Bool.false_eq_true] at hn ⊢
      omega

theorem iobuf_pop_le16_eq (mem : List Nat) (buf : iobuf_read) :
    (iobuf_pop_le16 mem buf).2 = (iobuf_pop_data_ptr buf 2).2 := by
  rfl

/-- Fuel adequacy of the IE search: more iterations than bytes left always reach a
return statement. -/
theorem ieee802154_ie_find_loop_isSome (mem : List Nat) (ie_type id_mask len_mask ie_id : Nat) :
    ∀ (fuel : Nat) (input : iobuf_read), iobuf_remaining_size input < fuel →
      (ieee802154_ie_find_loop mem ie_type id_mask len_mask ie_id fuel input).isSome = true := by
  intro fuel
  induction fuel with
  | zero => intro input h; omega
  | succ n ih =>
    intro input h
    unfold ieee802154_ie_find_loop
    by_cases h0 : iobuf_remaining_size input = 0
    · simp [h0]
    · simp only [h0, if_false]
      split_ifs with h1 h2
      · rfl
      · split <;> rfl
      · apply ih
        have h3 := iobuf_pop_data_ptr_remaining (iobuf_pop_le16 mem input).2
          (FIELD_GET len_mask (iobuf_pop_le16 mem input).1)
        have h4 := iobuf_pop_data_ptr_remaining input 2
        rw [iobuf_pop_le16_eq] at h3
        rw [iobuf_pop_le16_eq]
        omega


/-! ### iobuf: symbolic execution of the pops -/

theorem pop_data_ptr_ok (n c k : Nat) (h : c + k ≤ n) :
    iobuf_pop_data_ptr { data_size := n, data := some 0, cnt := c, err := false } k =
      (some c, { data_size := n, data := some 0, cnt := c + k, err := false }) := by
  have h1 : ¬ (n - c < k) := by omega
  simp [iobuf_pop_data_ptr, iobuf_remaining_size, iobuf_ptr, h1]

theorem pop_data_ptr_short (n c k : Nat) (hc : c ≤ n) (h : n < c + k) :
    iobuf_pop_data_ptr { data_size := n, data := some 0, cnt := c, err := false } k =
      (none, { data_size := n, data := some 0, cnt := c, err := true }) := by
  have h1 : n - c < k := by omega
  simp [iobuf_pop_data_ptr, iobuf_remaining_size, h1]

theorem pop_data_ptr_err (n : Nat) (d : Option Nat) (c k : Nat) :
    iobuf_pop_data_ptr { data_size := n, data := d, cnt := c, err := true } k =
      (none, { data_size := n, data := d, cnt := c, err := true }) := by
  simp [iobuf_pop_data_ptr]

theorem pop_u8_ok (mem : List Nat) (n c : Nat) (h : c + 1 ≤ n) :
    iobuf_pop_u8 mem { data_size := n, data := some 0, cnt := c, err := false } =
      (byte_at mem c, { data_size := n, data := some 0, cnt := c + 1, err := false }) := by
  simp [iobuf_pop_u8, pop_data_ptr_ok n c 1 h]

theorem pop_u8_short (mem : List Nat) (n c : Nat) (hc : c ≤ n) (h : n < c + 1) :
    iobuf_pop_u8 mem { data_size := n, data := some 0, cnt := c, err := false } =
      (0, { data_size := n, data := some 0, cnt := c, err := true }) := by
  simp [iobuf_pop_u8, pop_data_ptr_short n c 1 hc h]

theorem pop_u8_err (mem : List Nat) (n : Nat) (d : Option Nat) (c : Nat) :
    iobuf_pop_u8 mem { data_size := n, data := d, cnt := c, err := true } =
      (0, { data_size := n, data := d, cnt := c, err := true }) := by
  simp [iobuf_pop_u8, pop_data_ptr_err]

theorem pop_le16_ok (mem : List Nat) (n c : Nat) (h : c + 2 ≤ n) :
    iobuf_pop_le16 mem { data_size := n, data := some 0, cnt := c, err := false } =
      (read_le16 mem c, { data_size := n, data := some 0, cnt := c + 2, err := false }) := by
  simp [iobuf_pop_le16, pop_data_ptr_ok n c 2 h]

theorem pop_le16_short (mem : List Nat) (n c : Nat) (hc : c ≤ n) (h : n < c + 2) :
    iobuf_pop_le16 mem { data_size := n, data := some 0, cnt := c, err := false } =
      (0, { data_size := n, data := some 0, cnt := c, err := true }) := by
  simp [iobuf_pop_le16, pop_data_ptr_short n c 2 hc h]

theorem pop_le16_err (mem : List Nat) (n : Nat) (d : Option Nat) (c : Nat) :
    iobuf_pop_le16 mem { data_size := n, data := d, cnt := c, err := true } =
      (0, { data_size := n, data := d, cnt := c, err := true }) := by
  simp [iobuf_pop_le16, pop_data_ptr_err]

theorem pop_le32_ok (mem : List Nat) (n c : Nat) (h : c + 4 ≤ n) :
    iobuf_pop_le32 mem { data_size := n, data := some 0, cnt := c, err := false } =
      (read_le32 mem c, { data_size := n, data := some 0, cnt := c + 4, err := false }) := by
  simp [iobuf_pop_le32, pop_data_ptr_ok n c 4 h]

theorem pop_le32_short (mem : List Nat) (n c : Nat) (hc : c ≤ n) (h : n < c + 4) :
    iobuf_pop_le32 mem { data_size := n, data := some 0, cnt := c, err := false } =
      (0, { data_size := n, data := some 0, cnt := c, err := true }) := by
  simp [iobuf_pop_le32, pop_data_ptr_short n c 4 hc h]

theorem pop_le32_err (mem : List Nat) (n : Nat) (d : Option Nat) (c : Nat) :
    iobuf_pop_le32 mem { data_size := n, data := d, cnt := c, err := true } =
      (0, { data_size := n, data := d, cnt := c, err := true }) := by
  simp [iobuf_pop_le32, pop_data_ptr_err]

theorem pop_le64_ok (mem : List Nat) (n c : Nat) (h : c + 8 ≤ n) :
    iobuf_pop_le64 mem { data_size := n, data := some 0, cnt := c, err := false } =
      (read_le64 mem c, { data_size := n, data := some 0, cnt := c + 8, err := false }) := by
  simp [iobuf_pop_le64, pop_data_ptr_ok n c 8 h]

theorem pop_le64_short (mem : List Nat) (n c : Nat) (hc : c ≤ n) (h : n < c + 8) :
    iobuf_pop_le64 mem { data_size := n, data := some 0, cnt := c, err := false } =
      (0, { data_size := n, data := some 0, cnt := c, err := true }) := by
  simp [iobuf_pop_le64, pop_data_ptr_short n c 8 hc h]

theorem pop_le64_err (mem : List Nat) (n : Nat) (d : Option Nat) (c : Nat) :
    iobuf_pop_le64 mem { data_size := n, data := d, cnt := c, err := true } =
      (0, { data_size := n, data := d, cnt := c, err := true }) := by
  simp [iobuf_pop_le64, pop_data_ptr_err]

/-! ### Frame parser: stages -/

theorem table_find_row (p : pan_id_cmpr_row → Bool) (row : pan_id_cmpr_row)
    (h : ieee802154_table_pan_id_cmpr.get? (table_find p ieee802154_table_pan_id_cmpr 0) = some row) :
    row.has_dst_pan_id = false ∧ row.src_addr_mode = MAC_ADDR_MODE_64_BIT := by
  simp only [ieee802154_table_pan_id_cmpr, table_find] at h
  split_ifs at h <;> simp at h <;> subst h <;> exact ⟨rfl, rfl⟩

theorem frame_parse_ies_ret (frame : List Nat) (fcf : Nat) (iobuf : iobuf_read)
    (hdr : ieee802154_hdr) (ieh0 iep0 : iobuf_read) :
    (frame_parse_ies frame fcf iobuf hdr ieh0 iep0).ret = 0 ∨
      (frame_parse_ies frame fcf iobuf hdr ieh0 iep0).ret < 0 := by
  generalize hr : frame_parse_ies frame fcf iobuf hdr ieh0 iep0 = r
  unfold frame_parse_ies at hr
  lift_lets at hr
  extract_lets ie at hr
  split_ifs at hr with h4 h5
  · subst hr; exact Or.inr h4
  · subst hr; exact Or.inr (show (-EINVAL : Int) < 0 by decide)
  · subst hr; exact Or.inl rfl

theorem frame_parse_tail_ret (frame : List Nat) (fcf : Nat) (iobuf : iobuf_read)
    (hdr : ieee802154_hdr) (ieh0 iep0 : iobuf_read) :
    (frame_parse_tail frame fcf iobuf hdr ieh0 iep0).ret = 0 ∨
      (frame_parse_tail frame fcf iobuf hdr ieh0 iep0).ret < 0 := by
  generalize hr : frame_parse_tail frame fcf iobuf hdr ieh0 iep0 = r
  unfold frame_parse_tail at hr
  lift_lets at hr
  extract_lets hdr6 sec at hr
  split_ifs at hr with h3
  · subst hr; exact Or.inr h3
  · subst hr; exact frame_parse_ies_ret _ _ _ _ _ _

theorem frame_parse_addr_ret (frame : List Nat) (fcf : Nat) (iobuf : iobuf_read)
    (hdr : ieee802154_hdr) (ieh0 iep0 : iobuf_read) :
    ∃ out, frame_parse_addr frame fcf iobuf hdr ieh0 iep0 = some out ∧
      (out.ret = 0 ∨ out.ret < 0) := by
  unfold frame_parse_addr
  split
  · exact ⟨_, rfl, Or.inr (show (-ENOTSUP : Int) < 0 by decide)⟩
  · rename_i row hrow
    have hr := table_find_row _ row (by unfold frame_parse_addr_index at hrow; exact hrow)
    simp only [hr.1, hr.2, ne_eq, not_true_eq_false, if_false, Bool.false_eq_true]
    exact ⟨_, rfl, frame_parse_tail_ret _ _ _ _ _ _⟩

theorem frame_parse_ret_le (frame : List Nat) (hdr0 : ieee802154_hdr) (ieh0 iep0 : iobuf_read) :
    ∃ out, ieee802154_frame_parse frame hdr0 ieh0 iep0 = some out ∧ (out.ret = 0 ∨ out.ret < 0) := by
  unfold ieee802154_frame_parse
  lift_lets
  extract_lets iobuf r0 fcf hdr1 hdr2 ds r1 hdr3
  split_ifs with h1 h2
  · exact ⟨_, rfl, Or.inr (show (-ENOTSUP : Int) < 0 by decide)⟩
  · exact ⟨_, rfl, Or.inr (show (-ENOTSUP : Int) < 0 by decide)⟩
  · exact frame_parse_addr_ret _ _ _ _ _ _

theorem table_find_ok (dm sm : Nat) (c : Bool)
    (h : sm = MAC_ADDR_MODE_64_BIT ∧ (dm = MAC_ADDR_MODE_NONE ∨ (dm = MAC_ADDR_MODE_64_BIT ∧ c = true))) :
    ieee802154_table_pan_id_cmpr.get? (table_find (fun row => row.dst_addr_mode == dm &&
        row.src_addr_mode == sm && row.pan_id_cmpr == c) ieee802154_table_pan_id_cmpr 0) =
      some { dst_addr_mode := dm, src_addr_mode := MAC_ADDR_MODE_64_BIT, has_dst_pan_id := false,
             has_src_pan_id := !c, pan_id_cmpr := c } := by
  obtain ⟨rfl, h | ⟨rfl, rfl⟩⟩ := h
  · subst h; cases c <;> decide
  · decide

theorem table_find_none (dm sm : Nat) (c : Bool)
    (h : ¬ (sm = MAC_ADDR_MODE_64_BIT ∧ (dm = MAC_ADDR_MODE_NONE ∨ (dm = MAC_ADDR_MODE_64_BIT ∧ c = true)))) :
    ieee802154_table_pan_id_cmpr.get? (table_find (fun row => row.dst_addr_mode == dm &&
        row.src_addr_mode == sm && row.pan_id_cmpr == c) ieee802154_table_pan_id_cmpr 0) = none := by
  simp only [ieee802154_table_pan_id_cmpr, table_find, MAC_ADDR_MODE_NONE, MAC_ADDR_MODE_64_BIT] at h ⊢
  cases c <;> simp at h ⊢ <;> split_ifs <;> simp_all <;> omega


theorem frame_parse_addr_ok (frame : List Nat) (fcf c : Nat) (hdr : ieee802154_hdr)
    (ieh0 iep0 : iobuf_read) (ha : fcf_addr_ok fcf)
    (hlen : c + fcf_dst_len fcf + fcf_pan_len fcf + 8 ≤ frame.length) :
    frame_parse_addr frame fcf (frame_cursor frame.length c false) hdr ieh0 iep0 =
      some (frame_parse_tail frame fcf
        (frame_cursor frame.length (c + fcf_dst_len fcf + fcf_pan_len fcf + 8) false)
        { hdr with
          dst := if FIELD_GET IEEE802154_MASK_FCF_DST_ADDR_MODE fcf = MAC_ADDR_MODE_64_BIT
            then write_be64 (read_le64 frame c) else ieee802154_addr_bc
          pan_id := if FIELD_GET IEEE802154_MASK_FCF_PAN_ID_CMPR fcf ≠ 0 then 0xffff
            else read_le16 frame (c + fcf_dst_len fcf)
          src := write_be64 (read_le64 frame (c + fcf_dst_len fcf + fcf_pan_len fcf)) }
        ieh0 iep0) := by
  unfold frame_parse_addr frame_parse_addr_index
  simp only []
  rw [table_find_ok _ _ _ (by
    obtain ⟨h1, h2⟩ := ha
    refine ⟨h1, ?_⟩
    rcases h2 with h2 | ⟨h2, h3⟩
    · exact Or.inl h2
    · exact Or.inr ⟨h2, by simpa using h3⟩)]
  simp only [Bool.false_eq_true, if_false, ne_eq, not_true_eq_false]
  unfold fcf_dst_len fcf_pan_len at hlen ⊢
  unfold frame_cursor
  obtain ⟨h1, h2⟩ := ha
  by_cases hd : FIELD_GET IEEE802154_MASK_FCF_DST_ADDR_MODE fcf = MAC_ADDR_MODE_64_BIT <;>
  by_cases hp : FIELD_GET IEEE802154_MASK_FCF_PAN_ID_CMPR fcf = 0 <;>
  simp only [hd, hp, if_true, if_false, ne_eq, not_true_eq_false, not_false_eq_true,
    decide_True, decide_False, Bool.not_true, Bool.not_false, Bool.false_eq_true] at hlen ⊢ <;>
  simp (disch := omega) only [pop_le64_ok, pop_le16_ok, Nat.add_zero]

theorem frame_parse_top (frame : List Nat) (hdr0 : ieee802154_hdr) (ieh0 iep0 : iobuf_read)
    (hlen : 2 ≤ frame.length) (ht : fcf_type_ok (read_le16 frame 0)) :
    ieee802154_frame_parse frame hdr0 ieh0 iep0 =
      frame_parse_addr frame (read_le16 frame 0)
        (if FIELD_GET IEEE802154_MASK_FCF_DEL_SEQNO (read_le16 frame 0) ≠ 0
          then frame_cursor frame.length 2 false
          else frame_cursor frame.length (if 3 ≤ frame.length then 3 else 2)
            (decide (frame.length < 3)))
        { hdr0 with
          frame_type := FIELD_GET IEEE802154_MASK_FCF_FRAME_TYPE (read_le16 frame 0)
          ack_req := decide (FIELD_GET IEEE802154_MASK_FCF_ACK_REQ (read_le16 frame 0) ≠ 0)
          seqno := if FIELD_GET IEEE802154_MASK_FCF_DEL_SEQNO (read_le16 frame 0) ≠ 0 then -1
            else if 3 ≤ frame.length then (byte_at frame 2 : Int) else 0 }
        ieh0 iep0 := by
  unfold ieee802154_frame_parse
  simp only []
  rw [pop_le16_ok frame frame.length 0 (by omega)]
  simp only []
  obtain ⟨ht1, ht2⟩ := ht
  have h1 : ¬ (FIELD_GET IEEE802154_MASK_FCF_FRAME_TYPE (read_le16 frame 0) ≠ IEEE802154_FRAME_TYPE_DATA ∧
      FIELD_GET IEEE802154_MASK_FCF_FRAME_TYPE (read_le16 frame 0) ≠ IEEE802154_FRAME_TYPE_ACK) := by
    rcases ht1 with h | h <;> simp [h]
  rw [if_neg h1, if_neg (by simpa using ht2)]
  unfold frame_cursor
  by_cases hd : FIELD_GET IEEE802154_MASK_FCF_DEL_SEQNO (read_le16 frame 0) = 0
  · by_cases h3 : 3 ≤ frame.length
    · simp (disch := omega) only [hd, h3, ne_eq, not_true_eq_false, if_false, if_true, pop_u8_ok,
        Nat.zero_add]
      simp [show ¬ frame.length < 3 by omega]
    · simp (disch := omega) only [hd, h3, ne_eq, not_true_eq_false, if_false, pop_u8_short,
        Nat.zero_add]
      simp [show frame.length < 3 by omega]
  · simp only [hd, ne_eq, not_false_eq_true, if_true, Nat.zero_add]

theorem fcf_hdr_len_ge (fcf : Nat) : 10 ≤ fcf_hdr_len fcf := by
  unfold fcf_hdr_len; omega

theorem frame_parse_hdr_ok (frame : List Nat) (hdr0 : ieee802154_hdr) (ieh0 iep0 : iobuf_read)
    (ht : fcf_type_ok (read_le16 frame 0)) (ha : fcf_addr_ok (read_le16 frame 0))
    (hlen : fcf_hdr_len (read_le16 frame 0) ≤ frame.length) :
    ieee802154_frame_parse frame hdr0 ieh0 iep0 =
      some (frame_parse_tail frame (read_le16 frame 0)
        (frame_cursor frame.length (fcf_hdr_len (read_le16 frame 0)) false)
        (parsed_addr_hdr frame hdr0) ieh0 iep0) := by
  have h10 := fcf_hdr_len_ge (read_le16 frame 0)
  rw [frame_parse_top frame hdr0 ieh0 iep0 (by omega) ht]
  unfold fcf_hdr_len at hlen
  unfold parsed_addr_hdr fcf_hdr_len
  by_cases hd : FIELD_GET IEEE802154_MASK_FCF_DEL_SEQNO (read_le16 frame 0) = 0
  · have h3 : 3 ≤ frame.length := by omega
    have hs : fcf_seqno_len (read_le16 frame 0) = 1 := by simp [fcf_seqno_len, hd]
    rw [hs] at hlen ⊢
    simp only [hd, ne_eq, not_true_eq_false, if_false, h3, if_true,
      show decide (frame.length < 3) = false by simpa using h3]
    rw [frame_parse_addr_ok frame _ 3 _ ieh0 iep0 ha (by omega)]
    simp only [hd, hs, ne_eq, not_true_eq_false, if_false, Nat.add_sub_cancel]
  · have hs : fcf_seqno_len (read_le16 frame 0) = 0 := by simp [fcf_seqno_len, hd]
    rw [hs] at hlen ⊢
    simp only [hd, ne_eq, not_false_eq_true, if_true]
    rw [frame_parse_addr_ok frame _ 2 _ ieh0 iep0 ha (by omega)]
    simp only [hd, hs, ne_eq, not_false_eq_true, if_true, Nat.add_sub_cancel, Nat.add_zero]

theorem iobuf_pop_le16_err (mem : List Nat) (buf : iobuf_read) (h : buf.err = true) :
    (iobuf_pop_le16 mem buf).2.err = true := by
  rw [iobuf_pop_le16_eq]; exact iobuf_pop_data_ptr_err buf 2 h

theorem iobuf_pop_le64_err (mem : List Nat) (buf : iobuf_read) (h : buf.err = true) :
    (iobuf_pop_le64 mem buf).2.err = true :=
  iobuf_pop_data_ptr_err buf 8 h

theorem iobuf_pop_u8_err (mem : List Nat) (buf : iobuf_read) (h : buf.err = true) :
    (iobuf_pop_u8 mem buf).2.err = true :=
  iobuf_pop_data_ptr_err buf 1 h

theorem iobuf_pop_u8_err_val (mem : List Nat) (buf : iobuf_read) (h : buf.err = true) :
    (iobuf_pop_u8 mem buf).1 = 0 := by
  simp [iobuf_pop_u8, iobuf_pop_data_ptr, h]

/-- The error flag is sticky through `ieee802154_frame_parse_ie`. -/
theorem frame_parse_ie_err (mem : List Nat) (buf : iobuf_read) (h : buf.err = true) :
    (ieee802154_frame_parse_ie mem buf).iobuf.err = true := by
  generalize hr : ieee802154_frame_parse_ie mem buf = r
  unfold ieee802154_frame_parse_ie at hr
  lift_lets at hr
  extract_lets f1 ret f2 iobuf_ie hsize hh ie_header iobuf1 f3 ret3 psize q ie_payload iobuf2 at hr
  have hh_err : hh.2.err = true := iobuf_pop_data_ptr_err buf hsize h
  have h1 : iobuf1.err = true := by
    show (if ret = 0 ∨ f2.1 = 0 then (iobuf_pop_le16 mem hh.2).2 else hh.2).err = true
    split_ifs
    · exact iobuf_pop_le16_err mem _ hh_err
    · exact hh_err
  have hq : q.2.err = true := iobuf_pop_data_ptr_err iobuf1 psize h1
  have h2 : iobuf2.err = true := by
    show (if ret3 = 0 then (iobuf_pop_le16 mem q.2).2 else q.2).err = true
    split_ifs
    · exact iobuf_pop_le16_err mem _ hq
    · exact hq
  split_ifs at hr <;> subst hr <;> assumption

theorem frame_parse_ies_err (frame : List Nat) (fcf : Nat) (buf : iobuf_read)
    (hdr : ieee802154_hdr) (ieh0 iep0 : iobuf_read) (h : buf.err = true) :
    (frame_parse_ies frame fcf buf hdr ieh0 iep0).ret < 0 := by
  generalize hr : frame_parse_ies frame fcf buf hdr ieh0 iep0 = r
  unfold frame_parse_ies at hr
  lift_lets at hr
  extract_lets ie at hr
  have hie : ie.iobuf.err = true := by
    show (if FIELD_GET IEEE802154_MASK_FCF_HAS_IE fcf ≠ 0 then ieee802154_frame_parse_ie frame buf
      else { ret := 0, iobuf := buf, ie_header := ieh0, ie_payload := iep0 }).iobuf.err = true
    split_ifs
    · exact frame_parse_ie_err frame buf h
    · exact h
  split_ifs at hr with h4
  · subst hr; exact h4
  · subst hr; exact (show (-EINVAL : Int) < 0 by decide)

/-- The error flag is sticky through `ieee802154_frame_parse_sec`. -/
theorem frame_parse_sec_err (mem : List Nat) (buf : iobuf_read) (hdr : ieee802154_hdr)
    (h : buf.err = true) : (ieee802154_frame_parse_sec mem buf hdr).ret = -ENOTSUP := by
  unfold ieee802154_frame_parse_sec
  simp only [iobuf_pop_u8_err_val mem buf h]
  rw [if_pos (by decide)]

theorem frame_parse_tail_err (frame : List Nat) (fcf : Nat) (buf : iobuf_read)
    (hdr : ieee802154_hdr) (ieh0 iep0 : iobuf_read) (h : buf.err = true) :
    (frame_parse_tail frame fcf buf hdr ieh0 iep0).ret < 0 := by
  unfold frame_parse_tail
  simp only []
  by_cases hs : FIELD_GET IEEE802154_MASK_FCF_SECURED fcf = 0
  · simp only [hs, ne_eq, not_true_eq_false, if_false, lt_self_iff_false]
    exact frame_parse_ies_err _ _ _ _ _ _ h
  · simp only [hs, ne_eq, not_false_eq_true, if_true, frame_parse_sec_err frame buf _ h]
    rw [if_pos (by decide)]
    exact (show (-ENOTSUP : Int) < 0 by decide)

theorem frame_parse_addr_short (frame : List Nat) (fcf c : Nat) (e : Bool) (hdr : ieee802154_hdr)
    (ieh0 iep0 : iobuf_read) (ha : fcf_addr_ok fcf) (hc : c ≤ frame.length)
    (h : e = true ∨ frame.length < c + fcf_dst_len fcf + fcf_pan_len fcf + 8) :
    ∃ b h', frame_parse_addr frame fcf (frame_cursor frame.length c e) hdr ieh0 iep0 =
      some (frame_parse_tail frame fcf b h' ieh0 iep0) ∧ b.err = true := by
  unfold frame_parse_addr frame_parse_addr_index
  simp only []
  rw [table_find_ok _ _ _ (by
    obtain ⟨h1, h2⟩ := ha
    refine ⟨h1, ?_⟩
    rcases h2 with h2 | ⟨h2, h3⟩
    · exact Or.inl h2
    · exact Or.inr ⟨h2, by simpa using h3⟩)]
  simp only [Bool.false_eq_true, if_false, ne_eq, not_true_eq_false]
  refine ⟨_, _, rfl, ?_⟩
  unfold frame_cursor
  cases e with
  | true =>
    apply iobuf_pop_le64_err
    have h2 : ∀ (x : Nat × iobuf_read), x.2.err = true →
        (if (!decide ¬FIELD_GET IEEE802154_MASK_FCF_PAN_ID_CMPR fcf = 0) = true
          then iobuf_pop_le16 frame x.2 else (65535, x.2)).2.err = true := by
      intro x hx
      split_ifs
      · exact iobuf_pop_le16_err frame _ hx
      · exact hx
    apply h2
    split_ifs
    · exact iobuf_pop_le64_err frame _ rfl
    · rfl
  | false =>
    have h' : frame.length < c + fcf_dst_len fcf + fcf_pan_len fcf + 8 := by
      rcases h with h | h
      · exact absurd h (by decide)
      · exact h
    unfold fcf_dst_len fcf_pan_len at h'
    by_cases hd : FIELD_GET IEEE802154_MASK_FCF_DST_ADDR_MODE fcf = MAC_ADDR_MODE_64_BIT <;>
    by_cases hp : FIELD_GET IEEE802154_MASK_FCF_PAN_ID_CMPR fcf = 0 <;>
    simp only [hd, hp, if_true, if_false, ne_eq, not_true_eq_false, not_false_eq_true,
      decide_True, decide_False, Bool.not_true, Bool.not_false, Bool.false_eq_true] at h' ⊢
    · by_cases q1 : c + 8 ≤ frame.length
      · by_cases q2 : c + 8 + 2 ≤ frame.length
        · simp (disch := omega) only [pop_le64_ok, pop_le16_ok, pop_le64_short]
        · simp (disch := omega) only [pop_le64_ok, pop_le16_short, pop_le64_err]
      · simp (disch := omega) only [pop_le64_short, pop_le16_err, pop_le64_err]
    · by_cases q1 : c + 8 ≤ frame.length
      · simp (disch := omega) only [pop_le64_ok, pop_le64_short]
      · simp (disch := omega) only [pop_le64_short, pop_le64_err]
    · by_cases q2 : c + 2 ≤ frame.length
      · simp (disch := omega) only [pop_le16_ok, pop_le64_short]
      · simp (disch := omega) only [pop_le16_short, pop_le64_err]
    · simp (disch := omega) only [pop_le64_short]

/-- A frame shorter than its frame control field announces reaches the security
header with the error flag of its cursor set. -/
theorem frame_parse_short_tail (frame : List Nat) (hdr0 : ieee802154_hdr) (ieh0 iep0 : iobuf_read)
    (ht : fcf_type_ok (read_le16 frame 0)) (ha : fcf_addr_ok (read_le16 frame 0))
    (h2 : 2 ≤ frame.length) (hlen : frame.length < fcf_hdr_len (read_le16 frame 0)) :
    ∃ b h', ieee802154_frame_parse frame hdr0 ieh0 iep0 =
      some (frame_parse_tail frame (read_le16 frame 0) b h' ieh0 iep0) ∧ b.err = true := by
  rw [frame_parse_top frame hdr0 ieh0 iep0 h2 ht]
  unfold fcf_hdr_len fcf_seqno_len at hlen
  by_cases hd : FIELD_GET IEEE802154_MASK_FCF_DEL_SEQNO (read_le16 frame 0) = 0
  · simp only [hd, ne_eq, not_true_eq_false, if_false] at hlen ⊢
    by_cases h3 : 3 ≤ frame.length
    · obtain ⟨b, h', he, hb⟩ := frame_parse_addr_short frame (read_le16 frame 0) 3 false
        { hdr0 with
          frame_type := FIELD_GET IEEE802154_MASK_FCF_FRAME_TYPE (read_le16 frame 0)
          ack_req := decide (FIELD_GET IEEE802154_MASK_FCF_ACK_REQ (read_le16 frame 0) ≠ 0)
          seqno := (byte_at frame 2 : Int) } ieh0 iep0 ha h3 (Or.inr (by omega))
      simp only [h3, if_true, show decide (frame.length < 3) = false by simpa using h3]
      simp only [ne_eq] at he
      rw [he]
      exact ⟨b, h', rfl, hb⟩
    · obtain ⟨b, h', he, hb⟩ := frame_parse_addr_short frame (read_le16 frame 0) 2 true
        { hdr0 with
          frame_type := FIELD_GET IEEE802154_MASK_FCF_FRAME_TYPE (read_le16 frame 0)
          ack_req := decide (FIELD_GET IEEE802154_MASK_FCF_ACK_REQ (read_le16 frame 0) ≠ 0)
          seqno := 0 } ieh0 iep0 ha h2 (Or.inl rfl)
      simp only [h3, if_false, show decide (frame.length < 3) = true by simpa using h3]
      simp only [ne_eq] at he
      rw [he]
      exact ⟨b, h', rfl, hb⟩
  · simp only [hd, ne_eq, not_false_eq_true, if_true] at hlen ⊢
    obtain ⟨b, h', he, hb⟩ := frame_parse_addr_short frame (read_le16 frame 0) 2 false
        { hdr0 with
          frame_type := FIELD_GET IEEE802154_MASK_FCF_FRAME_TYPE (read_le16 frame 0)
          ack_req := decide (FIELD_GET IEEE802154_MASK_FCF_ACK_REQ (read_le16 frame 0) ≠ 0)
          seqno := -1 } ieh0 iep0 ha h2 (Or.inr (by omega))
    simp only [ne_eq] at he
    rw [he]
    exact ⟨b, h', rfl, hb⟩

/-- A frame shorter than its frame control field announces is not accepted. -/
theorem frame_parse_short (frame : List Nat) (hdr0 : ieee802154_hdr) (ieh0 iep0 : iobuf_read)
    (ht : fcf_type_ok (read_le16 frame 0)) (ha : fcf_addr_ok (read_le16 frame 0))
    (h2 : 2 ≤ frame.length) (hlen : frame.length < fcf_hdr_len (read_le16 frame 0)) :
    ∃ out, ieee802154_frame_parse frame hdr0 ieh0 iep0 = some out ∧ out.ret < 0 := by
  obtain ⟨b, h', he, hb⟩ := frame_parse_short_tail frame hdr0 ieh0 iep0 ht ha h2 hlen
  exact ⟨_, he, frame_parse_tail_err _ _ _ _ _ _ hb⟩

theorem frame_parse_tail_sec (frame : List Nat) (fcf : Nat) (iobuf : iobuf_read)
    (hdr : ieee802154_hdr) (ieh0 iep0 : iobuf_read)
    (hs : FIELD_GET IEEE802154_MASK_FCF_SECURED fcf ≠ 0) :
    frame_parse_tail frame fcf iobuf hdr ieh0 iep0 =
      if (ieee802154_frame_parse_sec frame iobuf { hdr with key_index := 0 }).ret < 0 then
        { ret := (ieee802154_frame_parse_sec frame iobuf { hdr with key_index := 0 }).ret,
          hdr := (ieee802154_frame_parse_sec frame iobuf { hdr with key_index := 0 }).hdr,
          ie_header := ieh0, ie_payload := iep0 }
      else frame_parse_ies frame fcf
        (ieee802154_frame_parse_sec frame iobuf { hdr with key_index := 0 }).iobuf
        (ieee802154_frame_parse_sec frame iobuf { hdr with key_index := 0 }).hdr ieh0 iep0 := by
  unfold frame_parse_tail
  simp only [hs, ne_eq, not_false_eq_true, if_true]

theorem frame_parse_tail_unsec (frame : List Nat) (fcf : Nat) (iobuf : iobuf_read)
    (hdr : ieee802154_hdr) (ieh0 iep0 : iobuf_read)
    (hs : FIELD_GET IEEE802154_MASK_FCF_SECURED fcf = 0) :
    frame_parse_tail frame fcf iobuf hdr ieh0 iep0 =
      frame_parse_ies frame fcf iobuf { hdr with key_index := 0 } ieh0 iep0 := by
  unfold frame_parse_tail
  simp only [hs, ne_eq, not_true_eq_false, if_false, lt_self_iff_false]

theorem frame_parse_sec_reject (frame : List Nat) (n c : Nat) (hdr : ieee802154_hdr) (hc : c ≤ n)
    (hbad : n < c + 1 ∨ ¬ sechdr_ok (byte_at frame c)) :
    (ieee802154_frame_parse_sec frame (frame_cursor n c false) hdr).ret = -ENOTSUP := by
  unfold ieee802154_frame_parse_sec frame_cursor
  by_cases h1 : c + 1 ≤ n
  · have hb : ¬ sechdr_ok (byte_at frame c) := by
      rcases hbad with h | h
      · omega
      · exact h
    simp (disch := omega) only [pop_u8_ok]
    unfold sechdr_ok at hb
    split_ifs with a1 a2 a3 a4 <;>
      first
        | rfl
        | (exfalso; apply hb; exact ⟨by simpa using a1, by simpa using a2, by simpa using a3⟩)
  · simp (disch := omega) only [pop_u8_short]
    rw [if_pos (by decide)]

theorem frame_parse_sec_short (frame : List Nat) (n c : Nat) (hdr : ieee802154_hdr)
    (hok : sechdr_ok (byte_at frame c)) (h1 : c + 1 ≤ n) (h14 : n < c + 14) :
    (ieee802154_frame_parse_sec frame (frame_cursor n c false) hdr).ret = -EINVAL := by
  unfold ieee802154_frame_parse_sec frame_cursor
  obtain ⟨a1, a2, a3⟩ := hok
  simp (disch := omega) only [pop_u8_ok, a1, a2, a3, ne_eq, not_true_eq_false, if_false]
  by_cases h5 : c + 1 + 4 ≤ n
  · simp (disch := omega) only [pop_le32_ok]
    by_cases h6 : c + 1 + 4 + 1 ≤ n
    · simp (disch := omega) only [pop_u8_ok]
      rw [if_pos (by simp only [iobuf_remaining_size]; simp; omega)]
    · simp (disch := omega) only [pop_u8_short]
      rw [if_pos (by simp [iobuf_remaining_size])]
  · simp (disch := omega) only [pop_le32_short, pop_u8_err]
    rw [if_pos (by simp [iobuf_remaining_size])]

theorem frame_parse_sec_ok (frame : List Nat) (n c : Nat) (hdr : ieee802154_hdr)
    (hok : sechdr_ok (byte_at frame c)) (h14 : c + 14 ≤ n) :
    ieee802154_frame_parse_sec frame (frame_cursor n c false) hdr =
      { ret := 0, iobuf := frame_cursor (n - 8) (c + 6) false,
        hdr := { hdr with frame_counter := read_le32 frame (c + 1),
                          key_index := byte_at frame (c + 5) } } := by
  unfold ieee802154_frame_parse_sec frame_cursor
  obtain ⟨a1, a2, a3⟩ := hok
  simp (disch := omega) only [pop_u8_ok, pop_le32_ok, a1, a2, a3, ne_eq, not_true_eq_false,
    if_false]
  rw [if_neg (by simp only [iobuf_remaining_size]; simp; omega)]


theorem frame_parse_reject_type (frame : List Nat) (hdr0 : ieee802154_hdr) (ieh0 iep0 : iobuf_read)
    (h : frame.length < 2 ∨ ¬ fcf_type_ok (read_le16 frame 0)) :
    ∃ out, ieee802154_frame_parse frame hdr0 ieh0 iep0 = some out ∧ out.ret = -ENOTSUP := by
  unfold ieee802154_frame_parse
  simp only []
  by_cases h2 : 2 ≤ frame.length
  · have ht : ¬ fcf_type_ok (read_le16 frame 0) := by
      rcases h with h | h
      · omega
      · exact h
    rw [pop_le16_ok frame frame.length 0 (by omega)]
    simp only []
    unfold fcf_type_ok at ht
    by_cases a1 : FIELD_GET IEEE802154_MASK_FCF_FRAME_TYPE (read_le16 frame 0) ≠
        IEEE802154_FRAME_TYPE_DATA ∧
      FIELD_GET IEEE802154_MASK_FCF_FRAME_TYPE (read_le16 frame 0) ≠ IEEE802154_FRAME_TYPE_ACK
    · rw [if_pos a1]
      exact ⟨_, rfl, rfl⟩
    · rw [if_neg a1]
      by_cases a2 : FIELD_GET IEEE802154_MASK_FCF_FRAME_VERSION (read_le16 frame 0) ≠
          MAC_FRAME_VERSION_2015
      · rw [if_pos a2]
        exact ⟨_, rfl, rfl⟩
      · exfalso; apply ht
        refine ⟨?_, by simpa using a2⟩
        by_cases hd : FIELD_GET IEEE802154_MASK_FCF_FRAME_TYPE (read_le16 frame 0) =
            IEEE802154_FRAME_TYPE_DATA
        · exact Or.inl hd
        · right
          by_contra hk
          exact a1 ⟨hd, hk⟩
  · rw [pop_le16_short frame frame.length 0 (by omega) (by omega)]
    simp only []
    rw [if_pos (by decide)]
    exact ⟨_, rfl, rfl⟩

theorem frame_parse_addr_reject (frame : List Nat) (fcf : Nat) (iobuf : iobuf_read)
    (hdr : ieee802154_hdr) (ieh0 iep0 : iobuf_read) (ha : ¬ fcf_addr_ok fcf) :
    frame_parse_addr frame fcf iobuf hdr ieh0 iep0 =
      some { ret := -ENOTSUP, hdr := hdr, ie_header := ieh0, ie_payload := iep0 } := by
  unfold frame_parse_addr frame_parse_addr_index
  simp only []
  rw [table_find_none _ _ _ (by
    intro hk
    apply ha
    obtain ⟨h1, h2⟩ := hk
    refine ⟨h1, ?_⟩
    rcases h2 with h2 | ⟨h2, h3⟩
    · exact Or.inl h2
    · exact Or.inr ⟨h2, by simpa using h3⟩)]

theorem frame_parse_reject_addr (frame : List Nat) (hdr0 : ieee802154_hdr) (ieh0 iep0 : iobuf_read)
    (h2 : 2 ≤ frame.length) (ht : fcf_type_ok (read_le16 frame 0))
    (ha : ¬ fcf_addr_ok (read_le16 frame 0)) :
    ∃ out, ieee802154_frame_parse frame hdr0 ieh0 iep0 = some out ∧ out.ret = -ENOTSUP := by
  rw [frame_parse_top frame hdr0 ieh0 iep0 h2 ht, frame_parse_addr_reject _ _ _ _ _ _ ha]
  exact ⟨_, rfl, rfl⟩

theorem frame_parse_ies_hdr (frame : List Nat) (fcf : Nat) (iobuf : iobuf_read)
    (hdr : ieee802154_hdr) (ieh0 iep0 : iobuf_read) :
    (frame_parse_ies frame fcf iobuf hdr ieh0 iep0).hdr = hdr := by
  unfold frame_parse_ies
  simp only []
  split_ifs <;> rfl

theorem pop_data_ptr_inv (n : Nat) (b : iobuf_read) (k : Nat) (hb : cursor_ok n b) :
    cursor_ok n (iobuf_pop_data_ptr b k).2 ∧
      ∀ p, (iobuf_pop_data_ptr b k).1 = some p → p + k ≤ n := by
  obtain ⟨h1, h2, h3⟩ := hb
  unfold iobuf_pop_data_ptr
  split_ifs with a1 a2
  · exact ⟨⟨h1, h2, h3⟩, by simp⟩
  · exact ⟨⟨h1, h2, h3⟩, by simp⟩
  · simp only [iobuf_remaining_size, a1, Bool.false_eq_true, if_false, not_lt] at a2
    refine ⟨⟨h1, h2, ?_⟩, ?_⟩
    · show b.cnt + k ≤ n
      omega
    · intro p hp
      simp only [iobuf_ptr, h2, Option.map_some', Option.some.injEq] at hp
      omega

theorem pop_le16_inv (mem : List Nat) (n : Nat) (b : iobuf_read) (hb : cursor_ok n b) :
    cursor_ok n (iobuf_pop_le16 mem b).2 := by
  rw [iobuf_pop_le16_eq]
  exact (pop_data_ptr_inv n b 2 hb).1

/-- The two IE windows `ieee802154_frame_parse_ie` returns lie inside the `n` bytes of
its cursor. -/
theorem frame_parse_ie_windows (mem : List Nat) (n : Nat) (b : iobuf_read) (hb : cursor_ok n b) :
    (∀ p, (ieee802154_frame_parse_ie mem b).ie_header.data = some p →
        p + (ieee802154_frame_parse_ie mem b).ie_header.data_size ≤ n) ∧
      (∀ p, (ieee802154_frame_parse_ie mem b).ie_payload.data = some p →
        p + (ieee802154_frame_parse_ie mem b).ie_payload.data_size ≤ n) := by
  generalize hr : ieee802154_frame_parse_ie mem b = r
  unfold ieee802154_frame_parse_ie at hr
  lift_lets at hr
  extract_lets f1 ret f2 iobuf_ie hsize hh ie_header iobuf1 f3 ret3 psize q ie_payload iobuf2 at hr
  have hhi := pop_data_ptr_inv n b hsize hb
  have h1 : cursor_ok n iobuf1 := by
    show cursor_ok n (if ret = 0 ∨ f2.1 = 0 then (iobuf_pop_le16 mem hh.2).2 else hh.2)
    split_ifs
    · exact pop_le16_inv mem n _ hhi.1
    · exact hhi.1
  have hqi := pop_data_ptr_inv n iobuf1 psize h1
  have hz : ∀ p, iobuf_read_zero.data = some p → p + iobuf_read_zero.data_size ≤ n := by
    intro p hp; simp [iobuf_read_zero] at hp
  split_ifs at hr <;> subst hr
  · exact ⟨hz, hz⟩
  · exact ⟨hhi.2, hz⟩
  · exact ⟨hhi.2, hz⟩
  · exact ⟨hhi.2, hqi.2⟩

/-- No IE at all: `ieee802154_frame_parse_ie` on an exhausted cursor returns 0 with
two empty windows. -/
theorem frame_parse_ie_empty (mem : List Nat) (n : Nat) :
    ieee802154_frame_parse_ie mem (frame_cursor n n false) =
      { ret := 0, iobuf := frame_cursor n n false,
        ie_header := { data_size := 0, data := some n, cnt := 0, err := false },
        ie_payload := iobuf_read_zero } := by
  unfold ieee802154_frame_parse_ie
  have hrem : iobuf_remaining_size (frame_cursor n n false) = 0 := by
    simp [iobuf_remaining_size, frame_cursor]
  have hf : ∀ id, ieee802154_ie_find_header mem (iobuf_ptr (frame_cursor n n false)) 0 id =
      (-ENOENT, ie_content_none) := by
    intro id
    simp [ieee802154_ie_find_header, ieee802154_ie_find, ieee802154_ie_find_loop,
      iobuf_remaining_size]
  simp only [hrem, hf, show ¬ ((-ENOENT : Int) < 0 ∧ (-ENOENT : Int) ≠ -ENOENT) by decide,
    show ¬ ((-ENOENT : Int) = 0 ∨ (-ENOENT : Int) = 0) by decide, if_false, if_true]
  simp [frame_cursor, iobuf_pop_data_ptr, iobuf_remaining_size, iobuf_ptr]

theorem frame_fcf_eq (frame : List Nat) :
    frame_fcf frame = if 2 ≤ frame.length then read_le16 frame 0 else 0 := by
  unfold frame_fcf
  by_cases h : 2 ≤ frame.length
  · rw [pop_le16_ok frame frame.length 0 (by omega), if_pos h]
  · rw [pop_le16_short frame frame.length 0 (by omega) (by omega), if_neg h]

theorem frame_fcf_type_ok (frame : List Nat) (ht : fcf_type_ok (frame_fcf frame)) :
    2 ≤ frame.length ∧ frame_fcf frame = read_le16 frame 0 := by
  rw [frame_fcf_eq] at ht ⊢
  by_cases h : 2 ≤ frame.length
  · simp [h]
  · rw [if_neg h] at ht
    exact absurd ht (by decide)

theorem frame_parse_reject_fcf (frame : List Nat) (hdr0 : ieee802154_hdr) (ieh0 iep0 : iobuf_read)
    (h : ¬ fcf_type_ok (frame_fcf frame)) :
    ∃ out, ieee802154_frame_parse frame hdr0 ieh0 iep0 = some out ∧ out.ret = -ENOTSUP := by
  apply frame_parse_reject_type
  rw [frame_fcf_eq] at h
  by_cases h2 : 2 ≤ frame.length
  · rw [if_pos h2] at h; exact Or.inr h
  · exact Or.inl (by omega)

theorem fcf_addr_ok_iff (fcf : Nat) :
    fcf_addr_ok fcf ↔
      fcf_addr_combo fcf ∈ [(MAC_ADDR_MODE_NONE, MAC_ADDR_MODE_64_BIT, 0),
        (MAC_ADDR_MODE_NONE, MAC_ADDR_MODE_64_BIT, 1),
        (MAC_ADDR_MODE_64_BIT, MAC_ADDR_MODE_64_BIT, 1)] := by
  unfold fcf_addr_ok fcf_addr_combo
  have hc := fcf_pan_id_cmpr fcf
  have hc2 : FIELD_GET IEEE802154_MASK_FCF_PAN_ID_CMPR fcf = 0 ∨
      FIELD_GET IEEE802154_MASK_FCF_PAN_ID_CMPR fcf = 1 := by omega
  simp only [List.mem_cons, Prod.mk.injEq, List.mem_singleton, List.not_mem_nil, or_false,
    MAC_ADDR_MODE_NONE, MAC_ADDR_MODE_64_BIT]
  constructor
  · rintro ⟨h1, h2 | ⟨h2, h3⟩⟩
    · rcases hc2 with h | h
      · exact Or.inl ⟨h2, h1, h⟩
      · exact Or.inr (Or.inl ⟨h2, h1, h⟩)
    · rcases hc2 with h | h
      · exact absurd h h3
      · exact Or.inr (Or.inr ⟨h2, h1, h⟩)
  · rintro (⟨h1, h2, h3⟩ | ⟨h1, h2, h3⟩ | ⟨h1, h2, h3⟩)
    · exact ⟨h2, Or.inl h1⟩
    · exact ⟨h2, Or.inl h1⟩
    · exact ⟨h2, Or.inr ⟨h1, by omega⟩⟩

theorem frame_parse_addr_index_lt (fcf : Nat) :
    frame_parse_addr_index fcf < ieee802154_table_pan_id_cmpr.length ↔ fcf_addr_ok fcf := by
  have hkey : ∀ ok : Prop, (ok → fcf_addr_ok fcf) → (fcf_addr_ok fcf → ok) → (ok ↔ fcf_addr_ok fcf) :=
    fun _ a b => ⟨a, b⟩
  by_cases ha : fcf_addr_ok fcf
  · have h := table_find_ok (FIELD_GET IEEE802154_MASK_FCF_DST_ADDR_MODE fcf)
      (FIELD_GET IEEE802154_MASK_FCF_SRC_ADDR_MODE fcf)
      (decide (FIELD_GET IEEE802154_MASK_FCF_PAN_ID_CMPR fcf ≠ 0)) (by
        obtain ⟨h1, h2⟩ := ha
        refine ⟨h1, ?_⟩
        rcases h2 with h2 | ⟨h2, h3⟩
        · exact Or.inl h2
        · exact Or.inr ⟨h2, by simpa using h3⟩)
    have hlt : frame_parse_addr_index fcf < ieee802154_table_pan_id_cmpr.length := by
      by_contra hk
      have := List.get?_len_le (Nat.le_of_not_lt hk)
      unfold frame_parse_addr_index at this
      simp only [] at this
      rw [h] at this
      exact absurd this (by simp)
    exact ⟨fun _ => ha, fun _ => hlt⟩
  · have h := table_find_none (FIELD_GET IEEE802154_MASK_FCF_DST_ADDR_MODE fcf)
      (FIELD_GET IEEE802154_MASK_FCF_SRC_ADDR_MODE fcf)
      (decide (FIELD_GET IEEE802154_MASK_FCF_PAN_ID_CMPR fcf ≠ 0)) (by
        intro hk
        apply ha
        obtain ⟨h1, h2⟩ := hk
        refine ⟨h1, ?_⟩
        rcases h2 with h2 | ⟨h2, h3⟩
        · exact Or.inl h2
        · exact Or.inr ⟨h2, by simpa using h3⟩)
    have hge : ieee802154_table_pan_id_cmpr.length ≤ frame_parse_addr_index fcf := by
      have := List.get?_eq_none.mp h
      unfold frame_parse_addr_index
      exact this
    exact ⟨fun hlt => absurd hlt (by omega), fun hk => absurd hk ha⟩

theorem frame_parse_sec_hdr (mem : List Nat) (iobuf : iobuf_read) (hdr : ieee802154_hdr) :
    (ieee802154_frame_parse_sec mem iobuf hdr).hdr.pan_id = hdr.pan_id ∧
      (ieee802154_frame_parse_sec mem iobuf hdr).hdr.dst = hdr.dst ∧
      (ieee802154_frame_parse_sec mem iobuf hdr).hdr.src = hdr.src ∧
      (ieee802154_frame_parse_sec mem iobuf hdr).hdr.seqno = hdr.seqno ∧
      (ieee802154_frame_parse_sec mem iobuf hdr).hdr.ack_req = hdr.ack_req ∧
      (ieee802154_frame_parse_sec mem iobuf hdr).hdr.frame_type = hdr.frame_type := by
  unfold ieee802154_frame_parse_sec
  simp only []
  split_ifs <;> exact ⟨rfl, rfl, rfl, rfl, rfl, rfl⟩

theorem frame_parse_tail_hdr (frame : List Nat) (fcf : Nat) (iobuf : iobuf_read)
    (hdr : ieee802154_hdr) (ieh0 iep0 : iobuf_read) :
    (frame_parse_tail frame fcf iobuf hdr ieh0 iep0).hdr.pan_id = hdr.pan_id ∧
      (frame_parse_tail frame fcf iobuf hdr ieh0 iep0).hdr.dst = hdr.dst := by
  unfold frame_parse_tail
  simp only []
  by_cases hs : FIELD_GET IEEE802154_MASK_FCF_SECURED fcf = 0
  · simp only [hs, ne_eq, not_true_eq_false, if_false, lt_self_iff_false, frame_parse_ies_hdr,
      and_self]
  · simp only [hs, ne_eq, not_false_eq_true, if_true]
    have h := frame_parse_sec_hdr frame iobuf { hdr with key_index := 0 }
    split_ifs
    · exact ⟨h.1, h.2.1⟩
    · rw [frame_parse_ies_hdr]
      exact ⟨h.1, h.2.1⟩

theorem frame_parse_addr_fields (frame : List Nat) (fcf : Nat) (iobuf : iobuf_read)
    (hdr : ieee802154_hdr) (ieh0 iep0 : iobuf_read) (ha : fcf_addr_ok fcf) :
    ∃ out, frame_parse_addr frame fcf iobuf hdr ieh0 iep0 = some out ∧
      (FIELD_GET IEEE802154_MASK_FCF_PAN_ID_CMPR fcf ≠ 0 → out.hdr.pan_id = 0xffff) ∧
      (FIELD_GET IEEE802154_MASK_FCF_DST_ADDR_MODE fcf = MAC_ADDR_MODE_NONE →
        out.hdr.dst = ieee802154_addr_bc) := by
  unfold frame_parse_addr frame_parse_addr_index
  simp only []
  rw [table_find_ok _ _ _ (by
    obtain ⟨h1, h2⟩ := ha
    refine ⟨h1, ?_⟩
    rcases h2 with h2 | ⟨h2, h3⟩
    · exact Or.inl h2
    · exact Or.inr ⟨h2, by simpa using h3⟩)]
  simp only [Bool.false_eq_true, if_false, ne_eq, not_true_eq_false]
  refine ⟨_, rfl, ?_, ?_⟩
  · intro hc
    rw [(frame_parse_tail_hdr _ _ _ _ _ _).1]
    simp [hc]
  · intro hd
    rw [(frame_parse_tail_hdr _ _ _ _ _ _).2]
    simp [hd, MAC_ADDR_MODE_NONE, MAC_ADDR_MODE_64_BIT]

/-! ### Frame parser: claims -/

/-- C3: for every byte string, of any length, `ieee802154_frame_parse` returns (it is a
total function and the IE search loop always reaches a return statement within
`len + 1` iterations), the value returned is 0 or negative, and neither `BUG_ON`
is reached: the result is never the abort `none`. -/
theorem ieee802154_frame_parse_never_fatal (frame : List Nat) (hdr0 : ieee802154_hdr)
    (ieh0 iep0 : iobuf_read) :
    (∃ out, ieee802154_frame_parse frame hdr0 ieh0 iep0 = some out ∧
      (out.ret = 0 ∨ out.ret < 0)) ∧
    (∀ (ie_type id_mask len_mask ie_id len : Nat) (data : Option Nat),
      (ieee802154_ie_find_loop frame ie_type id_mask len_mask ie_id (len + 1)
        { data_size := len, data := data, cnt := 0, err := false }).isSome = true) := by
  refine ⟨frame_parse_ret_le frame hdr0 ieh0 iep0, ?_⟩
  intro ie_type id_mask len_mask ie_id len data
  apply ieee802154_ie_find_loop_isSome
  simp [iobuf_remaining_size]

/-- C6: `ieee802154_frame_parse` returns -ENOTSUP for every frame whose frame type is
neither data nor ack, and for every frame whose frame version is not 2015. -/
theorem ieee802154_frame_parse_type_version (frame : List Nat) (hdr0 : ieee802154_hdr)
    (ieh0 iep0 : iobuf_read)
    (h : (FIELD_GET IEEE802154_MASK_FCF_FRAME_TYPE (frame_fcf frame) ≠ IEEE802154_FRAME_TYPE_DATA ∧
        FIELD_GET IEEE802154_MASK_FCF_FRAME_TYPE (frame_fcf frame) ≠ IEEE802154_FRAME_TYPE_ACK) ∨
      FIELD_GET IEEE802154_MASK_FCF_FRAME_VERSION (frame_fcf frame) ≠ MAC_FRAME_VERSION_2015) :
    ∃ out, ieee802154_frame_parse frame hdr0 ieh0 iep0 = some out ∧ out.ret = -ENOTSUP := by
  apply frame_parse_reject_fcf
  unfold fcf_type_ok
  rintro ⟨h1, h2⟩
  rcases h with ⟨a, b⟩ | c
  · rcases h1 with h1 | h1
    · exact a h1
    · exact b h1
  · exact c h2

/-- Witness of C6: a beacon frame (frame type 0) of version 2015. -/
theorem ieee802154_frame_parse_type_version_witness :
    ((FIELD_GET IEEE802154_MASK_FCF_FRAME_TYPE (frame_fcf [0x00, 0xe0, 0x01]) ≠
          IEEE802154_FRAME_TYPE_DATA ∧
        FIELD_GET IEEE802154_MASK_FCF_FRAME_TYPE (frame_fcf [0x00, 0xe0, 0x01]) ≠
          IEEE802154_FRAME_TYPE_ACK) ∨
      FIELD_GET IEEE802154_MASK_FCF_FRAME_VERSION (frame_fcf [0x00, 0xe0, 0x01]) ≠
        MAC_FRAME_VERSION_2015) ∧
    ∃ out, ieee802154_frame_parse [0x00, 0xe0, 0x01]
        ⟨0, false, 0, 0, [], [], 0, 0⟩ iobuf_read_zero iobuf_read_zero = some out ∧
      out.ret = -ENOTSUP :=
  ⟨by decide, ieee802154_frame_parse_type_version [0x00, 0xe0, 0x01]
    ⟨0, false, 0, 0, [], [], 0, 0⟩ iobuf_read_zero iobuf_read_zero (by decide)⟩

theorem table_row_has_src_pan_id (fcf : Nat) (row : pan_id_cmpr_row)
    (h : ieee802154_table_pan_id_cmpr.get? (frame_parse_addr_index fcf) = some row) :
    row.has_src_pan_id = true ↔
      fcf_addr_combo fcf = (MAC_ADDR_MODE_NONE, MAC_ADDR_MODE_64_BIT, 0) := by
  have hlt : frame_parse_addr_index fcf < ieee802154_table_pan_id_cmpr.length := by
    by_contra hk
    rw [List.get?_len_le (Nat.le_of_not_lt hk)] at h
    exact absurd h (by simp)
  have ha := (frame_parse_addr_index_lt fcf).mp hlt
  have hrow := table_find_ok (FIELD_GET IEEE802154_MASK_FCF_DST_ADDR_MODE fcf)
      (FIELD_GET IEEE802154_MASK_FCF_SRC_ADDR_MODE fcf)
      (decide (FIELD_GET IEEE802154_MASK_FCF_PAN_ID_CMPR fcf ≠ 0)) (by
        obtain ⟨h1, h2⟩ := ha
        refine ⟨h1, ?_⟩
        rcases h2 with h2 | ⟨h2, h3⟩
        · exact Or.inl h2
        · exact Or.inr ⟨h2, by simpa using h3⟩)
  unfold frame_parse_addr_index at h
  simp only [] at h
  rw [hrow] at h
  have hr := (Option.some.inj h).symm
  subst hr
  obtain ⟨h1, h2⟩ := ha
  unfold fcf_addr_combo
  simp only [Prod.mk.injEq, MAC_ADDR_MODE_NONE, MAC_ADDR_MODE_64_BIT] at h1 h2 ⊢
  constructor
  · intro hc
    have hc0 : FIELD_GET IEEE802154_MASK_FCF_PAN_ID_CMPR fcf = 0 := by simpa using hc
    rcases h2 with h2 | ⟨_, h3⟩
    · exact ⟨h2, h1, hc0⟩
    · exact absurd hc0 h3
  · rintro ⟨_, _, hc0⟩
    simp [hc0]

/-- C4: for every data or ack frame of version 2015, the loop over
`ieee802154_table_pan_id_cmpr` finds a row if and only if (destination address mode,
source address mode, PAN ID compression) is (none, 64-bit, 0), (none, 64-bit, 1) or
(64-bit, 64-bit, 1); every other combination returns -ENOTSUP. The row found reads a
PAN ID only for (none, 64-bit, 0), where `hdr.pan_id` is the 16-bit little-endian
field after the sequence number (for a frame holding its addressing fields); for the
two other combinations `hdr.pan_id` is 0xffff, and without destination address
`hdr.dst` is the broadcast address. -/
theorem ieee802154_frame_parse_addressing (frame : List Nat) (hdr0 : ieee802154_hdr)
    (ieh0 iep0 : iobuf_read) (ht : fcf_type_ok (frame_fcf frame)) :
    ∃ out, ieee802154_frame_parse frame hdr0 ieh0 iep0 = some out ∧
      (frame_parse_addr_index (frame_fcf frame) < ieee802154_table_pan_id_cmpr.length ↔
        fcf_addr_combo (frame_fcf frame) ∈
          [(MAC_ADDR_MODE_NONE, MAC_ADDR_MODE_64_BIT, 0),
           (MAC_ADDR_MODE_NONE, MAC_ADDR_MODE_64_BIT, 1),
           (MAC_ADDR_MODE_64_BIT, MAC_ADDR_MODE_64_BIT, 1)]) ∧
      (fcf_addr_combo (frame_fcf frame) ∉
          [(MAC_ADDR_MODE_NONE, MAC_ADDR_MODE_64_BIT, 0),
           (MAC_ADDR_MODE_NONE, MAC_ADDR_MODE_64_BIT, 1),
           (MAC_ADDR_MODE_64_BIT, MAC_ADDR_MODE_64_BIT, 1)] → out.ret = -ENOTSUP) ∧
      (∀ row, ieee802154_table_pan_id_cmpr.get? (frame_parse_addr_index (frame_fcf frame)) =
          some row →
        (row.has_src_pan_id = true ↔
          fcf_addr_combo (frame_fcf frame) = (MAC_ADDR_MODE_NONE, MAC_ADDR_MODE_64_BIT, 0))) ∧
      (fcf_addr_combo (frame_fcf frame) = (MAC_ADDR_MODE_NONE, MAC_ADDR_MODE_64_BIT, 0) →
        fcf_hdr_len (frame_fcf frame) ≤ frame.length →
        out.hdr.pan_id = read_le16 frame (2 + fcf_seqno_len (frame_fcf frame))) ∧
      (fcf_addr_combo (frame_fcf frame) ∈
          [(MAC_ADDR_MODE_NONE, MAC_ADDR_MODE_64_BIT, 1),
           (MAC_ADDR_MODE_64_BIT, MAC_ADDR_MODE_64_BIT, 1)] → out.hdr.pan_id = 0xffff) ∧
      (fcf_addr_combo (frame_fcf frame) ∈
          [(MAC_ADDR_MODE_NONE, MAC_ADDR_MODE_64_BIT, 0),
           (MAC_ADDR_MODE_NONE, MAC_ADDR_MODE_64_BIT, 1)] →
        out.hdr.dst = ieee802154_addr_bc) := by
  obtain ⟨h2, hfcf⟩ := frame_fcf_type_ok frame ht
  obtain ⟨out, hout, -⟩ := frame_parse_ret_le frame hdr0 ieh0 iep0
  refine ⟨out, hout, ?_, ?_, ?_, ?_, ?_, ?_⟩
  · rw [frame_parse_addr_index_lt, fcf_addr_ok_iff]
  · intro hn
    rw [← fcf_addr_ok_iff, hfcf] at hn
    rw [hfcf] at ht
    obtain ⟨out', hout', hret⟩ := frame_parse_reject_addr frame hdr0 ieh0 iep0 h2 ht hn
    rw [hout] at hout'
    rw [Option.some.inj hout']
    exact hret
  · intro row hrow
    exact table_row_has_src_pan_id _ row hrow
  · intro hcombo hlen
    have ha : fcf_addr_ok (frame_fcf frame) := by
      rw [fcf_addr_ok_iff, hcombo]; simp
    rw [hfcf] at ht ha hlen hcombo ⊢
    rw [frame_parse_hdr_ok frame hdr0 ieh0 iep0 ht ha hlen] at hout
    rw [← Option.some.inj hout, (frame_parse_tail_hdr _ _ _ _ _ _).1]
    unfold fcf_addr_combo at hcombo
    simp only [Prod.mk.injEq] at hcombo
    obtain ⟨hd, -, hc⟩ := hcombo
    simp [parsed_addr_hdr, hc, fcf_dst_len, hd, MAC_ADDR_MODE_NONE, MAC_ADDR_MODE_64_BIT]
  · intro hcombo
    have ha : fcf_addr_ok (frame_fcf frame) := by
      rw [fcf_addr_ok_iff]
      simp only [List.mem_cons, List.mem_singleton, List.not_mem_nil, or_false] at hcombo ⊢
      rcases hcombo with h | h
      · exact Or.inr (Or.inl h)
      · exact Or.inr (Or.inr h)
    have hc : FIELD_GET IEEE802154_MASK_FCF_PAN_ID_CMPR (frame_fcf frame) ≠ 0 := by
      unfold fcf_addr_combo at hcombo
      simp only [List.mem_cons, List.mem_singleton, List.not_mem_nil, or_false,
        Prod.mk.injEq] at hcombo
      rcases hcombo with ⟨-, -, h⟩ | ⟨-, -, h⟩ <;> omega
    rw [hfcf] at ht ha hc
    rw [frame_parse_top frame hdr0 ieh0 iep0 h2 ht] at hout
    obtain ⟨out', hout', hp, -⟩ := frame_parse_addr_fields frame (read_le16 frame 0) _ _ ieh0 iep0 ha
    rw [hout] at hout'
    rw [Option.some.inj hout']
    exact hp hc
  · intro hcombo
    have ha : fcf_addr_ok (frame_fcf frame) := by
      rw [fcf_addr_ok_iff]
      simp only [List.mem_cons, List.mem_singleton, List.not_mem_nil, or_false] at hcombo ⊢
      rcases hcombo with h | h
      · exact Or.inl h
      · exact Or.inr (Or.inl h)
    have hd : FIELD_GET IEEE802154_MASK_FCF_DST_ADDR_MODE (frame_fcf frame) =
        MAC_ADDR_MODE_NONE := by
      unfold fcf_addr_combo at hcombo
      simp only [List.mem_cons, List.mem_singleton, List.not_mem_nil, or_false,
        Prod.mk.injEq] at hcombo
      rcases hcombo with ⟨h, -, -⟩ | ⟨h, -, -⟩ <;> exact h
    rw [hfcf] at ht ha hd
    rw [frame_parse_top frame hdr0 ieh0 iep0 h2 ht] at hout
    obtain ⟨out', hout', -, hp⟩ := frame_parse_addr_fields frame (read_le16 frame 0) _ _ ieh0 iep0 ha
    rw [hout] at hout'
    rw [Option.some.inj hout']
    exact hp hd

theorem frame_parse_tail_err_sec (frame : List Nat) (fcf : Nat) (buf : iobuf_read)
    (hdr : ieee802154_hdr) (ieh0 iep0 : iobuf_read) (h : buf.err = true)
    (hs : FIELD_GET IEEE802154_MASK_FCF_SECURED fcf ≠ 0) :
    (frame_parse_tail frame fcf buf hdr ieh0 iep0).ret = -ENOTSUP := by
  rw [frame_parse_tail_sec _ _ _ _ _ _ hs, frame_parse_sec_err frame buf _ h]
  rw [if_pos (by decide)]

theorem fcf_addr_ok_of_mem (fcf : Nat)
    (ha : fcf_addr_combo fcf ∈ [(MAC_ADDR_MODE_NONE, MAC_ADDR_MODE_64_BIT, 0),
      (MAC_ADDR_MODE_NONE, MAC_ADDR_MODE_64_BIT, 1),
      (MAC_ADDR_MODE_64_BIT, MAC_ADDR_MODE_64_BIT, 1)]) : fcf_addr_ok fcf :=
  (fcf_addr_ok_iff fcf).mpr ha

/-- The three outcomes of a secured frame that passes the type, version and
addressing checks. -/
theorem frame_parse_secured_cases (frame : List Nat) (hdr0 : ieee802154_hdr)
    (ieh0 iep0 : iobuf_read) (ht : fcf_type_ok (frame_fcf frame))
    (ha : fcf_addr_ok (frame_fcf frame))
    (hs : FIELD_GET IEEE802154_MASK_FCF_SECURED (frame_fcf frame) ≠ 0) :
    ∃ out, ieee802154_frame_parse frame hdr0 ieh0 iep0 = some out ∧
      ((frame.length ≤ fcf_hdr_len (frame_fcf frame) ∨
          ¬ sechdr_ok (byte_at frame (fcf_hdr_len (frame_fcf frame)))) → out.ret = -ENOTSUP) ∧
      (fcf_hdr_len (frame_fcf frame) + 1 ≤ frame.length →
        sechdr_ok (byte_at frame (fcf_hdr_len (frame_fcf frame))) →
        frame.length < fcf_hdr_len (frame_fcf frame) + 14 → out.ret = -EINVAL) ∧
      (fcf_hdr_len (frame_fcf frame) + 14 ≤ frame.length →
        sechdr_ok (byte_at frame (fcf_hdr_len (frame_fcf frame))) →
        out = frame_parse_ies frame (frame_fcf frame)
          (frame_cursor (frame.length - 8) (fcf_hdr_len (frame_fcf frame) + 6) false)
          { parsed_addr_hdr frame hdr0 with
            frame_counter := read_le32 frame (fcf_hdr_len (frame_fcf frame) + 1)
            key_index := byte_at frame (fcf_hdr_len (frame_fcf frame) + 5) } ieh0 iep0) := by
  obtain ⟨h2, hfcf⟩ := frame_fcf_type_ok frame ht
  rw [hfcf] at ht ha hs ⊢
  by_cases hlen : fcf_hdr_len (read_le16 frame 0) ≤ frame.length
  · rw [frame_parse_hdr_ok frame hdr0 ieh0 iep0 ht ha hlen, frame_parse_tail_sec _ _ _ _ _ _ hs]
    refine ⟨_, rfl, ?_, ?_, ?_⟩
    · intro hbad
      rw [frame_parse_sec_reject frame frame.length _ _ hlen (by
        rcases hbad with h | h
        · exact Or.inl (by omega)
        · exact Or.inr h)]
      rw [if_pos (by decide)]
    · intro h1 hok h14
      rw [frame_parse_sec_short frame frame.length _ _ hok h1 h14]
      rw [if_pos (by decide)]
    · intro h14 hok
      rw [frame_parse_sec_ok frame frame.length _ _ hok h14]
      rw [if_neg (show ¬ ((0 : Int) < 0) by decide)]
  · obtain ⟨b, h', he, hb⟩ := frame_parse_short_tail frame hdr0 ieh0 iep0 ht ha h2 (by omega)
    rw [he]
    refine ⟨_, rfl, ?_, ?_, ?_⟩
    · intro _
      exact frame_parse_tail_err_sec _ _ _ _ _ _ hb hs
    · intro h1; omega
    · intro h14; omega

theorem neg_ENOTSUP_ne_zero : (-ENOTSUP : Int) ≠ 0 := by decide

theorem neg_EINVAL_ne_zero : (-EINVAL : Int) ≠ 0 := by decide

/-- C5: for every frame with the security-enabled bit set that passes the type,
version and addressing checks, `ieee802154_frame_parse` returns -ENOTSUP unless the
security control field (the byte after the addressing fields) has security level
ENC-MIC-64 and key identifier mode INDEX, and also returns -ENOTSUP when its frame
counter suppression bit is set; when the frame is accepted, `hdr.frame_counter` is
the 32-bit little-endian integer after the security control field and
`hdr.key_index` the byte after it. -/
theorem ieee802154_frame_parse_security (frame : List Nat) (hdr0 : ieee802154_hdr)
    (ieh0 iep0 : iobuf_read) (ht : fcf_type_ok (frame_fcf frame))
    (ha : fcf_addr_combo (frame_fcf frame) ∈
      [(MAC_ADDR_MODE_NONE, MAC_ADDR_MODE_64_BIT, 0),
       (MAC_ADDR_MODE_NONE, MAC_ADDR_MODE_64_BIT, 1),
       (MAC_ADDR_MODE_64_BIT, MAC_ADDR_MODE_64_BIT, 1)])
    (hs : FIELD_GET IEEE802154_MASK_FCF_SECURED (frame_fcf frame) ≠ 0) :
    ∃ out, ieee802154_frame_parse frame hdr0 ieh0 iep0 = some out ∧
      ((FIELD_GET IEEE802154_MASK_SECHDR_LEVEL
            (byte_at frame (fcf_hdr_len (frame_fcf frame))) ≠ SEC_ENC_MIC64 ∨
          FIELD_GET IEEE802154_MASK_SECHDR_KEY_ID_MODE
            (byte_at frame (fcf_hdr_len (frame_fcf frame))) ≠ MAC_KEY_ID_MODE_IDX) →
        out.ret = -ENOTSUP) ∧
      (FIELD_GET IEEE802154_MASK_SECHDR_DEL_FRAMECTR
          (byte_at frame (fcf_hdr_len (frame_fcf frame))) ≠ 0 → out.ret = -ENOTSUP) ∧
      (out.ret = 0 →
        out.hdr.frame_counter = read_le32 frame (fcf_hdr_len (frame_fcf frame) + 1) ∧
        out.hdr.key_index = byte_at frame (fcf_hdr_len (frame_fcf frame) + 5)) := by
  obtain ⟨out, hout, c1, c2, c3⟩ := frame_parse_secured_cases frame hdr0 ieh0 iep0 ht
    (fcf_addr_ok_of_mem _ ha) hs
  refine ⟨out, hout, ?_, ?_, ?_⟩
  · intro hbad
    apply c1
    right
    rintro ⟨a1, a2, -⟩
    rcases hbad with h | h
    · exact h a1
    · exact h a2
  · intro hbad
    apply c1
    right
    rintro ⟨-, -, a3⟩
    exact hbad a3
  · intro hret
    by_cases hok : sechdr_ok (byte_at frame (fcf_hdr_len (frame_fcf frame)))
    · by_cases h14 : fcf_hdr_len (frame_fcf frame) + 14 ≤ frame.length
      · have := c3 h14 hok
        rw [this, frame_parse_ies_hdr]
        exact ⟨rfl, rfl⟩
      · by_cases h1 : fcf_hdr_len (frame_fcf frame) + 1 ≤ frame.length
        · rw [c2 h1 hok (by omega)] at hret
          exact absurd hret neg_EINVAL_ne_zero
        · rw [c1 (Or.inl (by omega))] at hret
          exact absurd hret neg_ENOTSUP_ne_zero
    · rw [c1 (Or.inr hok)] at hret
      exact absurd hret neg_ENOTSUP_ne_zero

/-- Witness of C5: the secured example frame. -/
theorem ieee802154_frame_parse_security_witness :
    (fcf_type_ok (frame_fcf frame_example_secured) ∧
      fcf_addr_combo (frame_fcf frame_example_secured) ∈
        [(MAC_ADDR_MODE_NONE, MAC_ADDR_MODE_64_BIT, 0),
         (MAC_ADDR_MODE_NONE, MAC_ADDR_MODE_64_BIT, 1),
         (MAC_ADDR_MODE_64_BIT, MAC_ADDR_MODE_64_BIT, 1)] ∧
      FIELD_GET IEEE802154_MASK_FCF_SECURED (frame_fcf frame_example_secured) ≠ 0) ∧
    ∃ out, ieee802154_frame_parse frame_example_secured hdr_zero iobuf_read_zero
        iobuf_read_zero = some out ∧
      ((FIELD_GET IEEE802154_MASK_SECHDR_LEVEL
            (byte_at frame_example_secured (fcf_hdr_len (frame_fcf frame_example_secured))) ≠
              SEC_ENC_MIC64 ∨
          FIELD_GET IEEE802154_MASK_SECHDR_KEY_ID_MODE
            (byte_at frame_example_secured (fcf_hdr_len (frame_fcf frame_example_secured))) ≠
              MAC_KEY_ID_MODE_IDX) →
        out.ret = -ENOTSUP) ∧
      (FIELD_GET IEEE802154_MASK_SECHDR_DEL_FRAMECTR
          (byte_at frame_example_secured (fcf_hdr_len (frame_fcf frame_example_secured))) ≠ 0 →
        out.ret = -ENOTSUP) ∧
      (out.ret = 0 →
        out.hdr.frame_counter =
          read_le32 frame_example_secured (fcf_hdr_len (frame_fcf frame_example_secured) + 1) ∧
        out.hdr.key_index =
          byte_at frame_example_secured (fcf_hdr_len (frame_fcf frame_example_secured) + 5)) :=
  ⟨⟨by decide, by decide, by decide⟩,
    ieee802154_frame_parse_security frame_example_secured hdr_zero iobuf_read_zero
      iobuf_read_zero (by decide) (by decide) (by decide)⟩

theorem frame_parse_ies_windows (frame : List Nat) (fcf : Nat) (b : iobuf_read)
    (hdr : ieee802154_hdr) (ieh0 iep0 : iobuf_read)
    (hie : FIELD_GET IEEE802154_MASK_FCF_HAS_IE fcf ≠ 0) :
    (frame_parse_ies frame fcf b hdr ieh0 iep0).ie_header =
        (ieee802154_frame_parse_ie frame b).ie_header ∧
      (frame_parse_ies frame fcf b hdr ieh0 iep0).ie_payload =
        (ieee802154_frame_parse_ie frame b).ie_payload := by
  unfold frame_parse_ies
  simp only [hie, ne_eq, not_false_eq_true, if_true]
  split_ifs <;> exact ⟨rfl, rfl⟩

/-- C7: framing validation of `ieee802154_frame_parse`. (1) A frame shorter than the
fields its frame control field announces (sequence number, addresses, PAN ID,
auxiliary security header) is never accepted. (2) A secured frame that passes the
checks of its security control field and has fewer than 8 bytes after the key index
returns -EINVAL. (3) For an accepted secured frame with IEs, the header-IE and
payload-IE windows returned leave out the last 8 bytes of the frame. -/
theorem ieee802154_frame_parse_framing (frame : List Nat) (hdr0 : ieee802154_hdr)
    (ieh0 iep0 : iobuf_read) :
    ∃ out, ieee802154_frame_parse frame hdr0 ieh0 iep0 = some out ∧
      (frame.length < fcf_hdr_len (frame_fcf frame) + fcf_sec_len (frame_fcf frame) →
        out.ret ≠ 0) ∧
      (fcf_type_ok (frame_fcf frame) →
        fcf_addr_combo (frame_fcf frame) ∈
          [(MAC_ADDR_MODE_NONE, MAC_ADDR_MODE_64_BIT, 0),
           (MAC_ADDR_MODE_NONE, MAC_ADDR_MODE_64_BIT, 1),
           (MAC_ADDR_MODE_64_BIT, MAC_ADDR_MODE_64_BIT, 1)] →
        FIELD_GET IEEE802154_MASK_FCF_SECURED (frame_fcf frame) ≠ 0 →
        sechdr_ok (byte_at frame (fcf_hdr_len (frame_fcf frame))) →
        fcf_hdr_len (frame_fcf frame) + 1 ≤ frame.length →
        frame.length < fcf_hdr_len (frame_fcf frame) + 6 + 8 →
        out.ret = -EINVAL) ∧
      (out.ret = 0 →
        FIELD_GET IEEE802154_MASK_FCF_SECURED (frame_fcf frame) ≠ 0 →
        FIELD_GET IEEE802154_MASK_FCF_HAS_IE (frame_fcf frame) ≠ 0 →
        window_excludes_mic frame.length out.ie_header ∧
        window_excludes_mic frame.length out.ie_payload) := by
  obtain ⟨out, hout, hle⟩ := frame_parse_ret_le frame hdr0 ieh0 iep0
  have hrej : ∀ out', ieee802154_frame_parse frame hdr0 ieh0 iep0 = some out' → out' = out := by
    intro out' h
    rw [hout] at h
    exact (Option.some.inj h).symm
  by_cases ht : fcf_type_ok (frame_fcf frame)
  swap
  · obtain ⟨o, ho, hr⟩ := frame_parse_reject_fcf frame hdr0 ieh0 iep0 ht
    have := hrej o ho
    subst this
    refine ⟨o, hout, ?_, ?_, ?_⟩
    · intro _; rw [hr]; exact neg_ENOTSUP_ne_zero
    · intro h; exact absurd h ht
    · intro h; rw [hr] at h; exact absurd h neg_ENOTSUP_ne_zero
  obtain ⟨h2, hfcf⟩ := frame_fcf_type_ok frame ht
  by_cases ha : fcf_addr_ok (frame_fcf frame)
  swap
  · obtain ⟨o, ho, hr⟩ := frame_parse_reject_addr frame hdr0 ieh0 iep0 h2 (hfcf ▸ ht) (hfcf ▸ ha)
    have := hrej o ho
    subst this
    refine ⟨o, hout, ?_, ?_, ?_⟩
    · intro _; rw [hr]; exact neg_ENOTSUP_ne_zero
    · intro _ h; exact absurd (fcf_addr_ok_of_mem _ h) ha
    · intro h; rw [hr] at h; exact absurd h neg_ENOTSUP_ne_zero
  by_cases hs : FIELD_GET IEEE802154_MASK_FCF_SECURED (frame_fcf frame) ≠ 0
  · obtain ⟨o, ho, c1, c2, c3⟩ := frame_parse_secured_cases frame hdr0 ieh0 iep0 ht ha hs
    have := hrej o ho
    subst this
    have hsl : fcf_sec_len (frame_fcf frame) = 6 := by simp [fcf_sec_len, hs]
    refine ⟨o, hout, ?_, ?_, ?_⟩
    · intro hlen
      rw [hsl] at hlen
      by_cases h1 : fcf_hdr_len (frame_fcf frame) + 1 ≤ frame.length
      · by_cases hok : sechdr_ok (byte_at frame (fcf_hdr_len (frame_fcf frame)))
        · rw [c2 h1 hok (by omega)]; exact neg_EINVAL_ne_zero
        · rw [c1 (Or.inr hok)]; exact neg_ENOTSUP_ne_zero
      · rw [c1 (Or.inl (by omega))]; exact neg_ENOTSUP_ne_zero
    · intro _ _ _ hok h1 h14
      exact c2 h1 hok (by omega)
    · intro hret _ hie
      by_cases hok : sechdr_ok (byte_at frame (fcf_hdr_len (frame_fcf frame)))
      swap
      · rw [c1 (Or.inr hok)] at hret
        exact absurd hret neg_ENOTSUP_ne_zero
      by_cases h14 : fcf_hdr_len (frame_fcf frame) + 14 ≤ frame.length
      swap
      · by_cases h1 : fcf_hdr_len (frame_fcf frame) + 1 ≤ frame.length
        · rw [c2 h1 hok (by omega)] at hret
          exact absurd hret neg_EINVAL_ne_zero
        · rw [c1 (Or.inl (by omega))] at hret
          exact absurd hret neg_ENOTSUP_ne_zero
      have h := c3 h14 hok
      have hw := frame_parse_ies_windows frame (frame_fcf frame)
        (frame_cursor (frame.length - 8) (fcf_hdr_len (frame_fcf frame) + 6) false)
        { parsed_addr_hdr frame hdr0 with
          frame_counter := read_le32 frame (fcf_hdr_len (frame_fcf frame) + 1)
          key_index := byte_at frame (fcf_hdr_len (frame_fcf frame) + 5) } ieh0 iep0 hie
      rw [← h] at hw
      have hb := frame_parse_ie_windows frame (frame.length - 8)
        (frame_cursor (frame.length - 8) (fcf_hdr_len (frame_fcf frame) + 6) false)
        ⟨rfl, rfl, by show fcf_hdr_len (frame_fcf frame) + 6 ≤ frame.length - 8; omega⟩
      rw [← hw.1, ← hw.2] at hb
      constructor
      · intro p hp
        have := hb.1 p hp
        omega
      · intro p hp
        have := hb.2 p hp
        omega
  · have hsl : fcf_sec_len (frame_fcf frame) = 0 := by
      unfold fcf_sec_len; rw [if_neg hs]
    refine ⟨out, hout, ?_, ?_, ?_⟩
    · intro hlen
      rw [hsl, hfcf] at hlen
      obtain ⟨o, ho, hr⟩ := frame_parse_short frame hdr0 ieh0 iep0 (hfcf ▸ ht) (hfcf ▸ ha) h2
        (by omega)
      have := hrej o ho
      subst this
      omega
    · intro _ _ h; exact absurd h hs
    · intro _ h; exact absurd h hs

theorem frame_example_secured_ret :
    (ieee802154_frame_parse frame_example_secured hdr_zero iobuf_read_zero iobuf_read_zero).map
      (fun out => out.ret) = some 0 := by
  decide

/-- Witness of C7: the example frame cut inside its source address is not accepted,
cut inside its MIC it returns -EINVAL, and whole it is accepted with two IE windows
that leave out the MIC. -/
theorem ieee802154_frame_parse_framing_witness :
    (frame_example_truncated.length <
        fcf_hdr_len (frame_fcf frame_example_truncated) +
          fcf_sec_len (frame_fcf frame_example_truncated) ∧
      ∃ out, ieee802154_frame_parse frame_example_truncated hdr_zero iobuf_read_zero
        iobuf_read_zero = some out ∧ out.ret ≠ 0) ∧
    ((fcf_type_ok (frame_fcf frame_example_short_mic) ∧
        fcf_addr_combo (frame_fcf frame_example_short_mic) ∈
          [(MAC_ADDR_MODE_NONE, MAC_ADDR_MODE_64_BIT, 0),
         (MAC_ADDR_MODE_NONE, MAC_ADDR_MODE_64_BIT, 1),
         (MAC_ADDR_MODE_64_BIT, MAC_ADDR_MODE_64_BIT, 1)] ∧
        FIELD_GET IEEE802154_MASK_FCF_SECURED (frame_fcf frame_example_short_mic) ≠ 0 ∧
        sechdr_ok (byte_at frame_example_short_mic
          (fcf_hdr_len (frame_fcf frame_example_short_mic))) ∧
        fcf_hdr_len (frame_fcf frame_example_short_mic) + 1 ≤ frame_example_short_mic.length ∧
        frame_example_short_mic.length <
          fcf_hdr_len (frame_fcf frame_example_short_mic) + 6 + 8) ∧
      ∃ out, ieee802154_frame_parse frame_example_short_mic hdr_zero iobuf_read_zero
        iobuf_read_zero = some out ∧ out.ret = -EINVAL) ∧
    ∃ out, ieee802154_frame_parse frame_example_secured hdr_zero iobuf_read_zero
        iobuf_read_zero = some out ∧ out.ret = 0 ∧
      FIELD_GET IEEE802154_MASK_FCF_SECURED (frame_fcf frame_example_secured) ≠ 0 ∧
      FIELD_GET IEEE802154_MASK_FCF_HAS_IE (frame_fcf frame_example_secured) ≠ 0 ∧
      window_excludes_mic frame_example_secured.length out.ie_header ∧
      window_excludes_mic frame_example_secured.length out.ie_payload := by
  refine ⟨⟨by decide, ?_⟩, ⟨⟨by decide, by decide, by decide, by decide, by decide, by decide⟩, ?_⟩,
    ?_⟩
  · obtain ⟨out, hout, c1, -, -⟩ := ieee802154_frame_parse_framing frame_example_truncated
      hdr_zero iobuf_read_zero iobuf_read_zero
    exact ⟨out, hout, c1 (by decide)⟩
  · obtain ⟨out, hout, -, c2, -⟩ := ieee802154_frame_parse_framing frame_example_short_mic
      hdr_zero iobuf_read_zero iobuf_read_zero
    exact ⟨out, hout, c2 (by decide) (by decide) (by decide) (by decide) (by decide)
      (by decide)⟩
  · obtain ⟨out, hout, -, -, c3⟩ := ieee802154_frame_parse_framing frame_example_secured
      hdr_zero iobuf_read_zero iobuf_read_zero
    have hret : out.ret = 0 := by
      have h := frame_example_secured_ret
      rw [hout] at h
      exact Option.some.inj h
    exact ⟨out, hout, hret, by decide, by decide, c3 hret (by decide) (by decide)⟩

/-- Witness of C4: the secured example frame, of combination (none, 64-bit, 0). -/
theorem ieee802154_frame_parse_addressing_witness :
    fcf_type_ok (frame_fcf frame_example_secured) ∧
    ∃ out, ieee802154_frame_parse frame_example_secured hdr_zero iobuf_read_zero
        iobuf_read_zero = some out ∧
      (frame_parse_addr_index (frame_fcf frame_example_secured) <
          ieee802154_table_pan_id_cmpr.length ↔
        fcf_addr_combo (frame_fcf frame_example_secured) ∈
          [(MAC_ADDR_MODE_NONE, MAC_ADDR_MODE_64_BIT, 0),
         (MAC_ADDR_MODE_NONE, MAC_ADDR_MODE_64_BIT, 1),
         (MAC_ADDR_MODE_64_BIT, MAC_ADDR_MODE_64_BIT, 1)]) ∧
      (fcf_addr_combo (frame_fcf frame_example_secured) ∉
          [(MAC_ADDR_MODE_NONE, MAC_ADDR_MODE_64_BIT, 0),
         (MAC_ADDR_MODE_NONE, MAC_ADDR_MODE_64_BIT, 1),
         (MAC_ADDR_MODE_64_BIT, MAC_ADDR_MODE_64_BIT, 1)] → out.ret = -ENOTSUP) ∧
      (∀ row, ieee802154_table_pan_id_cmpr.get?
          (frame_parse_addr_index (frame_fcf frame_example_secured)) = some row →
        (row.has_src_pan_id = true ↔
          fcf_addr_combo (frame_fcf frame_example_secured) =
            (MAC_ADDR_MODE_NONE, MAC_ADDR_MODE_64_BIT, 0))) ∧
      (fcf_addr_combo (frame_fcf frame_example_secured) =
          (MAC_ADDR_MODE_NONE, MAC_ADDR_MODE_64_BIT, 0) →
        fcf_hdr_len (frame_fcf frame_example_secured) ≤ frame_example_secured.length →
        out.hdr.pan_id =
          read_le16 frame_example_secured (2 + fcf_seqno_len (frame_fcf frame_example_secured))) ∧
      (fcf_addr_combo (frame_fcf frame_example_secured) ∈
          [(MAC_ADDR_MODE_NONE, MAC_ADDR_MODE_64_BIT, 1),
           (MAC_ADDR_MODE_64_BIT, MAC_ADDR_MODE_64_BIT, 1)] → out.hdr.pan_id = 0xffff) ∧
      (fcf_addr_combo (frame_fcf frame_example_secured) ∈
          [(MAC_ADDR_MODE_NONE, MAC_ADDR_MODE_64_BIT, 0),
           (MAC_ADDR_MODE_NONE, MAC_ADDR_MODE_64_BIT, 1)] →
        out.hdr.dst = ieee802154_addr_bc) :=
  ⟨by decide, ieee802154_frame_parse_addressing frame_example_secured hdr_zero iobuf_read_zero
    iobuf_read_zero (by decide)⟩

/-! ### Endianness and reads at an offset -/

theorem byte_at_lt (mem : List Nat) (i : Nat) : byte_at mem i < 256 := by
  unfold byte_at; omega

theorem byte_at_append_left (P Q : List Nat) (i : Nat) (h : i < P.length) :
    byte_at (P ++ Q) i = byte_at P i := by
  unfold byte_at
  rw [List.getD_append _ _ _ _ h]

theorem byte_at_append_right (P Q : List Nat) (i : Nat) :
    byte_at (P ++ Q) (P.length + i) = byte_at Q i := by
  unfold byte_at
  rw [List.getD_append_right _ _ _ _ (by omega)]
  simp

theorem read_le16_lt (mem : List Nat) (p : Nat) : read_le16 mem p < 65536 := by
  unfold read_le16
  have := byte_at_lt mem p
  have := byte_at_lt mem (p + 1)
  omega

theorem read_le32_lt (mem : List Nat) (p : Nat) : read_le32 mem p < 4294967296 := by
  unfold read_le32
  have := byte_at_lt mem p
  have := byte_at_lt mem (p + 1)
  have := byte_at_lt mem (p + 2)
  have := byte_at_lt mem (p + 3)
  omega

theorem read_le64_lt (mem : List Nat) (p : Nat) : read_le64 mem p < 18446744073709551616 := by
  unfold read_le64
  have := read_le32_lt mem p
  have := read_le32_lt mem (p + 4)
  omega

theorem read_be64_lt (a : List Nat) : read_be64 a < 18446744073709551616 := by
  unfold read_be64
  have := byte_at_lt a 0
  have := byte_at_lt a 1
  have := byte_at_lt a 2
  have := byte_at_lt a 3
  have := byte_at_lt a 4
  have := byte_at_lt a 5
  have := byte_at_lt a 6
  have := byte_at_lt a 7
  omega

theorem read_le16_append (P rest : List Nat) (v : Nat) :
    read_le16 (P ++ (write_le16 v ++ rest)) P.length = v % 65536 := by
  unfold read_le16
  rw [← Nat.add_zero P.length, Nat.add_assoc, byte_at_append_right, byte_at_append_right]
  simp only [write_le16, byte_at, Nat.zero_add, List.cons_append, List.getD_cons_zero,
    List.getD_cons_succ]
  omega

theorem read_le32_append (P rest : List Nat) (v : Nat) :
    read_le32 (P ++ (write_le32 v ++ rest)) P.length = v % 4294967296 := by
  unfold read_le32
  rw [← Nat.add_zero P.length]
  simp only [Nat.add_assoc, byte_at_append_right]
  simp only [write_le32, byte_at, Nat.zero_add, List.cons_append, List.getD_cons_zero,
    List.getD_cons_succ]
  omega

theorem write_le32_length (v : Nat) : (write_le32 v).length = 4 := rfl

theorem write_le64_length (v : Nat) : (write_le64 v).length = 8 := rfl

theorem write_le16_length (v : Nat) : (write_le16 v).length = 2 := rfl

theorem read_le64_append (P rest : List Nat) (v : Nat) :
    read_le64 (P ++ (write_le64 v ++ rest)) P.length = v % 18446744073709551616 := by
  unfold read_le64 write_le64
  have h1 := read_le32_append P (write_le32 (v / 4294967296 % 4294967296) ++ rest)
    (v % 4294967296)
  have h2 := read_le32_append (P ++ write_le32 (v % 4294967296)) rest
    (v / 4294967296 % 4294967296)
  simp only [List.append_assoc, List.length_append, write_le32_length] at h1 h2 ⊢
  rw [h1, h2]
  omega

theorem write_be64_read_be64 (a : List Nat) (hlen : a.length = 8) (hb : ∀ b ∈ a, b < 256) :
    write_be64 (read_be64 a) = a := by
  match a, hlen with
  | [a0, a1, a2, a3, a4, a5, a6, a7], _ =>
    simp only [List.mem_cons, List.mem_singleton, List.not_mem_nil, or_false,
      forall_eq_or_imp, forall_eq] at hb
    obtain ⟨h0, h1, h2, h3, h4, h5, h6, h7⟩ := hb
    simp only [read_be64, write_be64, byte_at, List.getD_cons_zero, List.getD_cons_succ,
      List.cons.injEq, and_true]
    refine ⟨?_, ?_, ?_, ?_, ?_, ?_, ?_, ?_⟩ <;> omega

/-! ### Header writer -/

theorem fcf_prep_val (t m : Nat) (s a c d : Bool) (ht : t = 1 ∨ t = 2) (hm : m = 0 ∨ m = 3) :
    (FIELD_PREP IEEE802154_MASK_FCF_FRAME_TYPE t
      ||| FIELD_PREP IEEE802154_MASK_FCF_SECURED (b2n s)
      ||| FIELD_PREP IEEE802154_MASK_FCF_ACK_REQ (b2n a)
      ||| FIELD_PREP IEEE802154_MASK_FCF_PAN_ID_CMPR (b2n c)
      ||| FIELD_PREP IEEE802154_MASK_FCF_DEL_SEQNO (b2n d)
      ||| FIELD_PREP IEEE802154_MASK_FCF_HAS_IE (b2n true)
      ||| FIELD_PREP IEEE802154_MASK_FCF_DST_ADDR_MODE m
      ||| FIELD_PREP IEEE802154_MASK_FCF_FRAME_VERSION MAC_FRAME_VERSION_2015
      ||| FIELD_PREP IEEE802154_MASK_FCF_SRC_ADDR_MODE MAC_ADDR_MODE_64_BIT) =
    t + 8 * b2n s + 32 * b2n a + 64 * b2n c + 256 * b2n d + 512 + 1024 * m + 8192 + 49152 := by
  rcases ht with rfl | rfl <;> rcases hm with rfl | rfl <;>
    cases s <;> cases a <;> cases c <;> cases d <;> rfl

theorem hdr_fcf_val (h : ieee802154_hdr)
    (ht : h.frame_type = IEEE802154_FRAME_TYPE_DATA ∨ h.frame_type = IEEE802154_FRAME_TYPE_ACK) :
    hdr_fcf h = h.frame_type + 8 * b2n (decide (h.key_index ≠ 0)) + 32 * b2n h.ack_req
      + 64 * b2n (decide (h.pan_id = 0xffff)) + 256 * b2n (decide (h.seqno < 0)) + 512
      + 1024 * (if h.dst = ieee802154_addr_bc then 0 else 3) + 8192 + 49152 := by
  unfold hdr_fcf
  apply fcf_prep_val
  · exact ht
  · split_ifs
    · exact Or.inl rfl
    · exact Or.inr rfl

theorem write_hdr_eq (fc : Nat → Nat) (buf : List Nat) (h : ieee802154_hdr)
    (haddr : h.dst = ieee802154_addr_bc ∨ h.pan_id = 0xffff) :
    ieee802154_frame_write_hdr fc buf h =
      some (buf ++ (write_le16 (hdr_fcf h) ++ (hdr_seqno_bytes h ++ (hdr_dst_bytes h ++
        (hdr_pan_bytes h ++ (write_le64 (read_be64 h.src) ++ hdr_sec_bytes fc h)))))) := by
  unfold ieee802154_frame_write_hdr hdr_fcf hdr_seqno_bytes hdr_dst_bytes hdr_pan_bytes
    hdr_sec_bytes
  by_cases hd : h.dst = ieee802154_addr_bc <;> by_cases hp : h.pan_id = 0xffff <;>
    by_cases hs : h.seqno ≥ 0 <;> by_cases hk : h.key_index = 0 <;>
    first
      | (exfalso; rcases haddr with h1 | h1 <;> contradiction)
      | simp [hd, hp, hs, hk, table_find, ieee802154_table_pan_id_cmpr, MAC_ADDR_MODE_NONE,
          MAC_ADDR_MODE_64_BIT, iobuf_push_le16, iobuf_push_u8, iobuf_push_le64,
          iobuf_push_data_reserved, List.range, List.range.loop, b2n,
          show (FIELD_PREP IEEE802154_MASK_SECHDR_LEVEL SEC_ENC_MIC64 |||
            FIELD_PREP IEEE802154_MASK_SECHDR_KEY_ID_MODE MAC_KEY_ID_MODE_IDX) % 256 = 14
            by decide]

theorem byte_at_mid (frame P Q R : List Nat) (o i : Nat) (hf : frame = P ++ (Q ++ R))
    (ho : o = P.length + i) (hi : i < Q.length) : byte_at frame o = byte_at Q i := by
  subst hf ho
  rw [byte_at_append_right, byte_at_append_left _ _ _ hi]

theorem read_le16_mid (frame P Q R : List Nat) (o : Nat) (hf : frame = P ++ (Q ++ R))
    (ho : o = P.length) (hQ : 2 ≤ Q.length) : read_le16 frame o = read_le16 Q 0 := by
  unfold read_le16
  rw [byte_at_mid frame P Q R o 0 hf (by omega) (by omega),
    byte_at_mid frame P Q R (o + 1) 1 hf (by omega) (by omega)]

theorem read_le32_mid (frame P Q R : List Nat) (o : Nat) (hf : frame = P ++ (Q ++ R))
    (ho : o = P.length) (hQ : 4 ≤ Q.length) : read_le32 frame o = read_le32 Q 0 := by
  unfold read_le32
  rw [byte_at_mid frame P Q R o 0 hf (by omega) (by omega),
    byte_at_mid frame P Q R (o + 1) 1 hf (by omega) (by omega),
    byte_at_mid frame P Q R (o + 2) 2 hf (by omega) (by omega),
    byte_at_mid frame P Q R (o + 3) 3 hf (by omega) (by omega)]

theorem read_le64_mid (frame P Q R : List Nat) (o : Nat) (hf : frame = P ++ (Q ++ R))
    (ho : o = P.length) (hQ : 8 ≤ Q.length) : read_le64 frame o = read_le64 Q 0 := by
  unfold read_le64 read_le32
  rw [byte_at_mid frame P Q R o 0 hf (by omega) (by omega),
    byte_at_mid frame P Q R (o + 1) 1 hf (by omega) (by omega),
    byte_at_mid frame P Q R (o + 2) 2 hf (by omega) (by omega),
    byte_at_mid frame P Q R (o + 3) 3 hf (by omega) (by omega),
    byte_at_mid frame P Q R (o + 4) 4 hf (by omega) (by omega),
    byte_at_mid frame P Q R (o + 4 + 1) 5 hf (by omega) (by omega),
    byte_at_mid frame P Q R (o + 4 + 2) 6 hf (by omega) (by omega),
    byte_at_mid frame P Q R (o + 4 + 3) 7 hf (by omega) (by omega)]

theorem read_le16_write_le16 (v : Nat) : read_le16 (write_le16 v) 0 = v % 65536 := by
  have := read_le16_append [] [] v
  simpa using this

theorem read_le64_write_le64 (v : Nat) :
    read_le64 (write_le64 v) 0 = v % 18446744073709551616 := by
  have := read_le64_append [] [] v
  simpa using this

/-- Parse of a frame given by its fields: frame control `V`, sequence number `S`,
destination address `D`, PAN ID `N`, source address `A`, and the rest `X`. -/
theorem frame_parse_fields (V : Nat) (S D N A X : List Nat) (hdr0 : ieee802154_hdr)
    (ieh0 iep0 : iobuf_read) (hV : V < 65536) (ht : fcf_type_ok V) (ha : fcf_addr_ok V)
    (hS : S.length = fcf_seqno_len V) (hD : D.length = fcf_dst_len V)
    (hN : N.length = fcf_pan_len V) (hA : A.length = 8) :
    ieee802154_frame_parse (write_le16 V ++ (S ++ (D ++ (N ++ (A ++ X))))) hdr0 ieh0 iep0 =
      some (frame_parse_tail (write_le16 V ++ (S ++ (D ++ (N ++ (A ++ X))))) V
        (frame_cursor (fcf_hdr_len V + X.length) (fcf_hdr_len V) false)
        { frame_type := FIELD_GET IEEE802154_MASK_FCF_FRAME_TYPE V
          ack_req := decide (FIELD_GET IEEE802154_MASK_FCF_ACK_REQ V ≠ 0)
          seqno := if FIELD_GET IEEE802154_MASK_FCF_DEL_SEQNO V ≠ 0 then -1
            else (byte_at S 0 : Int)
          pan_id := if FIELD_GET IEEE802154_MASK_FCF_PAN_ID_CMPR V ≠ 0 then 0xffff
            else read_le16 N 0
          dst := if FIELD_GET IEEE802154_MASK_FCF_DST_ADDR_MODE V = MAC_ADDR_MODE_64_BIT
            then write_be64 (read_le64 D 0) else ieee802154_addr_bc
          src := write_be64 (read_le64 A 0)
          key_index := hdr0.key_index
          frame_counter := hdr0.frame_counter } ieh0 iep0) := by
  generalize hframe : write_le16 V ++ (S ++ (D ++ (N ++ (A ++ X)))) = frame
  have hfcf : read_le16 frame 0 = V := by
    rw [← hframe]
    have := read_le16_append [] (S ++ (D ++ (N ++ (A ++ X)))) V
    simp only [List.nil_append, List.length_nil] at this
    rw [this]; omega
  have hlen : frame.length = fcf_hdr_len V + X.length := by
    rw [← hframe]
    simp only [List.length_append, write_le16_length, hS, hD, hN, hA, fcf_hdr_len]
    omega
  rw [frame_parse_hdr_ok frame hdr0 ieh0 iep0 (hfcf ▸ ht) (hfcf ▸ ha) (by rw [hfcf]; omega)]
  rw [hfcf, hlen]
  congr 2
  unfold parsed_addr_hdr
  simp only [hfcf]
  congr 1
  · by_cases hd : FIELD_GET IEEE802154_MASK_FCF_DEL_SEQNO V = 0
    · simp only [hd, ne_eq, not_true_eq_false, if_false]
      have hs1 : S.length = 1 := by rw [hS]; simp [fcf_seqno_len, hd]
      rw [byte_at_mid frame (write_le16 V) S (D ++ (N ++ (A ++ X))) 2 0 hframe.symm
        (by simp [write_le16_length]) (by omega)]
    · simp only [hd, ne_eq, not_false_eq_true, if_true]
  · by_cases hc : FIELD_GET IEEE802154_MASK_FCF_PAN_ID_CMPR V = 0
    · simp only [hc, ne_eq, not_true_eq_false, if_false]
      have hn2 : N.length = 2 := by rw [hN]; simp [fcf_pan_len, hc]
      rw [read_le16_mid frame (write_le16 V ++ (S ++ D)) N (A ++ X) _
        (by rw [← hframe]; simp only [List.append_assoc])
        (by simp only [List.length_append, write_le16_length, hS, hD]; omega) (by omega)]
    · simp only [hc, ne_eq, not_false_eq_true, if_true]
  · by_cases hd : FIELD_GET IEEE802154_MASK_FCF_DST_ADDR_MODE V = MAC_ADDR_MODE_64_BIT
    · simp only [hd, if_true]
      have hd8 : D.length = 8 := by rw [hD]; simp [fcf_dst_len, hd]
      rw [read_le64_mid frame (write_le16 V ++ S) D (N ++ (A ++ X)) _
        (by rw [← hframe]; simp only [List.append_assoc])
        (by simp only [List.length_append, write_le16_length, hS]) (by omega)]
    · simp only [hd, if_false]
  · rw [read_le64_mid frame (write_le16 V ++ (S ++ (D ++ N))) A X _
      (by rw [← hframe]; simp only [List.append_assoc])
      (by simp only [List.length_append, write_le16_length, hS, hD, hN, fcf_hdr_len]; omega)
      (by omega)]

theorem frame_parse_ies_empty (frame : List Nat) (fcf n : Nat) (hdr : ieee802154_hdr)
    (ieh0 iep0 : iobuf_read) (hie : FIELD_GET IEEE802154_MASK_FCF_HAS_IE fcf ≠ 0) :
    frame_parse_ies frame fcf (frame_cursor n n false) hdr ieh0 iep0 =
      { ret := 0, hdr := hdr,
        ie_header := { data_size := 0, data := some n, cnt := 0, err := false },
        ie_payload := iobuf_read_zero } := by
  unfold frame_parse_ies
  simp only [hie, ne_eq, not_false_eq_true, if_true, frame_parse_ie_empty]
  rw [if_neg (show ¬ ((0 : Int) < 0) by decide)]
  simp [frame_cursor]

/-- Fields of the frame control field written for a header. -/
theorem hdr_fcf_fields (h : ieee802154_hdr)
    (ht : h.frame_type = IEEE802154_FRAME_TYPE_DATA ∨ h.frame_type = IEEE802154_FRAME_TYPE_ACK) :
    hdr_fcf h < 65536 ∧
    FIELD_GET IEEE802154_MASK_FCF_FRAME_TYPE (hdr_fcf h) = h.frame_type ∧
    FIELD_GET IEEE802154_MASK_FCF_SECURED (hdr_fcf h) = b2n (decide (h.key_index ≠ 0)) ∧
    FIELD_GET IEEE802154_MASK_FCF_ACK_REQ (hdr_fcf h) = b2n h.ack_req ∧
    FIELD_GET IEEE802154_MASK_FCF_PAN_ID_CMPR (hdr_fcf h) = b2n (decide (h.pan_id = 0xffff)) ∧
    FIELD_GET IEEE802154_MASK_FCF_DEL_SEQNO (hdr_fcf h) = b2n (decide (h.seqno < 0)) ∧
    FIELD_GET IEEE802154_MASK_FCF_HAS_IE (hdr_fcf h) = 1 ∧
    FIELD_GET IEEE802154_MASK_FCF_DST_ADDR_MODE (hdr_fcf h) =
      (if h.dst = ieee802154_addr_bc then 0 else 3) ∧
    FIELD_GET IEEE802154_MASK_FCF_FRAME_VERSION (hdr_fcf h) = 2 ∧
    FIELD_GET IEEE802154_MASK_FCF_SRC_ADDR_MODE (hdr_fcf h) = 3 := by
  have hv := hdr_fcf_val h ht
  have b1 : ∀ b : Bool, b2n b ≤ 1 := by intro b; cases b <;> simp [b2n]
  have hk := b1 (decide (h.key_index ≠ 0))
  have ha := b1 h.ack_req
  have hp := b1 (decide (h.pan_id = 0xffff))
  have hs := b1 (decide (h.seqno < 0))
  have hd : (if h.dst = ieee802154_addr_bc then 0 else 3) ≤ 3 := by split_ifs <;> omega
  have ht' : h.frame_type = 1 ∨ h.frame_type = 2 := ht
  rw [fcf_frame_type, fcf_secured, fcf_ack_req, fcf_pan_id_cmpr, fcf_del_seqno, fcf_has_ie,
    fcf_dst_addr_mode, fcf_frame_version, fcf_src_addr_mode]
  generalize hdr_fcf h = V at hv ⊢
  generalize b2n (decide (h.key_index ≠ 0)) = k at hv hk ⊢
  generalize b2n h.ack_req = a at hv ha ⊢
  generalize b2n (decide (h.pan_id = 0xffff)) = p at hv hp ⊢
  generalize b2n (decide (h.seqno < 0)) = s at hv hs ⊢
  generalize (if h.dst = ieee802154_addr_bc then 0 else 3) = d at hv hd ⊢
  generalize h.frame_type = t at hv ht' ⊢
  refine ⟨?_, ?_, ?_, ?_, ?_, ?_, ?_, ?_, ?_, ?_⟩ <;> omega

theorem frame_parse_tail_written (frame P mic : List Nat) (V L c0 c1 c2 c3 ki : Nat)
    (hdr : ieee802154_hdr) (ieh0 iep0 : iobuf_read)
    (hf : frame = P ++ ([0x0e, c0, c1, c2, c3, ki] ++ mic)) (hP : P.length = L)
    (hs : FIELD_GET IEEE802154_MASK_FCF_SECURED V ≠ 0)
    (hie : FIELD_GET IEEE802154_MASK_FCF_HAS_IE V ≠ 0)
    (h0 : c0 < 256) (h1 : c1 < 256) (h2 : c2 < 256) (h3 : c3 < 256) (hk : ki < 256) :
    frame_parse_tail frame V (frame_cursor (L + 14) L false) hdr ieh0 iep0 =
      { ret := 0
        hdr := { hdr with frame_counter := c0 + 256 * c1 + 65536 * c2 + 16777216 * c3,
                          key_index := ki }
        ie_header := { data_size := 0, data := some (L + 6), cnt := 0, err := false }
        ie_payload := iobuf_read_zero } := by
  have hb : ∀ i, i < 6 → byte_at frame (L + i) = byte_at [0x0e, c0, c1, c2, c3, ki] i := by
    intro i hi
    exact byte_at_mid frame P [0x0e, c0, c1, c2, c3, ki] mic (L + i) i hf (by omega)
      (by simpa using hi)
  have hscf : byte_at frame L = 0x0e := by
    have := hb 0 (by omega)
    simpa [byte_at] using this
  have hok : sechdr_ok (byte_at frame L) := by rw [hscf]; decide
  rw [frame_parse_tail_sec _ _ _ _ _ _ hs, frame_parse_sec_ok frame (L + 14) L _ hok (by omega)]
  rw [if_neg (show ¬ ((0 : Int) < 0) by decide)]
  rw [show L + 14 - 8 = L + 6 by omega, frame_parse_ies_empty _ _ _ _ _ _ hie]
  have e1 := hb 1 (by omega)
  have e2 := hb 2 (by omega)
  have e3 := hb 3 (by omega)
  have e4 := hb 4 (by omega)
  have e5 := hb 5 (by omega)
  simp only [byte_at, List.getD_cons_zero, List.getD_cons_succ] at e1 e2 e3 e4 e5
  have hfc : read_le32 frame (L + 1) = c0 + 256 * c1 + 65536 * c2 + 16777216 * c3 := by
    unfold read_le32
    rw [show L + 1 + 1 = L + 2 by omega, show L + 1 + 2 = L + 3 by omega,
      show L + 1 + 3 = L + 4 by omega]
    unfold byte_at
    rw [e1, e2, e3, e4]
    omega
  have hki : byte_at frame (L + 5) = ki := by
    unfold byte_at
    rw [e5]; omega
  rw [hfc, hki]

/-- C1: header round trip, parse after write. For every header with frame type data
or ack, sequence number -1 or in [0,255], 8-byte source and destination, 16-bit PAN
ID, 8-bit key index, and either the broadcast destination (any PAN ID) or another
destination with PAN ID 0xffff, the bytes `ieee802154_frame_write_hdr` produces (the
reserved frame counter bytes filled with the 32-bit value `c`), followed by no IE and,
when the key index is not 0, by 8 MIC bytes, are accepted by `ieee802154_frame_parse`
with the same frame type, ack request, sequence number, destination, PAN ID, source
and key index, and with frame counter `c` when the key index is not 0. -/
theorem ieee802154_frame_write_parse (h hdr0 : ieee802154_hdr) (ieh0 iep0 : iobuf_read)
    (c : Nat) (mic : List Nat)
    (ht : h.frame_type = IEEE802154_FRAME_TYPE_DATA ∨ h.frame_type = IEEE802154_FRAME_TYPE_ACK)
    (hseq : h.seqno = -1 ∨ (0 ≤ h.seqno ∧ h.seqno ≤ 255))
    (hsrc : h.src.length = 8 ∧ ∀ b ∈ h.src, b < 256)
    (hdst : h.dst.length = 8 ∧ ∀ b ∈ h.dst, b < 256)
    (hpan : h.pan_id < 65536) (hki : h.key_index < 256)
    (haddr : h.dst = ieee802154_addr_bc ∨ (h.dst ≠ ieee802154_addr_bc ∧ h.pan_id = 0xffff))
    (hc : c < 4294967296) (hmic : mic.length = 8) :
    ∃ bytes out, ieee802154_frame_write_hdr (fc_le32 c) [] h = some bytes ∧
      ieee802154_frame_parse (bytes ++ (if h.key_index ≠ 0 then mic else [])) hdr0 ieh0 iep0 =
        some out ∧
      out.ret = 0 ∧ out.hdr.frame_type = h.frame_type ∧ out.hdr.ack_req = h.ack_req ∧
      out.hdr.seqno = h.seqno ∧ out.hdr.dst = h.dst ∧ out.hdr.pan_id = h.pan_id ∧
      out.hdr.src = h.src ∧ out.hdr.key_index = h.key_index ∧
      (h.key_index ≠ 0 → out.hdr.frame_counter = c) := by
  have haddr' : h.dst = ieee802154_addr_bc ∨ h.pan_id = 0xffff := by
    rcases haddr with a | ⟨-, a⟩
    · exact Or.inl a
    · exact Or.inr a
  obtain ⟨hV, f1, f2, f3, f4, f5, f6, f7, f8, f9⟩ := hdr_fcf_fields h ht
  have htype : fcf_type_ok (hdr_fcf h) := by
    unfold fcf_type_ok
    rw [f1, f8]
    exact ⟨ht, rfl⟩
  have hok : fcf_addr_ok (hdr_fcf h) := by
    unfold fcf_addr_ok
    rw [f9, f7, f4]
    refine ⟨rfl, ?_⟩
    rcases haddr with a | ⟨a, b⟩
    · left; simp [a, MAC_ADDR_MODE_NONE]
    · right; simp [a, b, MAC_ADDR_MODE_64_BIT, b2n]
  have hS : (hdr_seqno_bytes h).length = fcf_seqno_len (hdr_fcf h) := by
    unfold hdr_seqno_bytes fcf_seqno_len
    rw [f5]
    rcases hseq with a | ⟨a, b⟩
    · simp [a, b2n]
    · have : ¬ h.seqno < 0 := by omega
      simp [a, this, b2n]
  have hD : (hdr_dst_bytes h).length = fcf_dst_len (hdr_fcf h) := by
    unfold hdr_dst_bytes fcf_dst_len
    rw [f7]
    by_cases a : h.dst = ieee802154_addr_bc
    · simp [a, MAC_ADDR_MODE_64_BIT]
    · simp [a, MAC_ADDR_MODE_64_BIT, write_le64_length]
  have hN : (hdr_pan_bytes h).length = fcf_pan_len (hdr_fcf h) := by
    unfold hdr_pan_bytes fcf_pan_len
    rw [f4]
    by_cases a : h.pan_id = 0xffff
    · simp [a, b2n]
    · simp [a, b2n, write_le16_length]
  have hie : FIELD_GET IEEE802154_MASK_FCF_HAS_IE (hdr_fcf h) ≠ 0 := by rw [f6]; decide
  suffices key : ∃ out, ieee802154_frame_parse
      (write_le16 (hdr_fcf h) ++ (hdr_seqno_bytes h ++ (hdr_dst_bytes h ++
        (hdr_pan_bytes h ++ (write_le64 (read_be64 h.src) ++
          (hdr_sec_bytes (fc_le32 c) h ++ (if h.key_index ≠ 0 then mic else []))))))) hdr0 ieh0
        iep0 = some out ∧
      out.ret = 0 ∧ out.hdr.frame_type = h.frame_type ∧ out.hdr.ack_req = h.ack_req ∧
      out.hdr.seqno = h.seqno ∧ out.hdr.dst = h.dst ∧ out.hdr.pan_id = h.pan_id ∧
      out.hdr.src = h.src ∧ out.hdr.key_index = h.key_index ∧
      (h.key_index ≠ 0 → out.hdr.frame_counter = c) by
    obtain ⟨out, k1, k2⟩ := key
    refine ⟨_, out, write_hdr_eq (fc_le32 c) [] h haddr', ?_, k2⟩
    rw [← k1]
    simp only [List.nil_append, List.append_assoc]
  rw [frame_parse_fields (hdr_fcf h) _ _ _ _ _ hdr0 ieh0 iep0 hV htype hok hS hD hN
    (write_le64_length _)]
  have hft : FIELD_GET IEEE802154_MASK_FCF_FRAME_TYPE (hdr_fcf h) = h.frame_type := f1
  have hack : decide (FIELD_GET IEEE802154_MASK_FCF_ACK_REQ (hdr_fcf h) ≠ 0) = h.ack_req := by
    rw [f3]; cases h.ack_req <;> simp [b2n]
  have hsq : (if FIELD_GET IEEE802154_MASK_FCF_DEL_SEQNO (hdr_fcf h) ≠ 0 then (-1 : Int)
      else (byte_at (hdr_seqno_bytes h) 0 : Int)) = h.seqno := by
    rw [f5]
    unfold hdr_seqno_bytes
    rcases hseq with a | ⟨a, b⟩
    · simp [a, b2n]
    · have hn : ¬ h.seqno < 0 := by omega
      simp only [hn, decide_False, b2n, Bool.false_eq_true, if_false, ne_eq, not_true_eq_false,
        ge_iff_le, a, if_true, byte_at, List.getD_cons_zero]
      omega
  have hpn : (if FIELD_GET IEEE802154_MASK_FCF_PAN_ID_CMPR (hdr_fcf h) ≠ 0 then 0xffff
      else read_le16 (hdr_pan_bytes h) 0) = h.pan_id := by
    rw [f4]
    unfold hdr_pan_bytes
    by_cases a : h.pan_id = 0xffff
    · simp [a, b2n]
    · simp only [a, decide_False, b2n, Bool.false_eq_true, if_false, ne_eq, not_true_eq_false,
        not_false_eq_true, if_true, read_le16_write_le16]
      omega
  have hds : (if FIELD_GET IEEE802154_MASK_FCF_DST_ADDR_MODE (hdr_fcf h) = MAC_ADDR_MODE_64_BIT
      then write_be64 (read_le64 (hdr_dst_bytes h) 0) else ieee802154_addr_bc) = h.dst := by
    rw [f7]
    unfold hdr_dst_bytes
    by_cases a : h.dst = ieee802154_addr_bc
    · simp [a, MAC_ADDR_MODE_64_BIT]
    · simp only [a, if_false, MAC_ADDR_MODE_64_BIT, if_true, read_le64_write_le64]
      rw [Nat.mod_eq_of_lt (read_be64_lt _), write_be64_read_be64 _ hdst.1 hdst.2]
  have hsr : write_be64 (read_le64 (write_le64 (read_be64 h.src)) 0) = h.src := by
    rw [read_le64_write_le64, Nat.mod_eq_of_lt (read_be64_lt _),
      write_be64_read_be64 _ hsrc.1 hsrc.2]
  rw [hft, hack, hsq, hpn, hds, hsr]
  by_cases hk : h.key_index = 0
  · have hs0 : FIELD_GET IEEE802154_MASK_FCF_SECURED (hdr_fcf h) = 0 := by
      rw [f2]; simp [hk, b2n]
    have hx : hdr_sec_bytes (fc_le32 c) h ++ (if h.key_index ≠ 0 then mic else []) = [] := by
      simp [hdr_sec_bytes, hk]
    rw [hx, frame_parse_tail_unsec _ _ _ _ _ _ hs0]
    simp only [List.length_nil, Nat.add_zero]
    rw [frame_parse_ies_empty _ _ _ _ _ _ hie]
    exact ⟨_, rfl, rfl, rfl, rfl, rfl, rfl, rfl, rfl, hk.symm, fun a => absurd hk a⟩
  · have hs1 : FIELD_GET IEEE802154_MASK_FCF_SECURED (hdr_fcf h) ≠ 0 := by
      rw [f2]; simp [hk, b2n]
    have hx : hdr_sec_bytes (fc_le32 c) h ++ (if h.key_index ≠ 0 then mic else []) =
        [0x0e, fc_le32 c 0 % 256, fc_le32 c 1 % 256, fc_le32 c 2 % 256, fc_le32 c 3 % 256,
          h.key_index % 256] ++ mic := by
      simp [hdr_sec_bytes, hk]
    rw [hx]
    have hlen : ([0x0e, fc_le32 c 0 % 256, fc_le32 c 1 % 256, fc_le32 c 2 % 256,
        fc_le32 c 3 % 256, h.key_index % 256] ++ mic).length = 14 := by
      simp [hmic]
    rw [hlen]
    rw [frame_parse_tail_written
      (write_le16 (hdr_fcf h) ++ (hdr_seqno_bytes h ++ (hdr_dst_bytes h ++
        (hdr_pan_bytes h ++ (write_le64 (read_be64 h.src) ++
          ([0x0e, fc_le32 c 0 % 256, fc_le32 c 1 % 256, fc_le32 c 2 % 256, fc_le32 c 3 % 256,
            h.key_index % 256] ++ mic))))))
      (write_le16 (hdr_fcf h) ++ (hdr_seqno_bytes h ++ (hdr_dst_bytes h ++
        (hdr_pan_bytes h ++ write_le64 (read_be64 h.src)))))
      mic (hdr_fcf h) (fcf_hdr_len (hdr_fcf h)) (fc_le32 c 0 % 256) (fc_le32 c 1 % 256)
      (fc_le32 c 2 % 256) (fc_le32 c 3 % 256) (h.key_index % 256) _ ieh0 iep0
      (by simp only [List.append_assoc, List.cons_append, List.nil_append])
      (by simp only [List.length_append, write_le16_length, write_le64_length, hS, hD, hN,
            fcf_hdr_len]; omega)
      hs1 hie (Nat.mod_lt _ (by omega)) (Nat.mod_lt _ (by omega)) (Nat.mod_lt _ (by omega))
      (Nat.mod_lt _ (by omega)) (Nat.mod_lt _ (by omega))]
    refine ⟨_, rfl, rfl, rfl, rfl, rfl, rfl, rfl, rfl, Nat.mod_eq_of_lt hki, fun _ => ?_⟩
    show fc_le32 c 0 % 256 + 256 * (fc_le32 c 1 % 256) + 65536 * (fc_le32 c 2 % 256) +
      16777216 * (fc_le32 c 3 % 256) = c
    simp only [fc_le32, pow_zero, pow_one, Nat.div_one, Nat.reducePow]
    omega

/-! ### Header round trip, write after parse -/

theorem list_split (l : List Nat) (n : Nat) (h : n ≤ l.length) :
    ∃ a b, l = a ++ b ∧ a.length = n :=
  ⟨l.take n, l.drop n, (List.take_append_drop n l).symm, by simp [h]⟩

theorem list_split6 (l : List Nat) (a b c d e f : Nat) (h : a + b + c + d + e + f ≤ l.length) :
    ∃ A B C D E F R, l = A ++ (B ++ (C ++ (D ++ (E ++ (F ++ R))))) ∧ A.length = a ∧
      B.length = b ∧ C.length = c ∧ D.length = d ∧ E.length = e ∧ F.length = f ∧
      l.take (a + b + c + d + e + f) = A ++ (B ++ (C ++ (D ++ (E ++ F)))) := by
  obtain ⟨A, r1, h1, hA⟩ := list_split l a (by omega)
  have l1 : r1.length = l.length - a := by rw [h1]; simp [hA]
  obtain ⟨B, r2, h2, hB⟩ := list_split r1 b (by omega)
  have l2 : r2.length = r1.length - b := by rw [h2]; simp [hB]
  obtain ⟨C, r3, h3, hC⟩ := list_split r2 c (by omega)
  have l3 : r3.length = r2.length - c := by rw [h3]; simp [hC]
  obtain ⟨D, r4, h4, hD⟩ := list_split r3 d (by omega)
  have l4 : r4.length = r3.length - d := by rw [h4]; simp [hD]
  obtain ⟨E, r5, h5, hE⟩ := list_split r4 e (by omega)
  have l5 : r5.length = r4.length - e := by rw [h5]; simp [hE]
  obtain ⟨F, R, h6, hF⟩ := list_split r5 f (by omega)
  refine ⟨A, B, C, D, E, F, R, ?_, hA, hB, hC, hD, hE, hF, ?_⟩
  · rw [h1, h2, h3, h4, h5, h6]
  · have hl : l = (A ++ (B ++ (C ++ (D ++ (E ++ F))))) ++ R := by
      rw [h1, h2, h3, h4, h5, h6]; simp only [List.append_assoc]
    have hlen : (A ++ (B ++ (C ++ (D ++ (E ++ F))))).length = a + b + c + d + e + f := by
      simp only [List.length_append, hA, hB, hC, hD, hE, hF]; omega
    rw [hl, ← hlen, List.take_left']
    rfl

theorem read_be64_write_be64 (v : Nat) (hv : v < 18446744073709551616) :
    read_be64 (write_be64 v) = v := by
  simp only [read_be64, write_be64, byte_at, List.getD_cons_zero, List.getD_cons_succ]
  omega

theorem write_le16_read_le16 (N : List Nat) (hlen : N.length = 2) (hb : ∀ b ∈ N, b < 256) :
    write_le16 (read_le16 N 0) = N := by
  match N, hlen with
  | [a0, a1], _ =>
    simp only [List.mem_cons, List.mem_singleton, List.not_mem_nil, or_false,
      forall_eq_or_imp, forall_eq] at hb
    obtain ⟨h0, h1⟩ := hb
    simp only [read_le16, write_le16, byte_at, List.getD_cons_zero, List.getD_cons_succ,
      List.cons.injEq, and_true]
    refine ⟨?_, ?_⟩ <;> omega

theorem write_le64_read_le64 (a : List Nat) (hlen : a.length = 8) (hb : ∀ b ∈ a, b < 256) :
    write_le64 (read_le64 a 0) = a := by
  match a, hlen with
  | [a0, a1, a2, a3, a4, a5, a6, a7], _ =>
    simp only [List.mem_cons, List.mem_singleton, List.not_mem_nil, or_false,
      forall_eq_or_imp, forall_eq] at hb
    obtain ⟨h0, h1, h2, h3, h4, h5, h6, h7⟩ := hb
    simp only [read_le64, read_le32, write_le64, write_le32, byte_at, List.getD_cons_zero,
      List.getD_cons_succ, List.cons_append, List.nil_append, List.cons.injEq, and_true]
    refine ⟨?_, ?_, ?_, ?_, ?_, ?_, ?_, ?_⟩ <;> omega

theorem fcf_frame_pending (r : Nat) :
    FIELD_GET IEEE802154_MASK_FCF_FRAME_PENDING r = r / 16 % 2 := by
  simpa using FIELD_GET_eq 1 4 IEEE802154_MASK_FCF_FRAME_PENDING r (by decide) (by decide)

theorem fcf_reserved (r : Nat) : FIELD_GET IEEE802154_MASK_FCF_RESERVED r = r / 128 % 2 := by
  simpa using FIELD_GET_eq 1 7 IEEE802154_MASK_FCF_RESERVED r (by decide) (by decide)

theorem parsed_addr_hdr_fields (frame : List Nat) (V : Nat) (F S D N A X : List Nat)
    (hdr0 : ieee802154_hdr) (hframe : frame = F ++ (S ++ (D ++ (N ++ (A ++ X)))))
    (hfcf : read_le16 frame 0 = V) (hF : F.length = 2)
    (hS : S.length = fcf_seqno_len V) (hD : D.length = fcf_dst_len V)
    (hN : N.length = fcf_pan_len V) (hA : A.length = 8) :
    parsed_addr_hdr frame hdr0 =
      { frame_type := FIELD_GET IEEE802154_MASK_FCF_FRAME_TYPE V
        ack_req := decide (FIELD_GET IEEE802154_MASK_FCF_ACK_REQ V ≠ 0)
        seqno := if FIELD_GET IEEE802154_MASK_FCF_DEL_SEQNO V ≠ 0 then -1
          else (byte_at S 0 : Int)
        pan_id := if FIELD_GET IEEE802154_MASK_FCF_PAN_ID_CMPR V ≠ 0 then 0xffff
          else read_le16 N 0
        dst := if FIELD_GET IEEE802154_MASK_FCF_DST_ADDR_MODE V = MAC_ADDR_MODE_64_BIT
          then write_be64 (read_le64 D 0) else ieee802154_addr_bc
        src := write_be64 (read_le64 A 0)
        key_index := hdr0.key_index
        frame_counter := hdr0.frame_counter } := by
  unfold parsed_addr_hdr
  simp only [hfcf]
  congr 1
  · by_cases hd : FIELD_GET IEEE802154_MASK_FCF_DEL_SEQNO V = 0
    · simp only [hd, ne_eq, not_true_eq_false, if_false]
      have hs1 : S.length = 1 := by rw [hS]; simp [fcf_seqno_len, hd]
      rw [byte_at_mid frame F S (D ++ (N ++ (A ++ X))) 2 0 hframe
        (by omega) (by omega)]
    · simp only [hd, ne_eq, not_false_eq_true, if_true]
  · by_cases hc : FIELD_GET IEEE802154_MASK_FCF_PAN_ID_CMPR V = 0
    · simp only [hc, ne_eq, not_true_eq_false, if_false]
      have hn2 : N.length = 2 := by rw [hN]; simp [fcf_pan_len, hc]
      rw [read_le16_mid frame (F ++ (S ++ D)) N (A ++ X) _
        (by rw [hframe]; simp only [List.append_assoc])
        (by simp only [List.length_append, hF, hS, hD]; omega) (by omega)]
    · simp only [hc, ne_eq, not_false_eq_true, if_true]
  · by_cases hd : FIELD_GET IEEE802154_MASK_FCF_DST_ADDR_MODE V = MAC_ADDR_MODE_64_BIT
    · simp only [hd, if_true]
      have hd8 : D.length = 8 := by rw [hD]; simp [fcf_dst_len, hd]
      rw [read_le64_mid frame (F ++ S) D (N ++ (A ++ X)) _
        (by rw [hframe]; simp only [List.append_assoc])
        (by simp only [List.length_append, hF, hS]) (by omega)]
    · simp only [hd, if_false]
  · rw [read_le64_mid frame (F ++ (S ++ (D ++ N))) A X _
      (by rw [hframe]; simp only [List.append_assoc])
      (by simp only [List.length_append, hF, hS, hD, hN, fcf_hdr_len]; omega)
      (by omega)]

/-- Header of an accepted frame: the addressing fields, and the security fields of a
secured frame. -/
theorem frame_parse_accepted (frame : List Nat) (hdr0 : ieee802154_hdr) (ieh0 iep0 : iobuf_read)
    (out : frame_parse_result)
    (hacc : ieee802154_frame_parse frame hdr0 ieh0 iep0 = some out) (hret : out.ret = 0) :
    fcf_type_ok (frame_fcf frame) ∧ fcf_addr_ok (frame_fcf frame) ∧
    frame_fcf frame = read_le16 frame 0 ∧
    fcf_hdr_len (frame_fcf frame) + fcf_sec_len (frame_fcf frame) ≤ frame.length ∧
    (FIELD_GET IEEE802154_MASK_FCF_SECURED (frame_fcf frame) = 0 →
      out.hdr = { parsed_addr_hdr frame hdr0 with key_index := 0 }) ∧
    (FIELD_GET IEEE802154_MASK_FCF_SECURED (frame_fcf frame) ≠ 0 →
      sechdr_ok (byte_at frame (fcf_hdr_len (frame_fcf frame))) ∧
      fcf_hdr_len (frame_fcf frame) + 14 ≤ frame.length ∧
      out.hdr = { parsed_addr_hdr frame hdr0 with
        frame_counter := read_le32 frame (fcf_hdr_len (frame_fcf frame) + 1)
        key_index := byte_at frame (fcf_hdr_len (frame_fcf frame) + 5) }) := by
  have hrej : ∀ out', ieee802154_frame_parse frame hdr0 ieh0 iep0 = some out' → out' = out := by
    intro out' h
    rw [hacc] at h
    exact (Option.some.inj h).symm
  have ht : fcf_type_ok (frame_fcf frame) := by
    by_contra ht
    obtain ⟨o, ho, hr⟩ := frame_parse_reject_fcf frame hdr0 ieh0 iep0 ht
    rw [hrej o ho, hret] at hr
    exact neg_ENOTSUP_ne_zero hr.symm
  obtain ⟨h2, hfcf⟩ := frame_fcf_type_ok frame ht
  have ha : fcf_addr_ok (frame_fcf frame) := by
    by_contra ha
    obtain ⟨o, ho, hr⟩ := frame_parse_reject_addr frame hdr0 ieh0 iep0 h2 (hfcf ▸ ht) (hfcf ▸ ha)
    rw [hrej o ho, hret] at hr
    exact neg_ENOTSUP_ne_zero hr.symm
  have hlen : fcf_hdr_len (frame_fcf frame) ≤ frame.length := by
    by_contra hl
    obtain ⟨o, ho, hr⟩ := frame_parse_short frame hdr0 ieh0 iep0 (hfcf ▸ ht) (hfcf ▸ ha) h2
      (by rw [← hfcf]; omega)
    rw [hrej o ho, hret] at hr
    omega
  by_cases hs : FIELD_GET IEEE802154_MASK_FCF_SECURED (frame_fcf frame) ≠ 0
  · obtain ⟨o, ho, c1, c2, c3⟩ := frame_parse_secured_cases frame hdr0 ieh0 iep0 ht ha hs
    have := hrej o ho
    subst this
    have hok : sechdr_ok (byte_at frame (fcf_hdr_len (frame_fcf frame))) := by
      by_contra hok
      rw [c1 (Or.inr hok)] at hret
      exact neg_ENOTSUP_ne_zero hret
    have h14 : fcf_hdr_len (frame_fcf frame) + 14 ≤ frame.length := by
      by_contra h14
      by_cases h1 : fcf_hdr_len (frame_fcf frame) + 1 ≤ frame.length
      · rw [c2 h1 hok (by omega)] at hret
        exact neg_EINVAL_ne_zero hret
      · rw [c1 (Or.inl (by omega))] at hret
        exact neg_ENOTSUP_ne_zero hret
    have hsl : fcf_sec_len (frame_fcf frame) = 6 := by simp [fcf_sec_len, hs]
    refine ⟨ht, ha, hfcf, by omega, fun h0 => absurd h0 hs, fun _ => ⟨hok, h14, ?_⟩⟩
    rw [c3 h14 hok, frame_parse_ies_hdr]
  · have hs0 : FIELD_GET IEEE802154_MASK_FCF_SECURED (frame_fcf frame) = 0 := by
      by_contra h; exact hs h
    have hsl : fcf_sec_len (frame_fcf frame) = 0 := by simp [fcf_sec_len, hs0]
    refine ⟨ht, ha, hfcf, by omega, fun _ => ?_, fun h => absurd h hs⟩
    have hp := frame_parse_hdr_ok frame hdr0 ieh0 iep0 (hfcf ▸ ht) (hfcf ▸ ha) (hfcf ▸ hlen)
    rw [hacc, frame_parse_tail_unsec _ _ _ _ _ _ (hfcf ▸ hs0)] at hp
    rw [Option.some.inj hp, frame_parse_ies_hdr]

theorem fcf_recompose (V t k a p s d : Nat) (hV : V < 65536) (ht : t = V % 8)
    (hk : k = V / 8 % 2) (ha : a = V / 32 % 2) (hp : p = V / 64 % 2) (hs : s = V / 256 % 2)
    (hd : d = V / 1024 % 4) (hpend : V / 16 % 2 = 0) (hrsv : V / 128 % 2 = 0)
    (hie : V / 512 % 2 ≠ 0) (hver : V / 4096 % 4 = 2) (hsrc : V / 16384 % 4 = 3) :
    t + 8 * k + 32 * a + 64 * p + 256 * s + 512 + 1024 * d + 8192 + 49152 = V := by
  omega

/-- The header writer on a header whose fields are those of a frame in the form the
writer produces: it writes the frame's fields back. -/
theorem write_hdr_fields (V : Nat) (F S D N A X : List Nat) (H : ieee802154_hdr)
    (hb : ∀ b ∈ F ++ (S ++ (D ++ (N ++ (A ++ X)))), b < 256)
    (hV : read_le16 F 0 = V) (hF : F.length = 2)
    (hS : S.length = fcf_seqno_len V) (hD : D.length = fcf_dst_len V)
    (hN : N.length = fcf_pan_len V) (hA : A.length = 8) (hX : X.length = fcf_sec_len V)
    (ht : fcf_type_ok V) (ha : fcf_addr_ok V)
    (hpend : FIELD_GET IEEE802154_MASK_FCF_FRAME_PENDING V = 0)
    (hrsv : FIELD_GET IEEE802154_MASK_FCF_RESERVED V = 0)
    (hie : FIELD_GET IEEE802154_MASK_FCF_HAS_IE V ≠ 0)
    (h1 : H.frame_type = FIELD_GET IEEE802154_MASK_FCF_FRAME_TYPE V)
    (h2 : H.ack_req = decide (FIELD_GET IEEE802154_MASK_FCF_ACK_REQ V ≠ 0))
    (h3 : H.seqno = if FIELD_GET IEEE802154_MASK_FCF_DEL_SEQNO V ≠ 0 then -1
      else (byte_at S 0 : Int))
    (h4 : H.pan_id = if FIELD_GET IEEE802154_MASK_FCF_PAN_ID_CMPR V ≠ 0 then 0xffff
      else read_le16 N 0)
    (h5 : H.dst = if FIELD_GET IEEE802154_MASK_FCF_DST_ADDR_MODE V = MAC_ADDR_MODE_64_BIT
      then write_be64 (read_le64 D 0) else ieee802154_addr_bc)
    (h6 : H.src = write_be64 (read_le64 A 0))
    (h7 : FIELD_GET IEEE802154_MASK_FCF_SECURED V = 0 → H.key_index = 0)
    (h8 : FIELD_GET IEEE802154_MASK_FCF_SECURED V ≠ 0 →
      H.key_index = byte_at X 5 ∧ H.frame_counter = read_le32 X 1 ∧ byte_at X 0 = 0x0e ∧
        H.key_index ≠ 0)
    (hdst : FIELD_GET IEEE802154_MASK_FCF_DST_ADDR_MODE V = MAC_ADDR_MODE_64_BIT →
      H.dst ≠ ieee802154_addr_bc)
    (hpan : FIELD_GET IEEE802154_MASK_FCF_PAN_ID_CMPR V = 0 → H.pan_id ≠ 0xffff) :
    ieee802154_frame_write_hdr (fc_le32 H.frame_counter) [] H =
      some (F ++ (S ++ (D ++ (N ++ (A ++ X))))) := by
  have hbF : ∀ b ∈ F, b < 256 := fun b hm => hb b (by simp [hm])
  have hbS : ∀ b ∈ S, b < 256 := fun b hm => hb b (by simp [hm])
  have hbD : ∀ b ∈ D, b < 256 := fun b hm => hb b (by simp [hm])
  have hbN : ∀ b ∈ N, b < 256 := fun b hm => hb b (by simp [hm])
  have hbA : ∀ b ∈ A, b < 256 := fun b hm => hb b (by simp [hm])
  have hbX : ∀ b ∈ X, b < 256 := fun b hm => hb b (by simp [hm])
  obtain ⟨⟨ht1, ht2⟩, ha1, ha2⟩ := id (show fcf_type_ok V ∧ fcf_addr_ok V from ⟨ht, ha⟩)
  have hVlt : V < 65536 := by rw [← hV]; exact read_le16_lt _ _
  have haddr : H.dst = ieee802154_addr_bc ∨ H.pan_id = 0xffff := by
    rcases ha2 with a | ⟨a, b⟩
    · left; rw [h5, a]; simp [MAC_ADDR_MODE_NONE, MAC_ADDR_MODE_64_BIT]
    · right; rw [h4]; simp [b]
  rw [write_hdr_eq _ [] H haddr]
  -- the frame control field
  have e1 : write_le16 (hdr_fcf H) = F := by
    have hty : H.frame_type = IEEE802154_FRAME_TYPE_DATA ∨
        H.frame_type = IEEE802154_FRAME_TYPE_ACK := by rw [h1]; exact ht1
    have hval := hdr_fcf_val H hty
    have k : b2n (decide (H.key_index ≠ 0)) = V / 8 % 2 := by
      by_cases hs : FIELD_GET IEEE802154_MASK_FCF_SECURED V = 0
      · rw [h7 hs]; rw [fcf_secured] at hs; simp [b2n, hs]
      · have := (h8 hs).2.2.2
        rw [fcf_secured] at hs
        simp only [ne_eq, this, not_false_eq_true, decide_True, b2n, if_true]
        omega
    have a : b2n H.ack_req = V / 32 % 2 := by
      rw [h2, fcf_ack_req]
      by_cases hq : V / 32 % 2 = 0
      · simp [b2n, hq]
      · simp only [ne_eq, hq, not_false_eq_true, decide_True, b2n, if_true]; omega
    have p : b2n (decide (H.pan_id = 0xffff)) = V / 64 % 2 := by
      by_cases hc : FIELD_GET IEEE802154_MASK_FCF_PAN_ID_CMPR V = 0
      · have := hpan hc
        rw [fcf_pan_id_cmpr] at hc
        simp [b2n, this, hc]
      · have hq : H.pan_id = 0xffff := by rw [h4]; simp [hc]
        rw [fcf_pan_id_cmpr] at hc
        simp only [hq, decide_True, b2n, if_true]; omega
    have s : b2n (decide (H.seqno < 0)) = V / 256 % 2 := by
      by_cases hd : FIELD_GET IEEE802154_MASK_FCF_DEL_SEQNO V = 0
      · have hq : ¬ H.seqno < 0 := by rw [h3]; simp [hd]
        rw [fcf_del_seqno] at hd
        simp [b2n, hq, hd]
      · have hq : H.seqno < 0 := by rw [h3]; simp [hd]
        rw [fcf_del_seqno] at hd
        simp only [hq, decide_True, b2n, if_true]; omega
    have d : (if H.dst = ieee802154_addr_bc then 0 else 3) = V / 1024 % 4 := by
      rcases ha2 with q | ⟨q, -⟩
      · have : H.dst = ieee802154_addr_bc := by
          rw [h5, q]; simp [MAC_ADDR_MODE_NONE, MAC_ADDR_MODE_64_BIT]
        rw [fcf_dst_addr_mode] at q
        simp only [this, if_true]
        exact q.symm
      · have := hdst q
        rw [fcf_dst_addr_mode] at q
        simp only [this, if_false]
        exact q.symm
    have hft : H.frame_type = V % 8 := by rw [h1, fcf_frame_type]
    rw [fcf_frame_pending] at hpend
    rw [fcf_reserved] at hrsv
    rw [fcf_has_ie] at hie
    rw [fcf_frame_version] at ht2
    rw [fcf_src_addr_mode] at ha1
    have hVeq : hdr_fcf H = V := by
      rw [hval]
      exact fcf_recompose V _ _ _ _ _ _ hVlt hft k a p s d hpend hrsv hie ht2 ha1
    rw [hVeq]
    have := write_le16_read_le16 F hF hbF
    rw [hV] at this
    exact this
  have e2 : hdr_seqno_bytes H = S := by
    unfold hdr_seqno_bytes
    by_cases hd : FIELD_GET IEEE802154_MASK_FCF_DEL_SEQNO V = 0
    · have hs1 : S.length = 1 := by rw [hS]; simp [fcf_seqno_len, hd]
      match S, hs1 with
      | [x], _ =>
        have hx : x < 256 := hbS x (by simp)
        rw [h3]
        simp only [hd, ne_eq, not_true_eq_false, if_false, byte_at, List.getD_cons_zero]
        have : (0 : Int) ≤ ((x % 256 : Nat) : Int) := Int.ofNat_nonneg _
        simp only [ge_iff_le, this, if_true, List.cons.injEq, and_true]
        omega
    · have hs0 : S.length = 0 := by rw [hS]; simp [fcf_seqno_len, hd]
      rw [h3]
      simp only [hd, ne_eq, not_false_eq_true, if_true]
      rw [if_neg (by decide)]
      exact (List.length_eq_zero.mp hs0).symm
  have e3 : hdr_dst_bytes H = D := by
    unfold hdr_dst_bytes
    by_cases q : FIELD_GET IEEE802154_MASK_FCF_DST_ADDR_MODE V = MAC_ADDR_MODE_64_BIT
    · have hd8 : D.length = 8 := by rw [hD]; simp [fcf_dst_len, q]
      rw [if_neg (hdst q), h5]
      simp only [q, if_true]
      rw [read_be64_write_be64 _ (read_le64_lt _ _), write_le64_read_le64 D hd8 hbD]
    · have hd0 : D.length = 0 := by rw [hD]; simp [fcf_dst_len, q]
      have : H.dst = ieee802154_addr_bc := by rw [h5]; simp [q]
      rw [if_pos this]
      exact (List.length_eq_zero.mp hd0).symm
  have e4 : hdr_pan_bytes H = N := by
    unfold hdr_pan_bytes
    by_cases hc : FIELD_GET IEEE802154_MASK_FCF_PAN_ID_CMPR V = 0
    · have hn2 : N.length = 2 := by rw [hN]; simp [fcf_pan_len, hc]
      rw [if_pos (hpan hc), h4]
      simp only [hc, ne_eq, not_true_eq_false, if_false]
      exact write_le16_read_le16 N hn2 hbN
    · have hn0 : N.length = 0 := by rw [hN]; simp [fcf_pan_len, hc]
      have : H.pan_id = 0xffff := by rw [h4]; simp [hc]
      rw [if_neg (by simp [this])]
      exact (List.length_eq_zero.mp hn0).symm
  have e5 : write_le64 (read_be64 H.src) = A := by
    rw [h6, read_be64_write_be64 _ (read_le64_lt _ _), write_le64_read_le64 A hA hbA]
  have e6 : hdr_sec_bytes (fc_le32 H.frame_counter) H = X := by
    unfold hdr_sec_bytes
    by_cases hs : FIELD_GET IEEE802154_MASK_FCF_SECURED V = 0
    · have hx0 : X.length = 0 := by rw [hX]; simp [fcf_sec_len, hs]
      rw [if_neg (by simp [h7 hs])]
      exact (List.length_eq_zero.mp hx0).symm
    · have hx6 : X.length = 6 := by rw [hX]; simp [fcf_sec_len, hs]
      obtain ⟨k1, k2, k3, k4⟩ := h8 hs
      rw [if_pos k4, k1, k2]
      match X, hx6 with
      | [x0, x1, x2, x3, x4, x5], _ =>
        simp only [List.mem_cons, List.mem_singleton, List.not_mem_nil, or_false,
          forall_eq_or_imp, forall_eq] at hbX
        obtain ⟨b0, b1, b2, b3, b4, b5⟩ := hbX
        simp only [byte_at, List.getD_cons_zero, List.getD_cons_succ] at k3
        simp only [read_le32, byte_at, List.getD_cons_zero, List.getD_cons_succ, fc_le32,
          pow_zero, pow_one, Nat.div_one, Nat.reducePow, List.cons.injEq, and_true]
        refine ⟨?_, ?_, ?_, ?_, ?_, ?_⟩ <;> omega
  rw [e1, e2, e3, e4, e5, e6]
  rfl

/-- C2, as amended: header round trip, write after parse. For every frame (of bytes)
that `ieee802154_frame_parse` accepts and whose header is in the form the writer
produces (frame-pending bit and reserved bit 7 clear, IE-present bit set, a
destination address that is not ff:ff:ff:ff:ff:ff:ff:ff when one is carried, a PAN ID
that is not 0xffff when one is carried, and for a secured frame a key index that is
not 0 and the security control byte 0x0e), `ieee802154_frame_write_hdr` applied to the
parsed header, the reserved bytes filled from the parsed frame counter, reproduces
the MAC header bytes of the frame exactly. -/
theorem ieee802154_frame_parse_write (frame : List Nat) (hdr0 : ieee802154_hdr)
    (ieh0 iep0 : iobuf_read) (out : frame_parse_result)
    (hbytes : ∀ b ∈ frame, b < 256)
    (hacc : ieee802154_frame_parse frame hdr0 ieh0 iep0 = some out) (hret : out.ret = 0)
    (hpend : FIELD_GET IEEE802154_MASK_FCF_FRAME_PENDING (frame_fcf frame) = 0)
    (hrsv : FIELD_GET IEEE802154_MASK_FCF_RESERVED (frame_fcf frame) = 0)
    (hie : FIELD_GET IEEE802154_MASK_FCF_HAS_IE (frame_fcf frame) ≠ 0)
    (hdst : FIELD_GET IEEE802154_MASK_FCF_DST_ADDR_MODE (frame_fcf frame) = MAC_ADDR_MODE_64_BIT →
      out.hdr.dst ≠ ieee802154_addr_bc)
    (hpan : FIELD_GET IEEE802154_MASK_FCF_PAN_ID_CMPR (frame_fcf frame) = 0 →
      out.hdr.pan_id ≠ 0xffff)
    (hsec : FIELD_GET IEEE802154_MASK_FCF_SECURED (frame_fcf frame) ≠ 0 →
      out.hdr.key_index ≠ 0 ∧ byte_at frame (fcf_hdr_len (frame_fcf frame)) = 0x0e) :
    ieee802154_frame_write_hdr (fc_le32 out.hdr.frame_counter) [] out.hdr =
      some (frame.take (fcf_hdr_len (frame_fcf frame) + fcf_sec_len (frame_fcf frame))) := by
  obtain ⟨ht, ha, hfcf, hlen, hu, hs⟩ := frame_parse_accepted frame hdr0 ieh0 iep0 out hacc hret
  generalize hVdef : frame_fcf frame = V at *
  obtain ⟨F, S, D, N, A, X, R, hframe, hF, hS, hD, hN, hA, hX, htake⟩ :=
    list_split6 frame 2 (fcf_seqno_len V) (fcf_dst_len V) (fcf_pan_len V) 8 (fcf_sec_len V)
      (by unfold fcf_hdr_len at hlen; exact hlen)
  have htot : fcf_hdr_len V + fcf_sec_len V =
      2 + fcf_seqno_len V + fcf_dst_len V + fcf_pan_len V + 8 + fcf_sec_len V := rfl
  rw [htot, htake]
  have hV : read_le16 F 0 = V := by
    rw [hfcf]
    exact (read_le16_mid frame [] F (S ++ (D ++ (N ++ (A ++ (X ++ R))))) 0
      (by rw [hframe]; rfl) rfl (by omega)).symm
  have ph := parsed_addr_hdr_fields frame V F S D N A (X ++ R) hdr0 hframe hfcf.symm hF hS hD
    hN hA
  have hLP : (F ++ (S ++ (D ++ (N ++ A)))).length = fcf_hdr_len V := by
    simp only [List.length_append, hF, hS, hD, hN, hA, fcf_hdr_len]; omega
  have hfr2 : frame = (F ++ (S ++ (D ++ (N ++ A)))) ++ (X ++ R) := by
    rw [hframe]; simp only [List.append_assoc]
  have hb : ∀ b ∈ F ++ (S ++ (D ++ (N ++ (A ++ X)))), b < 256 := by
    intro b hm
    apply hbytes
    have hsplit : frame = (F ++ (S ++ (D ++ (N ++ (A ++ X))))) ++ R := by
      rw [hframe]; simp only [List.append_assoc]
    rw [hsplit]
    exact List.mem_append_left R hm
  have hfields : out.hdr.frame_type = FIELD_GET IEEE802154_MASK_FCF_FRAME_TYPE V ∧
      out.hdr.ack_req = decide (FIELD_GET IEEE802154_MASK_FCF_ACK_REQ V ≠ 0) ∧
      out.hdr.seqno = (if FIELD_GET IEEE802154_MASK_FCF_DEL_SEQNO V ≠ 0 then -1
        else (byte_at S 0 : Int)) ∧
      out.hdr.pan_id = (if FIELD_GET IEEE802154_MASK_FCF_PAN_ID_CMPR V ≠ 0 then 0xffff
        else read_le16 N 0) ∧
      out.hdr.dst = (if FIELD_GET IEEE802154_MASK_FCF_DST_ADDR_MODE V = MAC_ADDR_MODE_64_BIT
        then write_be64 (read_le64 D 0) else ieee802154_addr_bc) ∧
      out.hdr.src = write_be64 (read_le64 A 0) := by
    by_cases hsb : FIELD_GET IEEE802154_MASK_FCF_SECURED V = 0
    · rw [hu hsb, ph]
      exact ⟨rfl, rfl, rfl, rfl, rfl, rfl⟩
    · rw [(hs hsb).2.2, ph]
      exact ⟨rfl, rfl, rfl, rfl, rfl, rfl⟩
  obtain ⟨h1, h2, h3, h4, h5, h6⟩ := hfields
  refine write_hdr_fields V F S D N A X out.hdr hb hV hF hS hD hN hA hX ht ha hpend hrsv hie
    h1 h2 h3 h4 h5 h6 ?_ ?_ hdst hpan
  · intro hsb
    rw [hu hsb]
  · intro hsb
    obtain ⟨-, h14, hH⟩ := hs hsb
    obtain ⟨hk0, hscf⟩ := hsec hsb
    have hx6 : X.length = 6 := by rw [hX]; simp [fcf_sec_len, hsb]
    have hbx : ∀ i, i < 6 → byte_at frame (fcf_hdr_len V + i) = byte_at X i := by
      intro i hi
      exact byte_at_mid frame _ X R _ i hfr2 (by rw [hLP]) (by omega)
    refine ⟨?_, ?_, ?_, hk0⟩
    · rw [hH]
      exact hbx 5 (by omega)
    · rw [hH]
      show read_le32 frame (fcf_hdr_len V + 1) = read_le32 X 1
      unfold read_le32
      rw [show fcf_hdr_len V + 1 + 1 = fcf_hdr_len V + 2 by omega,
        show fcf_hdr_len V + 1 + 2 = fcf_hdr_len V + 3 by omega,
        show fcf_hdr_len V + 1 + 3 = fcf_hdr_len V + 4 by omega,
        hbx 1 (by omega), hbx 2 (by omega), hbx 3 (by omega), hbx 4 (by omega)]
    · rw [← hbx 0 (by omega)]
      exact hscf

/-- Counterexample to C2 as stated: the example frame with the frame-pending bit set
is accepted, and the header written from the parsed header differs from its header
bytes (the frame-pending bit is not written back). -/
theorem ieee802154_frame_parse_write_counterexample :
    ∃ out, ieee802154_frame_parse frame_example_pending hdr_zero iobuf_read_zero
        iobuf_read_zero = some out ∧ out.ret = 0 ∧
      ieee802154_frame_write_hdr (fc_le32 out.hdr.frame_counter) [] out.hdr ≠
        some (frame_example_pending.take
          (fcf_hdr_len (frame_fcf frame_example_pending) +
            fcf_sec_len (frame_fcf frame_example_pending))) := by
  refine ⟨_, rfl, ?_, ?_⟩ <;> decide

/-- Witness of C2 as amended: the secured example frame is accepted, is in the form
the writer produces, and its first 19 bytes are written back from the parsed header. -/
theorem ieee802154_frame_parse_write_witness : ∃ out, ieee802154_frame_parse frame_example_secured hdr_zero iobuf_read_zero
        iobuf_read_zero = some out ∧ out.ret = 0 ∧
      (∀ b ∈ frame_example_secured, b < 256) ∧
      FIELD_GET IEEE802154_MASK_FCF_FRAME_PENDING (frame_fcf frame_example_secured) = 0 ∧
      FIELD_GET IEEE802154_MASK_FCF_RESERVED (frame_fcf frame_example_secured) = 0 ∧
      FIELD_GET IEEE802154_MASK_FCF_HAS_IE (frame_fcf frame_example_secured) ≠ 0 ∧
      out.hdr.pan_id ≠ 0xffff ∧ out.hdr.key_index ≠ 0 ∧
      byte_at frame_example_secured (fcf_hdr_len (frame_fcf frame_example_secured)) = 0x0e ∧
      ieee802154_frame_write_hdr (fc_le32 out.hdr.frame_counter) [] out.hdr =
        some (frame_example_secured.take
          (fcf_hdr_len (frame_fcf frame_example_secured) +
            fcf_sec_len (frame_fcf frame_example_secured))) :=
  ⟨(ieee802154_frame_parse frame_example_secured hdr_zero iobuf_read_zero
      iobuf_read_zero).get (by decide), by simp, by decide, by decide, by decide, by decide,
    by decide, by decide, by decide, by decide,
    ieee802154_frame_parse_write frame_example_secured hdr_zero iobuf_read_zero iobuf_read_zero
      _ (by decide) (by simp) (by decide) (by decide) (by decide) (by decide)
      (fun h => absurd h (by decide)) (fun _ => by decide) (fun _ => ⟨by decide, by decide⟩)⟩

/-- Witness of C1: the example header, written with frame counter 0x04030201 and
followed by 8 MIC bytes, is parsed back to the same fields. -/
theorem ieee802154_frame_write_parse_witness :
    ∃ bytes out, ieee802154_frame_write_hdr (fc_le32 0x04030201) [] hdr_example = some bytes ∧
      ieee802154_frame_parse (bytes ++ [0xa0, 0xa1, 0xa2, 0xa3, 0xa4, 0xa5, 0xa6, 0xa7])
        hdr_zero iobuf_read_zero iobuf_read_zero = some out ∧
      out.ret = 0 ∧ out.hdr.frame_type = hdr_example.frame_type ∧
      out.hdr.ack_req = hdr_example.ack_req ∧
      out.hdr.seqno = hdr_example.seqno ∧ out.hdr.dst = hdr_example.dst ∧
      out.hdr.pan_id = hdr_example.pan_id ∧
      out.hdr.src = hdr_example.src ∧ out.hdr.key_index = hdr_example.key_index ∧
      (hdr_example.key_index ≠ 0 → out.hdr.frame_counter = 0x04030201) :=
  ieee802154_frame_write_parse hdr_example hdr_zero iobuf_read_zero iobuf_read_zero
    0x04030201 [0xa0, 0xa1, 0xa2, 0xa3, 0xa4, 0xa5, 0xa6, 0xa7]
    (Or.inl (by decide)) (Or.inr (by decide)) (by decide) (by decide) (by decide) (by decide)
    (Or.inl (by decide)) (by decide) (by decide)

/-! ### Schedule IE readers -/

theorem schedule_plan_read_some (mem : List Nat) (c c' : schedule_cursor)
    (h : schedule_plan_read mem c = some c') :
    c.chan_plan.channel_plan ≤ 2 ∧
    c'.chan_plan.channel_plan = c.chan_plan.channel_plan ∧
    c'.chan_plan.channel_function = c.chan_plan.channel_function ∧
    c'.chan_plan.excluded_channel_ctrl = c.chan_plan.excluded_channel_ctrl := by
  unfold schedule_plan_read at h
  simp only at h
  split_ifs at h
  split at h
  · rename_i h0
    cases h
    simp [h0]
  · rename_i h0
    cases h
    simp [h0]
  · rename_i h0
    cases h
    simp [h0]
  · cases h

theorem schedule_function_read_some (mem : List Nat) (c c' : schedule_cursor)
    (h : schedule_function_read mem c = some c') :
    c.chan_plan.channel_function ≤ 3 ∧
    c'.chan_plan.channel_plan = c.chan_plan.channel_plan ∧
    c'.chan_plan.channel_function = c.chan_plan.channel_function ∧
    c'.chan_plan.excluded_channel_ctrl = c.chan_plan.excluded_channel_ctrl := by
  unfold schedule_function_read at h
  simp only at h
  by_cases hl : c.length < ws_channel_function_length c.chan_plan.channel_function 0
  · rw [if_pos hl] at h
    cases h
  rw [if_neg hl] at h
  split at h
  · rename_i h0
    cases h
    simp [h0]
  · rename_i h0
    cases h
    simp [h0]
  · rename_i h0
    cases h
    simp [h0]
  · rename_i h0
    split_ifs at h
    cases h
    simp [h0]
  · cases h

theorem schedule_excluded_read_some (mem : List Nat) (c : schedule_cursor)
    (g : ws_generic_channel_info_t) (h : schedule_excluded_read mem c = some g) :
    c.chan_plan.excluded_channel_ctrl ≤ 2 := by
  unfold schedule_excluded_read at h
  unfold WS_EXC_CHAN_CTRL_NONE WS_EXC_CHAN_CTRL_RANGE WS_EXC_CHAN_CTRL_BITMASK at h
  split_ifs at h <;> omega

theorem lcp_excluded_read_some (mem : List Nat) (c : schedule_cursor)
    (g : ws_generic_channel_info_t) (h : lcp_excluded_read mem c = some g) :
    c.chan_plan.excluded_channel_ctrl ≤ 2 := by
  unfold lcp_excluded_read at h
  unfold WS_EXC_CHAN_CTRL_NONE WS_EXC_CHAN_CTRL_RANGE WS_EXC_CHAN_CTRL_BITMASK at h
  split_ifs at h <;> omega

/-- A cursor whose channel information holds a reserved value is refused by one of
the three parts of a schedule reader. -/
theorem schedule_read_reserved (mem : List Nat) (c : schedule_cursor)
    (excl : List Nat → schedule_cursor → Option ws_generic_channel_info_t)
    (hexcl : ∀ c' g, excl mem c' = some g → c'.chan_plan.excluded_channel_ctrl ≤ 2)
    (h : 3 ≤ c.chan_plan.channel_plan ∨ 4 ≤ c.chan_plan.channel_function ∨
      c.chan_plan.excluded_channel_ctrl = 3) :
    ((schedule_plan_read mem c).bind (schedule_function_read mem)).bind (excl mem) = none := by
  cases h1 : schedule_plan_read mem c with
  | none => rfl
  | some c1 =>
    obtain ⟨p1, p2, p3, p4⟩ := schedule_plan_read_some mem c c1 h1
    simp only [Option.some_bind]
    cases h2 : schedule_function_read mem c1 with
    | none => rfl
    | some c2 =>
      obtain ⟨f1, f2, f3, f4⟩ := schedule_function_read_some mem c1 c2 h2
      simp only [Option.some_bind]
      cases h3 : excl mem c2 with
      | none => rfl
      | some g =>
        have e1 := hexcl c2 g h3
        exfalso
        omega

theorem schedule_read_reserved_info (mem : List Nat) (d l : Nat)
    (g : ws_generic_channel_info_t) (info : Nat)
    (excl : List Nat → schedule_cursor → Option ws_generic_channel_info_t)
    (hexcl : ∀ c' g, excl mem c' = some g → c'.chan_plan.excluded_channel_ctrl ≤ 2)
    (h : schedule_info_reserved info) :
    ((schedule_plan_read mem
        { data := d, length := l, chan_plan := schedule_info_read g info }).bind
      (schedule_function_read mem)).bind (excl mem) = none :=
  schedule_read_reserved mem _ excl hexcl h

theorem schedule_info_read_fields (g : ws_generic_channel_info_t) (info : Nat) :
    (schedule_info_read g info).channel_plan =
      FIELD_GET WS_WP_SCHEDULE_IE_CHAN_PLAN_MASK info ∧
    (schedule_info_read g info).channel_function =
      FIELD_GET WS_WP_SCHEDULE_IE_CHAN_FUNC_MASK info ∧
    (schedule_info_read g info).excluded_channel_ctrl =
      FIELD_GET WS_WP_SCHEDULE_IE_EXCL_CHAN_CTL_MASK info :=
  ⟨rfl, rfl, rfl⟩

/-- C9: reserved values in the channel information of a schedule IE. For every
buffer `mem` and every window (`data`, `length`) of payload IEs: if the
channel-information byte of the US-IE that `ws_wp_nested_us_read` reads (byte 3 of
the content of the IE found) declares a channel plan in 3..7, a channel function
in 4..7 or the excluded-channel control 3, then `ws_wp_nested_us_read` returns
false; the same holds for `ws_wp_nested_bs_read` (byte 9 of the BS-IE) and for
`ws_wp_nested_lfn_channel_plan_read` (byte 1 of the LCP-IE). -/
theorem ws_wp_nested_read_reserved (mem : List Nat) (data length : Nat) :
    (schedule_info_reserved (byte_at mem
        ((mac_ie_nested_discover mem data length
          { id := WP_PAYLOAD_IE_US_TYPE, type_long := true, length := 0,
            content_ptr := 0 }).2.content_ptr + 3)) →
      ws_wp_nested_us_read mem data length = none) ∧
    (schedule_info_reserved (byte_at mem
        ((mac_ie_nested_discover mem data length
          { id := WP_PAYLOAD_IE_BS_TYPE, type_long := true, length := 0,
            content_ptr := 0 }).2.content_ptr + 9)) →
      ws_wp_nested_bs_read mem data length = none) ∧
    (schedule_info_reserved (byte_at mem
        ((mac_ie_nested_tagged_discover mem data length
          (mac_ie_nested_discover mem data length
            { id := WP_PAYLOAD_IE_LFN_CHANNEL_PLAN_TYPE, type_long := true, length := 0,
              content_ptr := 0 }).2
          (byte_at mem (mac_ie_nested_discover mem data length
            { id := WP_PAYLOAD_IE_LFN_CHANNEL_PLAN_TYPE, type_long := true, length := 0,
              content_ptr := 0 }).2.content_ptr)).2.content_ptr + 1)) →
      ws_wp_nested_lfn_channel_plan_read mem data length = none) := by
  refine ⟨?_, ?_, ?_⟩
  · intro h
    unfold ws_wp_nested_us_read
    simp only
    split_ifs
    · rfl
    · rw [schedule_read_reserved_info mem _ _ _ _ schedule_excluded_read
        (schedule_excluded_read_some mem) h]
      rfl
  · intro h
    unfold ws_wp_nested_bs_read
    simp only
    split_ifs
    · rfl
    · rw [schedule_read_reserved_info mem _ _ _ _ schedule_excluded_read
        (schedule_excluded_read_some mem) h]
      rfl
  · intro h
    unfold ws_wp_nested_lfn_channel_plan_read
    simp only
    split_ifs
    · rfl
    · rfl
    · rw [schedule_read_reserved_info mem _ _ _ _ lcp_excluded_read
        (lcp_excluded_read_some mem) h]
      rfl

/-- Witness of C9: the example US-IE with channel plan 7, the example BS-IE with
channel function 4 and the example LCP-IE with excluded-channel control 3 are
refused. -/
theorem ws_wp_nested_read_reserved_witness :
    (schedule_info_reserved (byte_at ie_example_us_plan7 5) ∧
      ws_wp_nested_us_read ie_example_us_plan7 0 8 = none) ∧
    (schedule_info_reserved (byte_at ie_example_bs_function4 11) ∧
      ws_wp_nested_bs_read ie_example_bs_function4 0 14 = none) ∧
    (schedule_info_reserved (byte_at ie_example_lcp_excl3 3) ∧
      ws_wp_nested_lfn_channel_plan_read ie_example_lcp_excl3 0 8 = none) :=
  ⟨⟨by decide, (ws_wp_nested_read_reserved ie_example_us_plan7 0 8).1 (by decide)⟩,
   ⟨by decide, (ws_wp_nested_read_reserved ie_example_bs_function4 0 14).2.1 (by decide)⟩,
   ⟨by decide, (ws_wp_nested_read_reserved ie_example_lcp_excl3 0 8).2.2 (by decide)⟩⟩

/-! ### Nested IE descriptors -/

/-- One more unit of fuel than the length of the window does not change the result
of the loop of `mac_ie_nested_discover`. -/
theorem mac_ie_nested_discover_loop_succ (mem : List Nat) (nested_ie : mac_nested_payload_IE_t) :
    ∀ (fuel payload_ptr length : Nat), length ≤ fuel →
      mac_ie_nested_discover_loop (fuel + 1) mem payload_ptr length nested_ie =
        mac_ie_nested_discover_loop fuel mem payload_ptr length nested_ie := by
  intro fuel
  induction fuel with
  | zero =>
    intro p l hl
    have : l = 0 := by omega
    subst this
    simp [mac_ie_nested_discover_loop]
  | succ n ih =>
    intro p l hl
    rw [mac_ie_nested_discover_loop]
    conv_rhs => rw [mac_ie_nested_discover_loop]
    by_cases h2 : 2 ≤ l
    · simp only [h2, if_true]
      split_ifs
      · rfl
      · rfl
      · exact ih _ _ (by omega)
    · simp only [h2, if_false]

/-- The loop of `mac_ie_nested_discover` never runs out of fuel: any fuel from the
length of the window on gives the result of `mac_ie_nested_discover`. -/
theorem mac_ie_nested_discover_fuel (mem : List Nat) (nested_ie : mac_nested_payload_IE_t)
    (payload_ptr length k : Nat) :
    mac_ie_nested_discover_loop (length + k) mem payload_ptr length nested_ie =
      mac_ie_nested_discover mem payload_ptr length nested_ie := by
  unfold mac_ie_nested_discover
  induction k with
  | zero => rfl
  | succ n ih =>
    rw [← Nat.add_assoc, mac_ie_nested_discover_loop_succ mem nested_ie _ _ _ (by omega), ih]

theorem mac_ie_nested_tagged_discover_loop_succ (mem : List Nat)
    (nested_ie : mac_nested_payload_IE_t) (tag : Nat) :
    ∀ (fuel payload_ptr length : Nat), length ≤ fuel →
      mac_ie_nested_tagged_discover_loop (fuel + 1) mem payload_ptr length nested_ie tag =
        mac_ie_nested_tagged_discover_loop fuel mem payload_ptr length nested_ie tag := by
  intro fuel
  induction fuel with
  | zero =>
    intro p l hl
    have : l = 0 := by omega
    subst this
    simp [mac_ie_nested_tagged_discover_loop]
  | succ n ih =>
    intro p l hl
    rw [mac_ie_nested_tagged_discover_loop]
    conv_rhs => rw [mac_ie_nested_tagged_discover_loop]
    by_cases h2 : 3 ≤ l
    · simp only [h2, if_true]
      split_ifs
      · rfl
      · rfl
      · exact ih _ _ (by omega)
    · simp only [h2, if_false]

/-- The loop of `mac_ie_nested_tagged_discover` never runs out of fuel. -/
theorem mac_ie_nested_tagged_discover_fuel (mem : List Nat)
    (nested_ie : mac_nested_payload_IE_t) (tag payload_ptr length k : Nat) :
    mac_ie_nested_tagged_discover_loop (length + k) mem payload_ptr length nested_ie tag =
      mac_ie_nested_tagged_discover mem payload_ptr length nested_ie tag := by
  unfold mac_ie_nested_tagged_discover
  induction k with
  | zero => rfl
  | succ n ih =>
    rw [← Nat.add_assoc,
      mac_ie_nested_tagged_discover_loop_succ mem nested_ie tag _ _ _ (by omega), ih]

/-- The descriptor of a long nested IE as a number. -/
theorem long_descriptor_val (sub_id length : Nat) (hid : sub_id < 16) (hlen : length < 2048) :
    (0x8000 ||| (length &&& 0x07ff) ||| ((sub_id <<< 11) &&& 0x7800)) % 65536 =
      (16 + sub_id) * 2048 + length := by
  have h1 : length &&& 0x07ff = length := by
    have := Nat.and_pow_two_sub_one_eq_mod length 11
    norm_num at this
    rw [this]
    exact Nat.mod_eq_of_lt hlen
  have h2 : 0x8000 ||| ((sub_id <<< 11) &&& 0x7800) = (16 + sub_id) <<< 11 := by
    interval_cases sub_id <;> rfl
  have h3 : (16 + sub_id) <<< 11 ||| length = 2 ^ 11 * (16 + sub_id) + length := by
    rw [Nat.shiftLeft_eq, Nat.mul_comm]
    exact (Nat.mul_add_lt_is_or (by simpa using hlen) _).symm
  rw [h1, Nat.lor_assoc, Nat.lor_comm length, ← Nat.lor_assoc, h2, h3]
  norm_num
  omega

/-- Parsing the descriptor written for a long nested IE gives back sub-ID and
length. -/
theorem mac_ie_nested_id_parse_long (P rest : List Nat) (sub_id length : Nat)
    (hid : sub_id < 16) (hlen : length < 2048) :
    mac_ie_nested_id_parse (P ++ (mac_ie_nested_ie_long_base_write sub_id length ++ rest))
        P.length =
      { content_ptr := P.length + 2, length := length, id := sub_id, type_long := true } := by
  unfold mac_ie_nested_id_parse mac_ie_nested_ie_long_base_write
  rw [read_le16_append, long_descriptor_val sub_id length hid hlen]
  have hv : ((16 + sub_id) * 2048 + length) % 65536 = (16 + sub_id) * 2048 + length := by omega
  rw [hv]
  generalize hV : (16 + sub_id) * 2048 + length = v
  have a1 : v &&& 0x07ff = length := by
    have := Nat.and_pow_two_sub_one_eq_mod v 11
    norm_num at this
    rw [this]
    omega
  have a2 : (v &&& 0x7800) >>> 11 = sub_id := by
    rw [shiftRight_and]
    have e : (0x7800 : Nat) >>> 11 = 2 ^ 4 - 1 := by decide
    rw [e, Nat.and_pow_two_sub_one_eq_mod, Nat.shiftRight_eq_div_pow]
    norm_num
    omega
  have a3 : v &&& 0x8000 ≠ 0 := by
    intro h0
    have : (v &&& 0x8000) >>> 15 = 0 := by rw [h0]; rfl
    rw [shiftRight_and] at this
    have e : (0x8000 : Nat) >>> 15 = 2 ^ 1 - 1 := by decide
    rw [e, Nat.and_pow_two_sub_one_eq_mod, Nat.shiftRight_eq_div_pow] at this
    norm_num at this
    omega
  simp only [a3, ne_eq, not_false_eq_true, if_true, a1, a2]

/-- In a window that starts with a long nested IE written with the sub-ID asked for,
`mac_ie_nested_discover` finds that IE. -/
theorem mac_ie_nested_discover_long (content rest : List Nat) (sub_id total : Nat)
    (nested_ie : mac_nested_payload_IE_t)
    (hid : sub_id < 16) (hlen : content.length < 2048)
    (htot : content.length + 2 ≤ total)
    (h1 : nested_ie.id = sub_id) (h2 : nested_ie.type_long = true) :
    mac_ie_nested_discover
        (mac_ie_nested_ie_long_base_write sub_id content.length ++ (content ++ rest)) 0 total
        nested_ie =
      (content.length,
        { content_ptr := 2, length := content.length, id := sub_id, type_long := true }) := by
  unfold mac_ie_nested_discover
  obtain ⟨n, rfl⟩ : ∃ n, total = n + 1 := ⟨total - 1, by omega⟩
  rw [mac_ie_nested_discover_loop]
  have hp := mac_ie_nested_id_parse_long [] (content ++ rest) sub_id content.length hid hlen
  simp only [List.nil_append, List.length_nil, Nat.zero_add] at hp
  simp only [hp, h1, h2]
  rw [if_pos (by omega), if_neg (by omega)]
  simp

/-! ### Schedule IE readers: acceptance -/

theorem schedule_plan_read_ok (mem : List Nat) (c : schedule_cursor)
    (hp : c.chan_plan.channel_plan ≤ 2)
    (hl : ws_channel_plan_length c.chan_plan.channel_plan ≤ c.length) :
    ∃ c1, schedule_plan_read mem c = some c1 ∧
      c1.data = c.data + ws_channel_plan_length c.chan_plan.channel_plan ∧
      c1.length = c.length - ws_channel_plan_length c.chan_plan.channel_plan ∧
      c1.chan_plan.channel_plan = c.chan_plan.channel_plan ∧
      c1.chan_plan.channel_function = c.chan_plan.channel_function ∧
      c1.chan_plan.excluded_channel_ctrl = c.chan_plan.excluded_channel_ctrl ∧
      (c.chan_plan.channel_plan = 1 →
        c1.chan_plan.plan.one.number_of_channel = read_le16 mem (c.data + 4)) := by
  unfold schedule_plan_read
  simp only
  rw [if_neg (by omega)]
  generalize hq : c.chan_plan.channel_plan = p at *
  interval_cases p
  · exact ⟨_, rfl, rfl, rfl, hq.symm ▸ rfl, rfl, rfl, fun h => absurd h (by decide)⟩
  · exact ⟨_, rfl, rfl, rfl, hq.symm ▸ rfl, rfl, rfl, fun _ => rfl⟩
  · exact ⟨_, rfl, rfl, rfl, hq.symm ▸ rfl, rfl, rfl, fun h => absurd h (by decide)⟩

/-- Number of bytes the channel function `f` takes at offset `data` of `mem`, as
`schedule_function_read` consumes them. -/
theorem schedule_function_read_ok (mem : List Nat) (c : schedule_cursor) (n : Nat)
    (hf : c.chan_plan.channel_function ≤ 3)
    (hn : n = if c.chan_plan.channel_function = 0 then 2
      else if c.chan_plan.channel_function = 3 then 1 + byte_at mem c.data else 0)
    (hl : n ≤ c.length) :
    ∃ c2, schedule_function_read mem c = some c2 ∧
      c2.data = c.data + n ∧ c2.length = c.length - n ∧
      c2.chan_plan.channel_plan = c.chan_plan.channel_plan ∧
      c2.chan_plan.excluded_channel_ctrl = c.chan_plan.excluded_channel_ctrl ∧
      c2.chan_plan.plan = c.chan_plan.plan := by
  unfold schedule_function_read
  simp only
  generalize hq : c.chan_plan.channel_function = f at *
  interval_cases f
  · simp only [if_true] at hn
    subst hn
    rw [if_neg (by simp [ws_channel_function_length]; omega)]
    exact ⟨_, rfl, rfl, rfl, rfl, rfl, rfl⟩
  · simp only [show ¬ (1 = 0) by decide, show ¬ (1 = 3) by decide, if_false] at hn
    subst hn
    rw [if_neg (by simp [ws_channel_function_length])]
    exact ⟨_, rfl, rfl, rfl, rfl, rfl, rfl⟩
  · simp only [show ¬ (2 = 0) by decide, show ¬ (2 = 3) by decide, if_false] at hn
    subst hn
    rw [if_neg (by simp [ws_channel_function_length])]
    exact ⟨_, rfl, rfl, rfl, rfl, rfl, rfl⟩
  · simp only [show ¬ (3 = 0) by decide, if_false, if_true] at hn
    subst hn
    rw [if_neg (by simp [ws_channel_function_length]; omega)]
    simp only [ws_channel_function_three_read, ws_channel_function_length]
    rw [if_neg (by norm_num; omega)]
    refine ⟨_, rfl, ?_, ?_, rfl, rfl, rfl⟩
    · simp only; omega
    · simp only; norm_num; omega

theorem schedule_excluded_read_ok (mem : List Nat) (c : schedule_cursor)
    (he : c.chan_plan.excluded_channel_ctrl ≤ 2)
    (h1 : c.chan_plan.excluded_channel_ctrl = WS_EXC_CHAN_CTRL_RANGE →
      byte_at mem c.data * 4 + 1 ≤ c.length)
    (h2 : c.chan_plan.excluded_channel_ctrl = WS_EXC_CHAN_CTRL_BITMASK →
      c.chan_plan.channel_plan = 1 →
      (c.chan_plan.plan.one.number_of_channel + 7) / 8 % 256 = c.length) :
    ∃ g, schedule_excluded_read mem c = some g := by
  unfold schedule_excluded_read
  by_cases e0 : c.chan_plan.excluded_channel_ctrl = WS_EXC_CHAN_CTRL_NONE
  · rw [if_pos e0]; exact ⟨_, rfl⟩
  rw [if_neg e0]
  by_cases e1 : c.chan_plan.excluded_channel_ctrl = WS_EXC_CHAN_CTRL_RANGE
  · rw [if_pos e1]
    simp only
    rw [if_neg (by have := h1 e1; omega)]
    exact ⟨_, rfl⟩
  rw [if_neg e1]
  have e2 : c.chan_plan.excluded_channel_ctrl = WS_EXC_CHAN_CTRL_BITMASK := by
    unfold WS_EXC_CHAN_CTRL_NONE at e0
    unfold WS_EXC_CHAN_CTRL_RANGE at e1
    unfold WS_EXC_CHAN_CTRL_BITMASK
    omega
  rw [if_pos e2]
  by_cases p1 : c.chan_plan.channel_plan = 1
  · rw [if_pos p1]
    simp only
    rw [if_neg (by simpa using h2 e2 p1)]
    exact ⟨_, rfl⟩
  · rw [if_neg p1]
    exact ⟨_, rfl⟩

/-- The three parts of a schedule reader accept a cursor over well-formed channel
information: a channel plan 0..2 with its bytes, a channel function 0..3 with its
bytes, and excluded channels none, as ranges that fit, or as a bitmask whose length
matches the number of channels of channel plan 1. -/
theorem schedule_read_ok (mem : List Nat) (c : schedule_cursor) (n : Nat)
    (hp : c.chan_plan.channel_plan ≤ 2) (hf : c.chan_plan.channel_function ≤ 3)
    (he : c.chan_plan.excluded_channel_ctrl ≤ 2)
    (hn : n = if c.chan_plan.channel_function = 0 then 2
      else if c.chan_plan.channel_function = 3 then
        1 + byte_at mem (c.data + ws_channel_plan_length c.chan_plan.channel_plan) else 0)
    (hl : ws_channel_plan_length c.chan_plan.channel_plan + n ≤ c.length)
    (h1 : c.chan_plan.excluded_channel_ctrl = WS_EXC_CHAN_CTRL_RANGE →
      byte_at mem (c.data + ws_channel_plan_length c.chan_plan.channel_plan + n) * 4 + 1 ≤
        c.length - ws_channel_plan_length c.chan_plan.channel_plan - n)
    (h2 : c.chan_plan.excluded_channel_ctrl = WS_EXC_CHAN_CTRL_BITMASK →
      c.chan_plan.channel_plan = 1 →
      (read_le16 mem (c.data + 4) + 7) / 8 % 256 =
        c.length - ws_channel_plan_length c.chan_plan.channel_plan - n) :
    ∃ g, ((schedule_plan_read mem c).bind (schedule_function_read mem)).bind
      (schedule_excluded_read mem) = some g := by
  obtain ⟨c1, r1, d1, l1, p1, f1, e1, n1⟩ := schedule_plan_read_ok mem c hp (by omega)
  obtain ⟨c2, r2, d2, l2, p2, e2, q2⟩ := schedule_function_read_ok mem c1 n (by omega)
    (by rw [f1, d1]; exact hn) (by omega)
  obtain ⟨g, r3⟩ := schedule_excluded_read_ok mem c2 (by omega)
    (by
      intro h
      rw [d2, d1, l2, l1]
      exact h1 (by rw [← e1, ← e2]; exact h))
    (by
      intro h hq
      have hq1 : c.chan_plan.channel_plan = 1 := by rw [← p1, ← p2]; exact hq
      rw [q2, n1 hq1, l2, l1]
      exact h2 (by rw [← e1, ← e2]; exact h) hq1)
  exact ⟨g, by rw [r1, Option.some_bind, r2, Option.some_bind, r3]⟩

theorem channel_function_set_keeps (g0 : ws_generic_channel_info_t) (hs : ws_hopping_schedule)
    (uc : Bool) :
    (ws_wp_channel_function_set g0 hs uc).channel_plan = g0.channel_plan ∧
    (ws_wp_channel_function_set g0 hs uc).channel_function = g0.channel_function ∧
    (ws_wp_channel_function_set g0 hs uc).excluded_channel_ctrl = g0.excluded_channel_ctrl ∧
    (ws_wp_channel_function_set g0 hs uc).plan = g0.plan ∧
    (ws_wp_channel_function_set g0 hs uc).excluded_channels = g0.excluded_channels := by
  unfold ws_wp_channel_function_set
  split
  · split <;> exact ⟨rfl, rfl, rfl, rfl, rfl⟩
  all_goals exact ⟨rfl, rfl, rfl, rfl, rfl⟩

theorem channel_plan_set_keeps (g0 : ws_generic_channel_info_t) (hs : ws_hopping_schedule) :
    (ws_wp_channel_plan_set g0 hs).channel_plan = g0.channel_plan ∧
    (ws_wp_channel_plan_set g0 hs).channel_function = g0.channel_function ∧
    (ws_wp_channel_plan_set g0 hs).excluded_channel_ctrl = g0.excluded_channel_ctrl ∧
    (ws_wp_channel_plan_set g0 hs).function = g0.function ∧
    (ws_wp_channel_plan_set g0 hs).excluded_channels = g0.excluded_channels := by
  unfold ws_wp_channel_plan_set
  split <;> exact ⟨rfl, rfl, rfl, rfl, rfl⟩

theorem channel_info_init_fields (hs : ws_hopping_schedule) (g0 : ws_generic_channel_info_t)
    (uc : Bool) :
    (ws_generic_channel_info_init hs g0 uc).channel_plan = hs.channel_plan % 8 ∧
    (ws_generic_channel_info_init hs g0 uc).channel_function =
      (if uc then hs.uc_channel_function else hs.bc_channel_function) % 8 ∧
    (ws_generic_channel_info_init hs g0 uc).excluded_channel_ctrl =
      (if uc then hs.uc_excluded_channels else hs.bc_excluded_channels).excluded_channel_ctrl
        % 4 := by
  unfold ws_generic_channel_info_init
  cases uc
  · simp only [Bool.false_eq_true, if_false]
    split_ifs <;> exact ⟨rfl, rfl, rfl⟩
  · simp only [if_true]
    split_ifs <;> exact ⟨rfl, rfl, rfl⟩

theorem channel_info_init_excluded (hs : ws_hopping_schedule) (g0 : ws_generic_channel_info_t)
    (uc : Bool) :
    ((if uc then hs.uc_excluded_channels else hs.bc_excluded_channels).excluded_channel_ctrl % 4
        = WS_EXC_CHAN_CTRL_RANGE →
      (ws_generic_channel_info_init hs g0 uc).excluded_channels.range_out =
        { excluded_range_length :=
            (if uc then hs.uc_excluded_channels
              else hs.bc_excluded_channels).excluded_range_length % 256,
          excluded_range :=
            (if uc then hs.uc_excluded_channels else hs.bc_excluded_channels).excluded_range }) ∧
    ((if uc then hs.uc_excluded_channels else hs.bc_excluded_channels).excluded_channel_ctrl % 4
        = WS_EXC_CHAN_CTRL_BITMASK →
      (ws_generic_channel_info_init hs g0 uc).excluded_channels.mask_out.channel_mask_bytes_inline
        = (if uc then hs.uc_excluded_channels
            else hs.bc_excluded_channels).channel_mask_bytes_inline % 256) := by
  unfold ws_generic_channel_info_init
  cases uc
  · simp only [Bool.false_eq_true, if_false]
    constructor
    · intro h
      rw [if_pos h]
    · intro h
      rw [if_neg (by rw [h]; decide), if_pos h]
  · simp only [if_true]
    constructor
    · intro h
      rw [if_pos h]
    · intro h
      rw [if_neg (by rw [h]; decide), if_pos h]

theorem channel_plan_write_shape (g : ws_generic_channel_info_t) (hp : g.channel_plan ≤ 2) :
    (ws_wp_channel_plan_write g).length = ws_channel_plan_length g.channel_plan ∧
    (g.channel_plan = 1 →
      read_le16 (ws_wp_channel_plan_write g) 4 = g.plan.one.number_of_channel % 65536) := by
  unfold ws_wp_channel_plan_write
  generalize hq : g.channel_plan = p at *
  interval_cases p
  · exact ⟨rfl, fun h => absurd h (by decide)⟩
  · refine ⟨rfl, fun _ => ?_⟩
    simp only
    have := read_le16_append (write_le24 g.plan.one.ch0 ++ [g.plan.one.channel_spacing % 256]) []
      g.plan.one.number_of_channel
    simpa [write_le24] using this
  · exact ⟨rfl, fun h => absurd h (by decide)⟩

theorem channel_plan_set_one (g0 : ws_generic_channel_info_t) (hs : ws_hopping_schedule)
    (h : g0.channel_plan = 1) :
    (ws_wp_channel_plan_set g0 hs).plan.one.number_of_channel = hs.number_of_channels % 65536 := by
  unfold ws_wp_channel_plan_set
  rw [h]

theorem channel_function_write_shape (g0 : ws_generic_channel_info_t) (hs : ws_hopping_schedule)
    (uc : Bool) (hf : g0.channel_function ≤ 3) :
    (ws_wp_channel_function_write (ws_wp_channel_function_set g0 hs uc)).length =
      (if g0.channel_function = 0 then 2
        else if g0.channel_function = 3 then
          1 + byte_at (ws_wp_channel_function_write (ws_wp_channel_function_set g0 hs uc)) 0
        else 0) ∧
    (ws_wp_channel_function_write (ws_wp_channel_function_set g0 hs uc)).length =
      ws_channel_function_length g0.channel_function 1 := by
  have hk := (channel_function_set_keeps g0 hs uc).2.1
  unfold ws_wp_channel_function_write
  rw [hk]
  unfold ws_wp_channel_function_set
  generalize hq : g0.channel_function = f at *
  interval_cases f
  · simp only [if_true]
    cases uc <;> exact ⟨rfl, rfl⟩
  · exact ⟨rfl, rfl⟩
  · exact ⟨rfl, rfl⟩
  · exact ⟨rfl, rfl⟩

theorem excluded_range_write_length :
    ∀ (n : Nat) (l : List ws_excluded_channel_range_data_t),
      (excluded_range_write n l).length = 4 * n := by
  intro n
  induction n with
  | zero => intro l; rfl
  | succ k ih =>
    intro l
    simp only [excluded_range_write, List.length_append, write_le16, List.length_cons,
      List.length_nil, ih]
    omega

theorem memcpy_bytes_length (src : List Nat) (n : Nat) : (memcpy_bytes src n).length = n := by
  simp [memcpy_bytes]

theorem excluded_channel_write_shape (g : ws_generic_channel_info_t) :
    (ws_wp_nested_excluded_channel_write g).length =
      (if g.excluded_channel_ctrl = WS_EXC_CHAN_CTRL_RANGE then
        g.excluded_channels.range_out.excluded_range_length % 256 * 4 + 1
       else if g.excluded_channel_ctrl = WS_EXC_CHAN_CTRL_BITMASK then
        g.excluded_channels.mask_out.channel_mask_bytes_inline
       else 0) ∧
    (g.excluded_channel_ctrl = WS_EXC_CHAN_CTRL_RANGE →
      byte_at (ws_wp_nested_excluded_channel_write g) 0 =
        g.excluded_channels.range_out.excluded_range_length % 256) := by
  unfold ws_wp_nested_excluded_channel_write
  by_cases e1 : g.excluded_channel_ctrl = WS_EXC_CHAN_CTRL_RANGE
  · simp only [e1, if_true]
    refine ⟨?_, fun _ => ?_⟩
    · simp only [List.length_append, List.length_cons, List.length_nil,
        excluded_range_write_length]
      omega
    · simp [byte_at]
  · simp only [e1, if_false]
    refine ⟨?_, fun h => absurd h id⟩
    · by_cases e2 : g.excluded_channel_ctrl = WS_EXC_CHAN_CTRL_BITMASK
      · simp only [e2, if_true, memcpy_bytes_length]
      · simp only [e2, if_false, List.length_nil]

/-! ### Schedule IE writer against the readers -/

theorem channel_info_base_fields (p f e : Nat) (hp : p < 8) (hf : f < 8) (he : e < 4) :
    FIELD_GET WS_WP_SCHEDULE_IE_CHAN_PLAN_MASK
        (((p % 256 ||| (f <<< 3)) % 256 ||| (e <<< 6)) % 256) = p ∧
    FIELD_GET WS_WP_SCHEDULE_IE_CHAN_FUNC_MASK
        (((p % 256 ||| (f <<< 3)) % 256 ||| (e <<< 6)) % 256) = f ∧
    FIELD_GET WS_WP_SCHEDULE_IE_EXCL_CHAN_CTL_MASK
        (((p % 256 ||| (f <<< 3)) % 256 ||| (e <<< 6)) % 256) = e := by
  interval_cases p <;> interval_cases f <;> interval_cases e <;> decide

theorem hopping_schedule_channel_info_fields (hs : ws_hopping_schedule) (uc : Bool)
    (hok : hopping_schedule_ok hs uc) :
    (hopping_schedule_channel_info hs uc).channel_plan = hs.channel_plan ∧
    (hopping_schedule_channel_info hs uc).channel_function =
      (if uc then hs.uc_channel_function else hs.bc_channel_function) ∧
    (hopping_schedule_channel_info hs uc).excluded_channel_ctrl =
      (if uc then hs.uc_excluded_channels else hs.bc_excluded_channels).excluded_channel_ctrl := by
  obtain ⟨hp, hf, he, -, -⟩ := hok
  unfold hopping_schedule_channel_info
  obtain ⟨a1, a2, a3, -, -⟩ := channel_function_set_keeps
    (ws_wp_channel_plan_set (ws_generic_channel_info_init hs ws_generic_channel_info_zero uc) hs)
    hs uc
  obtain ⟨b1, b2, b3, -, -⟩ := channel_plan_set_keeps
    (ws_generic_channel_info_init hs ws_generic_channel_info_zero uc) hs
  obtain ⟨c1, c2, c3⟩ := channel_info_init_fields hs ws_generic_channel_info_zero uc
  refine ⟨?_, ?_, ?_⟩
  · rw [a1, b1, c1]; omega
  · rw [a2, b2, c2]; omega
  · rw [a3, b3, c3]; omega

/-- The parts of the IE written for a well-formed hopping schedule: lengths of the
channel plan, channel function and excluded channel bytes, and the bytes the reader
looks at. -/
theorem hopping_schedule_write_parts (hs : ws_hopping_schedule) (uc : Bool)
    (hok : hopping_schedule_ok hs uc) :
    (ws_wp_channel_plan_write (hopping_schedule_channel_info hs uc)).length =
      ws_channel_plan_length hs.channel_plan ∧
    (hs.channel_plan = 1 →
      read_le16 (ws_wp_channel_plan_write (hopping_schedule_channel_info hs uc)) 4 =
        hs.number_of_channels % 65536) ∧
    (ws_wp_channel_function_write (hopping_schedule_channel_info hs uc)).length =
      (if (hopping_schedule_channel_info hs uc).channel_function = 0 then 2
        else if (hopping_schedule_channel_info hs uc).channel_function = 3 then
          1 + byte_at (ws_wp_channel_function_write (hopping_schedule_channel_info hs uc)) 0
        else 0) ∧
    (ws_wp_channel_function_write (hopping_schedule_channel_info hs uc)).length ≤ 2 ∧
    ((hopping_schedule_channel_info hs uc).excluded_channel_ctrl = WS_EXC_CHAN_CTRL_RANGE →
      byte_at (ws_wp_nested_excluded_channel_write (hopping_schedule_channel_info hs uc)) 0 * 4
          + 1 =
        (ws_wp_nested_excluded_channel_write (hopping_schedule_channel_info hs uc)).length) ∧
    ((hopping_schedule_channel_info hs uc).excluded_channel_ctrl = WS_EXC_CHAN_CTRL_BITMASK →
      hs.channel_plan = 1 →
      (hs.number_of_channels % 65536 + 7) / 8 % 256 =
        (ws_wp_nested_excluded_channel_write (hopping_schedule_channel_info hs uc)).length) ∧
    (ws_wp_nested_excluded_channel_write (hopping_schedule_channel_info hs uc)).length ≤ 1021 ∧
    ws_wp_generic_schedule_length_get (hopping_schedule_channel_info hs uc) =
      1 + (ws_wp_channel_plan_write (hopping_schedule_channel_info hs uc)).length +
        (ws_wp_channel_function_write (hopping_schedule_channel_info hs uc)).length +
        (ws_wp_nested_excluded_channel_write (hopping_schedule_channel_info hs uc)).length := by
  obtain ⟨g1, g2, g3⟩ := hopping_schedule_channel_info_fields hs uc hok
  obtain ⟨hp, hf, he, hr, hm⟩ := hok
  -- channel plan
  obtain ⟨p1, p2⟩ := channel_plan_write_shape (hopping_schedule_channel_info hs uc)
    (by rw [g1]; exact hp)
  rw [g1] at p1 p2
  have hinit := channel_info_init_fields hs ws_generic_channel_info_zero uc
  have hone : hs.channel_plan = 1 →
      (hopping_schedule_channel_info hs uc).plan.one.number_of_channel =
        hs.number_of_channels % 65536 := by
    intro h1
    unfold hopping_schedule_channel_info
    rw [(channel_function_set_keeps _ hs uc).2.2.2.1]
    exact channel_plan_set_one _ hs (by rw [hinit.1, h1])
  -- channel function
  have hfun0 : (ws_wp_channel_plan_set
      (ws_generic_channel_info_init hs ws_generic_channel_info_zero uc) hs).channel_function =
      (hopping_schedule_channel_info hs uc).channel_function := by
    unfold hopping_schedule_channel_info
    rw [(channel_function_set_keeps _ hs uc).2.1]
  obtain ⟨f1, f2⟩ := channel_function_write_shape
    (ws_wp_channel_plan_set (ws_generic_channel_info_init hs ws_generic_channel_info_zero uc) hs)
    hs uc (by rw [hfun0, g2]; exact hf)
  rw [hfun0] at f1 f2
  change (ws_wp_channel_function_write (hopping_schedule_channel_info hs uc)).length = _ at f1
  change (ws_wp_channel_function_write (hopping_schedule_channel_info hs uc)).length = _ at f2
  have hf3 : (hopping_schedule_channel_info hs uc).channel_function ≤ 3 := by rw [g2]; exact hf
  have f3 : (ws_wp_channel_function_write (hopping_schedule_channel_info hs uc)).length ≤ 2 := by
    rw [f2]
    generalize (hopping_schedule_channel_info hs uc).channel_function = f at hf3
    interval_cases f <;> decide
  -- excluded channels
  obtain ⟨e1, e2⟩ := excluded_channel_write_shape (hopping_schedule_channel_info hs uc)
  have hex : (hopping_schedule_channel_info hs uc).excluded_channels =
      (ws_generic_channel_info_init hs ws_generic_channel_info_zero uc).excluded_channels := by
    unfold hopping_schedule_channel_info
    rw [(channel_function_set_keeps _ hs uc).2.2.2.2, (channel_plan_set_keeps _ hs).2.2.2.2]
  obtain ⟨i1, i2⟩ := channel_info_init_excluded hs ws_generic_channel_info_zero uc
  have hmod : (if uc then hs.uc_excluded_channels
      else hs.bc_excluded_channels).excluded_channel_ctrl % 4 =
      (if uc then hs.uc_excluded_channels
        else hs.bc_excluded_channels).excluded_channel_ctrl := by omega
  rw [hmod] at i1 i2
  rw [← g3] at i1 i2 hr hm
  have hElen : (ws_wp_nested_excluded_channel_write (hopping_schedule_channel_info hs uc)).length
      ≤ 1021 := by
    rw [e1]
    split_ifs with c1 c2
    · omega
    · rw [hex, i2 c2]; omega
    · omega
  refine ⟨p1, ?_, f1, f3, ?_, ?_, hElen, ?_⟩
  · intro h1
    rw [p2 h1, hone h1]
    omega
  · intro c1
    rw [e2 c1, e1, if_pos c1]
  · intro c2 h1
    have c1 : ¬ (hopping_schedule_channel_info hs uc).excluded_channel_ctrl =
        WS_EXC_CHAN_CTRL_RANGE := by rw [c2]; decide
    rw [e1, if_neg c1, if_pos c2, hex, i2 c2]
    obtain ⟨m1, m2, m3⟩ := hm c2
    obtain ⟨m4, m5⟩ := m3 h1
    omega
  · unfold ws_wp_generic_schedule_length_get
    simp only
    have hne3 : ¬ (hopping_schedule_channel_info hs uc).channel_plan = 3 := by rw [g1]; omega
    rw [if_neg hne3, ← f2, g1, ← p1]
    have hxl : ws_excluded_channel_length (hopping_schedule_channel_info hs uc) =
        (ws_wp_nested_excluded_channel_write (hopping_schedule_channel_info hs uc)).length := by
      rw [e1]
      unfold ws_excluded_channel_length
      split_ifs with c1 c2
      · rw [hex, i1 c1]
        simp only
        omega
      · rfl
      · rfl
    rw [hxl]
    have := p1
    have hpl : ws_channel_plan_length hs.channel_plan ≤ 6 := by
      interval_cases hs.channel_plan <;> decide
    omega

theorem hopping_schedule_write_us (hs : ws_hopping_schedule) :
    ws_wp_nested_hopping_schedule_write hs true =
      mac_ie_nested_ie_long_base_write WP_PAYLOAD_IE_US_TYPE
          ((3 + ws_wp_generic_schedule_length_get (hopping_schedule_channel_info hs true))
            % 65536) ++
        ([hs.fhss_uc_dwell_interval % 256, hs.clock_drift % 256, hs.timing_accuracy % 256,
            ws_wp_channel_info_base_get (hopping_schedule_channel_info hs true)] ++
          (ws_wp_channel_plan_write (hopping_schedule_channel_info hs true) ++
            (ws_wp_channel_function_write (hopping_schedule_channel_info hs true) ++
              ws_wp_nested_excluded_channel_write (hopping_schedule_channel_info hs true)))) := by
  unfold ws_wp_nested_hopping_schedule_write hopping_schedule_channel_info
  simp only [if_true, not_true_eq_false, if_false, List.append_assoc, List.cons_append,
    List.nil_append, List.singleton_append]

theorem hopping_schedule_write_bs (hs : ws_hopping_schedule) :
    ws_wp_nested_hopping_schedule_write hs false =
      mac_ie_nested_ie_long_base_write WP_PAYLOAD_IE_BS_TYPE
          ((9 + ws_wp_generic_schedule_length_get (hopping_schedule_channel_info hs false))
            % 65536) ++
        ((write_le32 hs.fhss_broadcast_interval ++ (write_le16 hs.fhss_bsi ++
            [hs.fhss_bc_dwell_interval % 256, hs.clock_drift % 256, hs.timing_accuracy % 256,
              ws_wp_channel_info_base_get (hopping_schedule_channel_info hs false)])) ++
          (ws_wp_channel_plan_write (hopping_schedule_channel_info hs false) ++
            (ws_wp_channel_function_write (hopping_schedule_channel_info hs false) ++
              ws_wp_nested_excluded_channel_write (hopping_schedule_channel_info hs false)))) := by
  unfold ws_wp_nested_hopping_schedule_write hopping_schedule_channel_info
  simp only [Bool.false_eq_true, not_false_eq_true, if_true, if_false, List.append_assoc,
    List.cons_append, List.nil_append, List.singleton_append]

/-- Core of the acceptance of a written schedule IE: on a buffer made of a prefix `A`
and the channel plan, channel function and excluded channel bytes written for a
well-formed hopping schedule, the three parts of the reader accept a cursor placed
after `A` with the channel information of the byte written. -/
theorem schedule_read_written (hs : ws_hopping_schedule) (uc : Bool)
    (hok : hopping_schedule_ok hs uc) (A : List Nat) (c : schedule_cursor)
    (hd : c.data = A.length)
    (hl : c.length =
      (ws_wp_channel_plan_write (hopping_schedule_channel_info hs uc)).length +
        (ws_wp_channel_function_write (hopping_schedule_channel_info hs uc)).length +
        (ws_wp_nested_excluded_channel_write (hopping_schedule_channel_info hs uc)).length)
    (hc : c.chan_plan = schedule_info_read ws_generic_channel_info_zero
      (ws_wp_channel_info_base_get (hopping_schedule_channel_info hs uc))) :
    ∃ g, ((schedule_plan_read
        (A ++ (ws_wp_channel_plan_write (hopping_schedule_channel_info hs uc) ++
          (ws_wp_channel_function_write (hopping_schedule_channel_info hs uc) ++
            ws_wp_nested_excluded_channel_write (hopping_schedule_channel_info hs uc)))) c).bind
        (schedule_function_read
          (A ++ (ws_wp_channel_plan_write (hopping_schedule_channel_info hs uc) ++
            (ws_wp_channel_function_write (hopping_schedule_channel_info hs uc) ++
              ws_wp_nested_excluded_channel_write (hopping_schedule_channel_info hs uc)))))).bind
        (schedule_excluded_read
          (A ++ (ws_wp_channel_plan_write (hopping_schedule_channel_info hs uc) ++
            (ws_wp_channel_function_write (hopping_schedule_channel_info hs uc) ++
              ws_wp_nested_excluded_channel_write (hopping_schedule_channel_info hs uc))))) =
      some g := by
  obtain ⟨g1, g2, g3⟩ := hopping_schedule_channel_info_fields hs uc hok
  obtain ⟨w1, w2, w3, w4, w5, w6, w7, w8⟩ := hopping_schedule_write_parts hs uc hok
  obtain ⟨hp, hf, he, hr, hm⟩ := hok
  generalize hG : hopping_schedule_channel_info hs uc = G at *
  generalize hP : ws_wp_channel_plan_write G = P at *
  generalize hF : ws_wp_channel_function_write G = F at *
  generalize hE : ws_wp_nested_excluded_channel_write G = E at *
  have hinfo := channel_info_base_fields G.channel_plan G.channel_function
    G.excluded_channel_ctrl (by rw [g1]; omega) (by rw [g2]; omega) (by rw [g3]; omega)
  have hcp : c.chan_plan.channel_plan = G.channel_plan := by
    rw [hc]; exact hinfo.1
  have hcf : c.chan_plan.channel_function = G.channel_function := by
    rw [hc]; exact hinfo.2.1
  have hce : c.chan_plan.excluded_channel_ctrl = G.excluded_channel_ctrl := by
    rw [hc]; exact hinfo.2.2
  have hmemF : ∀ i, i < F.length →
      byte_at (A ++ (P ++ (F ++ E))) (c.data + P.length + i) = byte_at F i := by
    intro i hi
    exact byte_at_mid _ (A ++ P) F E _ i (by simp only [List.append_assoc])
      (by rw [List.length_append, hd]) hi
  have hmemE : ∀ i, i < E.length →
      byte_at (A ++ (P ++ (F ++ E))) (c.data + P.length + F.length + i) = byte_at E i := by
    intro i hi
    exact byte_at_mid _ (A ++ (P ++ F)) E [] _ i (by simp only [List.append_assoc,
      List.append_nil]) (by simp only [List.length_append, hd]; omega) hi
  have hmemP : ∀ i, i < P.length →
      byte_at (A ++ (P ++ (F ++ E))) (c.data + i) = byte_at P i := by
    intro i hi
    exact byte_at_mid _ A P (F ++ E) _ i rfl (by rw [hd]) hi
  have hplen : ws_channel_plan_length c.chan_plan.channel_plan = P.length := by
    rw [hcp, g1, w1]
  apply schedule_read_ok (A ++ (P ++ (F ++ E))) c F.length
  · rw [hcp, g1]; exact hp
  · rw [hcf, g2]; exact hf
  · rw [hce, g3]; exact he
  · rw [hcf, hplen, w3]
    by_cases f0 : G.channel_function = 0
    · rw [if_pos f0, if_pos f0]
    · rw [if_neg f0, if_neg f0]
      by_cases f3 : G.channel_function = 3
      · rw [if_pos f3, if_pos f3]
        have hpos : 0 < F.length := by rw [w3, if_neg f0, if_pos f3]; omega
        have := hmemF 0 hpos
        rw [Nat.add_zero] at this
        rw [this]
      · rw [if_neg f3, if_neg f3]
  · rw [hplen, hl]; omega
  · intro h1
    rw [hplen, hl]
    have hr1 : G.excluded_channel_ctrl = WS_EXC_CHAN_CTRL_RANGE := by rw [← hce]; exact h1
    have := w5 hr1
    have hpos : 0 < E.length := by omega
    have hb := hmemE 0 hpos
    rw [Nat.add_zero] at hb
    rw [hb]
    omega
  · intro h2 hp1
    rw [hplen, hl]
    have hm1 : G.excluded_channel_ctrl = WS_EXC_CHAN_CTRL_BITMASK := by rw [← hce]; exact h2
    have hp1' : hs.channel_plan = 1 := by rw [← g1, ← hcp]; exact hp1
    have h6 : 6 = P.length := by rw [w1, hp1']; rfl
    have e6 := w6 hm1 hp1'
    have r16 : read_le16 (A ++ (P ++ (F ++ E))) (c.data + 4) = read_le16 P 4 := by
      unfold read_le16
      rw [hmemP 4 (by omega), Nat.add_assoc, hmemP (4 + 1) (by omega)]
    rw [r16, w2 hp1', e6]
    omega

theorem hopping_schedule_us_accepted (hs : ws_hopping_schedule)
    (hok : hopping_schedule_ok hs true) :
    ∃ us_ie, ws_wp_nested_us_read (ws_wp_nested_hopping_schedule_write hs true) 0
      (ws_wp_nested_hopping_schedule_write hs true).length = some us_ie := by
  obtain ⟨w1, w2, w3, w4, w5, w6, w7, w8⟩ := hopping_schedule_write_parts hs true hok
  have hW := hopping_schedule_write_us hs
  have hcore := schedule_read_written hs true hok
  generalize hopping_schedule_channel_info hs true = G at *
  generalize ws_wp_channel_plan_write G = P at *
  generalize ws_wp_channel_function_write G = F at *
  generalize ws_wp_nested_excluded_channel_write G = E at *
  generalize ws_wp_nested_hopping_schedule_write hs true = mem at *
  have hpl : P.length ≤ 6 := by
    rw [w1]
    obtain ⟨hp, -⟩ := hok
    interval_cases hs.channel_plan <;> decide
  generalize hC : [hs.fhss_uc_dwell_interval % 256, hs.clock_drift % 256,
    hs.timing_accuracy % 256, ws_wp_channel_info_base_get G] ++ (P ++ (F ++ E)) = C at hW
  have hClen : C.length = 4 + (P.length + F.length + E.length) := by
    rw [← hC]
    simp only [List.length_append, List.length_cons, List.length_nil]
    omega
  have hL : (3 + ws_wp_generic_schedule_length_get G) % 65536 = C.length := by
    rw [w8, hClen]; omega
  rw [hL] at hW
  have hdisc := mac_ie_nested_discover_long C [] WP_PAYLOAD_IE_US_TYPE (C.length + 2)
    { id := WP_PAYLOAD_IE_US_TYPE, type_long := true, length := 0, content_ptr := 0 }
    (by decide) (by omega) (Nat.le_refl _) rfl rfl
  rw [List.append_nil, ← hW] at hdisc
  have hlen : mem.length = C.length + 2 := by
    rw [hW]
    simp [mac_ie_nested_ie_long_base_write, write_le16]
  have hmem2 : mem = (mac_ie_nested_ie_long_base_write WP_PAYLOAD_IE_US_TYPE C.length ++
      [hs.fhss_uc_dwell_interval % 256, hs.clock_drift % 256,
        hs.timing_accuracy % 256, ws_wp_channel_info_base_get G]) ++ (P ++ (F ++ E)) := by
    rw [hW, ← hC]
    simp only [List.append_assoc]
  have hinfo : byte_at mem (2 + 3) = ws_wp_channel_info_base_get G := by
    rw [hmem2]
    rw [byte_at_append_left _ _ _ (by simp [mac_ie_nested_ie_long_base_write, write_le16])]
    simp only [mac_ie_nested_ie_long_base_write, write_le16, byte_at, List.cons_append,
      List.nil_append, List.getD_cons_succ, List.getD_cons_zero, ws_wp_channel_info_base_get]
    omega
  obtain ⟨g, hg⟩ := hcore
    (mac_ie_nested_ie_long_base_write WP_PAYLOAD_IE_US_TYPE C.length ++
      [hs.fhss_uc_dwell_interval % 256, hs.clock_drift % 256,
        hs.timing_accuracy % 256, ws_wp_channel_info_base_get G])
    { data := 2 + 4, length := (C.length + 65536 - 4) % 65536,
      chan_plan := schedule_info_read ws_generic_channel_info_zero (byte_at mem (2 + 3)) }
    (by simp [mac_ie_nested_ie_long_base_write, write_le16])
    (by simp only; omega)
    (by simp only; rw [hinfo])
  rw [← hmem2] at hg
  unfold ws_wp_nested_us_read
  rw [hlen]
  simp only [hdisc]
  rw [if_neg (by omega), hg]
  exact ⟨_, rfl⟩

theorem hopping_schedule_bs_accepted (hs : ws_hopping_schedule)
    (hok : hopping_schedule_ok hs false) :
    ∃ bs_ie, ws_wp_nested_bs_read (ws_wp_nested_hopping_schedule_write hs false) 0
      (ws_wp_nested_hopping_schedule_write hs false).length = some bs_ie := by
  obtain ⟨w1, w2, w3, w4, w5, w6, w7, w8⟩ := hopping_schedule_write_parts hs false hok
  have hW := hopping_schedule_write_bs hs
  have hcore := schedule_read_written hs false hok
  generalize hopping_schedule_channel_info hs false = G at *
  generalize ws_wp_channel_plan_write G = P at *
  generalize ws_wp_channel_function_write G = F at *
  generalize ws_wp_nested_excluded_channel_write G = E at *
  generalize ws_wp_nested_hopping_schedule_write hs false = mem at *
  have hpl : P.length ≤ 6 := by
    rw [w1]
    obtain ⟨hp, -⟩ := hok
    interval_cases hs.channel_plan <;> decide
  generalize hX : write_le32 hs.fhss_broadcast_interval ++ (write_le16 hs.fhss_bsi ++
    [hs.fhss_bc_dwell_interval % 256, hs.clock_drift % 256, hs.timing_accuracy % 256,
      ws_wp_channel_info_base_get G]) = X at hW
  have hXlen : X.length = 10 := by
    rw [← hX]; rfl
  have hX9 : byte_at X 9 = ws_wp_channel_info_base_get G := by
    rw [← hX]
    simp only [write_le32, write_le16, byte_at, List.cons_append,
      List.nil_append, List.getD_cons_succ, List.getD_cons_zero, ws_wp_channel_info_base_get]
    omega
  generalize hC : X ++ (P ++ (F ++ E)) = C at hW
  have hClen : C.length = 10 + (P.length + F.length + E.length) := by
    rw [← hC]
    simp only [List.length_append, hXlen]
    omega
  have hL : (9 + ws_wp_generic_schedule_length_get G) % 65536 = C.length := by
    rw [w8, hClen]; omega
  rw [hL] at hW
  have hdisc := mac_ie_nested_discover_long C [] WP_PAYLOAD_IE_BS_TYPE (C.length + 2)
    { id := WP_PAYLOAD_IE_BS_TYPE, type_long := true, length := 0, content_ptr := 0 }
    (by decide) (by omega) (Nat.le_refl _) rfl rfl
  rw [List.append_nil, ← hW] at hdisc
  have hlen : mem.length = C.length + 2 := by
    rw [hW]
    simp [mac_ie_nested_ie_long_base_write, write_le16]
  have hmem2 : mem = (mac_ie_nested_ie_long_base_write WP_PAYLOAD_IE_BS_TYPE C.length ++ X) ++
      (P ++ (F ++ E)) := by
    rw [hW, ← hC]
    simp only [List.append_assoc]
  have hinfo : byte_at mem (2 + 9) = ws_wp_channel_info_base_get G := by
    rw [hmem2, List.append_assoc]
    rw [byte_at_mid _ (mac_ie_nested_ie_long_base_write WP_PAYLOAD_IE_BS_TYPE C.length) X
      (P ++ (F ++ E)) (2 + 9) 9 rfl (by simp [mac_ie_nested_ie_long_base_write, write_le16])
      (by omega)]
    exact hX9
  obtain ⟨g, hg⟩ := hcore
    (mac_ie_nested_ie_long_base_write WP_PAYLOAD_IE_BS_TYPE C.length ++ X)
    { data := 2 + 10, length := (C.length + 65536 - 10) % 65536,
      chan_plan := schedule_info_read ws_generic_channel_info_zero (byte_at mem (2 + 9)) }
    (by simp [mac_ie_nested_ie_long_base_write, write_le16, hXlen])
    (by simp only; omega)
    (by simp only; rw [hinfo])
  rw [← hmem2] at hg
  unfold ws_wp_nested_bs_read
  rw [hlen]
  simp only [hdisc]
  rw [if_neg (by omega), hg]
  exact ⟨_, rfl⟩

/-- C10, as amended: the schedule IE writer against the readers. For every hopping
schedule without reserved value and with consistent excluded channels for the
unicast schedule (channel plan 0..2, unicast channel function 0..3, excluded-channel
control none, range or bitmask, a range count within the array of ranges, a bitmask
length within the mask array that for channel plan 1 is the number of bytes the
channels take), the US-IE written by `ws_wp_nested_hopping_schedule_write` with
`unicast_schedule = true` is accepted by `ws_wp_nested_us_read` (it returns true);
under the same conditions on the broadcast schedule, the BS-IE written with
`unicast_schedule = false` is accepted by `ws_wp_nested_bs_read`. -/
theorem ws_wp_nested_hopping_schedule_write_accepted (hs : ws_hopping_schedule) :
    (hopping_schedule_ok hs true →
      ∃ us_ie, ws_wp_nested_us_read (ws_wp_nested_hopping_schedule_write hs true) 0
        (ws_wp_nested_hopping_schedule_write hs true).length = some us_ie) ∧
    (hopping_schedule_ok hs false →
      ∃ bs_ie, ws_wp_nested_bs_read (ws_wp_nested_hopping_schedule_write hs false) 0
        (ws_wp_nested_hopping_schedule_write hs false).length = some bs_ie) :=
  ⟨hopping_schedule_us_accepted hs, hopping_schedule_bs_accepted hs⟩

/-- Witness of C10 as amended: the example hopping schedule is well formed for both
schedules and its US-IE and BS-IE are accepted. -/
theorem ws_wp_nested_hopping_schedule_write_accepted_witness :
    (hopping_schedule_ok schedule_example true ∧
      ∃ us_ie, ws_wp_nested_us_read (ws_wp_nested_hopping_schedule_write schedule_example true) 0
        (ws_wp_nested_hopping_schedule_write schedule_example true).length = some us_ie) ∧
    (hopping_schedule_ok schedule_example false ∧
      ∃ bs_ie, ws_wp_nested_bs_read (ws_wp_nested_hopping_schedule_write schedule_example false) 0
        (ws_wp_nested_hopping_schedule_write schedule_example false).length = some bs_ie) :=
  ⟨⟨by decide,
      (ws_wp_nested_hopping_schedule_write_accepted schedule_example).1 (by decide)⟩,
    ⟨by decide,
      (ws_wp_nested_hopping_schedule_write_accepted schedule_example).2 (by decide)⟩⟩

/-- Counterexample to C10 as stated: for the example hopping schedule with the
reserved channel plan 7, the US-IE written is refused by `ws_wp_nested_us_read` and
the BS-IE written is refused by `ws_wp_nested_bs_read`. -/
theorem ws_wp_nested_hopping_schedule_write_counterexample :
    ws_wp_nested_us_read (ws_wp_nested_hopping_schedule_write schedule_example_reserved true) 0
        (ws_wp_nested_hopping_schedule_write schedule_example_reserved true).length = none ∧
    ws_wp_nested_bs_read (ws_wp_nested_hopping_schedule_write schedule_example_reserved false) 0
        (ws_wp_nested_hopping_schedule_write schedule_example_reserved false).length = none := by
  constructor <;> decide

/-! ### Frame handlers of the router -/

/-- An unsecured indication leaves `ws_recv_data` at its third check. -/
theorem ws_recv_data_unsecured (deps : ws_deps) (wsrd : wsrd) (ind : ws_ind)
    (h : ind.hdr.key_index = 0) : ws_recv_data deps wsrd ind = wsrd := by
  unfold ws_recv_data
  split_ifs <;> rfl

/-- An unsecured indication leaves `ws_recv_pc` at its third check. -/
theorem ws_recv_pc_unsecured (deps : ws_deps) (wsrd : wsrd) (ind : ws_ind)
    (h : ind.hdr.key_index = 0) : ws_recv_pc deps wsrd ind = wsrd := by
  unfold ws_recv_pc
  split_ifs <;> rfl

/-- The handlers do act on a secured frame: in the example, with key index 2,
`ws_recv_data` passes the payload to `lowpan_recv`, and `ws_recv_pc` records the new
PAN version, the GTK hashes, the key index and the schedules of the neighbour. -/
theorem ws_recv_secured_example :
    (ws_recv_data ws_deps_example wsrd_example (ws_ind_example 2)).lowpan_rx =
      [{ frame := [], frame_ptr := 30, frame_length := 40, src := [1, 2, 3, 4, 5, 6, 7, 8],
         dst := ieee802154_addr_bc }] ∧
    (ws_recv_pc ws_deps_example wsrd_example (ws_ind_example 2)).ws.pan_version = 8 ∧
    (ws_recv_pc ws_deps_example wsrd_example (ws_ind_example 2)).ws.gtkhash =
      [[], [], [], []] ∧
    (ws_recv_pc ws_deps_example wsrd_example (ws_ind_example 2)).ws.gak_index = 2 ∧
    (ws_recv_pc ws_deps_example wsrd_example (ws_ind_example 2)).ws.neigh_table ≠
      wsrd_example.ws.neigh_table := by
  refine ⟨?_, ?_, ?_, ?_, ?_⟩ <;> decide

/-- C8: authenticated-only acceptance on the router. For every behaviour of the
helpers, every state of the router and every received indication whose header has
`key_index = 0` (unsecured frame), `ws_recv_data` makes no call of `lowpan_recv`, and
`ws_recv_pc` changes neither `ws.pan_version`, `ws.gtkhash`, `ws.gak_index` nor the
neighbour table, hence no FHSS schedule of a neighbour. -/
theorem ws_recv_unsecured (deps : ws_deps) (wsrd : wsrd) (ind : ws_ind)
    (h : ind.hdr.key_index = 0) :
    (ws_recv_data deps wsrd ind).lowpan_rx = wsrd.lowpan_rx ∧
    (ws_recv_pc deps wsrd ind).ws.pan_version = wsrd.ws.pan_version ∧
    (ws_recv_pc deps wsrd ind).ws.gtkhash = wsrd.ws.gtkhash ∧
    (ws_recv_pc deps wsrd ind).ws.gak_index = wsrd.ws.gak_index ∧
    (∀ i, ((ws_recv_pc deps wsrd ind).ws.neigh_table.getD i ws_neigh_zero).fhss_data =
        (wsrd.ws.neigh_table.getD i ws_neigh_zero).fhss_data ∧
      ((ws_recv_pc deps wsrd ind).ws.neigh_table.getD i ws_neigh_zero).fhss_data_unsecured =
        (wsrd.ws.neigh_table.getD i ws_neigh_zero).fhss_data_unsecured) ∧
    (ws_recv_pc deps wsrd ind).ws.neigh_table.length = wsrd.ws.neigh_table.length := by
  rw [ws_recv_data_unsecured deps wsrd ind h, ws_recv_pc_unsecured deps wsrd ind h]
  exact ⟨rfl, rfl, rfl, rfl, fun _ => ⟨rfl, rfl⟩, rfl⟩

/-- Witness of C8: the example indication with key index 0 on the example router, with
helpers that accept every frame. -/
theorem ws_recv_unsecured_witness :
    (ws_ind_example 0).hdr.key_index = 0 ∧
    (ws_recv_data ws_deps_example wsrd_example (ws_ind_example 0)).lowpan_rx =
      wsrd_example.lowpan_rx ∧
    (ws_recv_pc ws_deps_example wsrd_example (ws_ind_example 0)).ws.pan_version =
      wsrd_example.ws.pan_version :=
  ⟨rfl, (ws_recv_unsecured ws_deps_example wsrd_example (ws_ind_example 0) rfl).1,
    (ws_recv_unsecured ws_deps_example wsrd_example (ws_ind_example 0) rfl).2.1⟩

/-! ### Schedule IE: length -/

theorem channel_plan_write_length (g : ws_generic_channel_info_t) :
    (ws_wp_channel_plan_write g).length = ws_channel_plan_length g.channel_plan := by
  unfold ws_wp_channel_plan_write ws_channel_plan_length
  split <;> rfl

theorem channel_function_set_three (g0 : ws_generic_channel_info_t) (hs : ws_hopping_schedule)
    (uc : Bool) (h : g0.channel_function = 3) :
    (ws_wp_channel_function_set g0 hs uc).function.three =
      { channel_hop_count := 1, channel_list := none } := by
  unfold ws_wp_channel_function_set
  rw [h]

theorem channel_function_write_length (g0 : ws_generic_channel_info_t)
    (hs : ws_hopping_schedule) (uc : Bool) (n : Nat)
    (hn : g0.channel_function = 3 → n = 1) :
    (ws_wp_channel_function_write (ws_wp_channel_function_set g0 hs uc)).length =
      ws_channel_function_length g0.channel_function n := by
  have hk := (channel_function_set_keeps g0 hs uc).2.1
  unfold ws_wp_channel_function_write ws_channel_function_length
  rw [hk]
  split
  · rename_i h0
    simp only [h0, write_le16, List.length_cons, List.length_nil]
  · rename_i h0; simp only [h0, List.length_nil]
  · rename_i h0; simp only [h0, List.length_nil]
  · rename_i h0
    rw [channel_function_set_three g0 hs uc h0, hn h0]
    simp only [h0]
    rfl
  · rfl

theorem excluded_channel_write_length (hs : ws_hopping_schedule) (uc : Bool) :
    (ws_wp_nested_excluded_channel_write (hopping_schedule_channel_info hs uc)).length =
      ws_excluded_channel_length (hopping_schedule_channel_info hs uc) ∧
    ws_excluded_channel_length (hopping_schedule_channel_info hs uc) ≤ 1021 := by
  obtain ⟨e1, -⟩ := excluded_channel_write_shape (hopping_schedule_channel_info hs uc)
  have hex : (hopping_schedule_channel_info hs uc).excluded_channels =
      (ws_generic_channel_info_init hs ws_generic_channel_info_zero uc).excluded_channels := by
    unfold hopping_schedule_channel_info
    rw [(channel_function_set_keeps _ hs uc).2.2.2.2, (channel_plan_set_keeps _ hs).2.2.2.2]
  have hctrl : (hopping_schedule_channel_info hs uc).excluded_channel_ctrl =
      (if uc then hs.uc_excluded_channels else hs.bc_excluded_channels).excluded_channel_ctrl
        % 4 := by
    unfold hopping_schedule_channel_info
    rw [(channel_function_set_keeps _ hs uc).2.2.1, (channel_plan_set_keeps _ hs).2.2.1]
    exact (channel_info_init_fields hs ws_generic_channel_info_zero uc).2.2
  obtain ⟨i1, i2⟩ := channel_info_init_excluded hs ws_generic_channel_info_zero uc
  rw [← hctrl] at i1 i2
  rw [e1]
  unfold ws_excluded_channel_length
  split_ifs with c1 c2
  · rw [hex, i1 c1]
    simp only
    omega
  · rw [hex, i2 c2]
    omega
  · exact ⟨rfl, by omega⟩

theorem hopping_schedule_length_parts (hs : ws_hopping_schedule) (uc : Bool) :
    ws_wp_generic_schedule_length_get (hopping_schedule_channel_info hs uc) =
      1 + (ws_wp_channel_plan_write (hopping_schedule_channel_info hs uc)).length +
        (ws_wp_channel_function_write (hopping_schedule_channel_info hs uc)).length +
        (ws_wp_nested_excluded_channel_write (hopping_schedule_channel_info hs uc)).length ∧
    ws_wp_generic_schedule_length_get (hopping_schedule_channel_info hs uc) ≤ 1030 := by
  obtain ⟨x1, x2⟩ := excluded_channel_write_length hs uc
  have p1 := channel_plan_write_length (hopping_schedule_channel_info hs uc)
  have hfun0 : (ws_wp_channel_plan_set
      (ws_generic_channel_info_init hs ws_generic_channel_info_zero uc) hs).channel_function =
      (hopping_schedule_channel_info hs uc).channel_function := by
    unfold hopping_schedule_channel_info
    rw [(channel_function_set_keeps _ hs uc).2.1]
  have hn : (ws_wp_channel_plan_set
        (ws_generic_channel_info_init hs ws_generic_channel_info_zero uc) hs).channel_function
        = 3 →
      (if (hopping_schedule_channel_info hs uc).channel_plan = 3 then
        (hopping_schedule_channel_info hs uc).function.three.channel_hop_count else 1) = 1 := by
    intro h3
    split_ifs
    · unfold hopping_schedule_channel_info
      rw [channel_function_set_three _ hs uc h3]
    · rfl
  have f1 := channel_function_write_length
    (ws_wp_channel_plan_set (ws_generic_channel_info_init hs ws_generic_channel_info_zero uc) hs)
    hs uc _ hn
  rw [hfun0] at f1 hn
  change (ws_wp_channel_function_write (hopping_schedule_channel_info hs uc)).length = _ at f1
  have hpl : ws_channel_plan_length (hopping_schedule_channel_info hs uc).channel_plan ≤ 6 := by
    unfold ws_channel_plan_length
    split <;> omega
  have hfl : (ws_wp_channel_function_write (hopping_schedule_channel_info hs uc)).length ≤ 2 := by
    rw [f1]
    unfold ws_channel_function_length
    split
    · omega
    · omega
    · omega
    · rename_i h3
      rw [hn h3]
    · omega
  unfold ws_wp_generic_schedule_length_get
  simp only
  rw [← f1, ← p1, ← x1]
  omega

theorem generic_schedule_length_congr (g g' : ws_generic_channel_info_t)
    (h1 : g.channel_plan = g'.channel_plan) (h2 : g.channel_function = g'.channel_function)
    (h3 : g.excluded_channel_ctrl = g'.excluded_channel_ctrl) (h4 : g.function = g'.function)
    (h5 : g.excluded_channels = g'.excluded_channels) :
    ws_wp_generic_schedule_length_get g = ws_wp_generic_schedule_length_get g' := by
  unfold ws_wp_generic_schedule_length_get ws_excluded_channel_length
  rw [h1, h2, h3, h4, h5]

theorem channel_function_set_congr (g g' : ws_generic_channel_info_t) (hs : ws_hopping_schedule)
    (uc : Bool) (h2 : g.channel_function = g'.channel_function) (h4 : g.function = g'.function) :
    (ws_wp_channel_function_set g hs uc).function =
      (ws_wp_channel_function_set g' hs uc).function := by
  unfold ws_wp_channel_function_set
  rw [h2]
  split
  · split <;> simp only [h4]
  · exact h4
  · exact h4
  · simp only [h4]
  · exact h4

/-- The length `ws_wp_nested_hopping_schedule_length` computes, 3 or 9 fixed bytes plus
the channel information, as the writer computes it. -/
theorem hopping_schedule_length_eq (hs : ws_hopping_schedule) (uc : Bool) :
    ws_wp_nested_hopping_schedule_length hs uc =
      ((if uc then 3 else 9) +
        ws_wp_generic_schedule_length_get (hopping_schedule_channel_info hs uc)) % 65536 := by
  unfold ws_wp_nested_hopping_schedule_length
  simp only
  have hps := channel_plan_set_keeps
    (ws_generic_channel_info_init hs ws_generic_channel_info_zero uc) hs
  have a := channel_function_set_keeps
    (ws_generic_channel_info_init hs ws_generic_channel_info_zero uc) hs uc
  have b := channel_function_set_keeps
    (ws_wp_channel_plan_set (ws_generic_channel_info_init hs ws_generic_channel_info_zero uc) hs)
    hs uc
  rw [generic_schedule_length_congr
    (ws_wp_channel_function_set
      (ws_generic_channel_info_init hs ws_generic_channel_info_zero uc) hs uc)
    (hopping_schedule_channel_info hs uc)
    (by unfold hopping_schedule_channel_info; rw [a.1, b.1, hps.1])
    (by unfold hopping_schedule_channel_info; rw [a.2.1, b.2.1, hps.2.1])
    (by unfold hopping_schedule_channel_info; rw [a.2.2.1, b.2.2.1, hps.2.2.1])
    (by
      unfold hopping_schedule_channel_info
      exact channel_function_set_congr _ _ hs uc hps.2.1.symm hps.2.2.2.1.symm)
    (by unfold hopping_schedule_channel_info; rw [a.2.2.2.2, b.2.2.2.2, hps.2.2.2.2])]

/-- C12: length of the schedule IE. For every hopping schedule and both values of
`unicast_schedule`, the IE written by `ws_wp_nested_hopping_schedule_write` starts
with the descriptor of a long nested IE whose length field is
`ws_wp_nested_hopping_schedule_length`, and that length is the number of bytes written
after the 2 bytes of the descriptor: 3 or 9 fixed bytes, the channel-information
byte, the channel plan, channel function and excluded-channel fields. -/
theorem ws_wp_nested_hopping_schedule_length_written (hs : ws_hopping_schedule) (uc : Bool) :
    (mac_ie_nested_id_parse (ws_wp_nested_hopping_schedule_write hs uc) 0).length =
      ws_wp_nested_hopping_schedule_length hs uc ∧
    (mac_ie_nested_id_parse (ws_wp_nested_hopping_schedule_write hs uc) 0).type_long = true ∧
    (ws_wp_nested_hopping_schedule_write hs uc).length =
      2 + ws_wp_nested_hopping_schedule_length hs uc ∧
    ws_wp_nested_hopping_schedule_length hs uc =
      (if uc then 3 else 9) + 1 +
        (ws_wp_channel_plan_write (hopping_schedule_channel_info hs uc)).length +
        (ws_wp_channel_function_write (hopping_schedule_channel_info hs uc)).length +
        (ws_wp_nested_excluded_channel_write (hopping_schedule_channel_info hs uc)).length := by
  obtain ⟨l1, l2⟩ := hopping_schedule_length_parts hs uc
  have hlen := hopping_schedule_length_eq hs uc
  cases uc
  · have hW := hopping_schedule_write_bs hs
    simp only [Bool.false_eq_true, if_false] at hlen ⊢
    rw [← hlen] at hW
    have hL : ws_wp_nested_hopping_schedule_length hs false < 2048 := by rw [hlen]; omega
    have hClen : (write_le32 hs.fhss_broadcast_interval ++ (write_le16 hs.fhss_bsi ++
        [hs.fhss_bc_dwell_interval % 256, hs.clock_drift % 256, hs.timing_accuracy % 256,
          ws_wp_channel_info_base_get (hopping_schedule_channel_info hs false)]) ++
        (ws_wp_channel_plan_write (hopping_schedule_channel_info hs false) ++
          (ws_wp_channel_function_write (hopping_schedule_channel_info hs false) ++
            ws_wp_nested_excluded_channel_write (hopping_schedule_channel_info hs false)))).length
        = ws_wp_nested_hopping_schedule_length hs false := by
      simp only [List.length_append, List.length_cons, List.length_nil, write_le16, write_le32]
      rw [hlen, l1]
      omega
    generalize write_le32 hs.fhss_broadcast_interval ++ (write_le16 hs.fhss_bsi ++
        [hs.fhss_bc_dwell_interval % 256, hs.clock_drift % 256, hs.timing_accuracy % 256,
          ws_wp_channel_info_base_get (hopping_schedule_channel_info hs false)]) ++
        (ws_wp_channel_plan_write (hopping_schedule_channel_info hs false) ++
          (ws_wp_channel_function_write (hopping_schedule_channel_info hs false) ++
            ws_wp_nested_excluded_channel_write (hopping_schedule_channel_info hs false))) = C
      at hW hClen
    have hp := mac_ie_nested_id_parse_long [] C WP_PAYLOAD_IE_BS_TYPE
      (ws_wp_nested_hopping_schedule_length hs false) (by decide) hL
    rw [List.nil_append, ← hW] at hp
    rw [show ([] : List Nat).length = 0 from rfl] at hp
    rw [hp]
    refine ⟨rfl, rfl, ?_, by rw [hlen, l1]; omega⟩
    rw [hW, List.length_append, hClen]
    rfl
  · have hW := hopping_schedule_write_us hs
    simp only [if_true] at hlen ⊢
    rw [← hlen] at hW
    have hL : ws_wp_nested_hopping_schedule_length hs true < 2048 := by rw [hlen]; omega
    have hClen : ([hs.fhss_uc_dwell_interval % 256, hs.clock_drift % 256,
          hs.timing_accuracy % 256,
          ws_wp_channel_info_base_get (hopping_schedule_channel_info hs true)] ++
        (ws_wp_channel_plan_write (hopping_schedule_channel_info hs true) ++
          (ws_wp_channel_function_write (hopping_schedule_channel_info hs true) ++
            ws_wp_nested_excluded_channel_write (hopping_schedule_channel_info hs true)))).length
        = ws_wp_nested_hopping_schedule_length hs true := by
      simp only [List.length_append, List.length_cons, List.length_nil]
      rw [hlen, l1]
      omega
    generalize [hs.fhss_uc_dwell_interval % 256, hs.clock_drift % 256,
          hs.timing_accuracy % 256,
          ws_wp_channel_info_base_get (hopping_schedule_channel_info hs true)] ++
        (ws_wp_channel_plan_write (hopping_schedule_channel_info hs true) ++
          (ws_wp_channel_function_write (hopping_schedule_channel_info hs true) ++
            ws_wp_nested_excluded_channel_write (hopping_schedule_channel_info hs true))) = C
      at hW hClen
    have hp := mac_ie_nested_id_parse_long [] C WP_PAYLOAD_IE_US_TYPE
      (ws_wp_nested_hopping_schedule_length hs true) (by decide) hL
    rw [List.nil_append, ← hW] at hp
    rw [show ([] : List Nat).length = 0 from rfl] at hp
    rw [hp]
    refine ⟨rfl, rfl, ?_, by rw [hlen, l1]; omega⟩
    rw [hW, List.length_append, hClen]
    rfl

/-! ### Schedule IE readers: what they return -/

theorem schedule_plan_read_val (mem : List Nat) (c : schedule_cursor)
    (hp : c.chan_plan.channel_plan ≤ 2)
    (hl : ws_channel_plan_length c.chan_plan.channel_plan ≤ c.length) :
    ∃ c1, schedule_plan_read mem c = some c1 ∧
      c1.data = c.data + ws_channel_plan_length c.chan_plan.channel_plan ∧
      c1.length = c.length - ws_channel_plan_length c.chan_plan.channel_plan ∧
      c1.chan_plan.channel_plan = c.chan_plan.channel_plan ∧
      c1.chan_plan.channel_function = c.chan_plan.channel_function ∧
      c1.chan_plan.excluded_channel_ctrl = c.chan_plan.excluded_channel_ctrl ∧
      c1.chan_plan.function = c.chan_plan.function ∧
      c1.chan_plan.excluded_channels = c.chan_plan.excluded_channels ∧
      (c.chan_plan.channel_plan = 0 →
        c1.chan_plan.plan.zero =
          { regulatory_domain := byte_at mem c.data,
            operating_class := byte_at mem (c.data + 1) }) ∧
      (c.chan_plan.channel_plan = 1 →
        c1.chan_plan.plan.one =
          { ch0 := read_le24 mem c.data, channel_spacing := byte_at mem (c.data + 3),
            number_of_channel := read_le16 mem (c.data + 4) }) ∧
      (c.chan_plan.channel_plan = 2 →
        c1.chan_plan.plan.two =
          { regulatory_domain := byte_at mem c.data,
            channel_plan_id := byte_at mem (c.data + 1) }) := by
  unfold schedule_plan_read
  simp only
  rw [if_neg (by omega)]
  generalize hq : c.chan_plan.channel_plan = p at *
  interval_cases p
  · exact ⟨_, rfl, rfl, rfl, hq.symm ▸ rfl, rfl, rfl, rfl, rfl, fun _ => rfl,
      fun h => absurd h (by decide), fun h => absurd h (by decide)⟩
  · exact ⟨_, rfl, rfl, rfl, hq.symm ▸ rfl, rfl, rfl, rfl, rfl, fun h => absurd h (by decide),
      fun _ => rfl, fun h => absurd h (by decide)⟩
  · exact ⟨_, rfl, rfl, rfl, hq.symm ▸ rfl, rfl, rfl, rfl, rfl, fun h => absurd h (by decide),
      fun h => absurd h (by decide), fun _ => rfl⟩

theorem schedule_function_read_val (mem : List Nat) (c : schedule_cursor) (n : Nat)
    (hf : c.chan_plan.channel_function ≤ 3)
    (hn : n = if c.chan_plan.channel_function = 0 then 2
      else if c.chan_plan.channel_function = 3 then 1 + byte_at mem c.data else 0)
    (hl : n ≤ c.length) :
    ∃ c2, schedule_function_read mem c = some c2 ∧
      c2.data = c.data + n ∧ c2.length = c.length - n ∧
      c2.chan_plan.channel_plan = c.chan_plan.channel_plan ∧
      c2.chan_plan.channel_function = c.chan_plan.channel_function ∧
      c2.chan_plan.excluded_channel_ctrl = c.chan_plan.excluded_channel_ctrl ∧
      c2.chan_plan.plan = c.chan_plan.plan ∧
      c2.chan_plan.excluded_channels = c.chan_plan.excluded_channels ∧
      (c.chan_plan.channel_function = 0 →
        c2.chan_plan.function.zero.fixed_channel = read_le16 mem c.data) ∧
      (c.chan_plan.channel_function = 3 →
        c2.chan_plan.function.three.channel_hop_count = byte_at mem c.data) := by
  unfold schedule_function_read
  simp only
  generalize hq : c.chan_plan.channel_function = f at *
  interval_cases f
  · simp only [if_true] at hn
    subst hn
    rw [if_neg (by simp [ws_channel_function_length]; omega)]
    exact ⟨_, rfl, rfl, rfl, rfl, hq.symm ▸ rfl, rfl, rfl, rfl, fun _ => rfl,
      fun h => absurd h (by decide)⟩
  · simp only [show ¬ (1 = 0) by decide, show ¬ (1 = 3) by decide, if_false] at hn
    subst hn
    rw [if_neg (by simp [ws_channel_function_length])]
    exact ⟨_, rfl, rfl, rfl, rfl, hq.symm ▸ rfl, rfl, rfl, rfl, fun h => absurd h (by decide),
      fun h => absurd h (by decide)⟩
  · simp only [show ¬ (2 = 0) by decide, show ¬ (2 = 3) by decide, if_false] at hn
    subst hn
    rw [if_neg (by simp [ws_channel_function_length])]
    exact ⟨_, rfl, rfl, rfl, rfl, hq.symm ▸ rfl, rfl, rfl, rfl, fun h => absurd h (by decide),
      fun h => absurd h (by decide)⟩
  · simp only [show ¬ (3 = 0) by decide, if_false, if_true] at hn
    subst hn
    rw [if_neg (by simp [ws_channel_function_length]; omega)]
    simp only [ws_channel_function_three_read, ws_channel_function_length]
    rw [if_neg (by norm_num; omega)]
    refine ⟨_, rfl, ?_, ?_, rfl, hq.symm ▸ rfl, rfl, rfl, rfl, fun h => absurd h (by decide),
      fun _ => rfl⟩
    · simp only; omega
    · simp only; norm_num; omega

theorem schedule_excluded_read_val (mem : List Nat) (c : schedule_cursor)
    (he : c.chan_plan.excluded_channel_ctrl ≤ 2)
    (h1 : c.chan_plan.excluded_channel_ctrl = WS_EXC_CHAN_CTRL_RANGE →
      byte_at mem c.data * 4 + 1 ≤ c.length)
    (h2 : c.chan_plan.excluded_channel_ctrl = WS_EXC_CHAN_CTRL_BITMASK →
      c.chan_plan.channel_plan = 1 →
      (c.chan_plan.plan.one.number_of_channel + 7) / 8 % 256 = c.length) :
    ∃ g, schedule_excluded_read mem c = some g ∧
      g.channel_plan = c.chan_plan.channel_plan ∧
      g.channel_function = c.chan_plan.channel_function ∧
      g.excluded_channel_ctrl = c.chan_plan.excluded_channel_ctrl ∧
      g.plan = c.chan_plan.plan ∧ g.function = c.chan_plan.function ∧
      (c.chan_plan.excluded_channel_ctrl = WS_EXC_CHAN_CTRL_RANGE →
        g.excluded_channels.range =
          { number_of_range := byte_at mem c.data, range_start := mem.drop (c.data + 1) }) ∧
      (c.chan_plan.excluded_channel_ctrl = WS_EXC_CHAN_CTRL_BITMASK →
        g.excluded_channels.mask =
          { channel_mask := mem.drop c.data, mask_len_inline := c.length % 256 }) := by
  unfold schedule_excluded_read
  by_cases e0 : c.chan_plan.excluded_channel_ctrl = WS_EXC_CHAN_CTRL_NONE
  · rw [if_pos e0]
    exact ⟨_, rfl, rfl, rfl, rfl, rfl, rfl, fun h => absurd (e0.symm.trans h) (by decide),
      fun h => absurd (e0.symm.trans h) (by decide)⟩
  rw [if_neg e0]
  by_cases e1 : c.chan_plan.excluded_channel_ctrl = WS_EXC_CHAN_CTRL_RANGE
  · rw [if_pos e1]
    simp only
    rw [if_neg (by have := h1 e1; omega)]
    exact ⟨_, rfl, rfl, rfl, rfl, rfl, rfl, fun _ => rfl,
      fun h => absurd (e1.symm.trans h) (by decide)⟩
  rw [if_neg e1]
  have e2 : c.chan_plan.excluded_channel_ctrl = WS_EXC_CHAN_CTRL_BITMASK := by
    unfold WS_EXC_CHAN_CTRL_NONE at e0
    unfold WS_EXC_CHAN_CTRL_RANGE at e1
    unfold WS_EXC_CHAN_CTRL_BITMASK
    omega
  rw [if_pos e2]
  by_cases p1 : c.chan_plan.channel_plan = 1
  · rw [if_pos p1]
    simp only
    have hm := h2 e2 p1
    rw [if_neg (by simpa using hm)]
    refine ⟨_, rfl, rfl, rfl, rfl, rfl, rfl, fun h => absurd h e1, fun _ => ?_⟩
    simp only
    rw [hm]
    have : c.length % 256 = c.length := by omega
    rw [this]
  · rw [if_neg p1]
    exact ⟨_, rfl, rfl, rfl, rfl, rfl, rfl, fun h => absurd h e1, fun _ => rfl⟩

/-- What the three parts of a schedule reader return on a cursor over well-formed
channel information, in terms of the bytes of the buffer. -/
theorem schedule_read_val (mem : List Nat) (c : schedule_cursor) (n : Nat)
    (hp : c.chan_plan.channel_plan ≤ 2) (hf : c.chan_plan.channel_function ≤ 3)
    (he : c.chan_plan.excluded_channel_ctrl ≤ 2)
    (hn : n = if c.chan_plan.channel_function = 0 then 2
      else if c.chan_plan.channel_function = 3 then
        1 + byte_at mem (c.data + ws_channel_plan_length c.chan_plan.channel_plan) else 0)
    (hl : ws_channel_plan_length c.chan_plan.channel_plan + n ≤ c.length)
    (h1 : c.chan_plan.excluded_channel_ctrl = WS_EXC_CHAN_CTRL_RANGE →
      byte_at mem (c.data + ws_channel_plan_length c.chan_plan.channel_plan + n) * 4 + 1 ≤
        c.length - ws_channel_plan_length c.chan_plan.channel_plan - n)
    (h2 : c.chan_plan.excluded_channel_ctrl = WS_EXC_CHAN_CTRL_BITMASK →
      c.chan_plan.channel_plan = 1 →
      (read_le16 mem (c.data + 4) + 7) / 8 % 256 =
        c.length - ws_channel_plan_length c.chan_plan.channel_plan - n) :
    ∃ g, ((schedule_plan_read mem c).bind (schedule_function_read mem)).bind
        (schedule_excluded_read mem) = some g ∧
      g.channel_plan = c.chan_plan.channel_plan ∧
      g.channel_function = c.chan_plan.channel_function ∧
      g.excluded_channel_ctrl = c.chan_plan.excluded_channel_ctrl ∧
      (c.chan_plan.channel_plan = 0 →
        g.plan.zero =
          { regulatory_domain := byte_at mem c.data,
            operating_class := byte_at mem (c.data + 1) }) ∧
      (c.chan_plan.channel_plan = 1 →
        g.plan.one =
          { ch0 := read_le24 mem c.data, channel_spacing := byte_at mem (c.data + 3),
            number_of_channel := read_le16 mem (c.data + 4) }) ∧
      (c.chan_plan.channel_plan = 2 →
        g.plan.two =
          { regulatory_domain := byte_at mem c.data,
            channel_plan_id := byte_at mem (c.data + 1) }) ∧
      (c.chan_plan.channel_function = 0 →
        g.function.zero.fixed_channel =
          read_le16 mem (c.data + ws_channel_plan_length c.chan_plan.channel_plan)) ∧
      (c.chan_plan.channel_function = 3 →
        g.function.three.channel_hop_count =
          byte_at mem (c.data + ws_channel_plan_length c.chan_plan.channel_plan)) ∧
      (c.chan_plan.excluded_channel_ctrl = WS_EXC_CHAN_CTRL_RANGE →
        g.excluded_channels.range =
          { number_of_range :=
              byte_at mem (c.data + ws_channel_plan_length c.chan_plan.channel_plan + n),
            range_start :=
              mem.drop (c.data + ws_channel_plan_length c.chan_plan.channel_plan + n + 1) }) ∧
      (c.chan_plan.excluded_channel_ctrl = WS_EXC_CHAN_CTRL_BITMASK →
        g.excluded_channels.mask =
          { channel_mask :=
              mem.drop (c.data + ws_channel_plan_length c.chan_plan.channel_plan + n),
            mask_len_inline :=
              (c.length - ws_channel_plan_length c.chan_plan.channel_plan - n) % 256 }) := by
  obtain ⟨c1, r1, d1, l1, p1, f1, e1, fn1, x1, z1, o1, t1⟩ :=
    schedule_plan_read_val mem c hp (by omega)
  obtain ⟨c2, r2, d2, l2, p2, f2, e2, q2, x2, fz2, ft2⟩ :=
    schedule_function_read_val mem c1 n (by omega) (by rw [f1, d1]; exact hn) (by omega)
  obtain ⟨g, r3, p3, f3, e3, q3, fn3, xr3, xm3⟩ := schedule_excluded_read_val mem c2 (by omega)
    (by
      intro h
      rw [d2, d1, l2, l1]
      exact h1 (by rw [← e1, ← e2]; exact h))
    (by
      intro h hq
      have hq1 : c.chan_plan.channel_plan = 1 := by rw [← p1, ← p2]; exact hq
      rw [q2, o1 hq1, l2, l1]
      exact h2 (by rw [← e1, ← e2]; exact h) hq1)
  refine ⟨g, by rw [r1, Option.some_bind, r2, Option.some_bind, r3], ?_, ?_, ?_, ?_, ?_, ?_, ?_,
    ?_, ?_, ?_⟩
  · rw [p3, p2, p1]
  · rw [f3, f2, f1]
  · rw [e3, e2, e1]
  · intro h; rw [q3, q2, z1 h]
  · intro h; rw [q3, q2, o1 h]
  · intro h; rw [q3, q2, t1 h]
  · intro h; rw [fn3, fz2 (by rw [f1]; exact h), d1]
  · intro h; rw [fn3, ft2 (by rw [f1]; exact h), d1]
  · intro h; rw [xr3 (by rw [e2, e1]; exact h), d2, d1]
  · intro h; rw [xm3 (by rw [e2, e1]; exact h), d2, d1, l2, l1]

/-! ### Schedule IE writer: the bytes written -/

theorem hopping_schedule_plan_bytes (hs : ws_hopping_schedule) (uc : Bool)
    (hp : hs.channel_plan ≤ 2) :
    (hs.channel_plan = 0 →
      ws_wp_channel_plan_write (hopping_schedule_channel_info hs uc) =
        [hs.regulatory_domain % 256 % 256, hs.operating_class % 256 % 256]) ∧
    (hs.channel_plan = 1 →
      ws_wp_channel_plan_write (hopping_schedule_channel_info hs uc) =
        write_le24 (hs.ch0_freq / 1000) ++ [hs.channel_spacing % 256 % 256] ++
          write_le16 (hs.number_of_channels % 65536)) ∧
    (hs.channel_plan = 2 →
      ws_wp_channel_plan_write (hopping_schedule_channel_info hs uc) =
        [hs.regulatory_domain % 256 % 256, hs.channel_plan_id % 256 % 256]) := by
  have hinit := (channel_info_init_fields hs ws_generic_channel_info_zero uc).1
  have hmod : hs.channel_plan % 8 = hs.channel_plan := by omega
  rw [hmod] at hinit
  have hG : (hopping_schedule_channel_info hs uc).channel_plan = hs.channel_plan := by
    unfold hopping_schedule_channel_info
    rw [(channel_function_set_keeps _ hs uc).1, (channel_plan_set_keeps _ hs).1, hinit]
  have hplan : (hopping_schedule_channel_info hs uc).plan =
      (ws_wp_channel_plan_set
        (ws_generic_channel_info_init hs ws_generic_channel_info_zero uc) hs).plan := by
    unfold hopping_schedule_channel_info
    rw [(channel_function_set_keeps _ hs uc).2.2.2.1]
  refine ⟨fun h => ?_, fun h => ?_, fun h => ?_⟩
  all_goals
    unfold ws_wp_channel_plan_write
    rw [hG, hplan]
    unfold ws_wp_channel_plan_set
    rw [hinit, h]

theorem hopping_schedule_function_bytes (hs : ws_hopping_schedule) (uc : Bool)
    (h0 : (if uc then hs.uc_channel_function else hs.bc_channel_function) = 0) :
    ws_wp_channel_function_write (hopping_schedule_channel_info hs uc) =
      write_le16 ((if uc then hs.uc_fixed_channel else hs.bc_fixed_channel) % 65536) := by
  have hinit := (channel_info_init_fields hs ws_generic_channel_info_zero uc).2.1
  rw [h0] at hinit
  have hps : (ws_wp_channel_plan_set
      (ws_generic_channel_info_init hs ws_generic_channel_info_zero uc) hs).channel_function
      = 0 := by
    rw [(channel_plan_set_keeps _ hs).2.1, hinit]
  unfold ws_wp_channel_function_write hopping_schedule_channel_info
  rw [(channel_function_set_keeps _ hs uc).2.1, hps]
  unfold ws_wp_channel_function_set
  rw [hps]
  cases uc <;> rfl

theorem channel_info_init_mask (hs : ws_hopping_schedule) (g0 : ws_generic_channel_info_t)
    (uc : Bool)
    (h : (if uc then hs.uc_excluded_channels else hs.bc_excluded_channels).excluded_channel_ctrl
      % 4 = WS_EXC_CHAN_CTRL_BITMASK) :
    (ws_generic_channel_info_init hs g0 uc).excluded_channels.mask_out.channel_mask =
      (if uc then hs.uc_excluded_channels else hs.bc_excluded_channels).channel_mask := by
  unfold ws_generic_channel_info_init
  cases uc
  · simp only [Bool.false_eq_true, if_false] at h ⊢
    rw [if_neg (by rw [h]; decide), if_pos h]
  · simp only [if_true] at h ⊢
    rw [if_neg (by rw [h]; decide), if_pos h]

theorem hopping_schedule_excluded_bytes (hs : ws_hopping_schedule) (uc : Bool)
    (he : (if uc then hs.uc_excluded_channels
      else hs.bc_excluded_channels).excluded_channel_ctrl ≤ 2) :
    ((if uc then hs.uc_excluded_channels else hs.bc_excluded_channels).excluded_channel_ctrl =
        WS_EXC_CHAN_CTRL_RANGE →
      ws_wp_nested_excluded_channel_write (hopping_schedule_channel_info hs uc) =
        [(if uc then hs.uc_excluded_channels
            else hs.bc_excluded_channels).excluded_range_length % 256 % 256] ++
          excluded_range_write
            ((if uc then hs.uc_excluded_channels
              else hs.bc_excluded_channels).excluded_range_length % 256 % 256)
            (if uc then hs.uc_excluded_channels else hs.bc_excluded_channels).excluded_range) ∧
    ((if uc then hs.uc_excluded_channels else hs.bc_excluded_channels).excluded_channel_ctrl =
        WS_EXC_CHAN_CTRL_BITMASK →
      ws_wp_nested_excluded_channel_write (hopping_schedule_channel_info hs uc) =
        memcpy_bytes
          (if uc then hs.uc_excluded_channels else hs.bc_excluded_channels).channel_mask
          ((if uc then hs.uc_excluded_channels
            else hs.bc_excluded_channels).channel_mask_bytes_inline % 256)) := by
  have hmod : (if uc then hs.uc_excluded_channels
      else hs.bc_excluded_channels).excluded_channel_ctrl % 4 =
      (if uc then hs.uc_excluded_channels
        else hs.bc_excluded_channels).excluded_channel_ctrl := by omega
  have hex : (hopping_schedule_channel_info hs uc).excluded_channels =
      (ws_generic_channel_info_init hs ws_generic_channel_info_zero uc).excluded_channels := by
    unfold hopping_schedule_channel_info
    rw [(channel_function_set_keeps _ hs uc).2.2.2.2, (channel_plan_set_keeps _ hs).2.2.2.2]
  have hctrl : (hopping_schedule_channel_info hs uc).excluded_channel_ctrl =
      (if uc then hs.uc_excluded_channels
        else hs.bc_excluded_channels).excluded_channel_ctrl := by
    unfold hopping_schedule_channel_info
    rw [(channel_function_set_keeps _ hs uc).2.2.1, (channel_plan_set_keeps _ hs).2.2.1,
      (channel_info_init_fields hs ws_generic_channel_info_zero uc).2.2, hmod]
  obtain ⟨i1, i2⟩ := channel_info_init_excluded hs ws_generic_channel_info_zero uc
  have i3 := channel_info_init_mask hs ws_generic_channel_info_zero uc
  rw [hmod] at i1 i2 i3
  constructor
  · intro h
    unfold ws_wp_nested_excluded_channel_write
    rw [hctrl, if_pos h, hex, i1 h]
  · intro h
    unfold ws_wp_nested_excluded_channel_write
    rw [hctrl, if_neg (by rw [h]; decide), if_pos h, hex, i2 h, i3 h]

theorem excluded_range_write_read (rest : List Nat) :
    ∀ (n : Nat) (l : List ws_excluded_channel_range_data_t) (i : Nat), i < n →
      read_le16 (excluded_range_write n l ++ rest) (4 * i) =
        (l.getD i { range_start := 0, range_end := 0 }).range_start % 65536 ∧
      read_le16 (excluded_range_write n l ++ rest) (4 * i + 2) =
        (l.getD i { range_start := 0, range_end := 0 }).range_end % 65536 := by
  intro n
  induction n with
  | zero => intro l i hi; omega
  | succ k ih =>
    intro l i hi
    rw [excluded_range_write]
    cases i with
    | zero =>
      have e0 : (l.getD 0 { range_start := 0, range_end := 0 }) =
          l.headD { range_start := 0, range_end := 0 } := by
        cases l <;> rfl
      rw [e0]
      constructor
      · have := read_le16_append [] (write_le16
          (l.headD { range_start := 0, range_end := 0 }).range_end ++
            (excluded_range_write k l.tail ++ rest))
          (l.headD { range_start := 0, range_end := 0 }).range_start
        simpa [List.append_assoc] using this
      · have := read_le16_append
          (write_le16 (l.headD { range_start := 0, range_end := 0 }).range_start)
          (excluded_range_write k l.tail ++ rest)
          (l.headD { range_start := 0, range_end := 0 }).range_end
        simpa [List.append_assoc, write_le16] using this
    | succ j =>
      obtain ⟨a, b⟩ := ih l.tail j (by omega)
      have ej : l.getD (j + 1) { range_start := 0, range_end := 0 } =
          l.tail.getD j { range_start := 0, range_end := 0 } := by
        cases l <;> rfl
      rw [ej, ← a, ← b]
      have hshift : ∀ (X Y : List Nat) (o : Nat), X.length = 4 →
          read_le16 (X ++ Y) (4 + o) = read_le16 Y o := by
        intro X Y o hX
        unfold read_le16
        rw [← hX, byte_at_append_right, Nat.add_assoc, byte_at_append_right]
      constructor
      · rw [show 4 * (j + 1) = 4 + 4 * j by omega, List.append_assoc]
        exact hshift _ _ _ rfl
      · rw [show 4 * (j + 1) + 2 = 4 + (4 * j + 2) by omega, List.append_assoc]
        exact hshift _ _ _ rfl

theorem memcpy_bytes_take (src : List Nat) (n : Nat) (hn : n ≤ src.length)
    (hb : ∀ b ∈ src, b < 256) : memcpy_bytes src n = src.take n := by
  apply List.ext_getElem
  · simp [memcpy_bytes]; omega
  · intro i h1 h2
    simp only [memcpy_bytes, List.getElem_map, List.getElem_range, List.getElem_take]
    have hi : i < src.length := by
      simp [memcpy_bytes] at h1; omega
    unfold byte_at
    rw [List.getD_eq_getElem _ _ hi]
    exact Nat.mod_eq_of_lt (hb _ (List.getElem_mem _))

/-- Core of the round trip of a written schedule IE: on a buffer made of a prefix `A`
and the channel plan, channel function and excluded channel bytes written for a
well-formed hopping schedule, the three parts of the reader return the channel
information of the schedule. -/
theorem schedule_read_written_val (hs : ws_hopping_schedule) (uc : Bool)
    (hok : hopping_schedule_ok hs uc) (hty : hopping_schedule_typed hs)
    (A : List Nat) (c : schedule_cursor)
    (hd : c.data = A.length)
    (hl : c.length =
      (ws_wp_channel_plan_write (hopping_schedule_channel_info hs uc)).length +
        (ws_wp_channel_function_write (hopping_schedule_channel_info hs uc)).length +
        (ws_wp_nested_excluded_channel_write (hopping_schedule_channel_info hs uc)).length)
    (hc : c.chan_plan = schedule_info_read ws_generic_channel_info_zero
      (ws_wp_channel_info_base_get (hopping_schedule_channel_info hs uc))) :
    ∃ g, ((schedule_plan_read
        (A ++ (ws_wp_channel_plan_write (hopping_schedule_channel_info hs uc) ++
          (ws_wp_channel_function_write (hopping_schedule_channel_info hs uc) ++
            ws_wp_nested_excluded_channel_write (hopping_schedule_channel_info hs uc)))) c).bind
        (schedule_function_read
          (A ++ (ws_wp_channel_plan_write (hopping_schedule_channel_info hs uc) ++
            (ws_wp_channel_function_write (hopping_schedule_channel_info hs uc) ++
              ws_wp_nested_excluded_channel_write (hopping_schedule_channel_info hs uc)))))).bind
        (schedule_excluded_read
          (A ++ (ws_wp_channel_plan_write (hopping_schedule_channel_info hs uc) ++
            (ws_wp_channel_function_write (hopping_schedule_channel_info hs uc) ++
              ws_wp_nested_excluded_channel_write (hopping_schedule_channel_info hs uc))))) =
      some g ∧ chan_plan_read_back hs uc g := by
  unfold chan_plan_read_back
  obtain ⟨g1, g2, g3⟩ := hopping_schedule_channel_info_fields hs uc hok
  obtain ⟨w1, w2, w3, w4, w5, w6, w7, w8⟩ := hopping_schedule_write_parts hs uc hok
  obtain ⟨bp0, bp1, bp2⟩ := hopping_schedule_plan_bytes hs uc hok.1
  have bf0 := hopping_schedule_function_bytes hs uc
  obtain ⟨be1, be2⟩ := hopping_schedule_excluded_bytes hs uc hok.2.2.1
  obtain ⟨hp, hf, he, hr, hm⟩ := hok
  obtain ⟨t1, t2, t3, t4, t5, t6, t7, t8, t9, t10, t11, t12, t13, t14, t15, t16, t17, t18,
    t19⟩ := hty
  have htx : excluded_channels_typed
      (if uc then hs.uc_excluded_channels else hs.bc_excluded_channels) := by
    cases uc
    · exact t19
    · exact t18
  have hfx : (if uc then hs.uc_fixed_channel else hs.bc_fixed_channel) < 65536 := by
    cases uc
    · exact t14
    · exact t13
  obtain ⟨x1, x2, x3, x4, x5, x6⟩ := htx
  generalize hX : (if uc then hs.uc_excluded_channels else hs.bc_excluded_channels) = excl at *
  generalize hG : hopping_schedule_channel_info hs uc = G at *
  generalize hP : ws_wp_channel_plan_write G = P at *
  generalize hF : ws_wp_channel_function_write G = F at *
  generalize hE : ws_wp_nested_excluded_channel_write G = E at *
  have hinfo := channel_info_base_fields G.channel_plan G.channel_function
    G.excluded_channel_ctrl (by rw [g1]; omega) (by rw [g2]; omega) (by rw [g3]; omega)
  have hcp : c.chan_plan.channel_plan = hs.channel_plan := by
    rw [hc, ← g1]; exact hinfo.1
  have hcf : c.chan_plan.channel_function =
      (if uc then hs.uc_channel_function else hs.bc_channel_function) := by
    rw [hc, ← g2]; exact hinfo.2.1
  have hce : c.chan_plan.excluded_channel_ctrl = excl.excluded_channel_ctrl := by
    rw [hc, ← g3]; exact hinfo.2.2
  have hmemF : ∀ i, i < F.length →
      byte_at (A ++ (P ++ (F ++ E))) (c.data + P.length + i) = byte_at F i := by
    intro i hi
    exact byte_at_mid _ (A ++ P) F E _ i (by simp only [List.append_assoc])
      (by rw [List.length_append, hd]) hi
  have hmemE : ∀ i, i < E.length →
      byte_at (A ++ (P ++ (F ++ E))) (c.data + P.length + F.length + i) = byte_at E i := by
    intro i hi
    exact byte_at_mid _ (A ++ (P ++ F)) E [] _ i (by simp only [List.append_assoc,
      List.append_nil]) (by simp only [List.length_append, hd]; omega) hi
  have hmemP : ∀ i, i < P.length →
      byte_at (A ++ (P ++ (F ++ E))) (c.data + i) = byte_at P i := by
    intro i hi
    exact byte_at_mid _ A P (F ++ E) _ i rfl (by rw [hd]) hi
  have hdropE : ∀ k, (A ++ (P ++ (F ++ E))).drop (c.data + P.length + F.length + k) =
      E.drop k := by
    intro k
    have : A ++ (P ++ (F ++ E)) = (A ++ (P ++ F)) ++ E := by simp only [List.append_assoc]
    rw [this, show c.data + P.length + F.length + k = (A ++ (P ++ F)).length + k by
      simp only [List.length_append, hd]; omega]
    exact List.drop_append k
  have hplen : ws_channel_plan_length c.chan_plan.channel_plan = P.length := by
    rw [hcp, w1]
  have hfn : F.length = if c.chan_plan.channel_function = 0 then 2
      else if c.chan_plan.channel_function = 3 then
        1 + byte_at (A ++ (P ++ (F ++ E)))
          (c.data + ws_channel_plan_length c.chan_plan.channel_plan) else 0 := by
    rw [hcf, ← g2, hplen, w3]
    by_cases f0 : G.channel_function = 0
    · rw [if_pos f0, if_pos f0]
    · rw [if_neg f0, if_neg f0]
      by_cases f3 : G.channel_function = 3
      · rw [if_pos f3, if_pos f3]
        have hpos : 0 < F.length := by rw [w3, if_neg f0, if_pos f3]; omega
        have := hmemF 0 hpos
        rw [Nat.add_zero] at this
        rw [this]
      · rw [if_neg f3, if_neg f3]
  obtain ⟨g, hg, r1, r2, r3, rz, ro, rt, rf0, -, rr, rm⟩ :=
    schedule_read_val (A ++ (P ++ (F ++ E))) c F.length
      (by rw [hcp]; exact hp) (by rw [hcf]; exact hf) (by rw [hce]; exact he) hfn
      (by rw [hplen, hl]; omega)
      (by
        intro h1
        rw [hplen, hl]
        have hr1 : G.excluded_channel_ctrl = WS_EXC_CHAN_CTRL_RANGE := by
          rw [g3, ← hce]; exact h1
        have := w5 hr1
        have hpos : 0 < E.length := by omega
        have hb := hmemE 0 hpos
        rw [Nat.add_zero] at hb
        rw [hb]
        omega)
      (by
        intro h2 hp1
        rw [hplen, hl]
        have hm1 : G.excluded_channel_ctrl = WS_EXC_CHAN_CTRL_BITMASK := by
          rw [g3, ← hce]; exact h2
        have hp1' : hs.channel_plan = 1 := by rw [← hcp]; exact hp1
        have h6 : 6 = P.length := by rw [w1, hp1']; rfl
        have e6 := w6 hm1 hp1'
        have r16 : read_le16 (A ++ (P ++ (F ++ E))) (c.data + 4) = read_le16 P 4 := by
          unfold read_le16
          rw [hmemP 4 (by omega), Nat.add_assoc, hmemP (4 + 1) (by omega)]
        rw [r16, w2 hp1', e6]
        omega)
  refine ⟨g, hg, ?_, ?_, ?_, ?_, ?_, ?_, ?_, ?_, ?_⟩
  · rw [r1, hcp]
  · rw [r2, hcf]
  · rw [r3, hce]
  · intro h0
    rw [rz (by rw [hcp]; exact h0)]
    have hP0 := bp0 h0
    have := hmemP 0 (by rw [hP0]; simp)
    rw [Nat.add_zero] at this
    rw [this, hmemP 1 (by rw [hP0]; simp), hP0]
    simp only [byte_at, List.getD_cons_zero, List.getD_cons_succ]
    congr 1 <;> omega
  · intro h1
    rw [ro (by rw [hcp]; exact h1)]
    have hP1 := bp1 h1
    have hlenP : P.length = 6 := by rw [hP1]; rfl
    have e24 : read_le24 (A ++ (P ++ (F ++ E))) c.data = hs.ch0_freq / 1000 := by
      unfold read_le24
      have := hmemP 0 (by omega)
      rw [Nat.add_zero] at this
      rw [this, hmemP 1 (by omega), hmemP 2 (by omega), hP1]
      simp only [write_le24, byte_at, List.cons_append, List.getD_cons_zero,
        List.getD_cons_succ]
      omega
    have e3 : byte_at (A ++ (P ++ (F ++ E))) (c.data + 3) = hs.channel_spacing := by
      rw [hmemP 3 (by omega), hP1]
      simp only [write_le24, byte_at, List.cons_append, List.getD_cons_zero,
        List.getD_cons_succ, List.nil_append]
      omega
    have e16 : read_le16 (A ++ (P ++ (F ++ E))) (c.data + 4) = hs.number_of_channels := by
      unfold read_le16
      rw [hmemP 4 (by omega), Nat.add_assoc, hmemP (4 + 1) (by omega), hP1]
      simp only [write_le24, write_le16, byte_at, List.cons_append, List.getD_cons_zero,
        List.getD_cons_succ, List.nil_append]
      omega
    rw [e24, e3, e16]
  · intro h2
    rw [rt (by rw [hcp]; exact h2)]
    have hP2 := bp2 h2
    have := hmemP 0 (by rw [hP2]; simp)
    rw [Nat.add_zero] at this
    rw [this, hmemP 1 (by rw [hP2]; simp), hP2]
    simp only [byte_at, List.getD_cons_zero, List.getD_cons_succ]
    congr 1 <;> omega
  · intro h0
    rw [rf0 (by rw [hcf]; exact h0), hplen]
    have hF0 := bf0 h0
    have hlenF : F.length = 2 := by rw [hF0]; rfl
    unfold read_le16
    have := hmemF 0 (by omega)
    rw [Nat.add_zero] at this
    rw [this, hmemF 1 (by omega), hF0]
    simp only [write_le16, byte_at, List.getD_cons_zero, List.getD_cons_succ]
    omega
  · intro h1
    have hE1 := be1 h1
    have hn256 : excl.excluded_range_length % 256 % 256 = excl.excluded_range_length := by
      omega
    rw [hn256] at hE1
    rw [rr (by rw [hce]; exact h1), hplen]
    simp only
    have hpos : 0 < E.length := by rw [hE1]; simp
    have hb := hmemE 0 hpos
    rw [Nat.add_zero] at hb
    rw [hb, hdropE 1, hE1]
    refine ⟨?_, fun i hi => ?_⟩
    · simp only [byte_at, List.cons_append, List.nil_append, List.getD_cons_zero]
      omega
    · simp only [List.cons_append, List.nil_append, List.drop_succ_cons, List.drop_zero]
      obtain ⟨a, b⟩ := excluded_range_write_read [] excl.excluded_range_length
        excl.excluded_range i hi
      rw [List.append_nil] at a b
      rw [a, b]
      have hin : i < excl.excluded_range.length := by
        have := (hr h1).2
        omega
      have hmem := x3 (excl.excluded_range[i]) (List.getElem_mem _)
      rw [List.getD_eq_getElem _ _ hin]
      constructor
      · exact Nat.mod_eq_of_lt hmem.1
      · exact Nat.mod_eq_of_lt hmem.2
  · intro h2
    have hE2 := be2 h2
    have hmb : excl.channel_mask_bytes_inline % 256 = excl.channel_mask_bytes_inline := by
      omega
    rw [hmb] at hE2
    have hElen : E.length = excl.channel_mask_bytes_inline := by
      rw [hE2, memcpy_bytes_length]
    rw [rm (by rw [hce]; exact h2), hplen]
    simp only
    have := hdropE 0
    rw [Nat.add_zero] at this
    rw [this, List.drop_zero]
    constructor
    · rw [hl, hElen]
      omega
    · rw [hE2, memcpy_bytes_take _ _ (hm h2).2.1 x6, List.take_take, Nat.min_self]

theorem hopping_schedule_us_read_back (hs : ws_hopping_schedule)
    (hok : hopping_schedule_ok hs true) (hty : hopping_schedule_typed hs) :
    ∃ us_ie, ws_wp_nested_us_read (ws_wp_nested_hopping_schedule_write hs true) 0
        (ws_wp_nested_hopping_schedule_write hs true).length = some us_ie ∧
      us_ie.dwell_interval = hs.fhss_uc_dwell_interval ∧
      us_ie.clock_drift = hs.clock_drift ∧
      us_ie.timing_accuracy = hs.timing_accuracy ∧
      chan_plan_read_back hs true us_ie.chan_plan := by
  obtain ⟨w1, w2, w3, w4, w5, w6, w7, w8⟩ := hopping_schedule_write_parts hs true hok
  have hW := hopping_schedule_write_us hs
  have hcore := schedule_read_written_val hs true hok hty
  have ht1 := hty.1
  have ht11 := hty.2.2.2.2.2.2.2.2.2.2.1
  have ht12 := hty.2.2.2.2.2.2.2.2.2.2.2.1
  generalize hopping_schedule_channel_info hs true = G at *
  generalize ws_wp_channel_plan_write G = P at *
  generalize ws_wp_channel_function_write G = F at *
  generalize ws_wp_nested_excluded_channel_write G = E at *
  generalize ws_wp_nested_hopping_schedule_write hs true = mem at *
  have hpl : P.length ≤ 6 := by
    rw [w1]
    obtain ⟨hp, -⟩ := hok
    interval_cases hs.channel_plan <;> decide
  generalize hC : [hs.fhss_uc_dwell_interval % 256, hs.clock_drift % 256,
    hs.timing_accuracy % 256, ws_wp_channel_info_base_get G] ++ (P ++ (F ++ E)) = C at hW
  have hClen : C.length = 4 + (P.length + F.length + E.length) := by
    rw [← hC]
    simp only [List.length_append, List.length_cons, List.length_nil]
    omega
  have hL : (3 + ws_wp_generic_schedule_length_get G) % 65536 = C.length := by
    rw [w8, hClen]; omega
  rw [hL] at hW
  have hdisc := mac_ie_nested_discover_long C [] WP_PAYLOAD_IE_US_TYPE (C.length + 2)
    { id := WP_PAYLOAD_IE_US_TYPE, type_long := true, length := 0, content_ptr := 0 }
    (by decide) (by omega) (Nat.le_refl _) rfl rfl
  rw [List.append_nil, ← hW] at hdisc
  have hlen : mem.length = C.length + 2 := by
    rw [hW]
    simp [mac_ie_nested_ie_long_base_write, write_le16]
  have hmem2 : mem = (mac_ie_nested_ie_long_base_write WP_PAYLOAD_IE_US_TYPE C.length ++
      [hs.fhss_uc_dwell_interval % 256, hs.clock_drift % 256,
        hs.timing_accuracy % 256, ws_wp_channel_info_base_get G]) ++ (P ++ (F ++ E)) := by
    rw [hW, ← hC]
    simp only [List.append_assoc]
  have hfix : byte_at mem 2 = hs.fhss_uc_dwell_interval ∧
      byte_at mem (2 + 1) = hs.clock_drift ∧ byte_at mem (2 + 2) = hs.timing_accuracy ∧
      byte_at mem (2 + 3) = ws_wp_channel_info_base_get G := by
    rw [hmem2]
    refine ⟨?_, ?_, ?_, ?_⟩
    all_goals
      rw [byte_at_append_left _ _ _ (by simp [mac_ie_nested_ie_long_base_write, write_le16])]
      simp only [mac_ie_nested_ie_long_base_write, write_le16, byte_at, List.cons_append,
        List.nil_append, List.getD_cons_succ, List.getD_cons_zero, ws_wp_channel_info_base_get]
      omega
  obtain ⟨g, hg, hback⟩ := hcore
    (mac_ie_nested_ie_long_base_write WP_PAYLOAD_IE_US_TYPE C.length ++
      [hs.fhss_uc_dwell_interval % 256, hs.clock_drift % 256,
        hs.timing_accuracy % 256, ws_wp_channel_info_base_get G])
    { data := 2 + 4, length := (C.length + 65536 - 4) % 65536,
      chan_plan := schedule_info_read ws_generic_channel_info_zero (byte_at mem (2 + 3)) }
    (by simp [mac_ie_nested_ie_long_base_write, write_le16])
    (by simp only; omega)
    (by simp only; rw [hfix.2.2.2])
  rw [← hmem2] at hg
  unfold ws_wp_nested_us_read
  rw [hlen]
  simp only [hdisc]
  rw [if_neg (by omega), hg]
  exact ⟨_, rfl, hfix.1, hfix.2.1, hfix.2.2.1, hback⟩

theorem hopping_schedule_bs_read_back (hs : ws_hopping_schedule)
    (hok : hopping_schedule_ok hs false) (hty : hopping_schedule_typed hs) :
    ∃ bs_ie, ws_wp_nested_bs_read (ws_wp_nested_hopping_schedule_write hs false) 0
        (ws_wp_nested_hopping_schedule_write hs false).length = some bs_ie ∧
      bs_ie.broadcast_interval = hs.fhss_broadcast_interval ∧
      bs_ie.broadcast_schedule_identifier = hs.fhss_bsi ∧
      bs_ie.dwell_interval = hs.fhss_bc_dwell_interval ∧
      bs_ie.clock_drift = hs.clock_drift ∧
      bs_ie.timing_accuracy = hs.timing_accuracy ∧
      chan_plan_read_back hs false bs_ie.chan_plan := by
  obtain ⟨w1, w2, w3, w4, w5, w6, w7, w8⟩ := hopping_schedule_write_parts hs false hok
  have hW := hopping_schedule_write_bs hs
  have hcore := schedule_read_written_val hs false hok hty
  have ht2 := hty.2.1
  have ht11 := hty.2.2.2.2.2.2.2.2.2.2.1
  have ht12 := hty.2.2.2.2.2.2.2.2.2.2.2.1
  have ht15 := hty.2.2.2.2.2.2.2.2.2.2.2.2.2.2.1
  have ht16 := hty.2.2.2.2.2.2.2.2.2.2.2.2.2.2.2.1
  generalize hopping_schedule_channel_info hs false = G at *
  generalize ws_wp_channel_plan_write G = P at *
  generalize ws_wp_channel_function_write G = F at *
  generalize ws_wp_nested_excluded_channel_write G = E at *
  generalize ws_wp_nested_hopping_schedule_write hs false = mem at *
  have hpl : P.length ≤ 6 := by
    rw [w1]
    obtain ⟨hp, -⟩ := hok
    interval_cases hs.channel_plan <;> decide
  generalize hX : write_le32 hs.fhss_broadcast_interval ++ (write_le16 hs.fhss_bsi ++
    [hs.fhss_bc_dwell_interval % 256, hs.clock_drift % 256, hs.timing_accuracy % 256,
      ws_wp_channel_info_base_get G]) = X at hW
  have hXlen : X.length = 10 := by
    rw [← hX]; rfl
  have hXv : read_le32 X 0 = hs.fhss_broadcast_interval ∧ read_le16 X 4 = hs.fhss_bsi ∧
      byte_at X 6 = hs.fhss_bc_dwell_interval ∧ byte_at X 7 = hs.clock_drift ∧
      byte_at X 8 = hs.timing_accuracy ∧ byte_at X 9 = ws_wp_channel_info_base_get G := by
    rw [← hX]
    refine ⟨?_, ?_, ?_, ?_, ?_, ?_⟩
    all_goals
      simp only [read_le32, read_le16, write_le32, write_le16, byte_at, List.cons_append,
        List.nil_append, List.getD_cons_succ, List.getD_cons_zero, ws_wp_channel_info_base_get]
      omega
  generalize hC : X ++ (P ++ (F ++ E)) = C at hW
  have hClen : C.length = 10 + (P.length + F.length + E.length) := by
    rw [← hC]
    simp only [List.length_append, hXlen]
    omega
  have hL : (9 + ws_wp_generic_schedule_length_get G) % 65536 = C.length := by
    rw [w8, hClen]; omega
  rw [hL] at hW
  have hdisc := mac_ie_nested_discover_long C [] WP_PAYLOAD_IE_BS_TYPE (C.length + 2)
    { id := WP_PAYLOAD_IE_BS_TYPE, type_long := true, length := 0, content_ptr := 0 }
    (by decide) (by omega) (Nat.le_refl _) rfl rfl
  rw [List.append_nil, ← hW] at hdisc
  have hlen : mem.length = C.length + 2 := by
    rw [hW]
    simp [mac_ie_nested_ie_long_base_write, write_le16]
  have hmem2 : mem = (mac_ie_nested_ie_long_base_write WP_PAYLOAD_IE_BS_TYPE C.length ++ X) ++
      (P ++ (F ++ E)) := by
    rw [hW, ← hC]
    simp only [List.append_assoc]
  have hmem3 : mem = mac_ie_nested_ie_long_base_write WP_PAYLOAD_IE_BS_TYPE C.length ++
      (X ++ (P ++ (F ++ E))) := by
    rw [hW, ← hC]
  have hH : (mac_ie_nested_ie_long_base_write WP_PAYLOAD_IE_BS_TYPE C.length).length = 2 := by
    simp [mac_ie_nested_ie_long_base_write, write_le16]
  have hbX : ∀ i, i < 10 → byte_at mem (2 + i) = byte_at X i := by
    intro i hi
    exact byte_at_mid _ _ X (P ++ (F ++ E)) (2 + i) i hmem3 (by rw [hH]) (by omega)
  have hfix : read_le32 mem 2 = hs.fhss_broadcast_interval ∧
      read_le16 mem (2 + 4) = hs.fhss_bsi ∧
      byte_at mem (2 + 6) = hs.fhss_bc_dwell_interval ∧
      byte_at mem (2 + 7) = hs.clock_drift ∧ byte_at mem (2 + 8) = hs.timing_accuracy ∧
      byte_at mem (2 + 9) = ws_wp_channel_info_base_get G := by
    refine ⟨?_, ?_, ?_, ?_, ?_, ?_⟩
    · rw [← hXv.1]
      unfold read_le32
      have h0 := hbX 0 (by omega)
      rw [Nat.add_zero] at h0
      rw [h0, hbX 1 (by omega), hbX 2 (by omega), hbX 3 (by omega)]
    · rw [← hXv.2.1]
      unfold read_le16
      rw [hbX 4 (by omega), Nat.add_assoc, hbX (4 + 1) (by omega)]
    · rw [hbX 6 (by omega)]; exact hXv.2.2.1
    · rw [hbX 7 (by omega)]; exact hXv.2.2.2.1
    · rw [hbX 8 (by omega)]; exact hXv.2.2.2.2.1
    · rw [hbX 9 (by omega)]; exact hXv.2.2.2.2.2
  obtain ⟨g, hg, hback⟩ := hcore
    (mac_ie_nested_ie_long_base_write WP_PAYLOAD_IE_BS_TYPE C.length ++ X)
    { data := 2 + 10, length := (C.length + 65536 - 10) % 65536,
      chan_plan := schedule_info_read ws_generic_channel_info_zero (byte_at mem (2 + 9)) }
    (by simp [mac_ie_nested_ie_long_base_write, write_le16, hXlen])
    (by simp only; omega)
    (by simp only; rw [hfix.2.2.2.2.2])
  rw [← hmem2] at hg
  unfold ws_wp_nested_bs_read
  rw [hlen]
  simp only [hdisc]
  rw [if_neg (by omega), hg]
  exact ⟨_, rfl, hfix.1, hfix.2.1, hfix.2.2.1, hfix.2.2.2.1, hfix.2.2.2.2.1, hback⟩

/-- C11: exclusion-encoding round trip. For every hopping schedule that holds values
of its C types, with channel plan 0..2, channel function 0..3 and excluded channels
encoded as none, ranges (a count within the array of ranges) or bitmask (a length
within the mask array, for channel plan 1 the number of bytes that
`number_of_channels` bits take): `ws_wp_nested_us_read` on the US-IE written by
`ws_wp_nested_hopping_schedule_write` returns true with the dwell interval, clock
drift and timing accuracy of the schedule, the same channel plan, channel function
and plan fields, and the same excluded-channel control; for ranges the same count
and the same start and end of every range, for a bitmask the same length and the
same mask bytes. The same holds for `ws_wp_nested_bs_read` on the BS-IE written for
the broadcast schedule, with the broadcast interval and the BSI. -/
theorem ws_wp_nested_hopping_schedule_round_trip (hs : ws_hopping_schedule)
    (hty : hopping_schedule_typed hs) :
    (hopping_schedule_ok hs true →
      ∃ us_ie, ws_wp_nested_us_read (ws_wp_nested_hopping_schedule_write hs true) 0
          (ws_wp_nested_hopping_schedule_write hs true).length = some us_ie ∧
        us_ie.dwell_interval = hs.fhss_uc_dwell_interval ∧
        us_ie.clock_drift = hs.clock_drift ∧
        us_ie.timing_accuracy = hs.timing_accuracy ∧
        chan_plan_read_back hs true us_ie.chan_plan) ∧
    (hopping_schedule_ok hs false →
      ∃ bs_ie, ws_wp_nested_bs_read (ws_wp_nested_hopping_schedule_write hs false) 0
          (ws_wp_nested_hopping_schedule_write hs false).length = some bs_ie ∧
        bs_ie.broadcast_interval = hs.fhss_broadcast_interval ∧
        bs_ie.broadcast_schedule_identifier = hs.fhss_bsi ∧
        bs_ie.dwell_interval = hs.fhss_bc_dwell_interval ∧
        bs_ie.clock_drift = hs.clock_drift ∧
        bs_ie.timing_accuracy = hs.timing_accuracy ∧
        chan_plan_read_back hs false bs_ie.chan_plan) :=
  ⟨fun hok => hopping_schedule_us_read_back hs hok hty,
   fun hok => hopping_schedule_bs_read_back hs hok hty⟩

/-- Witness of C11: the example schedule with an excluded bitmask for the unicast
schedule and excluded ranges for the broadcast schedule. -/
theorem ws_wp_nested_hopping_schedule_round_trip_witness :
    hopping_schedule_typed schedule_example_mask ∧
    (hopping_schedule_ok schedule_example_mask true ∧
      ∃ us_ie, ws_wp_nested_us_read
          (ws_wp_nested_hopping_schedule_write schedule_example_mask true) 0
          (ws_wp_nested_hopping_schedule_write schedule_example_mask true).length =
            some us_ie ∧
        us_ie.dwell_interval = schedule_example_mask.fhss_uc_dwell_interval ∧
        us_ie.clock_drift = schedule_example_mask.clock_drift ∧
        us_ie.timing_accuracy = schedule_example_mask.timing_accuracy ∧
        chan_plan_read_back schedule_example_mask true us_ie.chan_plan) ∧
    (hopping_schedule_ok schedule_example_mask false ∧
      ∃ bs_ie, ws_wp_nested_bs_read
          (ws_wp_nested_hopping_schedule_write schedule_example_mask false) 0
          (ws_wp_nested_hopping_schedule_write schedule_example_mask false).length =
            some bs_ie ∧
        bs_ie.broadcast_interval = schedule_example_mask.fhss_broadcast_interval ∧
        bs_ie.broadcast_schedule_identifier = schedule_example_mask.fhss_bsi ∧
        bs_ie.dwell_interval = schedule_example_mask.fhss_bc_dwell_interval ∧
        bs_ie.clock_drift = schedule_example_mask.clock_drift ∧
        bs_ie.timing_accuracy = schedule_example_mask.timing_accuracy ∧
        chan_plan_read_back schedule_example_mask false bs_ie.chan_plan) :=
  ⟨by decide,
   ⟨by decide,
    (ws_wp_nested_hopping_schedule_round_trip schedule_example_mask (by decide)).1 (by decide)⟩,
   ⟨by decide,
    (ws_wp_nested_hopping_schedule_round_trip schedule_example_mask (by decide)).2 (by decide)⟩⟩

/-! ### PAN-IE -/

theorem pan_ie_flags (upb rm lws : Bool) (v : Nat) (hv : v ≤ 7) :
    FIELD_GET WS_WP_PAN_IE_USE_PARENT_BS_IE_MASK
        ((((((((0 ||| FIELD_PREP WS_WP_PAN_IE_USE_PARENT_BS_IE_MASK (b2n upb)) % 256) |||
          FIELD_PREP WS_WP_PAN_IE_ROUTING_METHOD_MASK (b2n rm)) % 256) |||
          FIELD_PREP WS_WP_PAN_IE_LFN_WINDOW_STYLE_MASK (b2n lws)) % 256) |||
          FIELD_PREP WS_WP_PAN_IE_FAN_TPS_VERSION_MASK v) % 256) = b2n upb ∧
    FIELD_GET WS_WP_PAN_IE_ROUTING_METHOD_MASK
        ((((((((0 ||| FIELD_PREP WS_WP_PAN_IE_USE_PARENT_BS_IE_MASK (b2n upb)) % 256) |||
          FIELD_PREP WS_WP_PAN_IE_ROUTING_METHOD_MASK (b2n rm)) % 256) |||
          FIELD_PREP WS_WP_PAN_IE_LFN_WINDOW_STYLE_MASK (b2n lws)) % 256) |||
          FIELD_PREP WS_WP_PAN_IE_FAN_TPS_VERSION_MASK v) % 256) = b2n rm ∧
    FIELD_GET WS_WP_PAN_IE_LFN_WINDOW_STYLE_MASK
        ((((((((0 ||| FIELD_PREP WS_WP_PAN_IE_USE_PARENT_BS_IE_MASK (b2n upb)) % 256) |||
          FIELD_PREP WS_WP_PAN_IE_ROUTING_METHOD_MASK (b2n rm)) % 256) |||
          FIELD_PREP WS_WP_PAN_IE_LFN_WINDOW_STYLE_MASK (b2n lws)) % 256) |||
          FIELD_PREP WS_WP_PAN_IE_FAN_TPS_VERSION_MASK v) % 256) = b2n lws ∧
    FIELD_GET WS_WP_PAN_IE_FAN_TPS_VERSION_MASK
        ((((((((0 ||| FIELD_PREP WS_WP_PAN_IE_USE_PARENT_BS_IE_MASK (b2n upb)) % 256) |||
          FIELD_PREP WS_WP_PAN_IE_ROUTING_METHOD_MASK (b2n rm)) % 256) |||
          FIELD_PREP WS_WP_PAN_IE_LFN_WINDOW_STYLE_MASK (b2n lws)) % 256) |||
          FIELD_PREP WS_WP_PAN_IE_FAN_TPS_VERSION_MASK v) % 256) = v := by
  interval_cases v <;> cases upb <;> cases rm <;> cases lws <;> decide

theorem b2n_ne_zero (b : Bool) : decide (b2n b ≠ 0) = b := by
  cases b <;> rfl

/-- The PAN-IE written for a structure: descriptor 05 04, PAN size, routing cost and
the flags byte. -/
theorem pan_info_write_eq (p : ws_pan_information) :
    ∃ t, ws_wp_nested_pan_info_write (some p) =
        [5, 4] ++ (write_le16 p.pan_size ++ (write_le16 p.routing_cost ++ [t])) ∧
      (p.version ≤ 7 →
        FIELD_GET WS_WP_PAN_IE_USE_PARENT_BS_IE_MASK t = b2n p.use_parent_bs ∧
        FIELD_GET WS_WP_PAN_IE_ROUTING_METHOD_MASK t = b2n p.rpl_routing_method ∧
        FIELD_GET WS_WP_PAN_IE_LFN_WINDOW_STYLE_MASK t =
          b2n (if p.version > WS_FAN_VERSION_1_0 then p.lfn_window_style else false) ∧
        FIELD_GET WS_WP_PAN_IE_FAN_TPS_VERSION_MASK t = p.version) ∧ t < 256 := by
  refine ⟨_, ?_, fun hv => pan_ie_flags p.use_parent_bs p.rpl_routing_method
    (if p.version > WS_FAN_VERSION_1_0 then p.lfn_window_style else false) p.version hv, ?_⟩
  · unfold ws_wp_nested_pan_info_write
    simp only [List.append_assoc]
    rfl
  · exact Nat.mod_lt _ (by decide)

/-- C13: PAN-IE round trip. For every `ws_pan_information` `p` with 16-bit PAN size
and routing cost and a FAN version in 0..7, `ws_wp_nested_pan_read` on the IE written
by `ws_wp_nested_pan_info_write` returns true with the same `pan_size`,
`routing_cost`, `use_parent_bs`, `rpl_routing_method` and `version`;
`lfn_window_style` is the one of `p` when the version is greater than FAN 1.0, and
when the version is FAN 1.0 or lower the flag is written as 0 and read back as
false, whatever `p.lfn_window_style` is. The fields of the structure that the reader
does not write keep the value they had. -/
theorem ws_wp_nested_pan_round_trip (p p0 : ws_pan_information)
    (hps : p.pan_size < 65536) (hrc : p.routing_cost < 65536) (hv : p.version ≤ 7) :
    ∃ q, ws_wp_nested_pan_read (ws_wp_nested_pan_info_write (some p)) 0
        (ws_wp_nested_pan_info_write (some p)).length p0 = some q ∧
      q.pan_size = p.pan_size ∧ q.routing_cost = p.routing_cost ∧
      q.use_parent_bs = p.use_parent_bs ∧ q.rpl_routing_method = p.rpl_routing_method ∧
      q.version = p.version ∧
      (p.version > WS_FAN_VERSION_1_0 → q.lfn_window_style = p.lfn_window_style) ∧
      (p.version ≤ WS_FAN_VERSION_1_0 →
        q.lfn_window_style = false ∧
        FIELD_GET WS_WP_PAN_IE_LFN_WINDOW_STYLE_MASK
          (byte_at (ws_wp_nested_pan_info_write (some p)) 6) = 0) ∧
      q.pan_version = p0.pan_version ∧ q.lfn_version = p0.lfn_version := by
  obtain ⟨t, hW, hfl, ht⟩ := pan_info_write_eq p
  obtain ⟨f1, f2, f3, f4⟩ := hfl hv
  rw [hW]
  have hlen : ([5, 4] ++ (write_le16 p.pan_size ++ (write_le16 p.routing_cost ++ [t]))).length
      = 7 := rfl
  have hdisc : mac_ie_nested_discover
      ([5, 4] ++ (write_le16 p.pan_size ++ (write_le16 p.routing_cost ++ [t]))) 0 7
      { id := WP_PAYLOAD_IE_PAN_TYPE, type_long := false, length := 0, content_ptr := 0 } =
      (5, { id := WP_PAYLOAD_IE_PAN_TYPE, type_long := false, length := 5,
            content_ptr := 2 }) := by
    unfold mac_ie_nested_discover
    rw [mac_ie_nested_discover_loop]
    have hparse : mac_ie_nested_id_parse
        ([5, 4] ++ (write_le16 p.pan_size ++ (write_le16 p.routing_cost ++ [t]))) 0 =
        { id := 4, type_long := false, length := 5, content_ptr := 2 } := by
      unfold mac_ie_nested_id_parse
      have h16 : read_le16
          ([5, 4] ++ (write_le16 p.pan_size ++ (write_le16 p.routing_cost ++ [t]))) 0 =
          1029 := by
        simp [read_le16, byte_at]
      rw [h16]
      decide
    simp only [hparse]
    simp [WP_PAYLOAD_IE_PAN_TYPE]
  have hb : ∀ i, byte_at
      ([5, 4] ++ (write_le16 p.pan_size ++ (write_le16 p.routing_cost ++ [t]))) (2 + i) =
      byte_at (write_le16 p.pan_size ++ (write_le16 p.routing_cost ++ [t])) i := by
    intro i
    exact byte_at_append_right [5, 4] _ i
  have h0 : read_le16
      ([5, 4] ++ (write_le16 p.pan_size ++ (write_le16 p.routing_cost ++ [t]))) 2 =
      p.pan_size := by
    have := read_le16_append [5, 4] (write_le16 p.routing_cost ++ [t]) p.pan_size
    rw [Nat.mod_eq_of_lt hps] at this
    exact this
  have h2 : read_le16
      ([5, 4] ++ (write_le16 p.pan_size ++ (write_le16 p.routing_cost ++ [t]))) (2 + 2) =
      p.routing_cost := by
    have := read_le16_append ([5, 4] ++ write_le16 p.pan_size) [t] p.routing_cost
    rw [Nat.mod_eq_of_lt hrc, List.append_assoc] at this
    exact this
  have h4 : byte_at
      ([5, 4] ++ (write_le16 p.pan_size ++ (write_le16 p.routing_cost ++ [t]))) (2 + 4) = t := by
    rw [hb 4]
    simp only [write_le16, byte_at, List.cons_append, List.nil_append, List.getD_cons_succ,
      List.getD_cons_zero]
    exact Nat.mod_eq_of_lt ht
  unfold ws_wp_nested_pan_read
  rw [hlen]
  simp only [hdisc]
  rw [if_neg (by decide)]
  refine ⟨_, rfl, ?_, ?_, ?_, ?_, ?_, ?_, ?_, rfl, rfl⟩
  · exact h0
  · exact h2
  · simp only [h4, f1, b2n_ne_zero]
  · simp only [h4, f2, b2n_ne_zero]
  · simp only [h4, f4]
  · intro hgt
    simp only [h4, f4, f3, hgt, if_true, b2n_ne_zero]
  · intro hle
    have hng : ¬ p.version > WS_FAN_VERSION_1_0 := by omega
    refine ⟨?_, ?_⟩
    · simp only [h4, f4, hng, if_false]
    · have := h4
      rw [show (2 + 4 : Nat) = 6 from rfl] at this
      rw [this, f3, if_neg hng]
      rfl

/-- Witness of C13: the example PAN information, FAN 1.0 with the LFN window style
flag set. -/
theorem ws_wp_nested_pan_round_trip_witness :
    ∃ q, ws_wp_nested_pan_read (ws_wp_nested_pan_info_write (some pan_information_example)) 0
        (ws_wp_nested_pan_info_write (some pan_information_example)).length
        ws_pan_information_zero = some q ∧
      q.pan_size = 300 ∧ q.routing_cost = 700 ∧ q.use_parent_bs = true ∧
      q.rpl_routing_method = true ∧ q.version = 1 ∧ q.lfn_window_style = false := by
  obtain ⟨q, h, a, b, c, d, e, -, g, -, -⟩ :=
    ws_wp_nested_pan_round_trip pan_information_example ws_pan_information_zero
      (by decide) (by decide) (by decide)
  exact ⟨q, h, a, b, c, d, e, (g (by decide)).1⟩

/-! ### PAN configuration with a version that is not newer -/

/-- `ws_update_gak_index` changes only the GAK index. -/
theorem ws_update_gak_index_frame (ws : ws_ctx) (key_index : Nat) :
    (ws_update_gak_index ws key_index).pan_version = ws.pan_version ∧
    (ws_update_gak_index ws key_index).gtkhash = ws.gtkhash := by
  unfold ws_update_gak_index
  split <;> exact ⟨rfl, rfl⟩

/-- `ws_sync_fhss_bc` records one call of `rcp_set_fhss_ffn_bc` and leaves the PAN
version and the GTK hashes as they are. -/
theorem ws_sync_fhss_bc_frame (w : wsrd) (n : ws_neigh) :
    (ws_sync_fhss_bc w n).ws.pan_version = w.ws.pan_version ∧
    (ws_sync_fhss_bc w n).ws.gtkhash = w.ws.gtkhash ∧
    ∃ p, (ws_sync_fhss_bc w n).calls = w.calls ++ [ws_call.rcp_set_fhss_ffn_bc n p] :=
  ⟨rfl, rfl, _, rfl⟩

/-- C14: a PC frame whose PAN version is not newer than a known `ws.pan_version`
(`seqno_cmp16(pan_version, ws.pan_version) <= 0`) leaves `ws.pan_version` and
`ws.gtkhash` unchanged, and the calls `ws_recv_pc` makes contain no key request
(`supp_start_key_request`), no update of the stored IE list (`ws_ie_list_update`)
and no join state transition. -/
theorem ws_recv_pc_not_newer (deps : ws_deps) (wsrd : wsrd) (ind : ws_ind)
    (hknown : wsrd.ws.pan_version ≠ -1)
    (hold : ∀ v, deps.ws_wp_nested_panver_read ind.frame ind.ie_wp = some v →
      deps.seqno_cmp16 v wsrd.ws.pan_version ≤ 0) :
    (ws_recv_pc deps wsrd ind).ws.pan_version = wsrd.ws.pan_version ∧
    (ws_recv_pc deps wsrd ind).ws.gtkhash = wsrd.ws.gtkhash ∧
    ∃ extra, (ws_recv_pc deps wsrd ind).calls = wsrd.calls ++ extra ∧
      ws_call.supp_start_key_request ∉ extra ∧
      ws_call.ws_ie_list_update ∉ extra ∧
      ws_call.join_state_transition_pc_rx ∉ extra ∧
      ws_call.join_state_transition_pa_from_new_pan ∉ extra := by
  have hstay : wsrd.ws.pan_version = wsrd.ws.pan_version ∧ wsrd.ws.gtkhash = wsrd.ws.gtkhash ∧
      ∃ extra, wsrd.calls = wsrd.calls ++ extra ∧
        ws_call.supp_start_key_request ∉ extra ∧ ws_call.ws_ie_list_update ∉ extra ∧
        ws_call.join_state_transition_pc_rx ∉ extra ∧
        ws_call.join_state_transition_pa_from_new_pan ∉ extra :=
    ⟨rfl, rfl, [], by simp, by simp, by simp, by simp, by simp⟩
  unfold ws_recv_pc
  split
  · exact hstay
  split
  · exact hstay
  split
  · exact hstay
  split
  · exact hstay
  split
  · exact hstay
  split
  · exact hstay
  split
  · exact hstay
  rename_i pan_version hpv
  split
  · exact hstay
  rename_i gtkhash hgtk
  have hle := hold pan_version hpv
  have hg := ws_update_gak_index_frame wsrd.ws ind.hdr.key_index
  lift_lets
  intro w1 w2 pvu w3
  have hw2 : w2.ws = w1.ws ∧ ∃ t, w2.calls = wsrd.calls ++ [t] ∧
      (t = ws_call.trickle_inconsistent_pc ∨ t = ws_call.trickle_consistent_pc) := by
    by_cases hc : (pan_version : Int) ≠ w1.ws.pan_version
    · exact ⟨by simp only [w2, if_pos hc], _, by simp only [w2, if_pos hc], Or.inl rfl⟩
    · exact ⟨by simp only [w2, if_neg hc], _, by simp only [w2, if_neg hc], Or.inr rfl⟩
  obtain ⟨hw2ws, t, hw2c, ht⟩ := hw2
  have hpv2 : w2.ws.pan_version = wsrd.ws.pan_version := by rw [hw2ws]; exact hg.1
  have hgt2 : w2.ws.gtkhash = wsrd.ws.gtkhash := by rw [hw2ws]; exact hg.2
  have hpvu : pvu = false := by
    simp only [pvu, hpv2]
    simp [hknown, hle]
  have hw3 : w3 = w2 := by simp only [w3, hpvu]; rfl
  intro n1 f1 n2 f2 n3 f3 n4 f4 n5 f5 n6 f6 n7 w4
  have hw4 : w4.ws.pan_version = wsrd.ws.pan_version ∧ w4.ws.gtkhash = wsrd.ws.gtkhash ∧
      w4.calls = wsrd.calls ++ [t] := by
    simp only [w4, set_ind_neigh, hw3]
    exact ⟨hpv2, hgt2, hw2c⟩
  have htn : ws_call.supp_start_key_request ∉ [t] ∧ ws_call.ws_ie_list_update ∉ [t] ∧
      ws_call.join_state_transition_pc_rx ∉ [t] ∧
      ws_call.join_state_transition_pa_from_new_pan ∉ [t] := by
    rcases ht with h | h <;> subst h <;> simp
  split
  · obtain ⟨a, b, p, c⟩ := ws_sync_fhss_bc_frame w4 n7
    refine ⟨a.trans hw4.1, b.trans hw4.2.1, [t] ++ [ws_call.rcp_set_fhss_ffn_bc n7 p], ?_, ?_, ?_,
      ?_, ?_⟩
    · rw [c, hw4.2.2, List.append_assoc]
    · intro hm
      rcases List.mem_append.1 hm with h | h
      · exact htn.1 h
      · simp at h
    · intro hm
      rcases List.mem_append.1 hm with h | h
      · exact htn.2.1 h
      · simp at h
    · intro hm
      rcases List.mem_append.1 hm with h | h
      · exact htn.2.2.1 h
      · simp at h
    · intro hm
      rcases List.mem_append.1 hm with h | h
      · exact htn.2.2.2 h
      · simp at h
  · exact ⟨hw4.1, hw4.2.1, [t], hw4.2.2, htn⟩


/-- Witness of C14: a PC frame at PAN version 8 received by a router already at PAN
version 8. -/
theorem ws_recv_pc_not_newer_witness :
    (ws_recv_pc ws_deps_example wsrd_example_v8 (ws_ind_example 2)).ws.pan_version = 8 ∧
    (ws_recv_pc ws_deps_example wsrd_example_v8 (ws_ind_example 2)).ws.gtkhash =
      [[1], [2], [3], [4]] ∧
    ws_call.supp_start_key_request ∉
      (ws_recv_pc ws_deps_example wsrd_example_v8 (ws_ind_example 2)).calls := by
  obtain ⟨a, b, extra, c, d, -⟩ :=
    ws_recv_pc_not_newer ws_deps_example wsrd_example_v8 (ws_ind_example 2) (by decide)
      (by
        intro v hv
        have h8 : 8 = v := Option.some.inj hv
        subst h8
        decide)
  refine ⟨a, b, ?_⟩
  rw [c]
  intro hm
  rcases List.mem_append.1 hm with h | h
  · exact absurd h (by decide)
  · exact d h

/-! ### Own routing cost -/

/-- C18: `ws_get_own_routing_cost` returns 0xffff when there is no preferred RPL
parent; when there is one, in the neighbour table, whose ETX truncates to the 16-bit
value `e`, it returns `min(parent.ie_pan.routing_cost + e, 0xffff)`; and a value it
returns is never above 0xffff. -/
theorem ws_get_own_routing_cost_saturates (wsrd : wsrd) :
    (wsrd.rpl_pref_parent = none → ws_get_own_routing_cost wsrd = some 0xffff) ∧
    (∀ eui64 parent e, wsrd.rpl_pref_parent = some eui64 →
      ws_neigh_get wsrd.ws.neigh_table eui64 = some parent →
      c_float_to_uint16 parent.etx = some e →
      ws_get_own_routing_cost wsrd = some (min (parent.ie_pan.routing_cost + e) 0xffff)) ∧
    (∀ r, ws_get_own_routing_cost wsrd = some r → r ≤ 0xffff) := by
  refine ⟨?_, ?_, ?_⟩
  · intro h
    unfold ws_get_own_routing_cost
    rw [h]
  · intro eui64 parent e h1 h2 h3
    unfold ws_get_own_routing_cost
    rw [h1]
    simp only [h2, h3]
    split
    · rw [Nat.min_eq_right (by omega)]
    · rw [Nat.min_eq_left (by omega)]
  · intro r h
    unfold ws_get_own_routing_cost at h
    split at h
    · cases h
      decide
    · split at h
      · cases h
      · split at h
        · cases h
        · split at h
          · cases h
            decide
          · cases h
            omega

/-- Witness of C18: a parent at routing cost 65000 with ETX 1000.5: the sum 66000
saturates at 0xffff. -/
theorem ws_get_own_routing_cost_saturates_witness :
    ws_get_own_routing_cost wsrd_example_far = some 0xffff :=
  (ws_get_own_routing_cost_saturates wsrd_example_far).2.1 [1, 2, 3, 4, 5, 6, 7, 8]
    (ws_neigh_example [1, 2, 3, 4, 5, 6, 7, 8] 0x1234 0xff 65000 { num := 2001, den := 2 })
    1000 (by decide) (by decide) (by decide)

/-! ### EAPOL target selection -/

/-- The first loop of the PAN selection on an empty list. -/
theorem pan_selection_first_loop_nil (deps : ws_deps) (w : wsrd) (sel : Option ws_neigh) :
    pan_selection_first_loop deps w [] sel = sel := by
  rw [pan_selection_first_loop.eq_def]

/-- The first loop of the PAN selection passes over a candidate that is not eligible. -/
theorem pan_selection_first_loop_skip (deps : ws_deps) (w : wsrd) (c : ws_neigh)
    (rest : List ws_neigh) (sel : Option ws_neigh) (hs : pan_selection_skip w c = true) :
    pan_selection_first_loop deps w (c :: rest) sel =
      pan_selection_first_loop deps w rest sel := by
  rw [pan_selection_first_loop.eq_def]
  dsimp only
  rw [if_pos hs]

/-- The first loop of the PAN selection on an eligible candidate `c`: it goes on with
`c` when `c` has a known PLF below the one of the candidate selected so far or else a
lower PAN cost, and with the candidate selected so far otherwise. -/
theorem pan_selection_first_loop_keep (deps : ws_deps) (w : wsrd) (c : ws_neigh)
    (rest : List ws_neigh) (sel : Option ws_neigh) (hs : pan_selection_skip w c = false) :
    pan_selection_first_loop deps w (c :: rest) sel =
      pan_selection_first_loop deps w rest
        (some (if c.plf ≠ 0xff ∧ c.plf < (sel.getD c).plf then c
          else if deps.ws_neigh_get_pan_cost c < deps.ws_neigh_get_pan_cost (sel.getD c) then c
          else sel.getD c)) := by
  rw [pan_selection_first_loop.eq_def]
  dsimp only
  rw [if_neg (by rw [hs]; exact Bool.false_ne_true)]
  cases sel <;> rfl

/-- The first loop of the PAN selection keeps the candidate it has or takes an
eligible candidate of the list, and it has a candidate as soon as it starts with one
or the list holds an eligible one. -/
theorem pan_selection_first_loop_mem (deps : ws_deps) (w : wsrd) :
    ∀ (l : List ws_neigh) (sel : Option ws_neigh),
      (pan_selection_first_loop deps w l sel = sel ∨
        ∃ s ∈ l, pan_selection_skip w s = false ∧
          pan_selection_first_loop deps w l sel = some s) ∧
      ((sel ≠ none ∨ ∃ m ∈ l, pan_selection_skip w m = false) →
        pan_selection_first_loop deps w l sel ≠ none) := by
  intro l
  induction l with
  | nil =>
    intro sel
    refine ⟨Or.inl rfl, ?_⟩
    rintro (h | ⟨m, hm, -⟩)
    · exact h
    · cases hm
  | cons c rest ih =>
    intro sel
    cases hs : pan_selection_skip w c with
    | true =>
      rw [pan_selection_first_loop_skip deps w c rest sel hs]
      obtain ⟨h1, h2⟩ := ih sel
      refine ⟨?_, ?_⟩
      · rcases h1 with h | ⟨s, hsm, hse, hr⟩
        · exact Or.inl h
        · exact Or.inr ⟨s, List.mem_cons_of_mem _ hsm, hse, hr⟩
      · rintro (h | ⟨m, hm, hme⟩)
        · exact h2 (Or.inl h)
        · rcases List.mem_cons.1 hm with h | h
          · subst h
            rw [hs] at hme
            cases hme
          · exact h2 (Or.inr ⟨m, h, hme⟩)
    | false =>
      obtain ⟨n, hn, hstep⟩ : ∃ n, (n = c ∨ sel = some n) ∧
          pan_selection_first_loop deps w (c :: rest) sel =
            pan_selection_first_loop deps w rest (some n) := by
        rw [pan_selection_first_loop_keep deps w c rest sel hs]
        cases sel with
        | none =>
          refine ⟨c, Or.inl rfl, ?_⟩
          simp
        | some s =>
          simp only [Option.getD_some]
          split_ifs
          · exact ⟨c, Or.inl rfl, rfl⟩
          · exact ⟨c, Or.inl rfl, rfl⟩
          · exact ⟨s, Or.inr rfl, rfl⟩
      rw [hstep]
      obtain ⟨h1, h2⟩ := ih (some n)
      refine ⟨?_, fun _ => h2 (Or.inl (by simp))⟩
      rcases h1 with h | ⟨s, hsm, hse, hr⟩
      · rcases hn with hn | hn
        · subst hn
          exact Or.inr ⟨n, List.mem_cons_self _ _, hs, h⟩
        · left
          rw [h, hn]
      · exact Or.inr ⟨s, List.mem_cons_of_mem _ hsm, hse, hr⟩

/-- When the candidate the first loop starts with and the eligible candidates of the
list all have the PLF `p`, the candidate the loop ends with has the PLF `p` and a PAN
cost that none of them is below. -/
theorem pan_selection_first_loop_min_cost (deps : ws_deps) (w : wsrd) (p : Nat) :
    ∀ (l : List ws_neigh) (sel : Option ws_neigh),
      (∀ m ∈ l, pan_selection_skip w m = false → m.plf = p) →
      (∀ s, sel = some s → s.plf = p) →
      ∀ r, pan_selection_first_loop deps w l sel = some r →
        r.plf = p ∧
        (∀ s, sel = some s → deps.ws_neigh_get_pan_cost r ≤ deps.ws_neigh_get_pan_cost s) ∧
        ∀ m ∈ l, pan_selection_skip w m = false →
          deps.ws_neigh_get_pan_cost r ≤ deps.ws_neigh_get_pan_cost m := by
  intro l
  induction l with
  | nil =>
    intro sel _ hsel r hr
    rw [pan_selection_first_loop_nil] at hr
    refine ⟨hsel r hr, ?_, ?_⟩
    · intro s hs
      rw [hr] at hs
      cases hs
      exact Nat.le_refl _
    · intro m hm
      cases hm
  | cons c rest ih =>
    intro sel hl hsel r hr
    have hrest : ∀ m ∈ rest, pan_selection_skip w m = false → m.plf = p :=
      fun m hm => hl m (List.mem_cons_of_mem _ hm)
    cases hs : pan_selection_skip w c with
    | true =>
      rw [pan_selection_first_loop_skip deps w c rest sel hs] at hr
      obtain ⟨h1, h2, h3⟩ := ih sel hrest hsel r hr
      refine ⟨h1, h2, ?_⟩
      intro m hm hme
      rcases List.mem_cons.1 hm with h | h
      · subst h
        rw [hs] at hme
        cases hme
      · exact h3 m h hme
    | false =>
      have hcp : c.plf = p := hl c (List.mem_cons_self _ _) hs
      obtain ⟨n, hnp, hnc, hns, hstep⟩ : ∃ n, n.plf = p ∧
          deps.ws_neigh_get_pan_cost n ≤ deps.ws_neigh_get_pan_cost c ∧
          (∀ s, sel = some s →
            deps.ws_neigh_get_pan_cost n ≤ deps.ws_neigh_get_pan_cost s) ∧
          pan_selection_first_loop deps w (c :: rest) sel =
            pan_selection_first_loop deps w rest (some n) := by
        rw [pan_selection_first_loop_keep deps w c rest sel hs]
        cases sel with
        | none =>
          refine ⟨c, hcp, Nat.le_refl _, ?_, ?_⟩
          · intro s hs'
            cases hs'
          · simp
        | some s =>
          have hsp : s.plf = p := hsel s rfl
          simp only [Option.getD_some]
          have hno : ¬ (c.plf ≠ 0xff ∧ c.plf < s.plf) := by
            rw [hcp, hsp]
            intro h
            exact Nat.lt_irrefl _ h.2
          rw [if_neg hno]
          split_ifs with hlt
          · refine ⟨c, hcp, Nat.le_refl _, ?_, rfl⟩
            intro s' hs'
            cases hs'
            exact Nat.le_of_lt hlt
          · refine ⟨s, hsp, Nat.le_of_not_lt hlt, ?_, rfl⟩
            intro s' hs'
            cases hs'
            exact Nat.le_refl _
      rw [hstep] at hr
      obtain ⟨h1, h2, h3⟩ := ih (some n) hrest (fun s hs' => by cases hs'; exact hnp) r hr
      have hrn := h2 n rfl
      refine ⟨h1, ?_, ?_⟩
      · intro s hs'
        exact Nat.le_trans hrn (hns s hs')
      · intro m hm hme
        rcases List.mem_cons.1 hm with h | h
        · subst h
          exact Nat.le_trans hrn hnc
        · exact h3 m h hme

/-- The second loop of the PAN selection keeps the candidate it has or takes an
eligible candidate of the list in the selected PAN; the candidate it ends with has a
PAN cost that neither the candidate it started with nor an eligible candidate of the
list in the selected PAN is below. -/
theorem pan_selection_second_loop_spec (deps : ws_deps) (w : wsrd) (pid : Nat) :
    ∀ (l : List ws_neigh) (sel : ws_neigh),
      (pan_selection_second_loop deps w pid l sel = sel ∨
        (pan_selection_second_loop deps w pid l sel ∈ l ∧
          pan_selection_skip w (pan_selection_second_loop deps w pid l sel) = false ∧
          (pan_selection_second_loop deps w pid l sel).pan_id = pid)) ∧
      deps.ws_neigh_get_pan_cost (pan_selection_second_loop deps w pid l sel) ≤
        deps.ws_neigh_get_pan_cost sel ∧
      ∀ m ∈ l, pan_selection_skip w m = false → m.pan_id = pid →
        deps.ws_neigh_get_pan_cost (pan_selection_second_loop deps w pid l sel) ≤
          deps.ws_neigh_get_pan_cost m := by
  intro l
  induction l with
  | nil =>
    intro sel
    refine ⟨Or.inl rfl, Nat.le_refl _, ?_⟩
    intro m hm
    cases hm
  | cons c rest ih =>
    intro sel
    by_cases hsk : pan_selection_skip w c = false ∧ c.pan_id = pid
    · obtain ⟨hs, hp⟩ := hsk
      have hcond : ¬ ((decide (c.last_pa_rx_time_s = 0) || decide (c.pan_id ≠ pid) ||
          c_float_lt_int c.rsl_in_dbm_unsecured
            (w.ws.rail_sensitivity_dbm + WS_CAND_PARENT_THRESHOLD_DB +
              WS_CAND_PARENT_HYSTERESIS_DB)) = true) := by
        unfold pan_selection_skip at hs
        simp only [Bool.or_eq_false_iff] at hs
        simp [hs.1, hs.2, hp]
      by_cases hlt : deps.ws_neigh_get_pan_cost c < deps.ws_neigh_get_pan_cost sel
      · have hstep : pan_selection_second_loop deps w pid (c :: rest) sel =
            pan_selection_second_loop deps w pid rest c := by
          rw [pan_selection_second_loop, if_neg hcond, if_pos hlt]
        rw [hstep]
        obtain ⟨h1, h2, h3⟩ := ih c
        refine ⟨Or.inr ?_, Nat.le_trans h2 (Nat.le_of_lt hlt), ?_⟩
        · rcases h1 with h | ⟨ha, hb, hc⟩
          · rw [h]
            exact ⟨List.mem_cons_self _ _, hs, hp⟩
          · exact ⟨List.mem_cons_of_mem _ ha, hb, hc⟩
        · intro m hm hme hmp
          rcases List.mem_cons.1 hm with h | h
          · subst h
            exact h2
          · exact h3 m h hme hmp
      · have hstep : pan_selection_second_loop deps w pid (c :: rest) sel =
            pan_selection_second_loop deps w pid rest sel := by
          rw [pan_selection_second_loop, if_neg hcond, if_neg hlt]
        rw [hstep]
        obtain ⟨h1, h2, h3⟩ := ih sel
        refine ⟨?_, h2, ?_⟩
        · rcases h1 with h | ⟨ha, hb, hc⟩
          · exact Or.inl h
          · exact Or.inr ⟨List.mem_cons_of_mem _ ha, hb, hc⟩
        · intro m hm hme hmp
          rcases List.mem_cons.1 hm with h | h
          · subst h
            exact Nat.le_trans h2 (Nat.le_of_not_lt hlt)
          · exact h3 m h hme hmp
    · have hcond : (decide (c.last_pa_rx_time_s = 0) || decide (c.pan_id ≠ pid) ||
          c_float_lt_int c.rsl_in_dbm_unsecured
            (w.ws.rail_sensitivity_dbm + WS_CAND_PARENT_THRESHOLD_DB +
              WS_CAND_PARENT_HYSTERESIS_DB)) = true := by
        by_cases hp : c.pan_id = pid
        · have hs : pan_selection_skip w c = true := by
            cases h : pan_selection_skip w c
            · exact absurd ⟨h, hp⟩ hsk
            · rfl
          unfold pan_selection_skip at hs
          simp only [Bool.or_eq_true] at hs
          rcases hs with h | h
          · simp [h]
          · simp [h]
        · simp [hp]
      have hstep : pan_selection_second_loop deps w pid (c :: rest) sel =
          pan_selection_second_loop deps w pid rest sel := by
        rw [pan_selection_second_loop, if_pos hcond]
      rw [hstep]
      obtain ⟨h1, h2, h3⟩ := ih sel
      refine ⟨?_, h2, ?_⟩
      · rcases h1 with h | ⟨ha, hb, hc⟩
        · exact Or.inl h
        · exact Or.inr ⟨List.mem_cons_of_mem _ ha, hb, hc⟩
      · intro m hm hme hmp
        rcases List.mem_cons.1 hm with h | h
        · subst h
          exact absurd ⟨hme, hmp⟩ hsk
        · exact h3 m h hme hmp

/-- C17, the claim as stated fails: of two eligible candidates of the same PAN, the
one with PLF 50 and PAN cost 2 is written to `eapol_target_eui64`, not the one with
PLF 10 and PAN cost 11: no eligible candidate with the lowest PLF has the EUI-64
written. -/
theorem ws_on_pan_selection_timer_timeout_plf_counterexample :
    ¬ ∃ n ∈ wsrd_example_two_candidates.ws.neigh_table,
      pan_selection_skip wsrd_example_two_candidates n = false ∧
      (ws_on_pan_selection_timer_timeout ws_deps_example
        wsrd_example_two_candidates).eapol_target_eui64 = n.eui64 ∧
      ∀ m ∈ wsrd_example_two_candidates.ws.neigh_table,
        pan_selection_skip wsrd_example_two_candidates m = false →
        n.plf ≤ m.plf ∧
        (m.plf = n.plf →
          ws_deps_example.ws_neigh_get_pan_cost n ≤ ws_deps_example.ws_neigh_get_pan_cost m) := by
  decide

/-- C17, amended: when some neighbour is eligible (a PA received and an unsecured RSL
not below sensitivity + CAND_PARENT_THRESHOLD + CAND_PARENT_HYSTERESIS),
`ws_on_pan_selection_timer_timeout` writes to `eapol_target_eui64` the EUI-64 of an
eligible neighbour `n` and to `ws.pan_id` its PAN ID, before the join state
transition; no eligible neighbour of that PAN has a PAN cost below the one of `n`,
and when all eligible neighbours have the same PLF no eligible neighbour at all has
a PAN cost below the one of `n`. -/
theorem ws_on_pan_selection_timer_timeout_target (deps : ws_deps) (wsrd : wsrd)
    (h : ∃ m ∈ wsrd.ws.neigh_table, pan_selection_skip wsrd m = false) :
    ∃ n w, n ∈ wsrd.ws.neigh_table ∧ pan_selection_skip wsrd n = false ∧
      ws_on_pan_selection_timer_timeout deps wsrd =
        deps.join_state_transition_pa_from_new_pan w ∧
      w.eapol_target_eui64 = n.eui64 ∧ w.ws.pan_id = n.pan_id ∧
      (∀ m ∈ wsrd.ws.neigh_table, pan_selection_skip wsrd m = false → m.pan_id = n.pan_id →
        deps.ws_neigh_get_pan_cost n ≤ deps.ws_neigh_get_pan_cost m) ∧
      (∀ p, (∀ m ∈ wsrd.ws.neigh_table, pan_selection_skip wsrd m = false → m.plf = p) →
        ∀ m ∈ wsrd.ws.neigh_table, pan_selection_skip wsrd m = false →
          deps.ws_neigh_get_pan_cost n ≤ deps.ws_neigh_get_pan_cost m) := by
  obtain ⟨h1, h2⟩ := pan_selection_first_loop_mem deps wsrd wsrd.ws.neigh_table none
  have hne := h2 (Or.inr h)
  rcases h1 with h1 | ⟨s, hsm, hse, hr⟩
  · exact absurd h1 hne
  obtain ⟨k1, k2, k3⟩ :=
    pan_selection_second_loop_spec deps wsrd s.pan_id wsrd.ws.neigh_table s
  generalize hn : pan_selection_second_loop deps wsrd s.pan_id wsrd.ws.neigh_table s = n
    at k1 k2 k3
  have hnp : n.pan_id = s.pan_id := by
    rcases k1 with k | ⟨-, -, k⟩
    · rw [k]
    · exact k
  have hnm : n ∈ wsrd.ws.neigh_table ∧ pan_selection_skip wsrd n = false := by
    rcases k1 with k | ⟨ka, kb, -⟩
    · rw [k]
      exact ⟨hsm, hse⟩
    · exact ⟨ka, kb⟩
  have hres : ∃ w, ws_on_pan_selection_timer_timeout deps wsrd =
      deps.join_state_transition_pa_from_new_pan w ∧
      w.eapol_target_eui64 = n.eui64 ∧ w.ws.pan_id = s.pan_id := by
    unfold ws_on_pan_selection_timer_timeout
    simp only [hr, hn]
    exact ⟨_, rfl, rfl, rfl⟩
  obtain ⟨w, hw1, hw2, hw3⟩ := hres
  refine ⟨n, w, hnm.1, hnm.2, hw1, hw2, hw3.trans hnp.symm, ?_, ?_⟩
  · intro m hm hme hmp
    exact k3 m hm hme (hmp.trans hnp)
  · intro p hp m hm hme
    obtain ⟨-, -, q3⟩ := pan_selection_first_loop_min_cost deps wsrd p wsrd.ws.neigh_table none
      hp (fun s hs => by cases hs) s hr
    exact Nat.le_trans k2 (q3 m hm hme)

/-- Witness of C17 amended, on the two candidates of PAN 0x1234: the EUI-64 written is
the one of the candidate with PAN cost 2. -/
theorem ws_on_pan_selection_timer_timeout_target_witness :
    ∃ n w, n ∈ wsrd_example_two_candidates.ws.neigh_table ∧
      ws_on_pan_selection_timer_timeout ws_deps_example wsrd_example_two_candidates =
        ws_deps_example.join_state_transition_pa_from_new_pan w ∧
      w.eapol_target_eui64 = n.eui64 ∧ w.ws.pan_id = n.pan_id ∧
      ws_deps_example.ws_neigh_get_pan_cost n ≤ 2 := by
  obtain ⟨n, w, a, b, c, d, e, f, -⟩ :=
    ws_on_pan_selection_timer_timeout_target ws_deps_example wsrd_example_two_candidates
      ⟨ws_neigh_example [2, 2, 2, 2, 2, 2, 2, 2] 0x1234 50 256 { num := 1, den := 1 },
        by decide, by decide⟩
  refine ⟨n, w, a, c, d, e, ?_⟩
  have hp : (ws_neigh_example [2, 2, 2, 2, 2, 2, 2, 2] 0x1234 50 256
      { num := 1, den := 1 }).pan_id = n.pan_id := by
    have hall : ∀ m ∈ wsrd_example_two_candidates.ws.neigh_table, m.pan_id = 0x1234 := by
      decide
    rw [hall n a]
    rfl
  exact f _ (by decide) (by decide) hp

/-! ### PAN advertisements: join metrics -/

/-- `ws_on_pan_selection_timer_timeout` leaves the stored join metrics as they are
when the join state transition does. -/
theorem ws_on_pan_selection_timer_timeout_jm (deps : ws_deps) (w : wsrd)
    (hjst : ∀ w, (deps.join_state_transition_pa_from_new_pan w).ws.jm = w.ws.jm) :
    (ws_on_pan_selection_timer_timeout deps w).ws.jm = w.ws.jm := by
  unfold ws_on_pan_selection_timer_timeout
  split
  · rfl
  · simp only [hjst]

/-- `ws_eapol_target_add` leaves the stored join metrics as they are when the join
state transition does. -/
theorem ws_eapol_target_add_jm (deps : ws_deps) (w : wsrd) (ind : ws_ind) (ie_jm : ws_jm_ie)
    (hjst : ∀ w, (deps.join_state_transition_pa_from_new_pan w).ws.jm = w.ws.jm) :
    (ws_eapol_target_add deps w ind ie_jm).ws.jm = w.ws.jm := by
  unfold ws_eapol_target_add
  lift_lets
  intro jm n1 n2 n3 n4 w1
  have hw1 : w1.ws.jm = w.ws.jm := rfl
  split
  · rw [ws_on_pan_selection_timer_timeout_jm deps w1 hjst, hw1]
  · exact hw1

/-- C19: newest JM-IE wins. When `ws_get_own_routing_cost` does not abort,
`ws_recv_pa` returns, and provided the join state transition leaves `ws.jm` alone:
a PA without JM-IE leaves `ws.jm` unchanged; a valid PA (PAN ID present and matching,
network name, PAN-IE and US-IE accepted) with a JM-IE stores the received JM-IE when
the stored metrics are all zero or `seqno_cmp8(received, stored) > 0`, and leaves
`ws.jm` unchanged otherwise. -/
theorem ws_recv_pa_newest_jm (deps : ws_deps) (wsrd : wsrd) (ind : ws_ind) (cost : Nat)
    (hcost : ws_get_own_routing_cost wsrd = some cost)
    (hjst : ∀ w, (deps.join_state_transition_pa_from_new_pan w).ws.jm = w.ws.jm) :
    ∃ r, ws_recv_pa deps wsrd ind = some r ∧
      ((deps.ws_wp_nested_jm_read ind.frame ind.ie_wp).1 = false → r.ws.jm = wsrd.ws.jm) ∧
      ((deps.ws_wp_nested_jm_read ind.frame ind.ie_wp).1 = true →
        ind.hdr.pan_id ≠ 0xffff →
        (wsrd.ws.pan_id = 0xffff ∨ wsrd.ws.pan_id = ind.hdr.pan_id) →
        deps.ws_ie_validate_netname wsrd.ws.netname ind.frame ind.ie_wp = true →
        deps.ws_ie_validate_pan ind.frame ind.ie_wp ≠ none →
        deps.ws_ie_validate_us wsrd.ws.fhss ind.frame ind.ie_wp ≠ none →
        r.ws.jm =
          if (∀ b ∈ wsrd.ws.jm.metrics, b % 256 = 0) ∨
              deps.seqno_cmp8 (deps.ws_wp_nested_jm_read ind.frame ind.ie_wp).2.version
                wsrd.ws.jm.version > 0 then
            (deps.ws_wp_nested_jm_read ind.frame ind.ie_wp).2
          else wsrd.ws.jm) := by
  have hdrop : ∃ r, some wsrd = some r ∧
      ((deps.ws_wp_nested_jm_read ind.frame ind.ie_wp).1 = false → r.ws.jm = wsrd.ws.jm) ∧
      r.ws.jm = wsrd.ws.jm := ⟨wsrd, rfl, fun _ => rfl, rfl⟩
  unfold ws_recv_pa
  split
  · rename_i hnone
    rw [hcost] at hnone
    cases hnone
  clear hcost
  split
  · rename_i h1
    obtain ⟨r, a, b, -⟩ := hdrop
    exact ⟨r, a, b, fun _ h => absurd h1 h⟩
  split
  · rename_i h1 h2
    obtain ⟨r, a, b, -⟩ := hdrop
    refine ⟨r, a, b, fun _ _ h => ?_⟩
    rcases h with h | h
    · exact absurd h h2.1
    · exact absurd h h2.2
  split
  · rename_i h3
    obtain ⟨r, a, b, -⟩ := hdrop
    exact ⟨r, a, b, fun _ _ _ h => absurd h h3⟩
  split
  · rename_i h4
    obtain ⟨r, a, b, -⟩ := hdrop
    exact ⟨r, a, b, fun _ _ _ _ h => absurd h4 h⟩
  split
  · rename_i h5
    obtain ⟨r, a, b, -⟩ := hdrop
    exact ⟨r, a, b, fun _ _ _ _ _ h => absurd h5 h⟩
  lift_lets
  intro has_jm ie_jm n1 f1 n2 w1 w2 n3 n4 w3 w4 src
  have hw1 : w1.ws.jm = wsrd.ws.jm := rfl
  have hw2 : w2.ws.jm = wsrd.ws.jm := by
    simp only [w2]
    split
    · exact hw1
    · exact hw1
  have hw3 : w3.ws.jm = wsrd.ws.jm := hw2
  have hw4 : w4.ws.jm = wsrd.ws.jm := by
    simp only [w4]
    split
    · rw [ws_eapol_target_add_jm deps w3 ind ie_jm hjst, hw3]
    · exact hw3
  cases hj : has_jm with
  | false =>
    have hj2 : (deps.ws_wp_nested_jm_read ind.frame ind.ie_wp).1 = false := hj
    refine ⟨w4, ?_, fun _ => hw4, fun h => ?_⟩
    · simp
    · rw [hj2] at h
      cases h
  | true =>
    have hj2 : (deps.ws_wp_nested_jm_read ind.frame ind.ie_wp).1 = true := hj
    rw [if_neg (by simp)]
    rw [hw4]
    by_cases hc : (∀ b ∈ wsrd.ws.jm.metrics, b % 256 = 0) ∨
        deps.seqno_cmp8 ie_jm.version wsrd.ws.jm.version > 0
    · rw [if_pos hc]
      refine ⟨_, rfl, fun h => ?_, fun _ _ _ _ _ _ => ?_⟩
      · rw [hj2] at h
        cases h
      · rw [if_pos hc]
    · rw [if_neg hc]
      refine ⟨_, rfl, fun h => ?_, fun _ _ _ _ _ _ => ?_⟩
      · rw [hj2] at h
        cases h
      · rw [if_neg hc]
        exact hw4

/-- Witness of C19: a PA with a JM-IE of content version 4 received while the stored
metrics have content version 3: the received JM-IE is stored. -/
theorem ws_recv_pa_newest_jm_witness :
    ∃ r, ws_recv_pa ws_deps_example wsrd_example (ws_ind_example 0) = some r ∧
      r.ws.jm = { version := 4, metrics := [1, 20] } := by
  obtain ⟨r, a, -, c⟩ :=
    ws_recv_pa_newest_jm ws_deps_example wsrd_example (ws_ind_example 0) 513 (by decide)
      (fun _ => rfl)
  exact ⟨r, a, (c rfl (by decide) (by decide) rfl (by decide) (by decide)).trans (by decide)⟩

/-! ### Version counters of the border router -/

/-- C15: for an interface `cur`, `ws_bbr_lfn_version_increase` increments
`lfn_version` and `pan_version` by 1 modulo 2^16, leaves `bsi` and `pan_id`
unchanged, resets the PC trickle, and the br-info file it leaves (when the storage
can be opened) is the one written for the new `pan_version` and the new
`lfn_version`; `ws_bbr_pan_version_increase` increments only `pan_version`, resets
the PC trickle and writes the br-info file; with a NULL interface both do nothing. -/
theorem ws_bbr_version_increase (env : bbr_env) (cur : net_if) :
    (∃ cur1 env1, ws_bbr_lfn_version_increase env (some cur) = (env1, some cur1) ∧
      cur1.ws_info.pan_information.lfn_version =
        (cur.ws_info.pan_information.lfn_version + 1) % 65536 ∧
      cur1.ws_info.pan_information.pan_version =
        (cur.ws_info.pan_information.pan_version + 1) % 65536 ∧
      cur1.ws_info.fhss_conf.bsi = cur.ws_info.fhss_conf.bsi ∧
      cur1.ws_info.pan_information.pan_id = cur.ws_info.pan_information.pan_id ∧
      env1.calls = env.calls ++ [bbr_call.ws_mngt_async_trickle_reset_pc,
        bbr_call.ws_mngt_async_trickle_reset_pc] ∧
      env1.br_info_file =
        if env.storage_open_ok then
          some (br_info_text env.version_daemon_api (to_uint16 cur.ws_info.fhss_conf.bsi)
            (to_uint16 cur.ws_info.pan_information.pan_id)
            ((cur.ws_info.pan_information.pan_version + 1) % 65536)
            ((cur.ws_info.pan_information.lfn_version + 1) % 65536))
        else env.br_info_file) ∧
    (∃ cur1 env1, ws_bbr_pan_version_increase env (some cur) = (env1, some cur1) ∧
      cur1.ws_info.pan_information.pan_version =
        (cur.ws_info.pan_information.pan_version + 1) % 65536 ∧
      cur1.ws_info.pan_information.lfn_version = cur.ws_info.pan_information.lfn_version ∧
      cur1.ws_info.fhss_conf.bsi = cur.ws_info.fhss_conf.bsi ∧
      cur1.ws_info.pan_information.pan_id = cur.ws_info.pan_information.pan_id ∧
      env1.calls = env.calls ++ [bbr_call.ws_mngt_async_trickle_reset_pc] ∧
      env1.br_info_file =
        if env.storage_open_ok then
          some (br_info_text env.version_daemon_api (to_uint16 cur.ws_info.fhss_conf.bsi)
            (to_uint16 cur.ws_info.pan_information.pan_id)
            ((cur.ws_info.pan_information.pan_version + 1) % 65536)
            cur.ws_info.pan_information.lfn_version)
        else env.br_info_file) ∧
    ws_bbr_lfn_version_increase env none = (env, none) ∧
    ws_bbr_pan_version_increase env none = (env, none) := by
  refine ⟨?_, ?_, rfl, rfl⟩
  · refine ⟨_, _, rfl, rfl, rfl, rfl, rfl, ?_, ?_⟩
    · cases h : env.storage_open_ok <;>
        simp [ws_bbr_pan_version_increase, ws_bbr_nvm_info_write, h]
    · cases h : env.storage_open_ok <;>
        simp [ws_bbr_pan_version_increase, ws_bbr_nvm_info_write, h]
  · refine ⟨_, _, rfl, rfl, rfl, rfl, rfl, ?_, ?_⟩
    · cases h : env.storage_open_ok <;>
        simp [ws_bbr_nvm_info_write, h]
    · cases h : env.storage_open_ok <;>
        simp [ws_bbr_nvm_info_write, h]

/-! ### PAN ID selection of the border router -/

/-- C20: PAN ID selection of `wsbr_configure_ws`, with `s` the PAN ID read from the
storage and `c` the configured one (-1 for none): the selection is fatal if and only
if `c != -1`, `s != -1` and `s != c`; otherwise the PAN ID is `s` when `s != -1`,
else `c` when `c != -1`, else a random value from 0 to 0xfffe. -/
theorem wsbr_configure_ws_pan_id_selection (r : Nat) (c s : Int) :
    (wsbr_configure_ws_pan_id r c s = none ↔ (c ≠ -1 ∧ s ≠ -1 ∧ s ≠ c)) ∧
    (¬ (c ≠ -1 ∧ s ≠ -1 ∧ s ≠ c) → s ≠ -1 → wsbr_configure_ws_pan_id r c s = some s) ∧
    (s = -1 → c ≠ -1 → wsbr_configure_ws_pan_id r c s = some c) ∧
    (s = -1 → c = -1 →
      ∃ v : Nat, v ≤ 0xfffe ∧ wsbr_configure_ws_pan_id r c s = some (v : Int)) := by
  refine ⟨?_, ?_, ?_, ?_⟩
  · unfold wsbr_configure_ws_pan_id
    split
    · rename_i h
      simp [h]
    · rename_i h
      exact ⟨fun hn => (by cases hn), fun hn => absurd hn h⟩
  · intro h hs
    unfold wsbr_configure_ws_pan_id
    rw [if_neg h]
    simp [hs]
  · intro hs hc
    unfold wsbr_configure_ws_pan_id
    subst hs
    simp [hc]
  · intro hs hc
    subst hs
    subst hc
    refine ⟨rand_get_random_in_range r 0 0xfffe, ?_, ?_⟩
    · unfold rand_get_random_in_range
      have := Nat.mod_lt r (show 0 < 0xfffe - 0 + 1 by decide)
      omega
    · unfold wsbr_configure_ws_pan_id
      simp

/-- Witness of C20: nothing stored, nothing configured, random word 70000: the PAN ID
is 4465, and a stored 0x1234 against a configured 0x1235 is fatal. -/
theorem wsbr_configure_ws_pan_id_selection_witness :
    (∃ v : Nat, v ≤ 0xfffe ∧ wsbr_configure_ws_pan_id 70000 (-1) (-1) = some (v : Int)) ∧
    wsbr_configure_ws_pan_id 70000 (-1) (-1) = some 4465 ∧
    wsbr_configure_ws_pan_id 0 0x1235 0x1234 = none :=
  ⟨(wsbr_configure_ws_pan_id_selection 70000 (-1) (-1)).2.2.2 rfl rfl, by decide, by decide⟩

/-! ### The br-info file: numbers as text -/

/-- `strtoul` reads back the character `printf` prints for a digit. -/
theorem digit_value_digit_char (d : Nat) (h : d < 16) : digit_value (digit_char d) = some d := by
  interval_cases d <;> rfl

/-- The character of a digit is at least the character `0`. -/
theorem digit_char_ge (d : Nat) : 48 ≤ digit_char d := by
  unfold digit_char
  split <;> omega

/-- On the characters of digits of the base, the digits loop of `strtoul` computes the
value of the digits. -/
theorem strtoul_digits_map (base : Nat) (hb : base ≤ 16) :
    ∀ (ds : List Nat) (acc : Nat), (∀ d ∈ ds, d < base) →
      strtoul_digits base (ds.map digit_char) acc =
        ds.foldl (fun a d => a * base + d) acc := by
  intro ds
  induction ds with
  | nil =>
    intro acc _
    rfl
  | cons d rest ih =>
    intro acc h
    have hd : d < base := h d (List.mem_cons_self _ _)
    rw [List.map_cons, strtoul_digits, digit_value_digit_char d (by omega)]
    simp only [hd, if_true, List.foldl_cons]
    exact ih _ (fun x hx => h x (List.mem_cons_of_mem _ hx))

/-- The digits `utoa` gives are digits of the base. -/
theorem utoa_lt (base : Nat) (hb : 0 < base) :
    ∀ (fuel n : Nat), ∀ d ∈ utoa base fuel n, d < base := by
  intro fuel
  induction fuel with
  | zero =>
    intro n d hd
    simp [utoa] at hd
  | succ fuel ih =>
    intro n d hd
    rw [utoa] at hd
    split at hd
    · rename_i h
      simp at hd
      omega
    · rcases List.mem_append.1 hd with h | h
      · exact ih _ d h
      · simp at h
        rw [h]
        exact Nat.mod_lt _ hb

/-- With enough fuel (more than `n`), the digits `utoa` gives for `n` have the value
`n`. -/
theorem utoa_value (base : Nat) (hb : 1 < base) :
    ∀ (fuel n : Nat), n < fuel →
      (utoa base fuel n).foldl (fun a d => a * base + d) 0 = n := by
  intro fuel
  induction fuel with
  | zero =>
    intro n h
    omega
  | succ fuel ih =>
    intro n h
    rw [utoa]
    split
    · simp
    · rename_i hn
      have hdiv : n / base < fuel := by
        have : n / base < n := Nat.div_lt_self (by omega) hb
        omega
      rw [List.foldl_append, ih _ hdiv]
      simp only [List.foldl_cons, List.foldl_nil]
      exact Nat.div_add_mod' n base

/-- With enough fuel, the first digit `utoa` gives for a positive `n` is not 0. -/
theorem utoa_head (base : Nat) (hb : 1 < base) :
    ∀ (fuel n : Nat), 0 < n → n < fuel →
      ∃ d ds, utoa base fuel n = d :: ds ∧ 0 < d := by
  intro fuel
  induction fuel with
  | zero =>
    intro n _ h
    omega
  | succ fuel ih =>
    intro n h0 h
    rw [utoa]
    split
    · exact ⟨n, [], rfl, h0⟩
    · rename_i hn
      have hdiv : n / base < fuel := by
        have : n / base < n := Nat.div_lt_self (by omega) hb
        omega
      have hpos : 0 < n / base := Nat.div_pos (by omega) (by omega)
      obtain ⟨d, ds, he, hd⟩ := ih _ hpos hdiv
      exact ⟨d, ds ++ [n % base], by rw [he]; rfl, hd⟩

/-- `strtoul` on a text that starts with a digit from 1 to 9 reads a decimal number. -/
theorem strtoul_decimal (c : Nat) (rest : List Nat) (h1 : 49 ≤ c) (h2 : c ≤ 57) :
    strtoul (c :: rest) =
      if strtoul_digits 10 (c :: rest) 0 > ULONG_MAX then ULONG_MAX
      else strtoul_digits 10 (c :: rest) 0 := by
  interval_cases c <;> simp [strtoul, c_isspace]

/-- `strtoul` reads back the decimal number `printf` prints with `%d`. -/
theorem strtoul_printf_d (n : Nat) (h : n < 2 ^ 64) : strtoul (printf_d n) = n := by
  rcases Nat.eq_zero_or_pos n with h0 | h0
  · subst h0
    decide
  · obtain ⟨d, ds, he, hd⟩ := utoa_head 10 (by decide) (n + 1) n h0 (Nat.lt_succ_self n)
    have hlt := utoa_lt 10 (by decide) (n + 1) n
    have hval := utoa_value 10 (by decide) (n + 1) n (Nat.lt_succ_self n)
    have hmap := strtoul_digits_map 10 (by decide) (utoa 10 (n + 1) n) 0 hlt
    rw [hval] at hmap
    unfold printf_d
    rw [he] at hlt hmap ⊢
    have hd10 : d < 10 := hlt d (List.mem_cons_self _ _)
    rw [List.map_cons] at hmap ⊢
    have hc : digit_char d = 48 + d := by
      unfold digit_char
      rw [if_pos hd10]
    rw [strtoul_decimal _ _ (by omega) (by omega), hmap]
    have : ¬ n > ULONG_MAX := by
      unfold ULONG_MAX
      omega
    rw [if_neg this]

/-- `strtoul` on a text that starts with `0x` and a hexadecimal digit reads a
hexadecimal number. -/
theorem strtoul_hex (c d : Nat) (rest : List Nat) (hc : digit_value c = some d) (hd : d < 16) :
    strtoul (48 :: 120 :: c :: rest) =
      if strtoul_digits 16 (c :: rest) 0 > ULONG_MAX then ULONG_MAX
      else strtoul_digits 16 (c :: rest) 0 := by
  simp [strtoul, c_isspace, hc, hd]

/-- Leading zeroes do not change the value of digits. -/
theorem foldl_replicate_zero (base : Nat) (ds : List Nat) :
    ∀ k, (List.replicate k 0 ++ ds).foldl (fun a d => a * base + d) 0 =
      ds.foldl (fun a d => a * base + d) 0 := by
  intro k
  induction k with
  | zero => rfl
  | succ k ih =>
    rw [List.replicate_succ, List.cons_append, List.foldl_cons,
      show 0 * base + 0 = 0 by simp]
    exact ih

/-- `strtoul` reads back the hexadecimal number `printf` prints with `%#04x`. -/
theorem strtoul_printf_hash_04x (n : Nat) (h : n < 2 ^ 64) :
    strtoul (printf_hash_0x 4 n) = n := by
  rcases Nat.eq_zero_or_pos n with h0 | h0
  · subst h0
    decide
  · have hlt := utoa_lt 16 (by decide) (n + 1) n
    have hval := utoa_value 16 (by decide) (n + 1) n (Nat.lt_succ_self n)
    generalize hds : utoa 16 (n + 1) n = ds at hlt hval
    have hform : ∃ k, printf_hash_0x 4 n =
        48 :: 120 :: (List.replicate k 0 ++ ds).map digit_char := by
      refine ⟨4 - (2 + ds.length), ?_⟩
      unfold printf_hash_0x
      rw [hds, if_neg (by omega)]
      simp only [List.map_append, List.map_replicate, List.length_map]
      rfl
    obtain ⟨k, hk⟩ := hform
    rw [hk]
    have hall : ∀ d ∈ List.replicate k 0 ++ ds, d < 16 := by
      intro d hd
      rcases List.mem_append.1 hd with hm | hm
      · rw [List.eq_of_mem_replicate hm]
        decide
      · exact hlt d hm
    have hmap := strtoul_digits_map 16 (by decide) (List.replicate k 0 ++ ds) 0 hall
    rw [foldl_replicate_zero, hval] at hmap
    have hne : List.replicate k 0 ++ ds ≠ [] := by
      intro he
      have hnil : ds = [] := (List.append_eq_nil.1 he).2
      rw [hnil] at hval
      simp at hval
      omega
    generalize List.replicate k 0 ++ ds = l at hall hmap hne
    cases l with
    | nil => exact absurd rfl hne
    | cons d0 l0 =>
      rw [List.map_cons] at hmap ⊢
      rw [strtoul_hex _ d0 _ (digit_value_digit_char d0 (hall d0 (List.mem_cons_self _ _)))
        (hall d0 (List.mem_cons_self _ _)), hmap]
      have : ¬ n > ULONG_MAX := by
        unfold ULONG_MAX
        omega
      rw [if_neg this]

/-! ### The br-info file: lines and round trip -/

/-- `storage_parse_line` on a line `key = value` whose key is made of letters and
underscores (or other characters from `>` on) and whose value is made of digits and
letters (characters from `0` on): it returns 0 with the key and the value. -/
theorem storage_parse_line_key_value (K V : List Nat) (hK : K ≠ []) (hKc : ∀ c ∈ K, 62 ≤ c)
    (hV : V ≠ []) (hVc : ∀ c ∈ V, 48 ≤ c) :
    storage_parse_line (K ++ 32 :: 61 :: 32 :: V) = some (0, K, V) := by
  have hsp : ∀ c, 48 ≤ c → c_isspace c = false := by
    intro c hc
    unfold c_isspace
    simp
    omega
  have hL : ∀ c ∈ K ++ 32 :: 61 :: 32 :: V, c ≠ 35 := by
    intro c hc
    rcases List.mem_append.1 hc with h | h
    · have := hKc c h
      omega
    · simp only [List.mem_cons] at h
      rcases h with h | h | h | h
      · omega
      · omega
      · omega
      · have := hVc c h
        omega
  have h1 : List.takeWhile (fun c => decide (c ≠ 35)) (K ++ 32 :: 61 :: 32 :: V) =
      K ++ 32 :: 61 :: 32 :: V := by
    rw [List.takeWhile_eq_self_iff]
    intro c hc
    simp [hL c hc]
  obtain ⟨k0, K0, hK0⟩ : ∃ k0 K0, K = k0 :: K0 := by
    cases K with
    | nil => exact absurd rfl hK
    | cons a b => exact ⟨a, b, rfl⟩
  obtain ⟨v0, V0, hV0⟩ : ∃ v0 V0, V = v0 :: V0 := by
    cases V with
    | nil => exact absurd rfl hV
    | cons a b => exact ⟨a, b, rfl⟩
  have hk0 : 62 ≤ k0 := hKc k0 (by rw [hK0]; exact List.mem_cons_self _ _)
  have hv0 : 48 ≤ v0 := hVc v0 (by rw [hV0]; exact List.mem_cons_self _ _)
  have h2 : List.dropWhile c_isspace (K ++ 32 :: 61 :: 32 :: V) =
      K ++ 32 :: 61 :: 32 :: V := by
    rw [hK0, List.cons_append]
    exact List.dropWhile_cons_of_neg (by rw [hsp k0 (by omega)]; exact Bool.false_ne_true)
  have hKp : ∀ c ∈ K, (decide (c ≠ 61) && decide (c ≠ 32)) = true := by
    intro c hc
    have := hKc c hc
    simp
    omega
  have h3 : List.takeWhile (fun c => decide (c ≠ 61) && decide (c ≠ 32))
      (K ++ 32 :: 61 :: 32 :: V) = K := by
    rw [List.takeWhile_append_of_pos hKp, List.takeWhile_cons_of_neg (by decide),
      List.append_nil]
  have h4 : List.dropWhile (fun c => decide (c ≠ 61) && decide (c ≠ 32))
      (K ++ 32 :: 61 :: 32 :: V) = 32 :: 61 :: 32 :: V := by
    rw [List.dropWhile_append_of_pos hKp, List.dropWhile_cons_of_neg (by decide)]
  have h5 : List.dropWhile c_isspace (32 :: 61 :: 32 :: V) = 61 :: 32 :: V := by
    rw [List.dropWhile_cons_of_pos (by decide), List.dropWhile_cons_of_neg (by decide)]
  have h6 : List.dropWhile c_isspace (32 :: V) = V := by
    rw [List.dropWhile_cons_of_pos (by decide), hV0]
    exact List.dropWhile_cons_of_neg (by rw [hsp v0 hv0]; exact Bool.false_ne_true)
  have hVp : ∀ c ∈ V, (!c_isspace c) = true := by
    intro c hc
    rw [hsp c (hVc c hc)]
    rfl
  have h7 : List.takeWhile (fun c => !c_isspace c) V = V :=
    List.takeWhile_eq_self_iff.2 hVp
  have h8 : List.dropWhile (fun c => !c_isspace c) V = [] :=
    List.dropWhile_eq_nil_iff.2 hVp
  have hne : K ++ 32 :: 61 :: 32 :: V ≠ [] := by
    rw [hK0]
    exact List.cons_ne_nil _ _
  unfold storage_parse_line
  simp only [h1, h2, h3, h4, h5, h6, h7, h8, hne, hK, hV, if_false, List.dropWhile_nil,
    ne_eq, not_true_eq_false, or_self]

/-- A line without newline that a newline ends is the first line `fgets` reads. -/
theorem file_lines_append (rest : List Nat) :
    ∀ l : List Nat, (∀ c ∈ l, c ≠ 10) →
      file_lines (l ++ 10 :: rest) = l :: file_lines rest := by
  intro l
  induction l with
  | nil =>
    intro _
    rw [List.nil_append, file_lines, if_pos rfl]
  | cons c l ih =>
    intro h
    have hc : c ≠ 10 := h c (List.mem_cons_self _ _)
    rw [List.cons_append, file_lines, if_neg hc, ih (fun x hx => h x (List.mem_cons_of_mem _ hx))]

/-- With fuel, `utoa` gives at least one digit. -/
theorem utoa_ne_nil (base fuel n : Nat) : utoa base (fuel + 1) n ≠ [] := by
  rw [utoa]
  split
  · exact List.cons_ne_nil _ _
  · intro h
    have := (List.append_eq_nil.1 h).2
    cases this

/-- The text of `%d` is not empty and made of characters from `0` on. -/
theorem printf_d_chars (n : Nat) : printf_d n ≠ [] ∧ ∀ c ∈ printf_d n, 48 ≤ c := by
  unfold printf_d
  refine ⟨?_, ?_⟩
  · intro h
    exact utoa_ne_nil 10 n n (List.map_eq_nil_iff.1 h)
  · intro c hc
    obtain ⟨d, -, hd⟩ := List.mem_map.1 hc
    rw [← hd]
    exact digit_char_ge d

/-- The text of `%#04x` and `%#08x` is not empty and made of characters from `0` on. -/
theorem printf_hash_0x_chars (width n : Nat) :
    printf_hash_0x width n ≠ [] ∧ ∀ c ∈ printf_hash_0x width n, 48 ≤ c := by
  unfold printf_hash_0x
  refine ⟨?_, ?_⟩
  · intro h
    have h2 := (List.append_eq_nil.1 h).2
    exact utoa_ne_nil 16 n n (List.map_eq_nil_iff.1 h2)
  · intro c hc
    simp only [List.mem_append] at hc
    rcases hc with (h | h) | h
    · split at h
      · cases h
      · have hx : c = 48 ∨ c = 120 := by
          have : c ∈ [48, 120] := h
          simpa using this
        omega
    · rw [List.eq_of_mem_replicate h]
    · obtain ⟨d, -, hd⟩ := List.mem_map.1 h
      rw [← hd]
      exact digit_char_ge d

/-- A line `key = value` with a key and a value as in `storage_parse_line_key_value`
holds no newline. -/
theorem key_value_line_no_newline (K V : List Nat) (hKc : ∀ c ∈ K, 62 ≤ c)
    (hVc : ∀ c ∈ V, 48 ≤ c) : ∀ c ∈ K ++ 32 :: 61 :: 32 :: V, c ≠ 10 := by
  intro c hc
  rcases List.mem_append.1 hc with h | h
  · have := hKc c h
    omega
  · simp only [List.mem_cons] at h
    rcases h with h | h | h | h
    · omega
    · omega
    · omega
    · have := hVc c h
      omega

/-- One turn of the loop of `ws_bbr_nvm_info_read` on a line `key = value`. -/
theorem ws_bbr_nvm_info_read_loop_key_value (inc : Nat) (K V : List Nat)
    (rest : List (List Nat)) (out : br_info) (hK : K ≠ []) (hKc : ∀ c ∈ K, 62 ≤ c)
    (hV : V ≠ []) (hVc : ∀ c ∈ V, 48 ≤ c) :
    ws_bbr_nvm_info_read_loop inc ((K ++ 32 :: 61 :: 32 :: V) :: rest) out =
      ws_bbr_nvm_info_read_loop inc rest (ws_bbr_nvm_info_read_line inc 0 K V out) := by
  rw [ws_bbr_nvm_info_read_loop, storage_parse_line_key_value K V hK hKc hV hVc]

/-- The text of the br-info file, line by line. -/
theorem br_info_text_lines (api bsi pan_id pan_version lfn_version : Nat) :
    file_lines (br_info_text api bsi pan_id pan_version lfn_version) =
      [c_str "api_version" ++ 32 :: 61 :: 32 :: printf_hash_0x 8 api,
       c_str "# Broadcast Schedule Identifier",
       c_str "bsi" ++ 32 :: 61 :: 32 :: printf_d bsi,
       c_str "pan_id" ++ 32 :: 61 :: 32 :: printf_hash_0x 4 pan_id,
       c_str "pan_version" ++ 32 :: 61 :: 32 :: printf_d pan_version,
       c_str "lfn_version" ++ 32 :: 61 :: 32 :: printf_d lfn_version] := by
  have htext : br_info_text api bsi pan_id pan_version lfn_version =
      (c_str "api_version" ++ 32 :: 61 :: 32 :: printf_hash_0x 8 api) ++ 10 ::
      (c_str "# Broadcast Schedule Identifier" ++ 10 ::
      ((c_str "bsi" ++ 32 :: 61 :: 32 :: printf_d bsi) ++ 10 ::
      ((c_str "pan_id" ++ 32 :: 61 :: 32 :: printf_hash_0x 4 pan_id) ++ 10 ::
      ((c_str "pan_version" ++ 32 :: 61 :: 32 :: printf_d pan_version) ++ 10 ::
      ((c_str "lfn_version" ++ 32 :: 61 :: 32 :: printf_d lfn_version) ++ 10 :: []))))) := by
    unfold br_info_text
    rw [show c_str "api_version = " = c_str "api_version" ++ [32, 61, 32] by decide,
      show c_str "bsi = " = c_str "bsi" ++ [32, 61, 32] by decide,
      show c_str "pan_id = " = c_str "pan_id" ++ [32, 61, 32] by decide,
      show c_str "pan_version = " = c_str "pan_version" ++ [32, 61, 32] by decide,
      show c_str "lfn_version = " = c_str "lfn_version" ++ [32, 61, 32] by decide]
    simp only [List.append_assoc, List.cons_append, List.nil_append]
  have hk : ∀ s : List Nat, (∀ c ∈ s, 62 ≤ c) → ∀ V : List Nat, (∀ c ∈ V, 48 ≤ c) →
      ∀ rest, file_lines ((s ++ 32 :: 61 :: 32 :: V) ++ 10 :: rest) =
        (s ++ 32 :: 61 :: 32 :: V) :: file_lines rest :=
    fun s hs V hV rest => file_lines_append rest _ (key_value_line_no_newline s V hs hV)
  rw [htext, hk _ (by decide) _ (printf_hash_0x_chars 8 api).2,
    file_lines_append _ _ (by decide),
    hk _ (by decide) _ (printf_d_chars bsi).2,
    hk _ (by decide) _ (printf_hash_0x_chars 4 pan_id).2,
    hk _ (by decide) _ (printf_d_chars pan_version).2,
    hk _ (by decide) _ (printf_d_chars lfn_version).2]
  rfl

/-- C16: br-info persistence round trip. When the storage can be opened, for all
16-bit `bsi`, `pan_id`, `pan_version` and `lfn_version`, `ws_bbr_nvm_info_read` on
the file written by `ws_bbr_nvm_info_write` stores the same `bsi`, `pan_id` and
`lfn_version`, and `pan_version + PAN_VERSION_STORAGE_READ_INCREMENT` modulo 2^16;
when the increment, a constant that no file under src/ defines, is a forward step of
16-bit sequence arithmetic (below 2^15), the PAN version read back is not behind the
stored one: it is the stored version or one of the 32767 values that follow it modulo
2^16; and a line whose key is none of the four leaves the four outputs unchanged. -/
theorem ws_bbr_nvm_info_round_trip (inc : Nat) (env : bbr_env) (out : br_info)
    (bsi pan_id pan_version lfn_version : Nat) (hopen : env.storage_open_ok = true)
    (h1 : bsi < 65536) (h2 : pan_id < 65536) (h3 : pan_version < 65536)
    (h4 : lfn_version < 65536) :
    ws_bbr_nvm_info_read inc (ws_bbr_nvm_info_write env bsi pan_id pan_version lfn_version)
        out =
      { bsi := bsi, pan_id := pan_id, pan_version := (pan_version + inc) % 65536,
        lfn_version := lfn_version } ∧
    (inc < 32768 →
      ((ws_bbr_nvm_info_read inc
          (ws_bbr_nvm_info_write env bsi pan_id pan_version lfn_version) out).pan_version +
        65536 - pan_version) % 65536 < 32768) ∧
    ∀ (ret : Int) (key value : List Nat) (o : br_info),
      key ≠ c_str "bsi" → key ≠ c_str "pan_id" → key ≠ c_str "pan_version" →
      key ≠ c_str "lfn_version" → ws_bbr_nvm_info_read_line inc ret key value o = o := by
  have hread : ws_bbr_nvm_info_read inc
      (ws_bbr_nvm_info_write env bsi pan_id pan_version lfn_version) out =
      { bsi := bsi, pan_id := pan_id, pan_version := (pan_version + inc) % 65536,
        lfn_version := lfn_version } := by
    have hw : ws_bbr_nvm_info_write env bsi pan_id pan_version lfn_version =
        { env with
          br_info_file :=
            some (br_info_text env.version_daemon_api bsi pan_id pan_version lfn_version) } := by
      unfold ws_bbr_nvm_info_write
      rw [if_neg (by rw [hopen]; simp)]
    rw [hw]
    unfold ws_bbr_nvm_info_read
    rw [if_neg (by rw [hopen]; simp)]
    simp only [br_info_text_lines]
    rw [ws_bbr_nvm_info_read_loop_key_value inc _ _ _ _ (by decide) (by decide)
      (printf_hash_0x_chars 8 _).1 (printf_hash_0x_chars 8 _).2]
    rw [ws_bbr_nvm_info_read_loop,
      show storage_parse_line (c_str "# Broadcast Schedule Identifier") = none by decide]
    simp only []
    rw [ws_bbr_nvm_info_read_loop_key_value inc _ _ _ _ (by decide) (by decide)
      (printf_d_chars _).1 (printf_d_chars _).2]
    rw [ws_bbr_nvm_info_read_loop_key_value inc _ _ _ _ (by decide) (by decide)
      (printf_hash_0x_chars 4 _).1 (printf_hash_0x_chars 4 _).2]
    rw [ws_bbr_nvm_info_read_loop_key_value inc _ _ _ _ (by decide) (by decide)
      (printf_d_chars _).1 (printf_d_chars _).2]
    rw [ws_bbr_nvm_info_read_loop_key_value inc _ _ _ _ (by decide) (by decide)
      (printf_d_chars _).1 (printf_d_chars _).2]
    rw [ws_bbr_nvm_info_read_loop]
    have e1 : ∀ v o, ws_bbr_nvm_info_read_line inc 0 (c_str "api_version") v o = o := by
      intro v o
      unfold ws_bbr_nvm_info_read_line
      rw [if_neg (by decide), if_neg (by decide), if_neg (by decide), if_neg (by decide),
        if_neg (by decide), if_pos (by decide)]
    have e2 : ∀ v o, ws_bbr_nvm_info_read_line inc 0 (c_str "bsi") v o =
        { o with bsi := strtoul v % 65536 } := by
      intro v o
      unfold ws_bbr_nvm_info_read_line
      rw [if_neg (by decide), if_pos (by decide)]
    have e3 : ∀ v o, ws_bbr_nvm_info_read_line inc 0 (c_str "pan_id") v o =
        { o with pan_id := strtoul v % 65536 } := by
      intro v o
      unfold ws_bbr_nvm_info_read_line
      rw [if_neg (by decide), if_neg (by decide), if_pos (by decide)]
    have e4 : ∀ v o, ws_bbr_nvm_info_read_line inc 0 (c_str "pan_version") v o =
        { o with pan_version := (strtoul v + inc) % 65536 } := by
      intro v o
      unfold ws_bbr_nvm_info_read_line
      rw [if_neg (by decide), if_neg (by decide), if_neg (by decide), if_pos (by decide)]
    have e5 : ∀ v o, ws_bbr_nvm_info_read_line inc 0 (c_str "lfn_version") v o =
        { o with lfn_version := strtoul v % 65536 } := by
      intro v o
      unfold ws_bbr_nvm_info_read_line
      rw [if_neg (by decide), if_neg (by decide), if_neg (by decide), if_neg (by decide),
        if_pos (by decide)]
    have hb : (65536 : Nat) < 2 ^ 64 := by decide
    rw [e1, e2, e3, e4, e5, strtoul_printf_d bsi (by omega),
      strtoul_printf_hash_04x pan_id (by omega), strtoul_printf_d pan_version (by omega),
      strtoul_printf_d lfn_version (by omega), Nat.mod_eq_of_lt h1, Nat.mod_eq_of_lt h2,
      Nat.mod_eq_of_lt h4]
  refine ⟨hread, ?_, ?_⟩
  · intro hinc
    rw [hread]
    show ((pan_version + inc) % 65536 + 65536 - pan_version) % 65536 < 32768
    omega
  · intro ret key value o k1 k2 k3 k4
    unfold ws_bbr_nvm_info_read_line fnmatch
    have q1 : ¬ c_str "bsi" = key := fun h => k1 h.symm
    have q2 : ¬ c_str "pan_id" = key := fun h => k2 h.symm
    have q3 : ¬ c_str "pan_version" = key := fun h => k3 h.symm
    have q4 : ¬ c_str "lfn_version" = key := fun h => k4 h.symm
    simp only [if_neg q1, if_neg q2, if_neg q3, if_neg q4]
    split_ifs <;> first | rfl | (exfalso; omega)

/-- Witness of C16: BSI 30, PAN ID 0xabcd, PAN version 65535 and LFN version 7 with an
increment of 1: the PAN version read back is 0, one step after 65535 modulo 2^16. -/
theorem ws_bbr_nvm_info_round_trip_witness :
    ws_bbr_nvm_info_read 1 (ws_bbr_nvm_info_write bbr_env_example 30 0xabcd 65535 7)
        { bsi := 0, pan_id := 0, pan_version := 0, lfn_version := 0 } =
      { bsi := 30, pan_id := 0xabcd, pan_version := 0, lfn_version := 7 } ∧
    ((ws_bbr_nvm_info_read 1 (ws_bbr_nvm_info_write bbr_env_example 30 0xabcd 65535 7)
        { bsi := 0, pan_id := 0, pan_version := 0, lfn_version := 0 }).pan_version +
      65536 - 65535) % 65536 < 32768 :=
  ⟨(ws_bbr_nvm_info_round_trip 1 bbr_env_example
      { bsi := 0, pan_id := 0, pan_version := 0, lfn_version := 0 } 30 0xabcd 65535 7 rfl
      (by decide) (by decide) (by decide) (by decide)).1,
    (ws_bbr_nvm_info_round_trip 1 bbr_env_example
      { bsi := 0, pan_id := 0, pan_version := 0, lfn_version := 0 } 30 0xabcd 65535 7 rfl
      (by decide) (by decide) (by decide) (by decide)).2.1 (by decide)⟩

/-! ### TR51 channel function: nearest prime -/

/-- The loop of `tr51_calc_nearest_prime_number` from a value `s` of at least 3 and a
divider `d` under which no number divides `s`: with enough fuel it returns the
prime `q` when no number from `s` to `q - 1` is prime. -/
theorem tr51_calc_nearest_prime_number_loop_spec (q : Nat) (hq : q.Prime) (hq16 : q < 65536) :
    ∀ (fuel s d : Nat), 3 ≤ s → s ≤ q → (∀ p, s ≤ p → p < q → ¬ p.Prime) →
      2 ≤ d → d < s → (∀ k, d < k → k < s → ¬ k ∣ s) →
      d + (q - s) * 65536 ≤ fuel →
      tr51_calc_nearest_prime_number_loop fuel s d = some q := by
  intro fuel
  induction fuel with
  | zero =>
    intro s d _ _ _ hd _ _ hf
    omega
  | succ fuel ih =>
    intro s d hs hsq hnp hd hds hdiv hf
    rw [tr51_calc_nearest_prime_number_loop]
    rw [if_neg (by omega), if_neg (by omega)]
    have hd1 : (d + 65535) % 65536 = d - 1 := by omega
    simp only [hd1]
    by_cases hr : s % d ≠ 0
    · rw [if_pos hr]
      by_cases h2 : d - 1 = 1
      · rw [if_pos h2]
        have hsp : s.Prime := by
          rw [Nat.prime_def_lt']
          refine ⟨by omega, ?_⟩
          intro m hm2 hms hmd
          by_cases hmd2 : d < m
          · exact hdiv m hmd2 hms hmd
          · have hm : m = d := by omega
            rw [hm] at hmd
            exact hr (Nat.mod_eq_zero_of_dvd hmd)
        have hsq2 : s = q := by
          by_contra hne
          exact hnp s (Nat.le_refl s) (by omega) hsp
        rw [hsq2]
      · rw [if_neg h2]
        apply ih s (d - 1) hs hsq hnp (by omega) (by omega)
        · intro k hk hks
          by_cases hkd : d < k
          · exact hdiv k hkd hks
          · have hk' : k = d := by omega
            rw [hk']
            intro hdv
            exact hr (Nat.mod_eq_zero_of_dvd hdv)
        · omega
    · rw [if_neg hr]
      have hdv : d ∣ s := Nat.dvd_of_mod_eq_zero (by omega)
      have hnsp : ¬ s.Prime := by
        intro hp
        rcases (Nat.dvd_prime hp).1 hdv with h | h
        · omega
        · omega
      have hsq2 : s < q := by
        rcases Nat.lt_or_ge s q with h | h
        · exact h
        · have : s = q := by omega
          rw [this] at hnsp
          exact absurd hq hnsp
      have hs1 : (s + 1) % 65536 = s + 1 := by omega
      simp only [hs1]
      have hs2 : (s + 1 + 65535) % 65536 = s := by omega
      rw [hs2]
      apply ih (s + 1) s (by omega) (by omega)
      · intro p hp hpq
        exact hnp p (by omega) hpq
      · omega
      · omega
      · intro k hk hks
        omega
      · have : (q - s) = (q - (s + 1)) + 1 := by omega
        rw [this] at hf
        have hmul : (q - (s + 1) + 1) * 65536 = (q - (s + 1)) * 65536 + 65536 := by ring
        rw [hmul] at hf
        omega

/-- The largest prime that fits 16 bits. -/
theorem prime_65521 : Nat.Prime 65521 := by norm_num

/-- From 3 to 65521, `tr51_calc_nearest_prime_number` returns the least prime that is
not below its argument. -/
theorem tr51_calc_nearest_prime_number_least (start_value : Nat) (h3 : 3 ≤ start_value)
    (h16 : start_value ≤ 65521) :
    ∃ q, tr51_calc_nearest_prime_number start_value = some q ∧ q.Prime ∧ start_value ≤ q ∧
      q ≤ 65521 ∧ ∀ p, start_value ≤ p → p < q → ¬ p.Prime := by
  have hex : ∃ q, start_value ≤ q ∧ q.Prime := ⟨65521, h16, prime_65521⟩
  classical
  let q := Nat.find hex
  have hq : start_value ≤ q ∧ q.Prime := Nat.find_spec hex
  have hmin : ∀ p, start_value ≤ p → p < q → ¬ p.Prime := by
    intro p hp hpq hpp
    exact Nat.find_min hex hpq ⟨hp, hpp⟩
  have hq16 : q ≤ 65521 := Nat.find_min' hex ⟨h16, prime_65521⟩
  refine ⟨q, ?_, hq.2, hq.1, hq16, hmin⟩
  unfold tr51_calc_nearest_prime_number
  rw [if_neg (by omega)]
  have hd : (start_value + 65535) % 65536 = start_value - 1 := by omega
  rw [hd]
  apply tr51_calc_nearest_prime_number_loop_spec q hq.2 (by omega) _ start_value
    (start_value - 1) h3 hq.1 hmin (by omega) (by omega)
  · intro k hk hks
    omega
  · have : (q - start_value) * 65536 ≤ 65521 * 65536 := Nat.mul_le_mul_right _ (by omega)
    omega

/-- C24: for every `start_value` from 2 to 65521, `tr51_calc_nearest_prime_number`
ends within its fuel without a division by zero and returns a prime that is not
below `start_value`; below 2 it returns 0. -/
theorem tr51_calc_nearest_prime_number_prime (start_value : Nat) :
    (start_value < 2 → tr51_calc_nearest_prime_number start_value = some 0) ∧
    (2 ≤ start_value → start_value ≤ 65521 →
      ∃ q, tr51_calc_nearest_prime_number start_value = some q ∧ q.Prime ∧
        start_value ≤ q) := by
  refine ⟨?_, ?_⟩
  · intro h
    unfold tr51_calc_nearest_prime_number
    rw [if_pos h]
  · intro h2 h16
    rcases Nat.eq_or_lt_of_le h2 with h | h
    · subst h
      exact ⟨3, by decide, by norm_num, by decide⟩
    · obtain ⟨q, a, b, c, -, -⟩ := tr51_calc_nearest_prime_number_least start_value h h16
      exact ⟨q, a, b, c⟩

/-- Witness of C24: from 90 the function returns the prime 97. -/
theorem tr51_calc_nearest_prime_number_prime_witness :
    ∃ q, tr51_calc_nearest_prime_number 90 = some q ∧ q.Prime ∧ 90 ≤ q :=
  (tr51_calc_nearest_prime_number_prime 90).2 (by decide) (by decide)

/-- C25, the code at the failing input: 2 is prime, and from 2
`tr51_calc_nearest_prime_number` returns 3: its first division is by 1, which it
takes for a divisor of 2. -/
theorem tr51_calc_nearest_prime_number_two :
    Nat.Prime 2 ∧ tr51_calc_nearest_prime_number 2 = some 3 :=
  ⟨Nat.prime_two, by decide⟩

/-! ### TR51 channel function: hopping sequence -/

/-- More fuel does not change a result of the loop nest of
`tr51_calculate_channel_table`. -/
theorem tr51_calculate_channel_table_loop_mono (n : Nat) :
    ∀ (fuel d : Nat) (table : List Int) (seed i : Nat) (j : Int) (k : Nat) (r : List Int),
      tr51_calculate_channel_table_loop n fuel table seed i j k = some r →
      tr51_calculate_channel_table_loop n (fuel + d) table seed i j k = some r := by
  intro fuel
  induction fuel with
  | zero =>
    intro d table seed i j k r h
    rw [tr51_calculate_channel_table_loop] at h
    cases h
  | succ fuel ih =>
    intro d table seed i j k r h
    rw [show fuel + 1 + d = (fuel + d) + 1 by omega]
    rw [tr51_calculate_channel_table_loop] at h ⊢
    by_cases hk : k ≤ i
    · rw [if_pos hk] at h ⊢
      by_cases hj : j = table.getD k 0
      · rw [if_pos hj] at h ⊢
        exact ih d _ _ _ _ _ r h
      · rw [if_neg hj] at h ⊢
        exact ih d _ _ _ _ _ r h
    · rw [if_neg hk] at h ⊢
      by_cases hi : i + 1 < n
      · simp only [hi, if_true] at h ⊢
        exact ih d _ _ _ _ _ r h
      · simp only [hi, if_false] at h ⊢
        exact h

/-- The inner loop of `tr51_calculate_channel_table` goes through the elements `k` to
`i` of the table when none of them is the value drawn. -/
theorem tr51_calculate_channel_table_loop_scan (n : Nat) :
    ∀ (m fuel : Nat) (table : List Int) (seed i : Nat) (j : Int) (k : Nat),
      k + m = i + 1 → (∀ t, k ≤ t → t ≤ i → j ≠ table.getD t 0) →
      tr51_calculate_channel_table_loop n (fuel + m) table seed i j k =
        tr51_calculate_channel_table_loop n fuel table seed i j (i + 1) := by
  intro m
  induction m with
  | zero =>
    intro fuel table seed i j k hk _
    have : k = i + 1 := by omega
    rw [this]
    rfl
  | succ m ih =>
    intro fuel table seed i j k hk hne
    rw [show fuel + (m + 1) = (fuel + m) + 1 by omega, tr51_calculate_channel_table_loop,
      if_pos (by omega), if_neg (hne k (Nat.le_refl k) (by omega))]
    exact ih fuel table seed i j (k + 1) (by omega) (fun t ht hti => hne t (by omega) hti)

/-- The end of a row of `tr51_calculate_channel_table`: the value drawn is stored and
the next row starts with a new value, or the table is finished. -/
theorem tr51_calculate_channel_table_loop_row (n fuel : Nat) (table : List Int) (seed i : Nat)
    (j : Int) :
    tr51_calculate_channel_table_loop n (fuel + 1) table seed i j (i + 1) =
      if i + 1 < n then
        tr51_calculate_channel_table_loop n fuel (table.set i j) (tr51_get_rand seed) (i + 1)
          ((tr51_get_rand seed % n : Nat) : Int) 0
      else some (table.set i j) := by
  rw [tr51_calculate_channel_table_loop, if_neg (by omega)]

/-- When the values drawn are all different, the loop nest of
`tr51_calculate_channel_table` gives the table built row by row, with a fuel of
`n + 2` for each row. -/
theorem tr51_calculate_channel_table_loop_distinct (n : Nat) :
    ∀ (rows : Nat) (table : List Int) (seed i : Nat) (j : Int) (r : List Int),
      tr51_calculate_channel_table_distinct n rows table seed i j = some r → i < n →
      tr51_calculate_channel_table_loop n (rows * (n + 2)) table seed i j 0 = some r := by
  intro rows
  induction rows with
  | zero =>
    intro table seed i j r h _
    rw [tr51_calculate_channel_table_distinct] at h
    cases h
  | succ rows ih =>
    intro table seed i j r h hin
    rw [tr51_calculate_channel_table_distinct] at h
    by_cases hc : i < table.length ∧ j ∉ table.take (i + 1)
    · rw [if_pos hc] at h
      have hne : ∀ t, 0 ≤ t → t ≤ i → j ≠ table.getD t 0 := by
        intro t _ hti hj
        apply hc.2
        have htl : t < table.length := by omega
        rw [hj, List.getD_eq_getElem table 0 htl]
        have htk : t < (table.take (i + 1)).length := by
          rw [List.length_take]
          omega
        have hget : table[t] = (table.take (i + 1))[t] :=
          List.getElem_take' table htl (show t < i + 1 by omega)
        rw [hget]
        exact List.getElem_mem htk
      have hfuel : (rows + 1) * (n + 2) = (rows * (n + 2) + (n - i) + 1) + (i + 1) := by
        have : (rows + 1) * (n + 2) = rows * (n + 2) + (n + 2) := by ring
        omega
      rw [hfuel, tr51_calculate_channel_table_loop_scan n (i + 1) _ table seed i j 0 (by omega) hne,
        tr51_calculate_channel_table_loop_row]
      by_cases hi : i + 1 < n
      · simp only [hi, if_true] at h ⊢
        exact tr51_calculate_channel_table_loop_mono n _ (n - i) _ _ _ _ _ r
          (ih _ _ _ _ r h hi)
      · simp only [hi, if_false] at h ⊢
        exact h
    · rw [if_neg hc] at h
      cases h

/-- The channel table for 128 channels, row by row: the 128 values drawn are all
different. -/
theorem tr51_channel_table_128_distinct :
    tr51_calculate_channel_table_distinct 128 128 (List.replicate 131 (-1)) 1103527590 0 38 =
      some tr51_channel_table_128 := by
  decide!

/-- The table that `tr51_init_channel_table` builds, from the nearest prime, the table
after the initialisation to -1 and the first value drawn. -/
theorem tr51_init_channel_table_eq (fuel : Nat) (table : List Int) (n p seed : Nat)
    (filled : List Int) (j : Int) (r : Option (List Int))
    (hp : tr51_calc_nearest_prime_number n = some p)
    (hfilled : List.replicate p (-1) ++ table.drop p = filled)
    (hseed : tr51_get_rand 1 = seed) (hj : ((seed % n : Nat) : Int) = j) (hn : 0 < n)
    (hloop : tr51_calculate_channel_table_loop n fuel filled seed 0 j 0 = r) :
    tr51_init_channel_table fuel table n = r := by
  unfold tr51_init_channel_table
  rw [hp]
  unfold tr51_calculate_channel_table
  simp only [hfilled, hseed, hj, hn, if_true]
  exact hloop

/-- The channel table that `tr51_init_channel_table` builds for 128 channels. -/
theorem tr51_init_channel_table_128 :
    tr51_init_channel_table 16640 (List.replicate 131 0) 128 = some tr51_channel_table_128 := by
  have h0 := tr51_calculate_channel_table_loop_distinct 128 128 _ _ _ _ _
    tr51_channel_table_128_distinct (by decide)
  have hp : tr51_calc_nearest_prime_number 128 = some 131 := by decide!
  have ht : List.replicate 131 (-1 : Int) ++ (List.replicate 131 (0 : Int)).drop 131 =
      List.replicate 131 (-1) := by decide!
  have hr : tr51_get_rand 1 = 1103527590 := by decide
  have hj : ((1103527590 % 128 : Nat) : Int) = 38 := by decide
  exact tr51_init_channel_table_eq 16640 _ 128 131 1103527590 _ 38 _ hp ht hr hj (by decide) h0

/-- C27, the code at the failing input: for 128 channels the table has the prime
length 131, and with `first_element` 0 and `step_size` 126 the `uint8_t` sum
`index + step_size` wraps at index 130 (256 becomes 0 instead of 125 modulo 131), so
that the sequence comes back to index 0 after 103 slots: the value returned is 128,
but channel 38 is listed at the slots 0 and 103 and channel 3 is not listed. -/
theorem tr51_calculate_hopping_sequence_wraps :
    tr51_calc_nearest_prime_number 128 = some 131 ∧
    tr51_init_channel_table 16640 (List.replicate 131 0) 128 = some tr51_channel_table_128 ∧
    (tr51_calculate_hopping_sequence tr51_channel_table_128 131 0 126 (List.replicate 256 0)
      none).1 = 128 ∧
    (tr51_calculate_hopping_sequence tr51_channel_table_128 131 0 126 (List.replicate 256 0)
      none).2.getD 0 0 = 38 ∧
    (tr51_calculate_hopping_sequence tr51_channel_table_128 131 0 126 (List.replicate 256 0)
      none).2.getD 103 0 = 38 ∧
    3 ∉ (tr51_calculate_hopping_sequence tr51_channel_table_128 131 0 126
      (List.replicate 256 0) none).2.take 128 := by
  have h1 : tr51_calc_nearest_prime_number 128 = some 131 := by decide!
  have h2 : tr51_init_channel_table 16640 (List.replicate 131 0) 128 =
      some tr51_channel_table_128 := tr51_init_channel_table_128
  have h3 : (tr51_calculate_hopping_sequence tr51_channel_table_128 131 0 126
      (List.replicate 256 0) none).1 = 128 := by decide!
  have h4 : (tr51_calculate_hopping_sequence tr51_channel_table_128 131 0 126
      (List.replicate 256 0) none).2.getD 0 0 = 38 := by decide!
  have h5 : (tr51_calculate_hopping_sequence tr51_channel_table_128 131 0 126
      (List.replicate 256 0) none).2.getD 103 0 = 38 := by decide!
  have h6 : 3 ∉ (tr51_calculate_hopping_sequence tr51_channel_table_128 131 0 126
      (List.replicate 256 0) none).2.take 128 := by decide!
  exact ⟨h1, h2, h3, h4, h5, h6⟩

/-! ### Neighbor unreachability detection -/

/-- C26, the code at the failing input: a neighbor put in state PROBE by
`ipv6_nud_set_state` is sent one neighbor solicitation, and `ipv6_send_ns` sets it
REACHABLE at once: after the call the state is REACHABLE with `nud_probe_count` 1 and
the timer started for `probe_delay_ms`; at the expiry of the timer the state becomes
STALE with no timer running, and at no point is the entry deleted or a second
solicitation sent. -/
theorem ipv6_nud_probe_sets_reachable :
    (ipv6_nud_set_state 4 ipv6_ctx_example 0 IPV6_NUD_PROBE).map
        (fun c => ((neigh_at c 0).nud_state, (neigh_at c 0).nud_probe_count,
          (neigh_at c 0).nud_timer, c.neigh_cache.length, c.calls.length)) =
      some (IPV6_NUD_REACHABLE, 1, some ipv6_ctx_example.probe_delay_ms, 1, 1) ∧
    ((ipv6_nud_set_state 4 ipv6_ctx_example 0 IPV6_NUD_PROBE).bind
        (fun c => ipv6_nud_expire 4 c 0)).map
        (fun c => ((neigh_at c 0).nud_state, (neigh_at c 0).nud_probe_count,
          (neigh_at c 0).nud_timer, c.neigh_cache.length, c.calls.length)) =
      some (IPV6_NUD_STALE, 0, none, 1, 1) := by
  decide!

/-! ### Border router: channel masks, RCP reset, certificate policy -/

/-- A byte that is not 0 has one of its 8 bits set. -/
theorem byte_bit_set (b : Nat) (hb : b < 256) (h0 : b ≠ 0) :
    ∃ k, k < 8 ∧ b &&& (1 <<< k) ≠ 0 := by
  interval_cases b <;> first | exact absurd rfl h0 | decide

/-- An array of which `memzcmp` finds a byte that is not 0 has a bit set. -/
theorem memzcmp_bittest (mask : List Nat) (size : Nat) (h : memzcmp mask size = true) :
    ∃ i, i < 8 * size ∧ bittest mask i = true := by
  unfold memzcmp at h
  rw [List.any_eq_true] at h
  obtain ⟨j, hj, hb⟩ := h
  have hjs : j < size := List.mem_range.1 hj
  have hne : byte_at mask j ≠ 0 := by simpa using hb
  have hlt : byte_at mask j < 256 := Nat.mod_lt _ (by decide)
  obtain ⟨k, hk, hbit⟩ := byte_bit_set (byte_at mask j) hlt hne
  refine ⟨8 * j + k, by omega, ?_⟩
  unfold bittest
  have h1 : (8 * j + k) / 8 = j := by omega
  have h2 : (8 * j + k) % 8 = k := by omega
  rw [h1, h2]
  simpa using hbit

/-- C21: when the channel check of `wsbr_configure_ws` ends without `FATAL`, the
unicast and the broadcast channel masks are the same 32 bytes, the regulatory mask
of the channel parameters intersected with the allowed channels, and each has at
least one of its 256 bits set. -/
theorem wsbr_configure_ws_chan_mask_not_empty (ws_chan_mask_calc_reg : Nat → Nat → List Nat)
    (config : wsbrd_conf) (fhss fhss1 : wsbr_fhss_config)
    (h : wsbr_configure_ws_chan_mask ws_chan_mask_calc_reg config fhss = some fhss1) :
    fhss1.bc_chan_mask = fhss1.uc_chan_mask ∧
    fhss1.uc_chan_mask =
      bitand (ws_chan_mask_calc_reg fhss1.chan_params fhss1.regional_regulation)
        config.ws_allowed_channels 256 ∧
    (∃ i, i < 256 ∧ bittest fhss1.uc_chan_mask i = true) ∧
    (∃ i, i < 256 ∧ bittest fhss1.bc_chan_mask i = true) := by
  unfold wsbr_configure_ws_chan_mask at h
  lift_lets at h
  extract_lets f1 f2 f3 f4 f5 at h
  split at h
  · cases h
  · rename_i hz
    have hz2 : memzcmp f5.uc_chan_mask 32 = true := by simpa using hz
    have hf : fhss1 = f5 := (Option.some.inj h).symm
    have hbc : f5.bc_chan_mask = f5.uc_chan_mask := rfl
    obtain ⟨i, hi, hb⟩ := memzcmp_bittest f5.uc_chan_mask 32 hz2
    rw [hf]
    refine ⟨hbc, rfl, ⟨i, by omega, hb⟩, ⟨i, by omega, ?_⟩⟩
    rw [hbc]
    exact hb

/-- Witness of C21: a regulatory mask of the channels 0 to 15 intersected with the
allowed channels 8 to 23 passes the check, and channel 8 is in both masks. -/
theorem wsbr_configure_ws_chan_mask_not_empty_witness :
    ∃ fhss1, wsbr_configure_ws_chan_mask ws_chan_mask_calc_reg_example wsbrd_conf_example
        wsbr_fhss_config_example = some fhss1 ∧
      fhss1.bc_chan_mask = fhss1.uc_chan_mask ∧
      (∃ i, i < 256 ∧ bittest fhss1.uc_chan_mask i = true) ∧
      bittest fhss1.uc_chan_mask 8 = true := by
  have h : wsbr_configure_ws_chan_mask ws_chan_mask_calc_reg_example wsbrd_conf_example
      wsbr_fhss_config_example =
      some { chan_params := 1, regional_regulation := 0,
             uc_chan_mask := [0, 0xff] ++ List.replicate 30 0,
             bc_chan_mask := [0, 0xff] ++ List.replicate 30 0 } := by decide
  obtain ⟨a, -, c, -⟩ := wsbr_configure_ws_chan_mask_not_empty ws_chan_mask_calc_reg_example
    wsbrd_conf_example wsbr_fhss_config_example _ h
  exact ⟨_, h, a, c, by decide⟩

/-- C22, the claim as stated fails: a reset indication from an RCP with API 2.0.0
that has already sent its list of radio configurations ends the process with the
exit code 3, although its API version is not older than 2.0.0. -/
theorem wsbr_handle_reset_counterexample :
    ¬ (wsbr_handle_reset { has_rf_list := true, version_fw := 0, version_api := 0x02000000 } =
        some 3 ↔
      version_older_than 0x02000000 2 0 0 = true) := by
  decide

/-- C22, amended: `wsbr_handle_reset` ends the process with the exit code 3 if and
only if the RCP has already sent its list of radio configurations (`has_rf_list`) or
its API version is older than 2.0.0 (below 0x02000000); otherwise it returns
normally. -/
theorem wsbr_handle_reset_fatal (rcp : rcp) :
    (wsbr_handle_reset rcp = some 3 ↔
      (rcp.has_rf_list = true ∨ version_older_than rcp.version_api 2 0 0 = true)) ∧
    (wsbr_handle_reset rcp = some 3 ∨ wsbr_handle_reset rcp = none) ∧
    (version_older_than rcp.version_api 2 0 0 = true ↔ rcp.version_api < 0x02000000) := by
  refine ⟨?_, ?_, ?_⟩
  · unfold wsbr_handle_reset
    cases h1 : rcp.has_rf_list <;> cases h2 : version_older_than rcp.version_api 2 0 0 <;> simp
  · unfold wsbr_handle_reset
    cases h1 : rcp.has_rf_list <;> cases h2 : version_older_than rcp.version_api 2 0 0 <;> simp
  · unfold version_older_than
    rw [show VERSION 2 0 0 = 0x02000000 by decide]
    simp

/-- The loop over the subject alternative names returns 0 when it starts from 0 or
meets a name that parses as an other name with a hardware module name, and the value
it starts from otherwise. -/
theorem subject_alternative_name_validate_loop_eq (l : List mbedtls_san) :
    ∀ result : Int, subject_alternative_name_validate_loop l result =
      if ∃ san ∈ l, san.parse_ret = 0 ∧ san.type = MBEDTLS_X509_SAN_OTHER_NAME ∧
          MBEDTLS_OID_CMP MBEDTLS_OID_ON_HW_MODULE_NAME san.hardware_module_name_oid = true
      then 0 else result := by
  induction l with
  | nil =>
    intro result
    simp [subject_alternative_name_validate_loop]
  | cons s rest ih =>
    intro result
    rw [subject_alternative_name_validate_loop]
    rw [ih]
    by_cases hs : s.parse_ret = 0 ∧ s.type = MBEDTLS_X509_SAN_OTHER_NAME ∧
        MBEDTLS_OID_CMP MBEDTLS_OID_ON_HW_MODULE_NAME s.hardware_module_name_oid = true
    · have hex : ∃ san ∈ s :: rest, san.parse_ret = 0 ∧
          san.type = MBEDTLS_X509_SAN_OTHER_NAME ∧
          MBEDTLS_OID_CMP MBEDTLS_OID_ON_HW_MODULE_NAME san.hardware_module_name_oid = true :=
        ⟨s, List.mem_cons_self _ _, hs⟩
      rw [if_pos hex,
        if_pos (show s.parse_ret = 0 ∧ s.type = MBEDTLS_X509_SAN_OTHER_NAME from ⟨hs.1, hs.2.1⟩),
        if_pos hs.2.2]
      split <;> rfl
    · by_cases hr : ∃ san ∈ rest, san.parse_ret = 0 ∧
          san.type = MBEDTLS_X509_SAN_OTHER_NAME ∧
          MBEDTLS_OID_CMP MBEDTLS_OID_ON_HW_MODULE_NAME san.hardware_module_name_oid = true
      · have hex : ∃ san ∈ s :: rest, san.parse_ret = 0 ∧
            san.type = MBEDTLS_X509_SAN_OTHER_NAME ∧
            MBEDTLS_OID_CMP MBEDTLS_OID_ON_HW_MODULE_NAME san.hardware_module_name_oid = true := by
          obtain ⟨x, hx, hp⟩ := hr
          exact ⟨x, List.mem_cons_of_mem _ hx, hp⟩
        rw [if_pos hr, if_pos hex]
      · have hex : ¬ ∃ san ∈ s :: rest, san.parse_ret = 0 ∧
            san.type = MBEDTLS_X509_SAN_OTHER_NAME ∧
            MBEDTLS_OID_CMP MBEDTLS_OID_ON_HW_MODULE_NAME san.hardware_module_name_oid = true := by
          rintro ⟨x, hx, hp⟩
          rcases List.mem_cons.1 hx with h | h
          · subst h
            exact hs hp
          · exact hr ⟨x, h, hp⟩
        rw [if_neg hr, if_neg hex]
        by_cases h1 : s.parse_ret = 0 ∧ s.type = MBEDTLS_X509_SAN_OTHER_NAME
        · rw [if_pos h1]
          have h2 : ¬ MBEDTLS_OID_CMP MBEDTLS_OID_ON_HW_MODULE_NAME
              s.hardware_module_name_oid = true := fun h => hs ⟨h1.1, h1.2, h⟩
          rw [if_neg h2]
        · rw [if_neg h1]

/-- What the leaf certificate check computes, in the terms of its own tests: it
returns MBEDTLS_ERR_X509_CERT_VERIFY_FAILED and sets MBEDTLS_X509_BADCERT_OTHER in
`flags` if and only if `ext_cert_valid` is set and either no subject alternative name
parses as an other name for which `MBEDTLS_OID_CMP` is non-zero, that is whose OID
differs from id-on-hardwareModuleName, or the check of the Wi-SUN FAN extended key
usage fails; in every other case it returns 0 and leaves `flags` unchanged. -/
theorem tls_sec_prot_lib_x509_crt_idevid_ldevid_verify_eq (sec : tls_security_t)
    (crt : mbedtls_x509_crt) (flags : Nat) (hflags : flags < 4294967296) :
    (tls_sec_prot_lib_x509_crt_idevid_ldevid_verify sec crt flags =
        (MBEDTLS_ERR_X509_CERT_VERIFY_FAILED, flags ||| MBEDTLS_X509_BADCERT_OTHER) ↔
      (sec.ext_cert_valid = true ∧
        ((¬ ∃ san ∈ crt.subject_alt_names :: crt.subject_alt_names_next,
            san.parse_ret = 0 ∧ san.type = MBEDTLS_X509_SAN_OTHER_NAME ∧
            MBEDTLS_OID_CMP MBEDTLS_OID_ON_HW_MODULE_NAME san.hardware_module_name_oid = true) ∨
          crt.check_extended_key_usage_wisun_fan ≠ 0))) ∧
    (¬ (sec.ext_cert_valid = true ∧
        ((¬ ∃ san ∈ crt.subject_alt_names :: crt.subject_alt_names_next,
            san.parse_ret = 0 ∧ san.type = MBEDTLS_X509_SAN_OTHER_NAME ∧
            MBEDTLS_OID_CMP MBEDTLS_OID_ON_HW_MODULE_NAME san.hardware_module_name_oid = true) ∨
          crt.check_extended_key_usage_wisun_fan ≠ 0)) →
      tls_sec_prot_lib_x509_crt_idevid_ldevid_verify sec crt flags = (0, flags)) := by
  have hsan : tls_sec_prot_lib_subject_alternative_name_validate crt < 0 ↔
      ¬ ∃ san ∈ crt.subject_alt_names :: crt.subject_alt_names_next,
        san.parse_ret = 0 ∧ san.type = MBEDTLS_X509_SAN_OTHER_NAME ∧
        MBEDTLS_OID_CMP MBEDTLS_OID_ON_HW_MODULE_NAME san.hardware_module_name_oid = true := by
    unfold tls_sec_prot_lib_subject_alternative_name_validate
    rw [subject_alternative_name_validate_loop_eq]
    split
    · rename_i h
      exact ⟨fun h0 => absurd h0 (by decide), fun hn => absurd h hn⟩
    · rename_i h
      exact ⟨fun _ => h, fun _ => by decide⟩
  have heku : tls_sec_prot_lib_extended_key_usage_validate crt < 0 ↔
      crt.check_extended_key_usage_wisun_fan ≠ 0 := by
    unfold tls_sec_prot_lib_extended_key_usage_validate MBEDTLS_X509_CHECK_EXTENDED_KEY_USAGE
    by_cases h : crt.check_extended_key_usage_wisun_fan = 0
    · simp [h]
    · simp [h]
  have hor : (flags ||| MBEDTLS_X509_BADCERT_OTHER) % 4294967296 =
      flags ||| MBEDTLS_X509_BADCERT_OTHER := by
    apply Nat.mod_eq_of_lt
    exact Nat.or_lt_two_pow (n := 32) hflags (by decide)
  have hcond : (tls_sec_prot_lib_subject_alternative_name_validate crt < 0 ∨
      tls_sec_prot_lib_extended_key_usage_validate crt < 0) ↔
      ((¬ ∃ san ∈ crt.subject_alt_names :: crt.subject_alt_names_next,
          san.parse_ret = 0 ∧ san.type = MBEDTLS_X509_SAN_OTHER_NAME ∧
          MBEDTLS_OID_CMP MBEDTLS_OID_ON_HW_MODULE_NAME san.hardware_module_name_oid = true) ∨
        crt.check_extended_key_usage_wisun_fan ≠ 0) := or_congr hsan heku
  have hne : (0 : Int) ≠ MBEDTLS_ERR_X509_CERT_VERIFY_FAILED := by decide
  unfold tls_sec_prot_lib_x509_crt_idevid_ldevid_verify
  rw [hor]
  by_cases hc : tls_sec_prot_lib_subject_alternative_name_validate crt < 0 ∨
      tls_sec_prot_lib_extended_key_usage_validate crt < 0
  · rw [if_pos hc]
    cases hv : sec.ext_cert_valid
    · rw [if_neg (by simp)]
      refine ⟨⟨fun h => absurd (congrArg Prod.fst h) hne, fun h => by cases h.1⟩, fun _ => rfl⟩
    · rw [if_pos rfl]
      refine ⟨⟨fun _ => ⟨rfl, hcond.1 hc⟩, fun _ => rfl⟩, fun hn => absurd ⟨rfl, hcond.1 hc⟩ hn⟩
  · rw [if_neg hc]
    refine ⟨⟨fun h => absurd (congrArg Prod.fst h) hne, fun h => absurd (hcond.2 h.2) hc⟩,
      fun _ => rfl⟩

/-- C23, the code at the failing input: with `ext_cert_valid` set, a certificate
with the Wi-SUN FAN extended key usage whose subject alternative name parses as an
other name with the OID id-on-hardwareModuleName is refused with
MBEDTLS_ERR_X509_CERT_VERIFY_FAILED and MBEDTLS_X509_BADCERT_OTHER, while the same
certificate with another OID in that place is accepted: `MBEDTLS_OID_CMP` is non-zero
when the OIDs differ, and the code sets `result = 0` when it is non-zero. -/
theorem tls_sec_prot_lib_x509_crt_idevid_ldevid_verify_on_hw_module_name :
    mbedtls_x509_crt_example_on_hw_module_name.subject_alt_names.parse_ret = 0 ∧
    mbedtls_x509_crt_example_on_hw_module_name.subject_alt_names.type =
      MBEDTLS_X509_SAN_OTHER_NAME ∧
    mbedtls_x509_crt_example_on_hw_module_name.subject_alt_names.hardware_module_name_oid =
      MBEDTLS_OID_ON_HW_MODULE_NAME ∧
    tls_sec_prot_lib_extended_key_usage_validate mbedtls_x509_crt_example_on_hw_module_name = 0 ∧
    tls_sec_prot_lib_x509_crt_idevid_ldevid_verify { ext_cert_valid := true }
        mbedtls_x509_crt_example_on_hw_module_name 0 =
      (MBEDTLS_ERR_X509_CERT_VERIFY_FAILED, MBEDTLS_X509_BADCERT_OTHER) ∧
    mbedtls_x509_crt_example.subject_alt_names.hardware_module_name_oid ≠
      MBEDTLS_OID_ON_HW_MODULE_NAME ∧
    tls_sec_prot_lib_x509_crt_idevid_ldevid_verify { ext_cert_valid := true }
        { mbedtls_x509_crt_example with check_extended_key_usage_wisun_fan := 0 } 0 =
      (0, 0) := by
  decide

/-! ### EAPOL target selection: lowest PAN cost in the selected PAN -/

/-- C28: when at least one neighbor is eligible (a PA received and an unsecured RSL
not below the threshold), `ws_on_pan_selection_timer_timeout` writes to
`eapol_target_eui64` the EUI-64 of an eligible neighbor `n`, sets `ws.pan_id` to the
PAN ID of `n`, no eligible neighbor of that PAN has a PAN cost below the one of `n`,
and `last_pa_rx_time_s` is 0 for every neighbor in the state handed to the join state
transition; when no neighbor is eligible the state is left unchanged. -/
theorem ws_on_pan_selection_timer_timeout_lowest_cost (deps : ws_deps) (wsrd : wsrd) :
    ((∃ m ∈ wsrd.ws.neigh_table, pan_selection_skip wsrd m = false) →
      ∃ n w, n ∈ wsrd.ws.neigh_table ∧ pan_selection_skip wsrd n = false ∧
        ws_on_pan_selection_timer_timeout deps wsrd =
          deps.join_state_transition_pa_from_new_pan w ∧
        w.eapol_target_eui64 = n.eui64 ∧ w.ws.pan_id = n.pan_id ∧
        (∀ m ∈ wsrd.ws.neigh_table, pan_selection_skip wsrd m = false →
          m.pan_id = n.pan_id →
          deps.ws_neigh_get_pan_cost n ≤ deps.ws_neigh_get_pan_cost m) ∧
        w.ws.neigh_table =
          wsrd.ws.neigh_table.map
            (fun (candidate : ws_neigh) => { candidate with last_pa_rx_time_s := 0 }) ∧
        (∀ c ∈ w.ws.neigh_table, c.last_pa_rx_time_s = 0)) ∧
    ((∀ m ∈ wsrd.ws.neigh_table, pan_selection_skip wsrd m = true) →
      ws_on_pan_selection_timer_timeout deps wsrd = wsrd) := by
  obtain ⟨h1, h2⟩ := pan_selection_first_loop_mem deps wsrd wsrd.ws.neigh_table none
  refine ⟨?_, ?_⟩
  · intro h
    have hne := h2 (Or.inr h)
    rcases h1 with h1 | ⟨s, hsm, hse, hr⟩
    · exact absurd h1 hne
    obtain ⟨k1, -, k3⟩ :=
      pan_selection_second_loop_spec deps wsrd s.pan_id wsrd.ws.neigh_table s
    generalize hn : pan_selection_second_loop deps wsrd s.pan_id wsrd.ws.neigh_table s = n
      at k1 k3
    have hnp : n.pan_id = s.pan_id := by
      rcases k1 with k | ⟨-, -, k⟩
      · rw [k]
      · exact k
    have hnm : n ∈ wsrd.ws.neigh_table ∧ pan_selection_skip wsrd n = false := by
      rcases k1 with k | ⟨ka, kb, -⟩
      · rw [k]
        exact ⟨hsm, hse⟩
      · exact ⟨ka, kb⟩
    have hres : ∃ w, ws_on_pan_selection_timer_timeout deps wsrd =
        deps.join_state_transition_pa_from_new_pan w ∧
        w.eapol_target_eui64 = n.eui64 ∧ w.ws.pan_id = s.pan_id ∧
        w.ws.neigh_table =
          wsrd.ws.neigh_table.map
            (fun (candidate : ws_neigh) => { candidate with last_pa_rx_time_s := 0 }) := by
      unfold ws_on_pan_selection_timer_timeout
      simp only [hr, hn]
      exact ⟨_, rfl, rfl, rfl, rfl⟩
    obtain ⟨w, hw1, hw2, hw3, hw4⟩ := hres
    refine ⟨n, w, hnm.1, hnm.2, hw1, hw2, hw3.trans hnp.symm, ?_, hw4, ?_⟩
    · intro m hm hme hmp
      exact k3 m hm hme (hmp.trans hnp)
    · intro c hc
      rw [hw4] at hc
      obtain ⟨c0, -, hc0⟩ := List.mem_map.1 hc
      rw [← hc0]
  · intro hall
    rcases h1 with h1 | ⟨s, hsm, hse, -⟩
    · unfold ws_on_pan_selection_timer_timeout
      rw [h1]
    · rw [hall s hsm] at hse
      cases hse

/-- Witness of C28, on the two candidates of PAN 0x1234: the neighbor written has the
PAN cost 2 and the PAN ID written is 0x1234. -/
theorem ws_on_pan_selection_timer_timeout_lowest_cost_witness :
    ∃ n w, n ∈ wsrd_example_two_candidates.ws.neigh_table ∧
      ws_on_pan_selection_timer_timeout ws_deps_example wsrd_example_two_candidates =
        ws_deps_example.join_state_transition_pa_from_new_pan w ∧
      w.eapol_target_eui64 = n.eui64 ∧ w.ws.pan_id = 0x1234 ∧
      (∀ c ∈ w.ws.neigh_table, c.last_pa_rx_time_s = 0) := by
  obtain ⟨n, w, a, -, c, d, e, -, -, g⟩ :=
    (ws_on_pan_selection_timer_timeout_lowest_cost ws_deps_example
      wsrd_example_two_candidates).1
      ⟨ws_neigh_example [2, 2, 2, 2, 2, 2, 2, 2] 0x1234 50 256 { num := 1, den := 1 },
        by decide, by decide⟩
  have hall : ∀ m ∈ wsrd_example_two_candidates.ws.neigh_table, m.pan_id = 0x1234 := by
    decide
  exact ⟨n, w, a, c, d, e.trans (hall n a), g⟩

/-! ### LCP-IE length and LGTKHASH-IE reader -/

/-- C29, the code at the failing input: for an LCP-IE with channel plan 0 and the
channel function 3 with a hop list of 5 channels,
`ws_wp_nested_lfn_channel_plan_length` returns 6, since it counts the hop list only
when the channel plan is 3, while `ws_wp_nested_lfn_channel_plan_write` stores 10
content bytes after the 2 bytes of the header, which declares 6. -/
theorem ws_wp_nested_lfn_channel_plan_length_hop_list :
    ws_wp_nested_lfn_channel_plan_length ws_lcp_ie_example = 6 ∧
    ws_wp_nested_lfn_channel_plan_write ws_lcp_ie_example =
      mac_ie_nested_ie_long_base_write WP_PAYLOAD_IE_LFN_CHANNEL_PLAN_TYPE 6 ++
        [1, 0x18, 0, 0, 5, 10, 11, 12, 13, 14] ∧
    (ws_wp_nested_lfn_channel_plan_write ws_lcp_ie_example).length - 2 = 10 := by
  decide!

/-- C30, the code at the failing input: an LGTKHASH-IE whose content is 8 bytes long,
with the include bit of LGTK0 set, is shorter than the 1 + 8 bytes it announces, yet
`ws_wp_nested_lgtkhash_read` returns true: it compares 8 with the content length
without the first byte, and the last byte of the hash it stores (0xaa) is the byte
that follows the IE. With a content of 7 bytes it returns false. -/
theorem ws_wp_nested_lgtkhash_read_truncated :
    (mac_ie_nested_discover ie_example_lgtkhash_short 0 11
      { id := WP_PAYLOAD_IE_LGTKHASH_TYPE, type_long := false, length := 0,
        content_ptr := 0 }).1 = 8 ∧
    ws_wp_nested_lgtkhash_read ie_example_lgtkhash_short 0 11 =
      some ([[1, 2, 3, 4, 5, 6, 7, 0xaa], [0, 0, 0, 0, 0, 0, 0, 0], [0, 0, 0, 0, 0, 0, 0, 0]],
        0) ∧
    ws_wp_nested_lgtkhash_read [0x07, 0x41, 0x01, 1, 2, 3, 4, 5, 6, 0xaa] 0 10 = none := by
  decide!

/-! ### HIF: variable-length integers and strings -/

/-- C31, the code at the failing input: `hif_push_uint` writes the value 2^28 as the
5 bytes 80 80 80 80 01, and `hif_pop_uint` applied to them sets the error flag and
returns 0: after the fifth byte `i` is 35, which the test `i > 32` refuses. The
value 2^28 - 1, written on 4 bytes, is read back. -/
theorem hif_pop_uint_five_bytes :
    hif_push_uint [] 268435456 = some [0x80, 0x80, 0x80, 0x80, 0x01] ∧
    hif_pop_uint [0x80, 0x80, 0x80, 0x80, 0x01]
        { data_size := 5, data := some 0, cnt := 0, err := false } =
      some (0, { data_size := 5, data := some 0, cnt := 5, err := true }) ∧
    hif_push_uint [] 268435455 = some [0xff, 0xff, 0xff, 0x7f] ∧
    hif_pop_uint [0xff, 0xff, 0xff, 0x7f]
        { data_size := 4, data := some 0, cnt := 0, err := false } =
      some (268435455, { data_size := 4, data := some 0, cnt := 4, err := false }) := by
  decide

/-- C32, the code at the failing input: after the string "a" pushed by
`hif_push_str` has been popped, no byte remains; a second `hif_pop_str` tests
`val[len - 1]` with `len` 0, which is the terminator of the string before: it
returns a pointer that is not `NULL`, leaves the error flag clear and moves the
cursor past the end of the buffer. -/
theorem hif_pop_str_no_byte_left :
    hif_push_str [] (c_str "a") = [97, 0] ∧
    hif_pop_str [97, 0] { data_size := 2, data := some 0, cnt := 0, err := false } =
      some (some 0, { data_size := 2, data := some 0, cnt := 2, err := false }) ∧
    iobuf_remaining_size { data_size := 2, data := some 0, cnt := 2, err := false } = 0 ∧
    hif_pop_str [97, 0] { data_size := 2, data := some 0, cnt := 2, err := false } =
      some (some 2, { data_size := 2, data := some 0, cnt := 3, err := false }) := by
  decide

/-! ### DHCPv6: option lookup -/

/-- C33, counterexample: in a buffer of one byte no option can be read, so no option
with the code 0 is reached, yet for the option code 0 `dhcp_get_option` returns
`-EINVAL` and not `-ENOENT`, because the code and the length that could not be popped
read 0; and on the two bytes of the code 1 alone, whose length field is cut by the end
of the buffer, the lookup of the code 1 returns `-EINVAL` although no length was
declared. -/
theorem dhcp_get_option_counterexample :
    dhcp_get_option [7] (some 0) 1 0 = some (-EINVAL, dhcp_option_payload_err) ∧
    dhcp_get_option [0, 1] (some 0) 2 1 = some (-EINVAL, dhcp_option_payload_err) := by
  decide

/-! ### DHCPv6: option writers -/

theorem write_be16_length (v : Nat) : (write_be16 v).length = 2 := rfl

theorem write_be32_length (v : Nat) : (write_be32 v).length = 4 := rfl

/-- An option opened by `dhcp_opt_push` and closed by `dhcp_opt_fill` after `body`
has been pushed: code, length of the body, body. -/
theorem dhcp_opt_push_fill (buf body : List Nat) (opt : Nat) (h : body.length ≤ 65535) :
    dhcp_opt_fill ((dhcp_opt_push buf opt).2 ++ body) (dhcp_opt_push buf opt).1 =
      some (buf ++ write_be16 opt ++ write_be16 body.length ++ body) := by
  have hlen : ((dhcp_opt_push buf opt).2 ++ body).length - (dhcp_opt_push buf opt).1 - 2 =
      body.length := by
    simp [dhcp_opt_push, iobuf_push_be16, write_be16]
    omega
  have hoff : (dhcp_opt_push buf opt).1 = (buf ++ write_be16 opt).length := rfl
  have hbuf : (dhcp_opt_push buf opt).2 ++ body =
      (buf ++ write_be16 opt) ++ (0 :: 0 :: body) := by
    simp [dhcp_opt_push, iobuf_push_be16, write_be16]
  unfold dhcp_opt_fill
  rw [hlen, hoff, hbuf]
  have hb : byte_at ((buf ++ write_be16 opt) ++ (0 :: 0 :: body)) (buf ++ write_be16 opt).length
      = 0 := by
    have hb0 := byte_at_append_right (buf ++ write_be16 opt) (0 :: 0 :: body) 0
    rw [Nat.add_zero] at hb0
    rw [hb0]
    rfl
  simp only [hb, ne_eq, not_true_eq_false, if_false, UINT16_MAX]
  rw [if_neg (by omega)]
  congr 1
  rw [List.set_append_right _ _ (Nat.le_refl _), Nat.sub_self]
  rw [List.set_append_right _ _ (Nat.le_succ _)]
  simp [write_be16]

/-- The bytes `dhcp_fill_server_id` of dhcp_common.c appends. -/
theorem dhcp_fill_server_id_bytes (buf eui64 : List Nat) :
    dhcp_fill_server_id buf eui64 =
      some (buf ++ write_be16 DHCPV6_OPT_SERVER_ID ++ write_be16 12 ++
        (write_be16 DHCPV6_DUID_TYPE_LINK_LAYER ++ write_be16 DHCPV6_DUID_HW_TYPE_EUI64 ++
          memcpy_bytes eui64 8)) := by
  have h := dhcp_opt_push_fill buf
    (write_be16 DHCPV6_DUID_TYPE_LINK_LAYER ++ write_be16 DHCPV6_DUID_HW_TYPE_EUI64 ++
      memcpy_bytes eui64 8) DHCPV6_OPT_SERVER_ID
    (by simp [write_be16, memcpy_bytes_length])
  have hl : (write_be16 DHCPV6_DUID_TYPE_LINK_LAYER ++ write_be16 DHCPV6_DUID_HW_TYPE_EUI64 ++
      memcpy_bytes eui64 8).length = 12 := by
    simp [write_be16, memcpy_bytes_length]
  rw [hl] at h
  rw [← h]
  simp only [dhcp_fill_server_id, iobuf_push_be16, iobuf_push_data, List.append_assoc]

/-- The bytes the static `dhcp_fill_server_id` of dhcp_server.c appends. -/
theorem dhcp_server_fill_server_id_bytes (dhcp : dhcp_server) (buf : List Nat) :
    dhcp_server_fill_server_id dhcp buf =
      buf ++ write_be16 DHCPV6_OPT_SERVER_ID ++ write_be16 12 ++
        (write_be16 DHCPV6_DUID_TYPE_LINK_LAYER ++ write_be16 DHCPV6_DUID_HW_TYPE_EUI64 ++
          memcpy_bytes dhcp.hwaddr 8) := by
  simp only [dhcp_server_fill_server_id, iobuf_push_be16, iobuf_push_data, List.append_assoc]

/-- C35: the static `dhcp_fill_server_id` of dhcp_server.c and the
`dhcp_fill_server_id` of dhcp_common.c append the same bytes when `dhcp->hwaddr` is
`eui64`: the option code 2, the length 12, the DUID type 3, the hardware type
0x001b, then the 8 bytes of the address; `dhcp_opt_fill` does not abort. -/
theorem dhcp_fill_server_id_agree (dhcp : dhcp_server) (buf : List Nat) :
    dhcp_fill_server_id buf dhcp.hwaddr = some (dhcp_server_fill_server_id dhcp buf) ∧
    dhcp_server_fill_server_id dhcp buf =
      buf ++ [0, 2, 0, 12, 0, 3, 0, 0x1b] ++ memcpy_bytes dhcp.hwaddr 8 := by
  constructor
  · rw [dhcp_fill_server_id_bytes, dhcp_server_fill_server_id_bytes]
  · rw [dhcp_server_fill_server_id_bytes]
    simp [write_be16, DHCPV6_OPT_SERVER_ID, DHCPV6_DUID_TYPE_LINK_LAYER,
      DHCPV6_DUID_HW_TYPE_EUI64]

/-! ### DHCPv6: termination of the option lookup and of the request handler -/

theorem iobuf_pop_be16_snd (mem : List Nat) (buf : iobuf_read) :
    (iobuf_pop_be16 mem buf).2 = (iobuf_pop_data_ptr buf 2).2 := rfl

theorem iobuf_pop_u8_snd (mem : List Nat) (buf : iobuf_read) :
    (iobuf_pop_u8 mem buf).2 = (iobuf_pop_data_ptr buf 1).2 := rfl

/-- A pop that leaves the error flag clear has taken its bytes from the buffer. -/
theorem iobuf_pop_data_ptr_noerr (buf : iobuf_read) (n : Nat)
    (h : (iobuf_pop_data_ptr buf n).2.err = false) :
    iobuf_remaining_size (iobuf_pop_data_ptr buf n).2 + n = iobuf_remaining_size buf ∧
      buf.err = false := by
  unfold iobuf_pop_data_ptr at h ⊢
  by_cases he : buf.err = true
  · simp [he] at h
  · by_cases hn : iobuf_remaining_size buf < n
    · simp [he, hn] at h
    · simp only [he, hn, if_false, Bool.false_eq_true]
      simp only [iobuf_remaining_size, he, if_false, Bool.false_eq_true] at hn ⊢
      refine ⟨?_, trivial⟩
      show buf.data_size - (buf.cnt + n) + n = buf.data_size - buf.cnt
      omega

/-- A pop that returns a pointer leaves the error flag clear. -/
theorem iobuf_pop_data_ptr_some (buf : iobuf_read) (n p : Nat)
    (h : (iobuf_pop_data_ptr buf n).1 = some p) : (iobuf_pop_data_ptr buf n).2.err = false := by
  unfold iobuf_pop_data_ptr at h ⊢
  by_cases he : buf.err = true
  · simp [he] at h
  · by_cases hn : iobuf_remaining_size buf < n
    · simp [he, hn] at h
    · simp [he, hn]

/-- A pop does not make the remaining size grow, and a pop from a buffer with bytes
left that takes at least one byte makes it smaller. -/
theorem iobuf_pop_data_ptr_remaining_le (buf : iobuf_read) (n : Nat) :
    iobuf_remaining_size (iobuf_pop_data_ptr buf n).2 ≤ iobuf_remaining_size buf := by
  rcases iobuf_pop_data_ptr_remaining buf n with h | h <;> omega

/-- The loop of `dhcp_get_option` returns when the fuel exceeds the remaining size;
a negative value comes with the error payload, and a value that is not negative
with a payload of that size that lies in the remaining bytes after a header of 4
bytes. -/
theorem dhcp_get_option_loop_total (mem : List Nat) (option : Nat) :
    ∀ (fuel : Nat) (input : iobuf_read), iobuf_remaining_size input < fuel →
      ∃ r, dhcp_get_option_loop mem option fuel input = some r ∧
        (r.1 < 0 → r.2 = dhcp_option_payload_err) ∧
        (0 ≤ r.1 → r.2.data_size + 4 ≤ iobuf_remaining_size input ∧ r.2.err = false ∧
          r.2.cnt = 0 ∧ r.1 = (r.2.data_size : Int)) := by
  intro fuel
  induction fuel with
  | zero => intro input h; omega
  | succ fuel ih =>
    intro input h
    rw [dhcp_get_option_loop]
    by_cases hrem : iobuf_remaining_size input ≠ 0
    · rw [if_pos hrem]
      simp only [iobuf_pop_be16_snd]
      generalize hlen : (iobuf_pop_be16 mem (iobuf_pop_data_ptr input 2).2).1 = opt_len
      by_cases hty : (iobuf_pop_be16 mem input).1 = option
      · rw [if_pos hty]
        cases hp : (iobuf_pop_data_ptr (iobuf_pop_data_ptr (iobuf_pop_data_ptr input 2).2 2).2
            opt_len).1 with
        | none =>
          refine ⟨_, rfl, fun _ => rfl, fun h0 => ?_⟩
          simp [EINVAL] at h0
        | some p =>
          refine ⟨_, rfl, fun h0 => ?_, fun _ => ?_⟩
          · simp at h0
            omega
          · have e3 := iobuf_pop_data_ptr_some _ _ _ hp
            obtain ⟨r3, e2⟩ := iobuf_pop_data_ptr_noerr _ _ e3
            obtain ⟨r2, e1⟩ := iobuf_pop_data_ptr_noerr _ _ e2
            obtain ⟨r1, _⟩ := iobuf_pop_data_ptr_noerr _ _ e1
            refine ⟨?_, rfl, rfl, rfl⟩
            show opt_len + 4 ≤ iobuf_remaining_size input
            omega
      · rw [if_neg hty]
        have hlt : iobuf_remaining_size (iobuf_pop_data_ptr
            (iobuf_pop_data_ptr (iobuf_pop_data_ptr input 2).2 2).2 opt_len).2
              < iobuf_remaining_size input := by
          have a1 := iobuf_pop_data_ptr_remaining input 2
          have a2 := iobuf_pop_data_ptr_remaining_le (iobuf_pop_data_ptr input 2).2 2
          have a3 := iobuf_pop_data_ptr_remaining_le
            (iobuf_pop_data_ptr (iobuf_pop_data_ptr input 2).2 2).2 opt_len
          omega
        obtain ⟨r, hr, hneg, hpos⟩ := ih (iobuf_pop_data_ptr
            (iobuf_pop_data_ptr (iobuf_pop_data_ptr input 2).2 2).2 opt_len).2 (by omega)
        refine ⟨r, hr, hneg, fun h0 => ?_⟩
        obtain ⟨b1, b2, b3, b4⟩ := hpos h0
        exact ⟨by omega, b2, b3, b4⟩
    · rw [if_neg hrem]
      refine ⟨_, rfl, fun _ => rfl, fun h0 => ?_⟩
      simp [ENOENT] at h0

/-- The function `dhcp_get_option` returns for every input; a negative value comes
with the error payload, and a value that is not negative with a payload of that size
that lies in the `len` bytes after a header of 4 bytes. -/
theorem dhcp_get_option_total (mem : List Nat) (data : Option Nat) (len option : Nat) :
    ∃ r, dhcp_get_option mem data len option = some r ∧
      (r.1 < 0 → r.2 = dhcp_option_payload_err) ∧
      (0 ≤ r.1 → r.2.data_size + 4 ≤ len ∧ r.2.err = false ∧ r.2.cnt = 0 ∧
        r.1 = (r.2.data_size : Int)) := by
  obtain ⟨r, hr, hneg, hpos⟩ := dhcp_get_option_loop_total mem (option % 65536) (len + 1)
    { data_size := len, data := data, cnt := 0, err := false }
    (by simp [iobuf_remaining_size])
  refine ⟨r, hr, hneg, fun h0 => ?_⟩
  have := hpos h0
  simpa [iobuf_remaining_size] using this

theorem dhcp_check_status_code_total (mem : List Nat) (req : Option Nat) (req_len : Nat) :
    ∃ v, dhcp_check_status_code mem req req_len = some v := by
  obtain ⟨r, hr, _⟩ := dhcp_get_option_total mem req req_len DHCPV6_OPT_STATUS_CODE
  unfold dhcp_check_status_code
  rw [hr]
  dsimp only
  split_ifs <;> exact ⟨_, rfl⟩

theorem dhcp_check_rapid_commit_total (mem : List Nat) (req : Option Nat) (req_len : Nat) :
    ∃ v, dhcp_check_rapid_commit mem req req_len = some v := by
  obtain ⟨r, hr, _⟩ := dhcp_get_option_total mem req req_len DHCPV6_OPT_RAPID_COMMIT
  unfold dhcp_check_rapid_commit
  rw [hr]
  dsimp only
  split_ifs <;> exact ⟨_, rfl⟩

theorem dhcp_check_elapsed_time_total (mem : List Nat) (req : Option Nat) (req_len : Nat) :
    ∃ v, dhcp_check_elapsed_time mem req req_len = some v := by
  obtain ⟨r, hr, _⟩ := dhcp_get_option_total mem req req_len DHCPV6_OPT_ELAPSED_TIME
  unfold dhcp_check_elapsed_time
  rw [hr]
  dsimp only
  split_ifs <;> exact ⟨_, rfl⟩

theorem dhcp_get_identity_association_id_total (mem : List Nat) (req : Option Nat)
    (req_len : Nat) : ∃ v, dhcp_get_identity_association_id mem req req_len = some v := by
  obtain ⟨r, hr, _⟩ := dhcp_get_option_total mem req req_len DHCPV6_OPT_IA_NA
  unfold dhcp_get_identity_association_id
  rw [hr]
  dsimp only
  split_ifs <;> exact ⟨_, rfl⟩

theorem dhcp_get_client_hwaddr_total (mem : List Nat) (req : Option Nat) (req_len : Nat) :
    ∃ v, dhcp_get_client_hwaddr mem req req_len = some v := by
  obtain ⟨r, hr, _⟩ := dhcp_get_option_total mem req req_len DHCPV6_OPT_CLIENT_ID
  unfold dhcp_get_client_hwaddr
  rw [hr]
  dsimp only
  split_ifs <;> exact ⟨_, rfl⟩

/-- The Solicit branch of `dhcp_handle_request` returns with any fuel that is not 0,
and so does the branch of the other message types. -/
theorem dhcp_handle_request_solicit_total (mem : List Nat) (dhcp : dhcp_server) (fuel : Nat)
    (req : iobuf_read) (reply : List Nat)
    (h : (iobuf_pop_u8 mem req).1 ≠ DHCPV6_MSG_RELAY_FWD) :
    ∃ r, dhcp_handle_request mem dhcp (fuel + 1) req reply = some r := by
  rw [dhcp_handle_request]
  dsimp only
  rw [if_neg h]
  by_cases hs : (iobuf_pop_u8 mem req).1 ≠ DHCPV6_MSG_SOLICIT
  · rw [if_pos hs]
    exact ⟨_, rfl⟩
  · rw [if_neg hs]
    obtain ⟨v1, h1⟩ := dhcp_check_status_code_total mem
      (iobuf_ptr (iobuf_pop_be24 mem (iobuf_pop_u8 mem req).2).2)
      (iobuf_remaining_size (iobuf_pop_be24 mem (iobuf_pop_u8 mem req).2).2)
    obtain ⟨v2, h2⟩ := dhcp_check_rapid_commit_total mem
      (iobuf_ptr (iobuf_pop_be24 mem (iobuf_pop_u8 mem req).2).2)
      (iobuf_remaining_size (iobuf_pop_be24 mem (iobuf_pop_u8 mem req).2).2)
    obtain ⟨v3, h3⟩ := dhcp_check_elapsed_time_total mem
      (iobuf_ptr (iobuf_pop_be24 mem (iobuf_pop_u8 mem req).2).2)
      (iobuf_remaining_size (iobuf_pop_be24 mem (iobuf_pop_u8 mem req).2).2)
    obtain ⟨v4, h4⟩ := dhcp_get_identity_association_id_total mem
      (iobuf_ptr (iobuf_pop_be24 mem (iobuf_pop_u8 mem req).2).2)
      (iobuf_remaining_size (iobuf_pop_be24 mem (iobuf_pop_u8 mem req).2).2)
    obtain ⟨v5, h5⟩ := dhcp_get_client_hwaddr_total mem
      (iobuf_ptr (iobuf_pop_be24 mem (iobuf_pop_u8 mem req).2).2)
      (iobuf_remaining_size (iobuf_pop_be24 mem (iobuf_pop_u8 mem req).2).2)
    rw [h1]
    dsimp only
    split_ifs
    · exact ⟨_, rfl⟩
    rw [h2]
    dsimp only
    split_ifs
    · exact ⟨_, rfl⟩
    rw [h3]
    dsimp only
    split_ifs
    · exact ⟨_, rfl⟩
    rw [h4]
    dsimp only
    split_ifs
    · exact ⟨_, rfl⟩
    rw [h5]
    dsimp only
    split_ifs
    · exact ⟨_, rfl⟩
    cases v5.2 with
    | none => exact ⟨_, rfl⟩
    | some hwaddr =>
      dsimp only
      cases dhcp_fill_client_id
        (dhcp_server_fill_server_id dhcp
          (iobuf_push_be24 (iobuf_push_u8 reply DHCPV6_MSG_REPLY)
            (iobuf_pop_be24 mem (iobuf_pop_u8 mem req).2).1))
        v5.1.toNat (some (List.drop hwaddr mem)) with
      | none => exact ⟨_, rfl⟩
      | some reply1 =>
        dsimp only
        cases dhcp_fill_identity_association reply1 v4
            (some (dhcp_ipv6_addr dhcp (List.drop hwaddr mem))) dhcp.preferred_lifetime
            dhcp.valid_lifetime with
        | none => exact ⟨_, rfl⟩
        | some reply2 =>
          dsimp only
          cases dhcp_fill_rapid_commit reply2 with
          | none => exact ⟨_, rfl⟩
          | some reply3 => exact ⟨_, rfl⟩

/-- A byte popped that is not 0 has been taken from the buffer. -/
theorem iobuf_pop_u8_ne_zero (mem : List Nat) (buf : iobuf_read)
    (h : (iobuf_pop_u8 mem buf).1 ≠ 0) :
    iobuf_remaining_size (iobuf_pop_u8 mem buf).2 + 1 = iobuf_remaining_size buf := by
  rw [iobuf_pop_u8_snd]
  cases hp : (iobuf_pop_data_ptr buf 1).1 with
  | none =>
    exfalso
    apply h
    simp [iobuf_pop_u8, hp]
  | some p =>
    exact (iobuf_pop_data_ptr_noerr buf 1 (iobuf_pop_data_ptr_some buf 1 p hp)).1

/-- The function `dhcp_handle_request_fwd` returns when `dhcp_handle_request` does
with one unit of fuel less on every buffer that is at least 4 bytes shorter. -/
theorem dhcp_handle_request_fwd_total (mem : List Nat) (dhcp : dhcp_server) (fuel : Nat)
    (ih : ∀ (req : iobuf_read) (reply : List Nat), iobuf_remaining_size req < fuel →
      ∃ r, dhcp_handle_request mem dhcp fuel req reply = some r)
    (req : iobuf_read) (reply : List Nat) (h : iobuf_remaining_size req < fuel + 1) :
    ∃ r, dhcp_handle_request_fwd mem dhcp (fuel + 1) req reply = some r := by
  rw [dhcp_handle_request_fwd]
  dsimp only
  simp only [iobuf_pop_u8_snd]
  generalize hreq : (iobuf_pop_data_ptr (iobuf_pop_data_ptr (iobuf_pop_data_ptr req 1).2 16).2
    16).2 = req4
  have hle : iobuf_remaining_size req4 ≤ iobuf_remaining_size req := by
    rw [← hreq]
    have a1 := iobuf_pop_data_ptr_remaining_le req 1
    have a2 := iobuf_pop_data_ptr_remaining_le (iobuf_pop_data_ptr req 1).2 16
    have a3 := iobuf_pop_data_ptr_remaining_le
      (iobuf_pop_data_ptr (iobuf_pop_data_ptr req 1).2 16).2 16
    omega
  obtain ⟨ri, hi, _⟩ := dhcp_get_option_total mem (iobuf_ptr req4) (iobuf_remaining_size req4)
    DHCPV6_OPT_INTERFACE_ID
  obtain ⟨rr, hr, _, hpos⟩ := dhcp_get_option_total mem (iobuf_ptr req4)
    (iobuf_remaining_size req4) DHCPV6_OPT_RELAY
  rw [hi, hr]
  dsimp only
  by_cases hneg : rr.1 < 0
  · simp only [hneg, if_true]
    split
    · exact ⟨_, rfl⟩
    · split
      · exact ⟨_, rfl⟩
      · split
        · exact ⟨_, rfl⟩
        · exact ⟨_, rfl⟩
  · simp only [hneg, if_false]
    obtain ⟨b1, b2, b3, _⟩ := hpos (by omega)
    have hrem : iobuf_remaining_size rr.2 < fuel := by
      have : iobuf_remaining_size rr.2 = rr.2.data_size := by
        simp [iobuf_remaining_size, b2, b3]
      omega
    obtain ⟨rh, hh⟩ := ih rr.2 [] hrem
    rw [hh]
    split
    · exact ⟨_, rfl⟩
    · split
      · exact ⟨_, rfl⟩
      · split
        · exact ⟨_, rfl⟩
        · cases rh with
          | none => exact ⟨_, rfl⟩
          | some relay =>
            dsimp only
            split_ifs <;> exact ⟨_, rfl⟩

/-- The request handler returns when the fuel exceeds the remaining size of the
request. -/
theorem dhcp_handle_request_total (mem : List Nat) (dhcp : dhcp_server) :
    ∀ (fuel : Nat) (req : iobuf_read) (reply : List Nat), iobuf_remaining_size req < fuel →
      ∃ r, dhcp_handle_request mem dhcp fuel req reply = some r := by
  intro fuel
  induction fuel using Nat.strong_induction_on with
  | _ fuel ih =>
    intro req reply h
    cases fuel with
    | zero => omega
    | succ fuel =>
      by_cases hty : (iobuf_pop_u8 mem req).1 = DHCPV6_MSG_RELAY_FWD
      · have hpop := iobuf_pop_u8_ne_zero mem req (by rw [hty]; decide)
        cases fuel with
        | zero => omega
        | succ fuel =>
          rw [dhcp_handle_request]
          dsimp only
          rw [if_pos hty]
          exact dhcp_handle_request_fwd_total mem dhcp fuel (ih fuel (by omega)) _ reply
            (by omega)
      · exact dhcp_handle_request_solicit_total mem dhcp fuel req reply hty

/-- C36: `dhcp_handle_request` returns for every request buffer with a fuel of one
more than the bytes that remain in the request, which bounds the depth of the
recursion; a message type other than Solicit and Relay-forward gives `-EINVAL` with
any fuel, without recursion; and the payload of the Relay Message option on which
`dhcp_handle_request_fwd` recurses is at least 4 bytes shorter than the message that
holds it. -/
theorem dhcp_handle_request_terminates (mem : List Nat) (dhcp : dhcp_server) (req : iobuf_read)
    (reply : List Nat) :
    (∃ r, dhcp_handle_request mem dhcp (iobuf_remaining_size req + 1) req reply = some r) ∧
    (∀ fuel, (iobuf_pop_u8 mem req).1 ≠ DHCPV6_MSG_SOLICIT →
      (iobuf_pop_u8 mem req).1 ≠ DHCPV6_MSG_RELAY_FWD →
      dhcp_handle_request mem dhcp (fuel + 1) req reply = some (some (-EINVAL, reply))) ∧
    (∀ r, dhcp_get_option mem
        (iobuf_ptr (iobuf_pop_data_ptr (iobuf_pop_data_ptr
          (iobuf_pop_u8 mem (iobuf_pop_u8 mem req).2).2 16).2 16).2)
        (iobuf_remaining_size (iobuf_pop_data_ptr (iobuf_pop_data_ptr
          (iobuf_pop_u8 mem (iobuf_pop_u8 mem req).2).2 16).2 16).2)
        DHCPV6_OPT_RELAY = some r → 0 ≤ r.1 →
      iobuf_remaining_size r.2 + 4 ≤ iobuf_remaining_size req) := by
  refine ⟨dhcp_handle_request_total mem dhcp _ req reply (Nat.lt_succ_self _), ?_, ?_⟩
  · intro fuel h1 h2
    rw [dhcp_handle_request]
    dsimp only
    rw [if_neg h2, if_pos h1]
  · intro r hr h0
    obtain ⟨r', hr', _, hpos⟩ := dhcp_get_option_total mem
      (iobuf_ptr (iobuf_pop_data_ptr (iobuf_pop_data_ptr
        (iobuf_pop_u8 mem (iobuf_pop_u8 mem req).2).2 16).2 16).2)
      (iobuf_remaining_size (iobuf_pop_data_ptr (iobuf_pop_data_ptr
        (iobuf_pop_u8 mem (iobuf_pop_u8 mem req).2).2 16).2 16).2)
      DHCPV6_OPT_RELAY
    rw [hr] at hr'
    cases hr'
    obtain ⟨b1, b2, b3, _⟩ := hpos h0
    have hrem : iobuf_remaining_size r.2 = r.2.data_size := by
      simp [iobuf_remaining_size, b2, b3]
    have a1 := iobuf_pop_data_ptr_remaining_le req 1
    have a2 := iobuf_pop_data_ptr_remaining_le (iobuf_pop_data_ptr req 1).2 1
    have a3 := iobuf_pop_data_ptr_remaining_le
      (iobuf_pop_data_ptr (iobuf_pop_data_ptr req 1).2 1).2 16
    have a4 := iobuf_pop_data_ptr_remaining_le (iobuf_pop_data_ptr
      (iobuf_pop_data_ptr (iobuf_pop_data_ptr req 1).2 1).2 16).2 16
    simp only [iobuf_pop_u8_snd] at b1 ⊢
    omega

theorem dhcp_handle_request_terminates_witness :
    (∃ r, dhcp_handle_request
        (dhcp_relay_example (dhcp_solicit_example
          [(DHCPV6_OPT_IA_NA, write_be32 5 ++ List.replicate 8 0)]))
        dhcp_server_example
        (iobuf_remaining_size (dhcp_req (dhcp_relay_example (dhcp_solicit_example
          [(DHCPV6_OPT_IA_NA, write_be32 5 ++ List.replicate 8 0)]))) + 1)
        (dhcp_req (dhcp_relay_example (dhcp_solicit_example
          [(DHCPV6_OPT_IA_NA, write_be32 5 ++ List.replicate 8 0)]))) [] = some r) ∧
    dhcp_handle_request [5] dhcp_server_example (0 + 1) (dhcp_req [5]) [] =
      some (some (-EINVAL, [])) ∧
    iobuf_remaining_size { data_size := 46, data := some 44, cnt := 0, err := false } + 4 ≤
      iobuf_remaining_size (dhcp_req (dhcp_relay_example (dhcp_solicit_example
        [(DHCPV6_OPT_IA_NA, write_be32 5 ++ List.replicate 8 0)]))) :=
  ⟨(dhcp_handle_request_terminates
      (dhcp_relay_example (dhcp_solicit_example
        [(DHCPV6_OPT_IA_NA, write_be32 5 ++ List.replicate 8 0)]))
      dhcp_server_example
      (dhcp_req (dhcp_relay_example (dhcp_solicit_example
        [(DHCPV6_OPT_IA_NA, write_be32 5 ++ List.replicate 8 0)]))) []).1,
   (dhcp_handle_request_terminates [5] dhcp_server_example (dhcp_req [5]) []).2.1 0
      (by decide) (by decide),
   (dhcp_handle_request_terminates
      (dhcp_relay_example (dhcp_solicit_example
        [(DHCPV6_OPT_IA_NA, write_be32 5 ++ List.replicate 8 0)]))
      dhcp_server_example
      (dhcp_req (dhcp_relay_example (dhcp_solicit_example
        [(DHCPV6_OPT_IA_NA, write_be32 5 ++ List.replicate 8 0)]))) []).2.2
      ((46 : Int), { data_size := 46, data := some 44, cnt := 0, err := false })
      (by decide) (by decide)⟩

/-! ### DHCPv6: option lookup in a well-formed option list -/

theorem byte_at_drop (mem : List Nat) (p i : Nat) :
    byte_at mem (p + i) = byte_at (mem.drop p) i := by
  unfold byte_at
  rw [List.getD_eq_getElem?_getD, List.getD_eq_getElem?_getD, List.getElem?_drop]

theorem read_be16_drop (mem : List Nat) (p : Nat) :
    read_be16 mem p = read_be16 (mem.drop p) 0 := by
  simp only [read_be16, Nat.zero_add, ← byte_at_drop, Nat.add_zero]

theorem read_be24_drop (mem : List Nat) (p : Nat) :
    read_be24 mem p = read_be24 (mem.drop p) 0 := by
  simp only [read_be24, Nat.zero_add, ← byte_at_drop, Nat.add_zero]

theorem read_be32_drop (mem : List Nat) (p : Nat) :
    read_be32 mem p = read_be32 (mem.drop p) 0 := by
  simp only [read_be32, Nat.zero_add, ← byte_at_drop, Nat.add_zero]

theorem read_be16_write_be16 (v : Nat) (rest : List Nat) (h : v < 65536) :
    read_be16 (write_be16 v ++ rest) 0 = v := by
  simp only [read_be16, write_be16, byte_at, List.cons_append, List.nil_append,
    List.getD_cons_zero, List.getD_cons_succ]
  omega

theorem read_be32_write_be32 (v : Nat) (rest : List Nat) (h : v < 4294967296) :
    read_be32 (write_be32 v ++ rest) 0 = v := by
  simp only [read_be32, write_be32, byte_at, List.cons_append, List.nil_append,
    List.getD_cons_zero, List.getD_cons_succ]
  omega

theorem pop_data_ptr_at (n d c k : Nat) (h : c + k ≤ n) :
    iobuf_pop_data_ptr { data_size := n, data := some d, cnt := c, err := false } k =
      (some (d + c), { data_size := n, data := some d, cnt := c + k, err := false }) := by
  have h1 : ¬ (n - c < k) := by omega
  simp [iobuf_pop_data_ptr, iobuf_remaining_size, iobuf_ptr, h1]

theorem pop_data_ptr_at_short (n d c k : Nat) (hc : c ≤ n) (h : n < c + k) :
    iobuf_pop_data_ptr { data_size := n, data := some d, cnt := c, err := false } k =
      (none, { data_size := n, data := some d, cnt := c, err := true }) := by
  have h1 : n - c < k := by omega
  simp [iobuf_pop_data_ptr, iobuf_remaining_size, h1]

theorem pop_u8_at (mem : List Nat) (n d c : Nat) (h : c + 1 ≤ n) :
    iobuf_pop_u8 mem { data_size := n, data := some d, cnt := c, err := false } =
      (byte_at mem (d + c), { data_size := n, data := some d, cnt := c + 1, err := false }) := by
  simp [iobuf_pop_u8, pop_data_ptr_at n d c 1 h]

theorem pop_be16_at (mem : List Nat) (n d c : Nat) (h : c + 2 ≤ n) :
    iobuf_pop_be16 mem { data_size := n, data := some d, cnt := c, err := false } =
      (read_be16 mem (d + c), { data_size := n, data := some d, cnt := c + 2, err := false }) := by
  simp [iobuf_pop_be16, pop_data_ptr_at n d c 2 h]

theorem pop_be16_at_short (mem : List Nat) (n d c : Nat) (hc : c ≤ n) (h : n < c + 2) :
    iobuf_pop_be16 mem { data_size := n, data := some d, cnt := c, err := false } =
      (0, { data_size := n, data := some d, cnt := c, err := true }) := by
  simp [iobuf_pop_be16, pop_data_ptr_at_short n d c 2 hc h]

theorem pop_be24_at (mem : List Nat) (n d c : Nat) (h : c + 3 ≤ n) :
    iobuf_pop_be24 mem { data_size := n, data := some d, cnt := c, err := false } =
      (read_be24 mem (d + c), { data_size := n, data := some d, cnt := c + 3, err := false }) := by
  simp [iobuf_pop_be24, pop_data_ptr_at n d c 3 h]

theorem pop_be32_at (mem : List Nat) (n d c : Nat) (h : c + 4 ≤ n) :
    iobuf_pop_be32 mem { data_size := n, data := some d, cnt := c, err := false } =
      (read_be32 mem (d + c), { data_size := n, data := some d, cnt := c + 4, err := false }) := by
  simp [iobuf_pop_be32, pop_data_ptr_at n d c 4 h]

theorem dhcp_opt_bytes_length (o : Nat × List Nat) :
    (dhcp_opt_bytes o).length = 4 + o.2.length := by
  simp [dhcp_opt_bytes, write_be16]
  omega

/-- The header of the option at the cursor, read by the two pops of the loop. -/
theorem dhcp_opt_header (mem : List Nat) (off cnt : Nat) (o : Nat × List Nat) (rest : List Nat)
    (hdrop : mem.drop (off + cnt) = dhcp_opt_bytes o ++ rest) (h1 : o.1 < 65536)
    (h2 : o.2.length < 65536) :
    read_be16 mem (off + cnt) = o.1 ∧ read_be16 mem (off + (cnt + 2)) = o.2.length := by
  constructor
  · rw [read_be16_drop, hdrop, dhcp_opt_bytes, List.append_assoc, List.append_assoc,
      read_be16_write_be16 _ _ h1]
  · rw [show off + (cnt + 2) = (off + cnt) + 2 by omega, read_be16_drop, ← List.drop_drop,
      hdrop, dhcp_opt_bytes, List.append_assoc, List.append_assoc]
    rw [show List.drop 2 (write_be16 o.1 ++ (write_be16 o.2.length ++ (o.2 ++ rest))) =
      write_be16 o.2.length ++ (o.2 ++ rest) from rfl]
    exact read_be16_write_be16 _ _ h2

/-- A turn of the loop of `dhcp_get_option` on an option with another code: the
cursor moves past the option. -/
theorem dhcp_get_option_loop_skip (mem : List Nat) (c off len cnt fuel : Nat)
    (o : Nat × List Nat) (rest : List Nat)
    (hdrop : mem.drop (off + cnt) = dhcp_opt_bytes o ++ rest) (h1 : o.1 < 65536)
    (h2 : o.2.length < 65536) (hne : o.1 ≠ c) (hlen : cnt + (4 + o.2.length) ≤ len) :
    dhcp_get_option_loop mem c (fuel + 1)
        { data_size := len, data := some off, cnt := cnt, err := false } =
      dhcp_get_option_loop mem c fuel
        { data_size := len, data := some off, cnt := cnt + (4 + o.2.length), err := false } := by
  obtain ⟨e1, e2⟩ := dhcp_opt_header mem off cnt o rest hdrop h1 h2
  rw [dhcp_get_option_loop]
  have hrem : iobuf_remaining_size
      { data_size := len, data := some off, cnt := cnt, err := false } ≠ 0 := by
    simp [iobuf_remaining_size]
    omega
  rw [if_pos hrem]
  simp only [pop_be16_at mem len off cnt (by omega), pop_be16_at mem len off (cnt + 2) (by omega),
    e1, e2, if_neg hne, pop_data_ptr_at len off (cnt + 2 + 2) o.2.length (by omega)]
  rw [show cnt + 2 + 2 + o.2.length = cnt + (4 + o.2.length) by omega]

/-- A turn of the loop of `dhcp_get_option` on an option with the code looked for. -/
theorem dhcp_get_option_loop_found (mem : List Nat) (c off len cnt fuel : Nat)
    (o : Nat × List Nat) (rest : List Nat)
    (hdrop : mem.drop (off + cnt) = dhcp_opt_bytes o ++ rest) (h1 : o.1 < 65536)
    (h2 : o.2.length < 65536) (heq : o.1 = c) (hlen : cnt + (4 + o.2.length) ≤ len) :
    dhcp_get_option_loop mem c (fuel + 1)
        { data_size := len, data := some off, cnt := cnt, err := false } =
      some ((o.2.length : Int),
        { data_size := o.2.length, data := some (off + (cnt + 4)), cnt := 0, err := false }) := by
  obtain ⟨e1, e2⟩ := dhcp_opt_header mem off cnt o rest hdrop h1 h2
  rw [dhcp_get_option_loop]
  have hrem : iobuf_remaining_size
      { data_size := len, data := some off, cnt := cnt, err := false } ≠ 0 := by
    simp [iobuf_remaining_size]
    omega
  rw [if_pos hrem]
  simp only [pop_be16_at mem len off cnt (by omega), pop_be16_at mem len off (cnt + 2) (by omega),
    e1, e2, if_pos heq, pop_data_ptr_at len off (cnt + 2 + 2) o.2.length (by omega)]

/-- The loop of `dhcp_get_option` at the end of the buffer. -/
theorem dhcp_get_option_loop_end (mem : List Nat) (c off len fuel : Nat) :
    dhcp_get_option_loop mem c (fuel + 1)
        { data_size := len, data := some off, cnt := len, err := false } =
      some (-ENOENT, dhcp_option_payload_err) := by
  rw [dhcp_get_option_loop]
  simp [iobuf_remaining_size]

/-- The loop of `dhcp_get_option` over well-formed options none of which has the code
looked for: the cursor moves past them. -/
theorem dhcp_get_option_loop_skip_all (mem : List Nat) (c off len : Nat) :
    ∀ (l1 : List (Nat × List Nat)) (fuel cnt : Nat) (rest : List Nat),
      (∀ o ∈ l1, o.1 < 65536 ∧ o.2.length < 65536 ∧ o.1 ≠ c) →
      mem.drop (off + cnt) = dhcp_opts_bytes l1 ++ rest →
      cnt + (dhcp_opts_bytes l1).length ≤ len →
      dhcp_get_option_loop mem c (fuel + l1.length)
          { data_size := len, data := some off, cnt := cnt, err := false } =
        dhcp_get_option_loop mem c fuel
          { data_size := len, data := some off, cnt := cnt + (dhcp_opts_bytes l1).length,
            err := false } := by
  intro l1
  induction l1 with
  | nil =>
    intro fuel cnt rest _ _ _
    rfl
  | cons o l1 ih =>
    intro fuel cnt rest hwf hdrop hlen
    obtain ⟨w1, w2, w3⟩ := hwf o (List.mem_cons_self _ _)
    have hl : (dhcp_opts_bytes (o :: l1)).length = (4 + o.2.length) + (dhcp_opts_bytes l1).length := by
      rw [dhcp_opts_bytes, List.length_append, dhcp_opt_bytes_length]
    rw [hl] at hlen ⊢
    rw [dhcp_opts_bytes, List.append_assoc] at hdrop
    rw [show fuel + (o :: l1).length = (fuel + l1.length) + 1 from rfl,
      dhcp_get_option_loop_skip mem c off len cnt _ o _ hdrop w1 w2 w3 (by omega)]
    have hdrop2 : mem.drop (off + (cnt + (4 + o.2.length))) = dhcp_opts_bytes l1 ++ rest := by
      rw [show off + (cnt + (4 + o.2.length)) = (off + cnt) + (4 + o.2.length) by omega,
        ← List.drop_drop, hdrop, ← dhcp_opt_bytes_length o, List.drop_left]
    rw [ih fuel (cnt + (4 + o.2.length)) rest
      (fun x hx => hwf x (List.mem_cons_of_mem _ hx)) hdrop2 (by omega)]
    rw [show cnt + (4 + o.2.length) + (dhcp_opts_bytes l1).length =
      cnt + (4 + o.2.length + (dhcp_opts_bytes l1).length) by omega]

theorem dhcp_opts_bytes_append (l1 l2 : List (Nat × List Nat)) :
    dhcp_opts_bytes (l1 ++ l2) = dhcp_opts_bytes l1 ++ dhcp_opts_bytes l2 := by
  induction l1 with
  | nil => rfl
  | cons o l1 ih => simp [dhcp_opts_bytes, ih]

theorem dhcp_opts_bytes_length_ge (opts : List (Nat × List Nat)) :
    opts.length ≤ (dhcp_opts_bytes opts).length := by
  induction opts with
  | nil => simp [dhcp_opts_bytes]
  | cons o opts ih =>
    rw [dhcp_opts_bytes, List.length_append, dhcp_opt_bytes_length, List.length_cons]
    omega

/-- In a well-formed option list at `off`, `dhcp_get_option` finds the first option
with the code `c`: it returns the length of its content, and the payload designates
the content. -/
theorem dhcp_get_option_found (mem : List Nat) (c off : Nat) (l1 l2 : List (Nat × List Nat))
    (p : List Nat) (post : List Nat)
    (hwf : ∀ o ∈ l1 ++ (c, p) :: l2, o.1 < 65536 ∧ o.2.length < 65536)
    (hfirst : ∀ o ∈ l1, o.1 ≠ c)
    (hdrop : mem.drop off = dhcp_opts_bytes (l1 ++ (c, p) :: l2) ++ post) :
    dhcp_get_option mem (some off) (dhcp_opts_bytes (l1 ++ (c, p) :: l2)).length c =
        some ((p.length : Int),
          { data_size := p.length, data := some (off + ((dhcp_opts_bytes l1).length + 4)),
            cnt := 0, err := false }) ∧
      mem.drop (off + ((dhcp_opts_bytes l1).length + 4)) =
        p ++ (dhcp_opts_bytes l2 ++ post) := by
  have hc : c < 65536 := (hwf (c, p) (by simp)).1
  have hp : p.length < 65536 := (hwf (c, p) (by simp)).2
  have hbytes : dhcp_opts_bytes (l1 ++ (c, p) :: l2) =
      dhcp_opts_bytes l1 ++ (dhcp_opt_bytes (c, p) ++ dhcp_opts_bytes l2) := by
    rw [dhcp_opts_bytes_append, dhcp_opts_bytes]
  have hlen : (dhcp_opts_bytes (l1 ++ (c, p) :: l2)).length =
      (dhcp_opts_bytes l1).length + (4 + p.length + (dhcp_opts_bytes l2).length) := by
    rw [hbytes, List.length_append, List.length_append, dhcp_opt_bytes_length]
  have hdrop1 : mem.drop (off + (dhcp_opts_bytes l1).length) =
      dhcp_opt_bytes (c, p) ++ (dhcp_opts_bytes l2 ++ post) := by
    rw [← List.drop_drop, hdrop, hbytes, List.append_assoc, List.drop_left, List.append_assoc]
  constructor
  · unfold dhcp_get_option
    rw [Nat.mod_eq_of_lt hc]
    have hfuel : (dhcp_opts_bytes (l1 ++ (c, p) :: l2)).length + 1 =
        ((dhcp_opts_bytes (l1 ++ (c, p) :: l2)).length - l1.length + 1) + l1.length := by
      have := dhcp_opts_bytes_length_ge l1
      omega
    rw [hfuel]
    rw [dhcp_get_option_loop_skip_all mem c off _ l1 _ 0
      (dhcp_opt_bytes (c, p) ++ (dhcp_opts_bytes l2 ++ post))
      (fun o ho => ⟨(hwf o (List.mem_append_left _ ho)).1, (hwf o (List.mem_append_left _ ho)).2,
        hfirst o ho⟩)
      (by rw [Nat.add_zero, hdrop, hbytes]; simp only [List.append_assoc]) (by omega)]
    rw [Nat.zero_add]
    rw [dhcp_get_option_loop_found mem c off _ _ _ (c, p) _ hdrop1 hc hp rfl
      (by rw [hlen]; show (dhcp_opts_bytes l1).length + (4 + p.length) ≤ _; omega)]
  · rw [show off + ((dhcp_opts_bytes l1).length + 4) = (off + (dhcp_opts_bytes l1).length) + 4
      by omega, ← List.drop_drop, hdrop1]
    rfl

/-- In a well-formed option list at `off` without an option of the code `c`,
`dhcp_get_option` returns `-ENOENT` and the error payload. -/
theorem dhcp_get_option_absent (mem : List Nat) (c off : Nat) (opts : List (Nat × List Nat))
    (post : List Nat) (hc : c < 65536)
    (hwf : ∀ o ∈ opts, o.1 < 65536 ∧ o.2.length < 65536)
    (habsent : ∀ o ∈ opts, o.1 ≠ c)
    (hdrop : mem.drop off = dhcp_opts_bytes opts ++ post) :
    dhcp_get_option mem (some off) (dhcp_opts_bytes opts).length c =
      some (-ENOENT, dhcp_option_payload_err) := by
  unfold dhcp_get_option
  rw [Nat.mod_eq_of_lt hc]
  have hfuel : (dhcp_opts_bytes opts).length + 1 =
      ((dhcp_opts_bytes opts).length - opts.length + 1) + opts.length := by
    have := dhcp_opts_bytes_length_ge opts
    omega
  rw [hfuel]
  rw [dhcp_get_option_loop_skip_all mem c off _ opts _ 0 post
    (fun o ho => ⟨(hwf o ho).1, (hwf o ho).2, habsent o ho⟩)
    (by rw [Nat.add_zero, hdrop]) (by omega)]
  rw [Nat.zero_add]
  exact dhcp_get_option_loop_end mem c off _ _

/-- The first element of a list that satisfies a test splits the list. -/
theorem find_first_split {α : Type} (f : α → Bool) :
    ∀ (l : List α) (a : α), l.find? f = some a →
      ∃ l1 l2, l = l1 ++ a :: l2 ∧ f a = true ∧ ∀ x ∈ l1, f x = false := by
  intro l
  induction l with
  | nil => intro a h; cases h
  | cons x l ih =>
    intro a h
    by_cases hx : f x = true
    · rw [List.find?_cons_of_pos _ hx] at h
      cases h
      exact ⟨[], l, rfl, hx, by simp⟩
    · rw [List.find?_cons_of_neg _ hx] at h
      obtain ⟨l1, l2, e, fa, hl1⟩ := ih a h
      refine ⟨x :: l1, l2, by rw [e]; rfl, fa, ?_⟩
      intro y hy
      rcases List.mem_cons.1 hy with rfl | hy
      · simpa using hx
      · exact hl1 y hy

/-! ### DHCPv6: the checks of a Solicit on a well-formed option list -/

/-- In a well-formed option list, `dhcp_get_option` finds the first option with the
code `c`. -/
theorem dhcp_get_option_first (mem : List Nat) (c off : Nat) (opts : List (Nat × List Nat))
    (post : List Nat) (o : Nat × List Nat)
    (hwf : ∀ o ∈ opts, o.1 < 65536 ∧ o.2.length < 65536)
    (hdrop : mem.drop off = dhcp_opts_bytes opts ++ post)
    (hfind : opts.find? (fun o => decide (o.1 = c)) = some o) :
    ∃ ptr rest, dhcp_get_option mem (some off) (dhcp_opts_bytes opts).length c =
        some ((o.2.length : Int),
          { data_size := o.2.length, data := some ptr, cnt := 0, err := false }) ∧
      mem.drop ptr = o.2 ++ rest := by
  obtain ⟨l1, l2, e, ho, hl1⟩ := find_first_split _ opts o hfind
  have hoc : o.1 = c := by simpa using ho
  obtain ⟨oc, p⟩ := o
  simp only at hoc
  subst hoc
  subst e
  obtain ⟨h1, h2⟩ := dhcp_get_option_found mem oc off l1 l2 p post hwf
    (fun x hx => by simpa using hl1 x hx) hdrop
  exact ⟨_, _, h1, h2⟩

/-- In a well-formed option list without an option of the code `c`,
`dhcp_get_option` returns `-ENOENT`. -/
theorem dhcp_get_option_none (mem : List Nat) (c off : Nat) (opts : List (Nat × List Nat))
    (post : List Nat) (hc : c < 65536)
    (hwf : ∀ o ∈ opts, o.1 < 65536 ∧ o.2.length < 65536)
    (hdrop : mem.drop off = dhcp_opts_bytes opts ++ post)
    (hfind : opts.find? (fun o => decide (o.1 = c)) = none) :
    dhcp_get_option mem (some off) (dhcp_opts_bytes opts).length c =
      some (-ENOENT, dhcp_option_payload_err) := by
  apply dhcp_get_option_absent mem c off opts post hc hwf _ hdrop
  intro o ho
  have := List.find?_eq_none.1 hfind o ho
  simpa using this

/-- An option of the code `c` in the list makes the lookup of `c` succeed. -/
theorem dhcp_get_option_present (mem : List Nat) (c off : Nat) (opts : List (Nat × List Nat))
    (post : List Nat)
    (hwf : ∀ o ∈ opts, o.1 < 65536 ∧ o.2.length < 65536)
    (hdrop : mem.drop off = dhcp_opts_bytes opts ++ post)
    (hmem : ∃ o ∈ opts, o.1 = c) :
    ∃ r, dhcp_get_option mem (some off) (dhcp_opts_bytes opts).length c = some r ∧
      r.2.err = false := by
  cases hfind : opts.find? (fun o => decide (o.1 = c)) with
  | none =>
    obtain ⟨o, ho, hoc⟩ := hmem
    have := List.find?_eq_none.1 hfind o ho
    simp [hoc] at this
  | some o =>
    obtain ⟨ptr, rest, h1, _⟩ := dhcp_get_option_first mem c off opts post o hwf hdrop hfind
    exact ⟨_, h1, rfl⟩

theorem read_be16_append_left (a b : List Nat) (h : 2 ≤ a.length) :
    read_be16 (a ++ b) 0 = read_be16 a 0 := by
  unfold read_be16
  rw [byte_at_append_left _ _ _ (by omega), byte_at_append_left _ _ _ (by omega)]

/-- The status code check passes when no Status Code option of the list has a status
that is not 0. -/
theorem dhcp_check_status_code_ok (mem : List Nat) (off : Nat) (opts : List (Nat × List Nat))
    (post : List Nat)
    (hwf : ∀ o ∈ opts, o.1 < 65536 ∧ o.2.length < 65536)
    (hdrop : mem.drop off = dhcp_opts_bytes opts ++ post)
    (hstatus : ∀ o ∈ opts, o.1 = DHCPV6_OPT_STATUS_CODE → 2 ≤ o.2.length →
      read_be16 o.2 0 = 0) :
    dhcp_check_status_code mem (some off) (dhcp_opts_bytes opts).length = some 0 := by
  unfold dhcp_check_status_code
  cases hfind : opts.find? (fun o => decide (o.1 = DHCPV6_OPT_STATUS_CODE)) with
  | none =>
    rw [dhcp_get_option_none mem _ off opts post (by decide) hwf hdrop hfind]
    rfl
  | some o =>
    obtain ⟨ptr, rest, h1, h2⟩ := dhcp_get_option_first mem _ off opts post o hwf hdrop hfind
    rw [h1]
    dsimp only
    have ho : o ∈ opts := List.mem_of_find?_eq_some hfind
    have hoc : o.1 = DHCPV6_OPT_STATUS_CODE := by
      simpa using List.find?_some hfind
    by_cases hlen : 2 ≤ o.2.length
    · rw [pop_be16_at mem _ ptr 0 (by omega)]
      have hz : read_be16 mem ptr = 0 := by
        rw [read_be16_drop, h2, read_be16_append_left _ _ hlen]
        exact hstatus o ho hoc hlen
      simp [hz]
    · rw [pop_be16_at_short mem _ ptr 0 (by omega) (by omega)]
      simp

/-- The rapid commit check passes when the list holds a Rapid Commit option. -/
theorem dhcp_check_rapid_commit_ok (mem : List Nat) (off : Nat) (opts : List (Nat × List Nat))
    (post : List Nat)
    (hwf : ∀ o ∈ opts, o.1 < 65536 ∧ o.2.length < 65536)
    (hdrop : mem.drop off = dhcp_opts_bytes opts ++ post)
    (hmem : ∃ o ∈ opts, o.1 = DHCPV6_OPT_RAPID_COMMIT) :
    dhcp_check_rapid_commit mem (some off) (dhcp_opts_bytes opts).length = some 0 := by
  obtain ⟨r, hr, he⟩ := dhcp_get_option_present mem _ off opts post hwf hdrop hmem
  unfold dhcp_check_rapid_commit
  rw [hr]
  simp [he]

/-- The elapsed time check passes when the list holds an Elapsed Time option. -/
theorem dhcp_check_elapsed_time_ok (mem : List Nat) (off : Nat) (opts : List (Nat × List Nat))
    (post : List Nat)
    (hwf : ∀ o ∈ opts, o.1 < 65536 ∧ o.2.length < 65536)
    (hdrop : mem.drop off = dhcp_opts_bytes opts ++ post)
    (hmem : ∃ o ∈ opts, o.1 = DHCPV6_OPT_ELAPSED_TIME) :
    dhcp_check_elapsed_time mem (some off) (dhcp_opts_bytes opts).length = some 0 := by
  obtain ⟨r, hr, he⟩ := dhcp_get_option_present mem _ off opts post hwf hdrop hmem
  unfold dhcp_check_elapsed_time
  rw [hr]
  simp [he]

/-- The IAID read from the first IA_NA option, when it has at least 4 bytes. -/
theorem dhcp_get_identity_association_id_first (mem : List Nat) (off : Nat)
    (opts : List (Nat × List Nat)) (post : List Nat) (iaid : Nat) (ia_rest : List Nat)
    (hwf : ∀ o ∈ opts, o.1 < 65536 ∧ o.2.length < 65536)
    (hdrop : mem.drop off = dhcp_opts_bytes opts ++ post)
    (hfind : opts.find? (fun o => decide (o.1 = DHCPV6_OPT_IA_NA)) =
      some (DHCPV6_OPT_IA_NA, write_be32 iaid ++ ia_rest))
    (hiaid : iaid < 4294967296) :
    dhcp_get_identity_association_id mem (some off) (dhcp_opts_bytes opts).length =
      some iaid := by
  obtain ⟨ptr, rest, h1, h2⟩ := dhcp_get_option_first mem _ off opts post _ hwf hdrop hfind
  unfold dhcp_get_identity_association_id
  rw [h1]
  dsimp only
  rw [pop_be32_at mem _ ptr 0 (by simp [write_be32])]
  have hv : read_be32 mem ptr = iaid := by
    rw [read_be32_drop, h2, List.append_assoc, read_be32_write_be32 _ _ hiaid]
  simp [hv]

/-- The hardware type and the address read from the first Client ID option, when it
holds a link-layer DUID of a supported hardware type with 8 bytes of address. -/
theorem dhcp_get_client_hwaddr_first (mem : List Nat) (off : Nat)
    (opts : List (Nat × List Nat)) (post : List Nat) (hwaddr_type : Nat) (addr : List Nat)
    (hwf : ∀ o ∈ opts, o.1 < 65536 ∧ o.2.length < 65536)
    (hdrop : mem.drop off = dhcp_opts_bytes opts ++ post)
    (hfind : opts.find? (fun o => decide (o.1 = DHCPV6_OPT_CLIENT_ID)) =
      some (DHCPV6_OPT_CLIENT_ID,
        write_be16 DHCPV6_DUID_TYPE_LINK_LAYER ++ write_be16 hwaddr_type ++ addr))
    (hhw : hwaddr_type = DHCPV6_DUID_HW_TYPE_EUI64 ∨ hwaddr_type = DHCPV6_DUID_HW_TYPE_IEEE802)
    (haddr : addr.length = 8) :
    ∃ ptr rest, dhcp_get_client_hwaddr mem (some off) (dhcp_opts_bytes opts).length =
        some ((hwaddr_type : Int), some ptr) ∧ mem.drop ptr = addr ++ rest := by
  obtain ⟨ptr, rest, h1, h2⟩ := dhcp_get_option_first mem _ off opts post _ hwf hdrop hfind
  have hlt : hwaddr_type < 65536 := by
    rcases hhw with h | h <;> rw [h] <;> decide
  have hl : (write_be16 DHCPV6_DUID_TYPE_LINK_LAYER ++ write_be16 hwaddr_type ++ addr).length
      = 12 := by
    simp [write_be16, haddr]
  refine ⟨ptr + 4, rest, ?_, ?_⟩
  · unfold dhcp_get_client_hwaddr
    rw [h1]
    dsimp only
    rw [hl]
    have hv1 : read_be16 mem (ptr + 0) = DHCPV6_DUID_TYPE_LINK_LAYER := by
      rw [Nat.add_zero, read_be16_drop, h2, List.append_assoc, List.append_assoc,
        read_be16_write_be16 _ _ (by decide)]
    have hv2 : read_be16 mem (ptr + (0 + 2)) = hwaddr_type := by
      rw [show ptr + (0 + 2) = ptr + 2 by omega, read_be16_drop, ← List.drop_drop, h2,
        List.append_assoc, List.append_assoc]
      rw [show List.drop 2 (write_be16 DHCPV6_DUID_TYPE_LINK_LAYER ++
        (write_be16 hwaddr_type ++ (addr ++ rest))) = write_be16 hwaddr_type ++ (addr ++ rest)
        from rfl]
      exact read_be16_write_be16 _ _ hlt
    simp only [pop_be16_at mem 12 ptr 0 (by omega), pop_be16_at mem 12 ptr (0 + 2) (by omega),
      pop_data_ptr_at 12 ptr (0 + 2 + 2) 8 (by omega), hv1, hv2]
    have hcond : ¬ (DHCPV6_DUID_TYPE_LINK_LAYER ≠ DHCPV6_DUID_TYPE_LINK_LAYER ∨
        hwaddr_type ≠ DHCPV6_DUID_HW_TYPE_EUI64 ∧ hwaddr_type ≠ DHCPV6_DUID_HW_TYPE_IEEE802) := by
      rcases hhw with h | h <;> simp [h]
    simp only [hcond, if_false]
    simp
  · rw [← List.drop_drop, h2, List.append_assoc, List.append_assoc]
    rfl

/-! ### DHCPv6: the reply to a Solicit -/

theorem dhcp_fill_client_id_bytes (buf : List Nat) (hwaddr_type : Nat) (hwaddr : List Nat)
    (hhw : hwaddr_type = DHCPV6_DUID_HW_TYPE_EUI64 ∨ hwaddr_type = DHCPV6_DUID_HW_TYPE_IEEE802) :
    dhcp_fill_client_id buf hwaddr_type (some hwaddr) =
      some (buf ++ dhcp_opt_bytes (DHCPV6_OPT_CLIENT_ID,
        write_be16 DHCPV6_DUID_TYPE_LINK_LAYER ++ write_be16 hwaddr_type ++
          memcpy_bytes hwaddr 8)) := by
  have h := dhcp_opt_push_fill buf
    (write_be16 DHCPV6_DUID_TYPE_LINK_LAYER ++ write_be16 hwaddr_type ++ memcpy_bytes hwaddr 8)
    DHCPV6_OPT_CLIENT_ID (by simp [write_be16, memcpy_bytes_length])
  have hcond : ¬ (hwaddr_type ≠ DHCPV6_DUID_HW_TYPE_EUI64 ∧
      hwaddr_type ≠ DHCPV6_DUID_HW_TYPE_IEEE802) := by
    rcases hhw with h | h <;> simp [h]
  unfold dhcp_fill_client_id
  simp only [hcond, if_false, iobuf_push_be16, iobuf_push_data, List.append_assoc] at h ⊢
  rw [h]
  simp only [dhcp_opt_bytes, List.append_assoc]

theorem dhcp_fill_rapid_commit_bytes (buf : List Nat) :
    dhcp_fill_rapid_commit buf = some (buf ++ dhcp_opt_bytes (DHCPV6_OPT_RAPID_COMMIT, [])) := by
  have h := dhcp_opt_push_fill buf [] DHCPV6_OPT_RAPID_COMMIT (by simp)
  unfold dhcp_fill_rapid_commit
  rw [List.append_nil] at h
  rw [h]
  simp only [dhcp_opt_bytes, List.append_assoc]

theorem dhcp_fill_identity_association_bytes (buf : List Nat) (ia_id : Nat) (ipv6 : List Nat)
    (preferred_lifetime valid_lifetime : Nat) :
    dhcp_fill_identity_association buf ia_id (some ipv6) preferred_lifetime valid_lifetime =
      some (buf ++ dhcp_opt_bytes (DHCPV6_OPT_IA_NA,
        write_be32 ia_id ++ write_be32 0 ++ write_be32 0 ++
          dhcp_opt_bytes (DHCPV6_OPT_IA_ADDRESS,
            memcpy_bytes ipv6 16 ++ write_be32 preferred_lifetime ++
              write_be32 valid_lifetime))) := by
  have h1 := dhcp_opt_push_fill
    ((dhcp_opt_push buf DHCPV6_OPT_IA_NA).2 ++ (write_be32 ia_id ++ write_be32 0 ++ write_be32 0))
    (memcpy_bytes ipv6 16 ++ write_be32 preferred_lifetime ++ write_be32 valid_lifetime)
    DHCPV6_OPT_IA_ADDRESS (by simp [write_be32, memcpy_bytes_length])
  have h2 := dhcp_opt_push_fill buf
    (write_be32 ia_id ++ write_be32 0 ++ write_be32 0 ++
      dhcp_opt_bytes (DHCPV6_OPT_IA_ADDRESS,
        memcpy_bytes ipv6 16 ++ write_be32 preferred_lifetime ++ write_be32 valid_lifetime))
    DHCPV6_OPT_IA_NA
    (by simp [write_be32, write_be16, dhcp_opt_bytes, memcpy_bytes_length])
  unfold dhcp_fill_identity_association
  simp only [iobuf_push_be32, iobuf_push_data, List.append_assoc, dhcp_opt_bytes] at h1 h2 ⊢
  rw [h1]
  dsimp only
  rw [h2]

theorem memcpy_bytes_append_left (l rest : List Nat) (n : Nat) (hn : n = l.length)
    (hb : ∀ b ∈ l, b < 256) : memcpy_bytes (l ++ rest) n = l := by
  subst hn
  apply List.ext_getElem
  · simp [memcpy_bytes]
  · intro i h1 h2
    simp only [memcpy_bytes, List.getElem_map, List.getElem_range]
    rw [byte_at_append_left _ _ _ h2]
    unfold byte_at
    rw [List.getD_eq_getElem _ _ h2]
    exact Nat.mod_eq_of_lt (hb _ (List.getElem_mem h2))

theorem list_length_eight (l : List Nat) (h : l.length = 8) :
    ∃ b0 b1 b2 b3 b4 b5 b6 b7, l = [b0, b1, b2, b3, b4, b5, b6, b7] := by
  match l, h with
  | [b0, b1, b2, b3, b4, b5, b6, b7], _ => exact ⟨b0, b1, b2, b3, b4, b5, b6, b7, rfl⟩

/-- The address of the reply: the 8 bytes of the prefix of the server, then the 8
bytes of the address of the client with bit 0x02 of the first one inverted. -/
theorem dhcp_ipv6_addr_bytes (dhcp : dhcp_server) (addr rest : List Nat)
    (haddr : addr.length = 8) (hb : ∀ b ∈ addr, b < 256) :
    memcpy_bytes (dhcp_ipv6_addr dhcp (addr ++ rest)) 16 =
      memcpy_bytes dhcp.prefix_ 8 ++ addr.set 0 (byte_at addr 0 ^^^ 0x02) := by
  obtain ⟨b0, b1, b2, b3, b4, b5, b6, b7, rfl⟩ := list_length_eight addr haddr
  have h0 : b0 < 256 := hb b0 (by simp)
  have h1 : b1 < 256 := hb b1 (by simp)
  have h2 : b2 < 256 := hb b2 (by simp)
  have h3 : b3 < 256 := hb b3 (by simp)
  have h4 : b4 < 256 := hb b4 (by simp)
  have h5 : b5 < 256 := hb b5 (by simp)
  have h6 : b6 < 256 := hb b6 (by simp)
  have h7 : b7 < 256 := hb b7 (by simp)
  have hx : (b0 ^^^ 2) < 256 := Nat.xor_lt_two_pow (n := 8) h0 (by decide)
  simp [dhcp_ipv6_addr, memcpy_bytes, List.range, List.range.loop, byte_at,
    Nat.mod_eq_of_lt h0, Nat.mod_eq_of_lt h1, Nat.mod_eq_of_lt h2, Nat.mod_eq_of_lt h3,
    Nat.mod_eq_of_lt h4, Nat.mod_eq_of_lt h5, Nat.mod_eq_of_lt h6, Nat.mod_eq_of_lt h7,
    Nat.mod_eq_of_lt hx]

theorem list_length_three (l : List Nat) (h : l.length = 3) :
    ∃ t0 t1 t2, l = [t0, t1, t2] := by
  match l, h with
  | [t0, t1, t2], _ => exact ⟨t0, t1, t2, rfl⟩

/-- C34, amended: for a Solicit made of a transaction id of 3 bytes and a well-formed
option list that holds a Rapid Commit option and an Elapsed Time option, whose first
IA_NA option starts with an IAID other than 0xFFFFFFFF, whose first Client ID option
holds a link-layer DUID of hardware type EUI-64 or IEEE 802 with 8 bytes of address,
and none of whose Status Code options has a status that is not 0,
`dhcp_handle_request` returns 0 with any fuel and builds a Reply with the same
transaction id, the Server ID of the server, the DUID of the client, an IA_NA with
the same IAID whose address is the prefix of the server followed by the address of
the client with bit 0x02 of its first byte inverted, and a Rapid Commit option. -/
theorem dhcp_handle_request_solicit (dhcp : dhcp_server) (fuel : Nat) (tid : List Nat)
    (opts : List (Nat × List Nat)) (iaid hwaddr_type : Nat) (ia_rest addr : List Nat)
    (htid : tid.length = 3) (htidb : ∀ b ∈ tid, b < 256)
    (hwf : ∀ o ∈ opts, o.1 < 65536 ∧ o.2.length < 65536)
    (hrapid : ∃ o ∈ opts, o.1 = DHCPV6_OPT_RAPID_COMMIT)
    (helapsed : ∃ o ∈ opts, o.1 = DHCPV6_OPT_ELAPSED_TIME)
    (hia : opts.find? (fun o => decide (o.1 = DHCPV6_OPT_IA_NA)) =
      some (DHCPV6_OPT_IA_NA, write_be32 iaid ++ ia_rest))
    (hiaid : iaid < UINT32_MAX)
    (hcid : opts.find? (fun o => decide (o.1 = DHCPV6_OPT_CLIENT_ID)) =
      some (DHCPV6_OPT_CLIENT_ID,
        write_be16 DHCPV6_DUID_TYPE_LINK_LAYER ++ write_be16 hwaddr_type ++ addr))
    (hhw : hwaddr_type = DHCPV6_DUID_HW_TYPE_EUI64 ∨ hwaddr_type = DHCPV6_DUID_HW_TYPE_IEEE802)
    (haddr : addr.length = 8) (haddrb : ∀ b ∈ addr, b < 256)
    (hstatus : ∀ o ∈ opts, o.1 = DHCPV6_OPT_STATUS_CODE → 2 ≤ o.2.length →
      read_be16 o.2 0 = 0) :
    dhcp_handle_request ([DHCPV6_MSG_SOLICIT] ++ tid ++ dhcp_opts_bytes opts) dhcp (fuel + 1)
        (dhcp_req ([DHCPV6_MSG_SOLICIT] ++ tid ++ dhcp_opts_bytes opts)) [] =
      some (some (0, [DHCPV6_MSG_REPLY] ++ tid ++ dhcp_opts_bytes
        [(DHCPV6_OPT_SERVER_ID,
            write_be16 DHCPV6_DUID_TYPE_LINK_LAYER ++ write_be16 DHCPV6_DUID_HW_TYPE_EUI64 ++
              memcpy_bytes dhcp.hwaddr 8),
         (DHCPV6_OPT_CLIENT_ID,
            write_be16 DHCPV6_DUID_TYPE_LINK_LAYER ++ write_be16 hwaddr_type ++ addr),
         (DHCPV6_OPT_IA_NA,
            write_be32 iaid ++ write_be32 0 ++ write_be32 0 ++
              dhcp_opt_bytes (DHCPV6_OPT_IA_ADDRESS,
                (memcpy_bytes dhcp.prefix_ 8 ++ addr.set 0 (byte_at addr 0 ^^^ 0x02)) ++
                  write_be32 dhcp.preferred_lifetime ++ write_be32 dhcp.valid_lifetime)),
         (DHCPV6_OPT_RAPID_COMMIT, [])])) := by
  obtain ⟨t0, t1, t2, rfl⟩ := list_length_three tid htid
  have ht0 : t0 < 256 := htidb t0 (by simp)
  have ht1 : t1 < 256 := htidb t1 (by simp)
  have ht2 : t2 < 256 := htidb t2 (by simp)
  generalize hmem : [DHCPV6_MSG_SOLICIT] ++ [t0, t1, t2] ++ dhcp_opts_bytes opts = mem
  have hmlen : mem.length = 4 + (dhcp_opts_bytes opts).length := by
    rw [← hmem]
    simp
    omega
  have hdrop : mem.drop 4 = dhcp_opts_bytes opts ++ [] := by
    rw [← hmem, List.append_nil]
    rfl
  have hb0 : byte_at mem 0 = DHCPV6_MSG_SOLICIT := by
    rw [← hmem]
    rfl
  have htr : read_be24 mem 1 = 65536 * t0 + 256 * t1 + t2 := by
    rw [← hmem]
    simp [read_be24, byte_at, Nat.mod_eq_of_lt ht0, Nat.mod_eq_of_lt ht1, Nat.mod_eq_of_lt ht2]
  have htw : write_be24 (65536 * t0 + 256 * t1 + t2) = [t0, t1, t2] := by
    unfold write_be24
    congr 1
    · omega
    · congr 1
      · omega
      · congr 1
        omega
  have h_u8 : iobuf_pop_u8 mem (dhcp_req mem) =
      (DHCPV6_MSG_SOLICIT, { data_size := mem.length, data := some 0, cnt := 1, err := false }) := by
    unfold dhcp_req
    rw [pop_u8_at mem _ 0 0 (by omega), hb0]
  have h_be24 : iobuf_pop_be24 mem
      { data_size := mem.length, data := some 0, cnt := 1, err := false } =
      (65536 * t0 + 256 * t1 + t2,
        { data_size := mem.length, data := some 0, cnt := 4, err := false }) := by
    rw [pop_be24_at mem _ 0 1 (by omega), Nat.zero_add, htr]
  have h_ptr : iobuf_ptr { data_size := mem.length, data := some 0, cnt := 4, err := false } =
      some 4 := by
    simp [iobuf_ptr]
  have h_rem : iobuf_remaining_size
      { data_size := mem.length, data := some 0, cnt := 4, err := false } =
      (dhcp_opts_bytes opts).length := by
    simp [iobuf_remaining_size, hmlen]
  have h1 := dhcp_check_status_code_ok mem 4 opts [] hwf hdrop hstatus
  have h2 := dhcp_check_rapid_commit_ok mem 4 opts [] hwf hdrop hrapid
  have h3 := dhcp_check_elapsed_time_ok mem 4 opts [] hwf hdrop helapsed
  have h4 := dhcp_get_identity_association_id_first mem 4 opts [] iaid ia_rest hwf hdrop hia
    (by unfold UINT32_MAX at hiaid; omega)
  obtain ⟨ptr, rest, h5, h6⟩ := dhcp_get_client_hwaddr_first mem 4 opts [] hwaddr_type addr hwf
    hdrop hcid hhw haddr
  have hne : iaid ≠ UINT32_MAX := by omega
  rw [dhcp_handle_request]
  simp only [h_u8, h_be24, h_ptr, h_rem, h1, h2, h3, h4, h5, h6]
  rw [if_neg (by decide), if_neg (by decide), if_neg (by decide), if_neg (by decide),
    if_neg (by decide), if_neg hne, if_neg (by omega)]
  simp only [Int.toNat_ofNat]
  rw [dhcp_server_fill_server_id_bytes, dhcp_fill_client_id_bytes _ _ _ hhw]
  dsimp only
  rw [dhcp_fill_identity_association_bytes]
  dsimp only
  rw [dhcp_fill_rapid_commit_bytes]
  dsimp only
  rw [memcpy_bytes_append_left addr rest 8 haddr.symm haddrb,
    dhcp_ipv6_addr_bytes dhcp addr rest haddr haddrb]
  simp only [iobuf_push_u8, iobuf_push_be24, htw, dhcp_opts_bytes, dhcp_opt_bytes,
    List.append_assoc, List.nil_append, List.append_nil, DHCPV6_MSG_REPLY,
    Nat.mod_eq_of_lt (show 7 < 256 by decide)]
  rfl

theorem dhcp_handle_request_solicit_witness :
    dhcp_handle_request
        ([DHCPV6_MSG_SOLICIT] ++ [0xaa, 0xbb, 0xcc] ++ dhcp_opts_bytes
          (dhcp_solicit_opts_example [(DHCPV6_OPT_IA_NA, write_be32 5 ++ List.replicate 8 0)]))
        dhcp_server_example (0 + 1)
        (dhcp_req ([DHCPV6_MSG_SOLICIT] ++ [0xaa, 0xbb, 0xcc] ++ dhcp_opts_bytes
          (dhcp_solicit_opts_example [(DHCPV6_OPT_IA_NA, write_be32 5 ++ List.replicate 8 0)])))
        [] =
      some (some (0, [DHCPV6_MSG_REPLY] ++ [0xaa, 0xbb, 0xcc] ++ dhcp_opts_bytes
        [(DHCPV6_OPT_SERVER_ID,
            write_be16 DHCPV6_DUID_TYPE_LINK_LAYER ++ write_be16 DHCPV6_DUID_HW_TYPE_EUI64 ++
              memcpy_bytes dhcp_server_example.hwaddr 8),
         (DHCPV6_OPT_CLIENT_ID,
            write_be16 DHCPV6_DUID_TYPE_LINK_LAYER ++ write_be16 DHCPV6_DUID_HW_TYPE_EUI64 ++
              [0x11, 0x12, 0x13, 0x14, 0x15, 0x16, 0x17, 0x18]),
         (DHCPV6_OPT_IA_NA,
            write_be32 5 ++ write_be32 0 ++ write_be32 0 ++
              dhcp_opt_bytes (DHCPV6_OPT_IA_ADDRESS,
                (memcpy_bytes dhcp_server_example.prefix_ 8 ++
                  [0x11, 0x12, 0x13, 0x14, 0x15, 0x16, 0x17, 0x18].set 0
                    (byte_at [0x11, 0x12, 0x13, 0x14, 0x15, 0x16, 0x17, 0x18] 0 ^^^ 0x02)) ++
                  write_be32 dhcp_server_example.preferred_lifetime ++
                  write_be32 dhcp_server_example.valid_lifetime)),
         (DHCPV6_OPT_RAPID_COMMIT, [])])) :=
  dhcp_handle_request_solicit dhcp_server_example 0 [0xaa, 0xbb, 0xcc]
    (dhcp_solicit_opts_example [(DHCPV6_OPT_IA_NA, write_be32 5 ++ List.replicate 8 0)])
    5 DHCPV6_DUID_HW_TYPE_EUI64 (List.replicate 8 0)
    [0x11, 0x12, 0x13, 0x14, 0x15, 0x16, 0x17, 0x18]
    (by decide) (by decide) (by decide) (by decide) (by decide) (by decide) (by decide)
    (by decide) (by decide) (by decide) (by decide) (by decide)

/-- C34, counterexamples: a Solicit with the options the claim asks for whose IAID is
0xFFFFFFFF is refused with `-EINVAL`, because `dhcp_get_identity_association_id`
returns `UINT32_MAX` for an error; and so is a Solicit that holds an IA_NA option
with 12 bytes of content after an IA_NA option without content, because only the
first option of a code is looked at. -/
theorem dhcp_handle_request_solicit_counterexample :
    dhcp_handle_request
        (dhcp_solicit_example [(DHCPV6_OPT_IA_NA, write_be32 4294967295 ++ List.replicate 8 0)])
        dhcp_server_example 1
        (dhcp_req (dhcp_solicit_example
          [(DHCPV6_OPT_IA_NA, write_be32 4294967295 ++ List.replicate 8 0)])) [] =
      some (some (-EINVAL, [])) ∧
    dhcp_handle_request
        (dhcp_solicit_example [(DHCPV6_OPT_IA_NA, []),
          (DHCPV6_OPT_IA_NA, write_be32 5 ++ List.replicate 8 0)])
        dhcp_server_example 1
        (dhcp_req (dhcp_solicit_example [(DHCPV6_OPT_IA_NA, []),
          (DHCPV6_OPT_IA_NA, write_be32 5 ++ List.replicate 8 0)])) [] =
      some (some (-EINVAL, [])) := by
  constructor <;> decide

/-! ### Border router: routing table -/

/-- C37, the code at the failing input: with `table_len` 0 and a target that has a
preferred transit, `ws_bbr_routing_table_get` stores the entry 0 of `table_ptr`
before it compares `cnt` with `table_len`, and it returns 1. -/
theorem ws_bbr_routing_table_get_zero_len :
    ws_bbr_routing_table_get rpl_transit_preferred_example rpl_targets_example 0 =
      (1, [(0, { target := [1, 2, 3, 4, 5, 6, 7, 8],
                 parent := [11, 12, 13, 14, 15, 16, 17, 18] })]) := by
  decide

/-! ### RPL: one preferred parent -/

theorem set_neigh_at_cache (ipv6 : ipv6_ctx) (i : Nat) (n : ipv6_neigh) :
    (set_neigh_at ipv6 i n).neigh_cache = ipv6.neigh_cache.set i n := rfl

/-- A store of an entry without RPL state does not add an entry with RPL state. -/
theorem countP_set_no_rpl (l : List ipv6_neigh) (i : Nat) (a : ipv6_neigh)
    (ha : a.rpl_neigh = false) :
    (l.set i a).countP (fun n => n.rpl_neigh) ≤ l.countP (fun n => n.rpl_neigh) := by
  by_cases h : i < l.length
  · rw [List.countP_set _ _ _ _ h]
    simp only [ha, Bool.false_eq_true, if_false]
    omega
  · rw [List.set_eq_of_length_le (by omega)]

theorem mem_set_rpl (l : List ipv6_neigh) (i : Nat) (a n : ipv6_neigh)
    (ha : a.rpl_neigh = false) (hn : n ∈ l.set i a) (hr : n.rpl_neigh = true) : n ∈ l := by
  rcases List.mem_or_eq_of_mem_set hn with h | h
  · exact h
  · rw [h, ha] at hr
    cases hr

/-- Deleting the RPL state of a neighbor adds no entry with RPL state. -/
theorem rpl_neigh_del_keeps (ipv6 : ipv6_ctx) (nce : Nat) :
    (rpl_neigh_del ipv6 nce).neigh_cache.countP (fun n => n.rpl_neigh) ≤
        ipv6.neigh_cache.countP (fun n => n.rpl_neigh) ∧
      ∀ n ∈ (rpl_neigh_del ipv6 nce).neigh_cache, n.rpl_neigh = true → n ∈ ipv6.neigh_cache := by
  unfold rpl_neigh_del set_rpl_neigh
  rw [set_neigh_at_cache]
  exact ⟨countP_set_no_rpl _ _ _ rfl, fun n hn hr => mem_set_rpl _ _ _ n rfl hn hr⟩

/-- The labels `malformed` and `drop_neigh` add no entry with RPL state. -/
theorem rpl_recv_dio_drop_neigh_keeps (mem : List Nat) (ipv6 c : ipv6_ctx) (p : Option Nat)
    (h : rpl_recv_dio_drop_neigh mem ipv6 p = some c) :
    c.neigh_cache.countP (fun n => n.rpl_neigh) ≤
        ipv6.neigh_cache.countP (fun n => n.rpl_neigh) ∧
      ∀ n ∈ c.neigh_cache, n.rpl_neigh = true → n ∈ ipv6.neigh_cache := by
  unfold rpl_recv_dio_drop_neigh at h
  cases p with
  | none => cases h
  | some p =>
    dsimp only at h
    split at h
    · cases h
      exact ⟨Nat.le_refl _, fun n hn _ => hn⟩
    · split at h
      · cases h
        exact rpl_neigh_del_keeps _ _
      · cases h
        exact ⟨Nat.le_refl _, fun n hn _ => hn⟩

/-- The function `ipv6_neigh_add` returns, and it puts an entry without RPL state at
the head of the cache. -/
theorem ipv6_neigh_add_cache (ipv6 : ipv6_ctx) (gua eui64 : List Nat) :
    ∃ c e, ipv6_neigh_add ipv6 gua eui64 = some c ∧ c.neigh_cache = e :: ipv6.neigh_cache ∧
      e.rpl_neigh = false := by
  unfold ipv6_neigh_add
  rw [ipv6_nud_set_state]
  simp only [if_pos rfl]
  exact ⟨_, _, rfl, rfl, rfl⟩

theorem pref_parent_none_count (ipv6 : ipv6_ctx) (h : (rpl_neigh_pref_parent ipv6).isSome = false) :
    ipv6.neigh_cache.countP (fun n => n.rpl_neigh) = 0 := by
  unfold rpl_neigh_pref_parent at h
  rw [List.findIdx?_isSome] at h
  rw [List.countP_eq_zero]
  intro a ha hr
  have : ipv6.neigh_cache.any (fun nce => nce.rpl_neigh) = true :=
    List.any_eq_true.2 ⟨a, ha, hr⟩
  rw [h] at this
  cases this

/-- When no entry has an RPL state, `rpl_neigh_add` leaves at most one. -/
theorem rpl_neigh_add_count (ipv6 c : ipv6_ctx) (nce : Nat)
    (h0 : ipv6.neigh_cache.countP (fun n => n.rpl_neigh) = 0)
    (h : rpl_neigh_add ipv6 nce = some c) :
    c.neigh_cache.countP (fun n => n.rpl_neigh) ≤ 1 := by
  unfold rpl_neigh_add at h
  split at h
  · cases h
  · cases h
    unfold set_rpl_neigh
    rw [set_neigh_at_cache]
    by_cases hi : nce < ipv6.neigh_cache.length
    · rw [List.countP_set _ _ _ _ hi, h0]
      simp
    · rw [List.set_eq_of_length_le (by omega), h0]
      omega

/-- The end of `rpl_recv_dio` keeps the cache with at most one entry with RPL state,
and when there is a preferred parent it adds no entry with RPL state. -/
theorem rpl_recv_dio_accept_keeps (mem : List Nat)
    (on_pref_parent_change : Option (ipv6_ctx → Nat → ipv6_ctx)) (ipv6 c : ipv6_ctx) (p : Nat)
    (src : List Nat)
    (h1 : ipv6.neigh_cache.countP (fun n => n.rpl_neigh) ≤ 1)
    (hcb : ∀ f, on_pref_parent_change = some f → ∀ (c : ipv6_ctx) (nce : Nat),
      c.neigh_cache.countP (fun n => n.rpl_neigh) ≤ 1 →
      (f c nce).neigh_cache.countP (fun n => n.rpl_neigh) ≤ 1)
    (h : rpl_recv_dio_accept mem on_pref_parent_change ipv6 p src = some c) :
    c.neigh_cache.countP (fun n => n.rpl_neigh) ≤ 1 ∧
      ((rpl_neigh_pref_parent ipv6).isSome = true →
        ∀ n ∈ c.neigh_cache, n.rpl_neigh = true → n ∈ ipv6.neigh_cache) := by
  unfold rpl_recv_dio_accept at h
  -- the neighbor looked up or added
  have hget : ∃ c1 nce, rpl_recv_dio_neigh ipv6 (memcpy_bytes (List.drop (p + 14) mem) 16) src =
        some (c1, nce) ∧
      (c1.neigh_cache = ipv6.neigh_cache ∨
        ∃ e, c1.neigh_cache = e :: ipv6.neigh_cache ∧ e.rpl_neigh = false) := by
    unfold rpl_recv_dio_neigh
    cases ipv6_neigh_get ipv6 (memcpy_bytes (List.drop (p + 14) mem) 16) with
    | some nce => exact ⟨ipv6, nce, rfl, Or.inl rfl⟩
    | none =>
      obtain ⟨c1, e, hc1, hcache, he⟩ := ipv6_neigh_add_cache ipv6
        (memcpy_bytes (List.drop (p + 14) mem) 16) (ipv6_addr_conv_iid_eui64 (src.drop 8))
      refine ⟨c1, 0, ?_, Or.inr ⟨e, hcache, he⟩⟩
      simp only [hc1, Option.map_some']
  obtain ⟨c1, nce, hc1, hcache⟩ := hget
  rw [hc1] at h
  dsimp only at h
  have hcount : c1.neigh_cache.countP (fun n => n.rpl_neigh) =
      ipv6.neigh_cache.countP (fun n => n.rpl_neigh) := by
    rcases hcache with hc | ⟨e, hc, he⟩
    · rw [hc]
    · rw [hc, List.countP_cons]
      simp [he]
  have hmem : ∀ n ∈ c1.neigh_cache, n.rpl_neigh = true → n ∈ ipv6.neigh_cache := by
    intro n hn hr
    rcases hcache with hc | ⟨e, hc, he⟩
    · rw [hc] at hn
      exact hn
    · rw [hc] at hn
      rcases List.mem_cons.1 hn with h | h
      · rw [h, he] at hr
        cases hr
      · exact h
  have hpref : (rpl_neigh_pref_parent ipv6).isSome = true →
      (rpl_neigh_pref_parent c1).isSome = true := by
    intro hp
    cases hq : (rpl_neigh_pref_parent c1).isSome with
    | true => rfl
    | false =>
      have z := pref_parent_none_count c1 hq
      rw [hcount] at z
      unfold rpl_neigh_pref_parent at hp
      rw [List.findIdx?_isSome, List.any_eq_true] at hp
      obtain ⟨x, hx, hxr⟩ := hp
      exact absurd hxr (List.countP_eq_zero.1 z x hx)
  split at h
  · split at h
    · -- a preferred parent exists: the DIO is dropped
      obtain ⟨k1, k2⟩ := rpl_recv_dio_drop_neigh_keeps mem c1 c (some p) h
      exact ⟨by omega, fun _ n hn hr => hmem n (k2 n hn hr) hr⟩
    · rename_i hnp
      have hq : (rpl_neigh_pref_parent c1).isSome = false := by
        simpa using hnp
      have hz := pref_parent_none_count c1 hq
      have hno : ¬ (rpl_neigh_pref_parent ipv6).isSome = true := fun hp => by
        rw [hpref hp] at hq
        cases hq
      cases hadd : rpl_neigh_add c1 nce with
      | none =>
        rw [hadd] at h
        cases h
      | some c2 =>
        rw [hadd] at h
        dsimp only at h
        have hc2 := rpl_neigh_add_count c1 c2 nce hz hadd
        cases hcbv : on_pref_parent_change with
        | none =>
          rw [hcbv] at h
          cases h
          exact ⟨hc2, fun hp => absurd hp hno⟩
        | some f =>
          rw [hcbv] at h
          cases h
          exact ⟨hcb f hcbv c2 nce hc2, fun hp => absurd hp hno⟩
  · cases h
    exact ⟨by omega, fun _ n hn hr => hmem n hn hr⟩

/-- The option loop of `rpl_recv_dio` returns when the fuel exceeds the remaining
size. -/
theorem rpl_recv_dio_opts_total (mem : List Nat) :
    ∀ (fuel : Nat) (iobuf : iobuf_read) (config prefix_ : Option Nat),
      iobuf_remaining_size iobuf < fuel →
      ∃ r, rpl_recv_dio_opts mem fuel iobuf config prefix_ = some r := by
  intro fuel
  induction fuel with
  | zero => intro iobuf _ _ h; omega
  | succ fuel ih =>
    intro iobuf config prefix_ h
    rw [rpl_recv_dio_opts]
    by_cases hrem : iobuf_remaining_size iobuf ≠ 0
    · rw [if_pos hrem]
      cases iobuf_ptr iobuf with
      | none => exact ⟨_, rfl⟩
      | some opt =>
        dsimp only
        have hu8 : iobuf_remaining_size (iobuf_pop_u8 mem iobuf).2 < fuel := by
          rw [iobuf_pop_u8_snd]
          have := iobuf_pop_data_ptr_remaining iobuf 1
          omega
        have h2 := iobuf_pop_data_ptr_remaining iobuf sizeof_rpl_opt
        have h3 := iobuf_pop_data_ptr_remaining_le (iobuf_pop_data_ptr iobuf sizeof_rpl_opt).2
          (byte_at mem (opt + 1))
        have hlt : iobuf_remaining_size (iobuf_pop_data_ptr
            (iobuf_pop_data_ptr iobuf sizeof_rpl_opt).2 (byte_at mem (opt + 1))).2 < fuel := by
          have : sizeof_rpl_opt = 2 := rfl
          omega
        split
        · exact ih _ _ _ hu8
        · split
          · exact ⟨_, rfl⟩
          · split
            · exact ⟨_, rfl⟩
            · split
              · exact ih _ _ _ hlt
              · split
                · split
                  · exact ⟨_, rfl⟩
                  · exact ih _ _ _ hlt
                · split
                  · split
                    · exact ⟨_, rfl⟩
                    · split
                      · exact ⟨_, rfl⟩
                      · split
                        · exact ⟨_, rfl⟩
                        · exact ih _ _ _ hlt
                  · exact ih _ _ _ hlt
    · rw [if_neg hrem]
      exact ⟨_, rfl⟩

/-- In a cache with at most one entry with RPL state, two positions with RPL state
are the same. -/
theorem rpl_neigh_unique (z : ipv6_neigh) :
    ∀ (l : List ipv6_neigh) (i j : Nat), i < l.length → j < l.length →
      l.countP (fun n => n.rpl_neigh) ≤ 1 →
      (l.getD i z).rpl_neigh = true → (l.getD j z).rpl_neigh = true → i = j := by
  intro l
  induction l with
  | nil => intro i j hi; simp at hi
  | cons a l ih =>
    intro i j hi hj hc h1 h2
    rw [List.countP_cons] at hc
    have hzero : ∀ k, k < l.length → (l.getD k z).rpl_neigh = true → a.rpl_neigh = true →
        False := by
      intro k hk hr ha
      simp only [ha, if_true] at hc
      have h0 : l.countP (fun n => n.rpl_neigh) = 0 := by omega
      rw [List.getD_eq_getElem _ _ hk] at hr
      exact List.countP_eq_zero.1 h0 _ (List.getElem_mem hk) hr
    cases i with
    | zero =>
      cases j with
      | zero => rfl
      | succ j =>
        exact (hzero j (by simpa using hj) (by simpa using h2) (by simpa using h1)).elim
    | succ i =>
      cases j with
      | zero =>
        exact (hzero i (by simpa using hi) (by simpa using h1) (by simpa using h2)).elim
      | succ j =>
        have := ih i j (by simpa using hi) (by simpa using hj) (by omega) (by simpa using h1)
          (by simpa using h2)
        omega

/-- C38: when at most one entry of the neighbor cache has an RPL state, then
`rpl_recv_dio` returns, and unless it aborts the process (`prefix` is read at
`NULL` when a DIO is dropped before a prefix option is found) the cache has at most
one entry with an RPL state after the call, provided the callback
`on_pref_parent_change` keeps this; when a preferred parent exists, every entry
with an RPL state after the call is an entry of the cache before it, so that no RPL
state is attached; the same bound holds after `ipv6_neigh_del`; and
`rpl_neigh_pref_parent` returns `NULL` when no entry has an RPL state, and else the
one entry that has. -/
theorem rpl_single_parent (mem : List Nat)
    (on_pref_parent_change : Option (ipv6_ctx → Nat → ipv6_ctx)) (ipv6 : ipv6_ctx)
    (buf buf_len : Nat) (src : List Nat) (neigh : Nat)
    (h : ipv6.neigh_cache.countP (fun n => n.rpl_neigh) ≤ 1)
    (hcb : ∀ f, on_pref_parent_change = some f → ∀ (c : ipv6_ctx) (nce : Nat),
      c.neigh_cache.countP (fun n => n.rpl_neigh) ≤ 1 →
      (f c nce).neigh_cache.countP (fun n => n.rpl_neigh) ≤ 1) :
    (∃ r, rpl_recv_dio mem on_pref_parent_change ipv6 buf buf_len src = some r ∧
      ∀ c, r = some c →
        c.neigh_cache.countP (fun n => n.rpl_neigh) ≤ 1 ∧
        ((rpl_neigh_pref_parent ipv6).isSome = true →
          ∀ n ∈ c.neigh_cache, n.rpl_neigh = true → n ∈ ipv6.neigh_cache)) ∧
    (ipv6_neigh_del ipv6 neigh).neigh_cache.countP (fun n => n.rpl_neigh) ≤ 1 ∧
    (match rpl_neigh_pref_parent ipv6 with
     | none => ∀ n ∈ ipv6.neigh_cache, n.rpl_neigh = false
     | some i => i < ipv6.neigh_cache.length ∧ (neigh_at ipv6 i).rpl_neigh = true ∧
        ∀ j, j < ipv6.neigh_cache.length → (neigh_at ipv6 j).rpl_neigh = true → j = i) := by
  refine ⟨?_, ?_, ?_⟩
  · -- rpl_recv_dio
    have leaf_drop : ∀ p, ∃ r, some (rpl_recv_dio_drop_neigh mem ipv6 p) = some r ∧
        ∀ c, r = some c →
          c.neigh_cache.countP (fun n => n.rpl_neigh) ≤ 1 ∧
          ((rpl_neigh_pref_parent ipv6).isSome = true →
            ∀ n ∈ c.neigh_cache, n.rpl_neigh = true → n ∈ ipv6.neigh_cache) := by
      intro p
      refine ⟨_, rfl, fun c hc => ?_⟩
      obtain ⟨k1, k2⟩ := rpl_recv_dio_drop_neigh_keeps mem ipv6 c p hc
      exact ⟨by omega, fun _ => k2⟩
    have leaf_accept : ∀ p, ∃ r,
        some (rpl_recv_dio_accept mem on_pref_parent_change ipv6 p src) = some r ∧
        ∀ c, r = some c →
          c.neigh_cache.countP (fun n => n.rpl_neigh) ≤ 1 ∧
          ((rpl_neigh_pref_parent ipv6).isSome = true →
            ∀ n ∈ c.neigh_cache, n.rpl_neigh = true → n ∈ ipv6.neigh_cache) := by
      intro p
      exact ⟨_, rfl, fun c hc =>
        rpl_recv_dio_accept_keeps mem on_pref_parent_change ipv6 c p src h hcb hc⟩
    unfold rpl_recv_dio
    dsimp only
    split
    · refine ⟨_, rfl, fun c hc => ?_⟩
      cases hc
      exact ⟨h, fun _ n hn _ => hn⟩
    · split
      · exact leaf_drop none
      · obtain ⟨ro, hro⟩ := rpl_recv_dio_opts_total mem (buf_len + 1)
          (iobuf_pop_data_ptr { data_size := buf_len, data := some buf, cnt := 0, err := false }
            sizeof_rpl_dio_base).2 none none (by
            have := iobuf_pop_data_ptr_remaining_le
              { data_size := buf_len, data := some buf, cnt := 0, err := false }
              sizeof_rpl_dio_base
            simp only [iobuf_remaining_size] at this ⊢
            simp only [Bool.false_eq_true, if_false] at this
            omega)
        split
        · exact leaf_drop none
        · split
          · exact leaf_drop none
          · split
            · exact leaf_drop none
            · rw [hro]
              split
              · rename_i hx
                cases hx
              · exact ⟨_, rfl, fun c hc => by cases hc⟩
              · exact leaf_drop _
              · split
                · exact leaf_drop _
                · split
                  · exact leaf_drop _
                  · split
                    · exact leaf_drop _
                    · split
                      · exact leaf_drop none
                      · exact leaf_accept _
  · -- ipv6_neigh_del
    have hsub : (ipv6_neigh_del ipv6 neigh).neigh_cache.countP (fun n => n.rpl_neigh) ≤
        ((ipv6.neigh_cache.set neigh
          { gua := (neigh_at ipv6 neigh).gua, eui64 := (neigh_at ipv6 neigh).eui64,
            nud_state := (neigh_at ipv6 neigh).nud_state,
            nud_probe_count := (neigh_at ipv6 neigh).nud_probe_count, nud_timer := none,
            rpl_neigh := (neigh_at ipv6 neigh).rpl_neigh }).eraseIdx neigh).countP
          (fun n => n.rpl_neigh) := by
      unfold ipv6_neigh_del
      dsimp only
      split <;> exact Nat.le_refl _
    refine Nat.le_trans hsub ?_
    by_cases hi : neigh < ipv6.neigh_cache.length
    · refine Nat.le_trans (List.Sublist.countP_le _ (List.eraseIdx_sublist _ _)) ?_
      rw [List.countP_set _ _ _ _ hi]
      have hg : (neigh_at ipv6 neigh) = ipv6.neigh_cache[neigh] := by
        unfold neigh_at
        exact List.getD_eq_getElem _ _ hi
      rw [hg]
      dsimp only
      split_ifs <;> omega
    · rw [List.set_eq_of_length_le (by omega)]
      exact Nat.le_trans (List.Sublist.countP_le _ (List.eraseIdx_sublist _ _)) h
  · -- rpl_neigh_pref_parent
    cases hp : rpl_neigh_pref_parent ipv6 with
    | none =>
      dsimp only
      unfold rpl_neigh_pref_parent at hp
      exact List.findIdx?_eq_none_iff.1 hp
    | some i =>
      dsimp only
      unfold rpl_neigh_pref_parent at hp
      obtain ⟨hi, hpi, _⟩ := List.findIdx?_eq_some_iff_getElem.1 hp
      have hat : (neigh_at ipv6 i).rpl_neigh = true := by
        unfold neigh_at
        rw [List.getD_eq_getElem _ _ hi]
        exact hpi
      exact ⟨hi, hat, fun j hj hr =>
        rpl_neigh_unique ipv6_neigh_zero ipv6.neigh_cache j i hj hi h hr hat⟩

theorem rpl_single_parent_witness :
    rpl_ctx_example.neigh_cache.countP (fun n => n.rpl_neigh) ≤ 1 ∧
    (rpl_recv_dio (rpl_dio_example [0x20, 1, 0xd, 0xb8, 0, 0, 0, 0, 0, 0, 0, 0, 0, 0, 0, 3])
        none rpl_ctx_example 0 72 rpl_src_example).map
      (fun r => r.map (fun c => (c.neigh_cache.length, rpl_neigh_pref_parent c))) =
      some (some (2, some 1)) ∧
    ((∃ r, rpl_recv_dio (rpl_dio_example [0x20, 1, 0xd, 0xb8, 0, 0, 0, 0, 0, 0, 0, 0, 0, 0, 0, 3])
        none rpl_ctx_example 0 72 rpl_src_example = some r ∧
      ∀ c, r = some c →
        c.neigh_cache.countP (fun n => n.rpl_neigh) ≤ 1 ∧
        ((rpl_neigh_pref_parent rpl_ctx_example).isSome = true →
          ∀ n ∈ c.neigh_cache, n.rpl_neigh = true → n ∈ rpl_ctx_example.neigh_cache)) ∧
    (ipv6_neigh_del rpl_ctx_example 0).neigh_cache.countP (fun n => n.rpl_neigh) ≤ 1 ∧
    (match rpl_neigh_pref_parent rpl_ctx_example with
     | none => ∀ n ∈ rpl_ctx_example.neigh_cache, n.rpl_neigh = false
     | some i => i < rpl_ctx_example.neigh_cache.length ∧
        (neigh_at rpl_ctx_example i).rpl_neigh = true ∧
        ∀ j, j < rpl_ctx_example.neigh_cache.length →
          (neigh_at rpl_ctx_example j).rpl_neigh = true → j = i)) :=
  ⟨by decide, by decide,
   rpl_single_parent (rpl_dio_example [0x20, 1, 0xd, 0xb8, 0, 0, 0, 0, 0, 0, 0, 0, 0, 0, 0, 3])
     none rpl_ctx_example 0 72 rpl_src_example 0 (by decide)
     (fun f hf => by cases hf)⟩

/-! ### HIF: extent of the variable-length integer round trip -/

theorem group_or_0x80 : ∀ a, a < 128 → a ||| 0x80 = a + 128 := by decide

theorem group_and_0x7F : ∀ a, a < 128 → (a + 128) &&& 0x7F = a ∧ a &&& 0x7F = a := by decide

theorem group_and_0x80 : ∀ a, a < 128 → (a + 128) &&& 0x80 ≠ 0 ∧ a &&& 0x80 = 0 := by decide

theorem and_0x7F_mod (x : Nat) : x &&& 0x7F = x % 128 :=
  Nat.and_pow_two_sub_one_eq_mod x 7

theorem or_shiftLeft_add (val g i : Nat) (h : val < 2 ^ i) :
    val ||| (g <<< i) = val + g * 2 ^ i := by
  rw [Nat.shiftLeft_eq, Nat.lor_comm, Nat.mul_comm, ← Nat.mul_add_lt_is_or h, Nat.add_comm]

/-- A turn of the loop of `hif_push_uint` that is not the last one. -/
theorem hif_push_uint_loop_more (fuel : Nat) (buf : List Nat) (val : Nat) (h : val / 128 ≠ 0) :
    hif_push_uint_loop (fuel + 1) buf val =
      hif_push_uint_loop fuel (buf ++ [val % 128 + 128]) (val / 128) := by
  have hb : ((val &&& 0x7F) ||| 0x80) % 256 = val % 128 + 128 := by
    rw [and_0x7F_mod, group_or_0x80 _ (Nat.mod_lt _ (by decide))]
    omega
  rw [hif_push_uint_loop]
  simp only [iobuf_push_u8, hb, Nat.shiftRight_eq_div_pow]
  rw [if_pos h]

/-- The last turn of the loop of `hif_push_uint`. -/
theorem hif_push_uint_loop_last (fuel : Nat) (buf : List Nat) (val : Nat) (h : val / 128 = 0) :
    hif_push_uint_loop (fuel + 1) buf val = some (buf ++ [val % 128 + 128]) := by
  have hb : ((val &&& 0x7F) ||| 0x80) % 256 = val % 128 + 128 := by
    rw [and_0x7F_mod, group_or_0x80 _ (Nat.mod_lt _ (by decide))]
    omega
  rw [hif_push_uint_loop]
  simp only [iobuf_push_u8, hb, Nat.shiftRight_eq_div_pow]
  rw [if_neg (by simpa using h)]

/-- A turn of the loop of `__hif_pop_uint` on a byte with bit 7 set, before the
fifth byte. -/
theorem hif_pop_uint_loop_more (mem : List Nat) (fuel n c val i g : Nat) (hc : c + 1 ≤ n)
    (hb : byte_at mem c = g + 128) (hg : g < 128) (hv : val < 2 ^ i) (hi : i + 7 ≤ 32) :
    hif_pop_uint_loop mem (fuel + 1) { data_size := n, data := some 0, cnt := c, err := false }
        val i =
      hif_pop_uint_loop mem fuel { data_size := n, data := some 0, cnt := c + 1, err := false }
        ((val + g * 2 ^ i) % 4294967296) (i + 7) := by
  rw [hif_pop_uint_loop]
  simp only [pop_u8_ok mem n c hc, hb, (group_and_0x7F g hg).1, or_shiftLeft_add val g i hv]
  rw [if_neg (by omega), if_pos (group_and_0x80 g hg).1]

/-- A turn of the loop of `__hif_pop_uint` on a byte with bit 7 clear, before the
fifth byte. -/
theorem hif_pop_uint_loop_last (mem : List Nat) (fuel n c val i g : Nat) (hc : c + 1 ≤ n)
    (hb : byte_at mem c = g) (hg : g < 128) (hv : val < 2 ^ i) (hi : i + 7 ≤ 32) :
    hif_pop_uint_loop mem (fuel + 1) { data_size := n, data := some 0, cnt := c, err := false }
        val i =
      some ((val + g * 2 ^ i) % 4294967296,
        { data_size := n, data := some 0, cnt := c + 1, err := false }) := by
  rw [hif_pop_uint_loop]
  simp only [pop_u8_ok mem n c hc, hb, (group_and_0x7F g hg).2, or_shiftLeft_add val g i hv]
  rw [if_neg (by omega), if_neg (by rw [(group_and_0x80 g hg).2]; simp)]

/-- The fifth turn of the loop of `__hif_pop_uint`: `i` goes from 28 to 35 and the
value is refused. -/
theorem hif_pop_uint_loop_fifth (mem : List Nat) (fuel n c val : Nat) (hc : c + 1 ≤ n) :
    hif_pop_uint_loop mem (fuel + 1) { data_size := n, data := some 0, cnt := c, err := false }
        val 28 =
      some (0, { data_size := n, data := some 0, cnt := c + 1, err := true }) := by
  rw [hif_pop_uint_loop]
  simp only [pop_u8_ok mem n c hc]
  rw [if_pos (by decide)]

/-- The bytes `hif_push_uint` writes for a value of 32 bits: groups of 7 bits, least
significant first, bit 7 set on all but the last. -/
theorem hif_push_uint_bytes (v : Nat) (hv : v < 4294967296) :
    hif_push_uint [] v = some (
      if v < 128 then [v]
      else if v < 16384 then [v % 128 + 128, v / 128]
      else if v < 2097152 then [v % 128 + 128, v / 128 % 128 + 128, v / 16384]
      else if v < 268435456 then
        [v % 128 + 128, v / 128 % 128 + 128, v / 16384 % 128 + 128, v / 2097152]
      else [v % 128 + 128, v / 128 % 128 + 128, v / 16384 % 128 + 128,
        v / 2097152 % 128 + 128, v / 268435456]) := by
  unfold hif_push_uint
  rw [Nat.mod_eq_of_lt hv]
  have d2 : v / 128 / 128 = v / 16384 := by omega
  have d3 : v / 16384 / 128 = v / 2097152 := by omega
  have d4 : v / 2097152 / 128 = v / 268435456 := by omega
  by_cases h1 : v < 128
  · rw [if_pos h1, hif_push_uint_loop_last _ _ _ (by omega)]
    have e := (group_and_0x7F v h1).1
    simp [byte_at, Nat.mod_eq_of_lt h1, Nat.mod_eq_of_lt (show v + 128 < 256 by omega), e]
  · rw [if_neg h1, hif_push_uint_loop_more _ _ _ (by omega)]
    by_cases h2 : v < 16384
    · rw [if_pos h2, hif_push_uint_loop_last _ _ _ (by omega)]
      have hg : v / 128 < 128 := by omega
      have e := (group_and_0x7F _ hg).1
      simp [byte_at, Nat.mod_eq_of_lt hg, Nat.mod_eq_of_lt (show v / 128 + 128 < 256 by omega), e]
    · rw [if_neg h2, hif_push_uint_loop_more _ _ _ (by omega), d2]
      by_cases h3 : v < 2097152
      · rw [if_pos h3, hif_push_uint_loop_last _ _ _ (by omega)]
        have hg : v / 16384 < 128 := by omega
        have e := (group_and_0x7F _ hg).1
        simp [byte_at, Nat.mod_eq_of_lt hg,
          Nat.mod_eq_of_lt (show v / 16384 + 128 < 256 by omega), e]
      · rw [if_neg h3, hif_push_uint_loop_more _ _ _ (by omega), d3]
        by_cases h4 : v < 268435456
        · rw [if_pos h4, hif_push_uint_loop_last _ _ _ (by omega)]
          have hg : v / 2097152 < 128 := by omega
          have e := (group_and_0x7F _ hg).1
          simp [byte_at, Nat.mod_eq_of_lt hg,
            Nat.mod_eq_of_lt (show v / 2097152 + 128 < 256 by omega), e]
        · rw [if_neg h4, hif_push_uint_loop_more _ _ _ (by omega), d4,
            hif_push_uint_loop_last _ _ _ (by omega)]
          have hg : v / 268435456 < 128 := by omega
          have e := (group_and_0x7F _ hg).1
          simp [byte_at, Nat.mod_eq_of_lt hg,
            Nat.mod_eq_of_lt (show v / 268435456 + 128 < 256 by omega), e]

/-- Below 2^28 the round trip holds: `hif_pop_uint` applied to the bytes of
`hif_push_uint` returns the value, leaves the error flag clear and takes exactly
these bytes. -/
theorem hif_pop_uint_push_uint_small (v : Nat) (hv : v < 268435456) :
    ∃ bytes, hif_push_uint [] v = some bytes ∧
      hif_pop_uint bytes { data_size := bytes.length, data := some 0, cnt := 0, err := false } =
        some (v,
          { data_size := bytes.length, data := some 0, cnt := bytes.length, err := false }) := by
  refine ⟨_, hif_push_uint_bytes v (by omega), ?_⟩
  unfold hif_pop_uint __hif_pop_uint
  by_cases h1 : v < 128
  · rw [if_pos h1]
    rw [hif_pop_uint_loop_last _ _ _ 0 0 0 v (by simp) (by simp [byte_at]; omega) h1
      (by decide) (by decide)]
    simp
    omega
  · rw [if_neg h1]
    by_cases h2 : v < 16384
    · rw [if_pos h2]
      rw [hif_pop_uint_loop_more _ _ _ 0 0 0 (v % 128) (by simp) (by simp [byte_at]; omega)
        (by omega) (by decide) (by decide)]
      rw [hif_pop_uint_loop_last _ _ _ (0 + 1) _ (0 + 7) (v / 128) (by simp)
        (by simp [byte_at]; omega) (by omega) (by simp; omega) (by decide)]
      simp
      omega
    · rw [if_neg h2]
      by_cases h3 : v < 2097152
      · rw [if_pos h3]
        rw [hif_pop_uint_loop_more _ _ _ 0 0 0 (v % 128) (by simp) (by simp [byte_at]; omega)
          (by omega) (by decide) (by decide)]
        rw [hif_pop_uint_loop_more _ _ _ (0 + 1) _ (0 + 7) (v / 128 % 128) (by simp)
          (by simp [byte_at]; omega) (by omega) (by simp; omega) (by decide)]
        rw [hif_pop_uint_loop_last _ _ _ (0 + 1 + 1) _ (0 + 7 + 7) (v / 16384) (by simp)
          (by simp [byte_at]; omega) (by omega) (by simp; omega) (by decide)]
        simp
        omega
      · rw [if_neg h3, if_pos hv]
        rw [hif_pop_uint_loop_more _ _ _ 0 0 0 (v % 128) (by simp) (by simp [byte_at]; omega)
          (by omega) (by decide) (by decide)]
        rw [hif_pop_uint_loop_more _ _ _ (0 + 1) _ (0 + 7) (v / 128 % 128) (by simp)
          (by simp [byte_at]; omega) (by omega) (by simp; omega) (by decide)]
        rw [hif_pop_uint_loop_more _ _ _ (0 + 1 + 1) _ (0 + 7 + 7) (v / 16384 % 128) (by simp)
          (by simp [byte_at]; omega) (by omega) (by simp; omega) (by decide)]
        rw [hif_pop_uint_loop_last _ _ _ (0 + 1 + 1 + 1) _ (0 + 7 + 7 + 7) (v / 2097152)
          (by simp) (by simp [byte_at]; omega) (by omega) (by simp; omega) (by decide)]
        simp
        omega

/-- From 2^28 on the round trip fails: `hif_push_uint` writes 5 bytes, and
`hif_pop_uint` applied to them sets the error flag and returns 0. -/
theorem hif_pop_uint_push_uint_large (v : Nat) (h1 : 268435456 ≤ v) (h2 : v < 4294967296) :
    ∃ bytes, hif_push_uint [] v = some bytes ∧ bytes.length = 5 ∧
      hif_pop_uint bytes { data_size := 5, data := some 0, cnt := 0, err := false } =
        some (0, { data_size := 5, data := some 0, cnt := 5, err := true }) := by
  refine ⟨_, hif_push_uint_bytes v h2, ?_, ?_⟩
  · rw [if_neg (by omega), if_neg (by omega), if_neg (by omega), if_neg (by omega)]
    rfl
  · rw [if_neg (by omega), if_neg (by omega), if_neg (by omega), if_neg (by omega)]
    unfold hif_pop_uint __hif_pop_uint
    rw [hif_pop_uint_loop_more _ _ _ 0 0 0 (v % 128) (by decide) (by simp [byte_at]; omega)
      (by omega) (by decide) (by decide)]
    rw [hif_pop_uint_loop_more _ _ _ (0 + 1) _ (0 + 7) (v / 128 % 128) (by decide)
      (by simp [byte_at]; omega) (by omega) (by simp; omega) (by decide)]
    rw [hif_pop_uint_loop_more _ _ _ (0 + 1 + 1) _ (0 + 7 + 7) (v / 16384 % 128) (by decide)
      (by simp [byte_at]; omega) (by omega) (by simp; omega) (by decide)]
    rw [hif_pop_uint_loop_more _ _ _ (0 + 1 + 1 + 1) _ (0 + 7 + 7 + 7) (v / 2097152 % 128)
      (by decide) (by simp [byte_at]; omega) (by omega) (by simp; omega) (by decide)]
    exact hif_pop_uint_loop_fifth _ _ _ _ _ (by decide)

/-! ### HIF: strings when at least one byte remains -/

/-- The C library function `strnlen` when the first 0 is at the offset `len`, below
`maxlen`. -/
theorem strnlen_zero_at (mem : List Nat) (s maxlen len : Nat) (hlen : len < maxlen)
    (hnz : ∀ i, i < len → byte_at mem (s + i) ≠ 0) (hz : byte_at mem (s + len) = 0) :
    strnlen mem s maxlen = len := by
  unfold strnlen
  obtain ⟨k, hk⟩ : ∃ k, maxlen = len + (k + 1) := ⟨maxlen - len - 1, by omega⟩
  rw [hk, List.range_add, List.takeWhile_append_of_pos]
  · rw [List.range_succ_eq_map, List.map_cons, List.takeWhile_cons_of_neg]
    · simp
    · simp [hz]
  · intro i hi
    simpa using hnz i (List.mem_range.1 hi)

/-- The C library function `strnlen` when none of the `maxlen` bytes is 0. -/
theorem strnlen_no_zero (mem : List Nat) (s maxlen : Nat)
    (hnz : ∀ i, i < maxlen → byte_at mem (s + i) ≠ 0) : strnlen mem s maxlen = maxlen := by
  unfold strnlen
  rw [List.takeWhile_eq_self_iff.2]
  · simp
  · intro i hi
    simpa using hnz i (List.mem_range.1 hi)

/-- When at least one byte remains, `hif_pop_str` does what its test intends: with a
0 among the remaining bytes it returns the cursor and moves it just past the first
0; without one it sets the error flag, returns `NULL` and leaves the cursor. -/
theorem hif_pop_str_bytes_left (mem : List Nat) (data_size d cnt : Nat) (h : cnt < data_size) :
    (∀ len, len < data_size - cnt → (∀ i, i < len → byte_at mem (d + cnt + i) ≠ 0) →
      byte_at mem (d + cnt + len) = 0 →
      hif_pop_str mem { data_size := data_size, data := some d, cnt := cnt, err := false } =
        some (some (d + cnt),
          { data_size := data_size, data := some d, cnt := cnt + len + 1, err := false })) ∧
    ((∀ i, i < data_size - cnt → byte_at mem (d + cnt + i) ≠ 0) →
      hif_pop_str mem { data_size := data_size, data := some d, cnt := cnt, err := false } =
        some (none, { data_size := data_size, data := some d, cnt := cnt, err := true })) := by
  have hrem : iobuf_remaining_size
      { data_size := data_size, data := some d, cnt := cnt, err := false } = data_size - cnt := by
    simp [iobuf_remaining_size]
  have hptr : iobuf_ptr { data_size := data_size, data := some d, cnt := cnt, err := false } =
      some (d + cnt) := by
    simp [iobuf_ptr]
  constructor
  · intro len hlen hnz hz
    unfold hif_pop_str
    rw [hptr]
    dsimp only
    rw [hrem, strnlen_zero_at mem (d + cnt) _ len hlen hnz hz, if_neg (by omega)]
  · intro hnz
    unfold hif_pop_str
    rw [hptr]
    dsimp only
    rw [hrem, strnlen_no_zero mem (d + cnt) _ hnz, if_pos rfl, if_neg (by omega)]
    have hlast := hnz (data_size - cnt - 1) (by omega)
    rw [show d + cnt + (data_size - cnt - 1) = d + cnt + (data_size - cnt) - 1 by omega] at hlast
    rw [if_pos hlast]

/-! ### Border router: routing table of at least one entry -/

/-- The loop of `ws_bbr_routing_table_get` entered with `cnt` below `table_len`: it
stores the entries of the targets that have a preferred transit, in order, from the
index `cnt` on, and stops at `table_len`. -/
theorem ws_bbr_routing_table_get_loop_spec
    (rpl_transit_preferred : rpl_target → Option rpl_transit) (table_len : Nat) :
    ∀ (targets : List rpl_target) (cnt : Nat) (stores : List (Nat × bbr_route_info_t)),
      cnt < table_len →
      ws_bbr_routing_table_get_loop rpl_transit_preferred table_len targets cnt stores =
        (cnt + ((ws_bbr_routing_table_entries rpl_transit_preferred targets).take
            (table_len - cnt)).length,
          stores ++ List.zip
            (List.range' cnt ((ws_bbr_routing_table_entries rpl_transit_preferred targets).take
              (table_len - cnt)).length)
            ((ws_bbr_routing_table_entries rpl_transit_preferred targets).take
              (table_len - cnt))) := by
  intro targets
  induction targets with
  | nil =>
    intro cnt stores _
    simp [ws_bbr_routing_table_get_loop, ws_bbr_routing_table_entries]
  | cons target targets ih =>
    intro cnt stores hlt
    rw [ws_bbr_routing_table_get_loop]
    cases hp : rpl_transit_preferred target with
    | none =>
      dsimp only
      have he : ws_bbr_routing_table_entries rpl_transit_preferred (target :: targets) =
          ws_bbr_routing_table_entries rpl_transit_preferred targets := by
        unfold ws_bbr_routing_table_entries
        rw [List.filterMap_cons_none (by rw [hp]; rfl)]
      rw [ih cnt stores hlt, he]
    | some transit =>
      dsimp only
      have he : ws_bbr_routing_table_entries rpl_transit_preferred (target :: targets) =
          { target := memcpy_bytes (target.prefix_.drop 8) 8,
            parent := memcpy_bytes (transit.parent.drop 8) 8 } ::
          ws_bbr_routing_table_entries rpl_transit_preferred targets := by
        unfold ws_bbr_routing_table_entries
        rw [List.filterMap_cons_some (by rw [hp]; rfl)]
      rw [he]
      obtain ⟨k, hk⟩ : ∃ k, table_len - cnt = k + 1 := ⟨table_len - cnt - 1, by omega⟩
      rw [hk, List.take_succ_cons, List.length_cons, List.range'_succ, List.zip_cons_cons]
      by_cases hge : cnt + 1 ≥ table_len
      · rw [if_pos hge]
        have hk0 : k = 0 := by omega
        subst hk0
        simp
      · rw [if_neg hge, ih (cnt + 1) _ (by omega)]
        have hk2 : table_len - (cnt + 1) = k := by omega
        rw [hk2]
        simp only [List.append_assoc, List.singleton_append, Prod.mk.injEq, and_true]
        omega

/-- For a table of at least one entry, `ws_bbr_routing_table_get` returns a number
of entries that does not exceed `table_len`, and it stores that many entries, at the
indexes from 0 on, for the targets that have a preferred transit, in order. -/
theorem ws_bbr_routing_table_get_in_table
    (rpl_transit_preferred : rpl_target → Option rpl_transit) (targets : List rpl_target)
    (table_len : Nat) (h1 : 1 ≤ table_len) (h2 : table_len < 65536) :
    (ws_bbr_routing_table_get rpl_transit_preferred targets table_len).1 ≤ table_len ∧
    (ws_bbr_routing_table_get rpl_transit_preferred targets table_len).2 =
      List.zip (List.range' 0 (ws_bbr_routing_table_get rpl_transit_preferred targets table_len).1)
        ((ws_bbr_routing_table_entries rpl_transit_preferred targets).take table_len) := by
  unfold ws_bbr_routing_table_get
  rw [Nat.mod_eq_of_lt h2, ws_bbr_routing_table_get_loop_spec _ _ _ 0 [] (by omega)]
  simp only [Nat.zero_add, Nat.sub_zero, List.nil_append, and_true]
  rw [List.length_take]
  omega

/-! ### DHCPv6: option lookup in any buffer -/

theorem read_be16_at (mem : List Nat) (q t : Nat) (rest : List Nat)
    (h : mem.drop q = write_be16 t ++ rest) (ht : t < 65536) : read_be16 mem q = t := by
  rw [read_be16_drop, h, read_be16_write_be16 _ _ ht]

theorem drop_write_be16 (mem : List Nat) (q t : Nat) (rest : List Nat)
    (h : mem.drop q = write_be16 t ++ rest) : mem.drop (q + 2) = rest := by
  rw [← List.drop_drop, h]
  rfl

/-- The loop of `dhcp_get_option` on a cursor with the error flag set. -/
theorem dhcp_get_option_loop_err (mem : List Nat) (c fuel n : Nat) (d : Option Nat) (cnt : Nat) :
    dhcp_get_option_loop mem c (fuel + 1)
        { data_size := n, data := d, cnt := cnt, err := true } =
      some (-ENOENT, dhcp_option_payload_err) := by
  rw [dhcp_get_option_loop]
  simp [iobuf_remaining_size]

theorem pop_be16_err (mem : List Nat) (n : Nat) (d : Option Nat) (c : Nat) :
    iobuf_pop_be16 mem { data_size := n, data := d, cnt := c, err := true } =
      (0, { data_size := n, data := d, cnt := c, err := true }) := by
  simp [iobuf_pop_be16, pop_data_ptr_err]

/-- A turn of the loop on an option with the code looked for whose payload does not
fit in the bytes that remain. -/
theorem dhcp_get_option_loop_overrun (mem : List Nat) (c off len cnt fuel L : Nat)
    (rest : List Nat) (hdrop : mem.drop (off + cnt) = write_be16 c ++ (write_be16 L ++ rest))
    (hc : c < 65536) (hL : L < 65536) (h4 : cnt + 4 ≤ len) (hshort : len < cnt + 4 + L) :
    dhcp_get_option_loop mem c (fuel + 1)
        { data_size := len, data := some off, cnt := cnt, err := false } =
      some (-EINVAL, dhcp_option_payload_err) := by
  have e1 := read_be16_at mem (off + cnt) c _ hdrop hc
  have e2 := read_be16_at mem (off + (cnt + 2)) L rest
    (by rw [show off + (cnt + 2) = off + cnt + 2 by omega]
        exact drop_write_be16 mem (off + cnt) c _ hdrop) hL
  rw [dhcp_get_option_loop]
  have hrem : iobuf_remaining_size
      { data_size := len, data := some off, cnt := cnt, err := false } ≠ 0 := by
    simp [iobuf_remaining_size]
    omega
  rw [if_pos hrem]
  simp only [pop_be16_at mem len off cnt (by omega), pop_be16_at mem len off (cnt + 2) (by omega),
    e1, e2, if_pos rfl, pop_data_ptr_at_short len off (cnt + 2 + 2) L (by omega) (by omega)]
  simp

/-- A turn of the loop on the code looked for when its length field is cut by the end
of the buffer. -/
theorem dhcp_get_option_loop_cut (mem : List Nat) (c off len cnt fuel : Nat)
    (rest : List Nat) (hdrop : mem.drop (off + cnt) = write_be16 c ++ rest)
    (hc : c < 65536) (h2 : cnt + 2 ≤ len) (h4 : len < cnt + 4) :
    dhcp_get_option_loop mem c (fuel + 1)
        { data_size := len, data := some off, cnt := cnt, err := false } =
      some (-EINVAL, dhcp_option_payload_err) := by
  have e1 := read_be16_at mem (off + cnt) c _ hdrop hc
  rw [dhcp_get_option_loop]
  have hrem : iobuf_remaining_size
      { data_size := len, data := some off, cnt := cnt, err := false } ≠ 0 := by
    simp [iobuf_remaining_size]
    omega
  rw [if_pos hrem]
  simp only [pop_be16_at mem len off cnt (by omega),
    pop_be16_at_short mem len off (cnt + 2) (by omega) (by omega), e1, if_pos rfl,
    pop_data_ptr_err]
  simp

/-- A turn of the loop when a single byte remains: no code can be read, and for a
code looked for that is not 0 the loop ends with `-ENOENT`. -/
theorem dhcp_get_option_loop_one_byte (mem : List Nat) (c off len cnt fuel : Nat)
    (hc0 : c ≠ 0) (h1 : cnt + 1 = len) :
    dhcp_get_option_loop mem c (fuel + 2)
        { data_size := len, data := some off, cnt := cnt, err := false } =
      some (-ENOENT, dhcp_option_payload_err) := by
  rw [dhcp_get_option_loop]
  have hrem : iobuf_remaining_size
      { data_size := len, data := some off, cnt := cnt, err := false } ≠ 0 := by
    simp [iobuf_remaining_size]
    omega
  rw [if_pos hrem]
  simp only [pop_be16_at_short mem len off cnt (by omega) (by omega), pop_be16_err,
    if_neg (Ne.symm hc0), pop_data_ptr_err]
  exact dhcp_get_option_loop_err mem c fuel _ _ _

/-- A turn of the loop on another code when its length field is cut by the end of
the buffer. -/
theorem dhcp_get_option_loop_cut_other (mem : List Nat) (c off len cnt fuel t : Nat)
    (rest : List Nat) (hdrop : mem.drop (off + cnt) = write_be16 t ++ rest)
    (ht : t < 65536) (hne : t ≠ c) (h2 : cnt + 2 ≤ len) (h4 : len < cnt + 4) :
    dhcp_get_option_loop mem c (fuel + 2)
        { data_size := len, data := some off, cnt := cnt, err := false } =
      some (-ENOENT, dhcp_option_payload_err) := by
  have e1 := read_be16_at mem (off + cnt) t _ hdrop ht
  rw [dhcp_get_option_loop]
  have hrem : iobuf_remaining_size
      { data_size := len, data := some off, cnt := cnt, err := false } ≠ 0 := by
    simp [iobuf_remaining_size]
    omega
  rw [if_pos hrem]
  simp only [pop_be16_at mem len off cnt (by omega),
    pop_be16_at_short mem len off (cnt + 2) (by omega) (by omega), e1, if_neg hne,
    pop_data_ptr_err]
  exact dhcp_get_option_loop_err mem c fuel _ _ _

/-- A turn of the loop on an option with another code whose payload does not fit in
the bytes that remain. -/
theorem dhcp_get_option_loop_overrun_other (mem : List Nat) (c off len cnt fuel t L : Nat)
    (rest : List Nat) (hdrop : mem.drop (off + cnt) = write_be16 t ++ (write_be16 L ++ rest))
    (ht : t < 65536) (hne : t ≠ c) (hL : L < 65536) (h4 : cnt + 4 ≤ len)
    (hshort : len < cnt + 4 + L) :
    dhcp_get_option_loop mem c (fuel + 2)
        { data_size := len, data := some off, cnt := cnt, err := false } =
      some (-ENOENT, dhcp_option_payload_err) := by
  have e1 := read_be16_at mem (off + cnt) t _ hdrop ht
  have e2 := read_be16_at mem (off + (cnt + 2)) L rest
    (by rw [show off + (cnt + 2) = off + cnt + 2 by omega]
        exact drop_write_be16 mem (off + cnt) t _ hdrop) hL
  rw [dhcp_get_option_loop]
  have hrem : iobuf_remaining_size
      { data_size := len, data := some off, cnt := cnt, err := false } ≠ 0 := by
    simp [iobuf_remaining_size]
    omega
  rw [if_pos hrem]
  simp only [pop_be16_at mem len off cnt (by omega), pop_be16_at mem len off (cnt + 2) (by omega),
    e1, e2, if_neg hne, pop_data_ptr_at_short len off (cnt + 2 + 2) L (by omega) (by omega)]
  exact dhcp_get_option_loop_err mem c fuel _ _ _

/-- The start of `dhcp_get_option` on a buffer that begins with well-formed options of
other codes: the loop goes on at the first byte after them, with fuel left for two
turns when a byte remains. -/
theorem dhcp_get_option_skip (mem : List Nat) (c off : Nat) (l1 : List (Nat × List Nat))
    (tail post : List Nat) (hc : c < 65536)
    (hl1 : ∀ o ∈ l1, o.1 < 65536 ∧ o.2.length < 65536 ∧ o.1 ≠ c)
    (hdrop : mem.drop off = dhcp_opts_bytes l1 ++ tail ++ post) :
    ∃ fuel, dhcp_get_option mem (some off) ((dhcp_opts_bytes l1).length + tail.length) c =
        dhcp_get_option_loop mem c (fuel + 1)
          { data_size := (dhcp_opts_bytes l1).length + tail.length, data := some off,
            cnt := (dhcp_opts_bytes l1).length, err := false } ∧
      (tail ≠ [] → 1 ≤ fuel) ∧
      mem.drop (off + (dhcp_opts_bytes l1).length) = tail ++ post := by
  have hge := dhcp_opts_bytes_length_ge l1
  refine ⟨(dhcp_opts_bytes l1).length + tail.length - l1.length, ?_, ?_, ?_⟩
  · unfold dhcp_get_option
    rw [Nat.mod_eq_of_lt hc]
    rw [show (dhcp_opts_bytes l1).length + tail.length + 1 =
      ((dhcp_opts_bytes l1).length + tail.length - l1.length + 1) + l1.length by omega]
    rw [dhcp_get_option_loop_skip_all mem c off _ l1 _ 0 (tail ++ post) hl1
      (by rw [Nat.add_zero, hdrop, List.append_assoc]) (by omega)]
    rw [Nat.zero_add]
  · intro hne
    have : 0 < tail.length := List.length_pos.2 hne
    omega
  · rw [← List.drop_drop, hdrop, List.append_assoc, List.drop_left]


/-- The shapes of what follows the leading options of other codes in a buffer: nothing,
a single byte, a code with a cut length field, an option header that declares more
payload than remains, or a whole option with the code `c`. -/
theorem dhcp_opts_split (c : Nat) (n : Nat) (buf : List Nat) (hn : buf.length ≤ n)
    (hb : ∀ b ∈ buf, b < 256) :
    ∃ (l1 : List (Nat × List Nat)) (tail : List Nat),
      buf = dhcp_opts_bytes l1 ++ tail ∧
      (∀ o ∈ l1, o.1 < 65536 ∧ o.2.length < 65536 ∧ o.1 ≠ c) ∧
      (tail = [] ∨ (∃ b, tail = [b]) ∨
        (∃ t cut, tail = write_be16 t ++ cut ∧ t < 65536 ∧ cut.length < 2) ∨
        (∃ t L short, tail = write_be16 t ++ write_be16 L ++ short ∧ t < 65536 ∧
          L < 65536 ∧ short.length < L) ∨
        (∃ p rest, tail = dhcp_opt_bytes (c, p) ++ rest ∧ p.length < 65536)) := by
  have hw : ∀ a b : Nat, a < 256 → b < 256 →
      write_be16 (a * 256 + b) = [a, b] ∧ a * 256 + b < 65536 := by
    intro a b ha hb
    refine ⟨?_, by omega⟩
    simp only [write_be16]
    congr 1
    · omega
    · congr 1
      omega
  induction n generalizing buf with
  | zero =>
    refine ⟨[], [], ?_, by simp, Or.inl rfl⟩
    have : buf = [] := List.length_eq_zero.1 (by omega)
    simp [this, dhcp_opts_bytes]
  | succ n ih =>
    match buf, hn, hb with
    | [], _, _ => exact ⟨[], [], by simp [dhcp_opts_bytes], by simp, Or.inl rfl⟩
    | [b], _, _ => exact ⟨[], [b], by simp [dhcp_opts_bytes], by simp, Or.inr (Or.inl ⟨b, rfl⟩)⟩
    | [a, b], _, hb =>
      have h := hw a b (hb a (by simp)) (hb b (by simp))
      exact ⟨[], [a, b], by simp [dhcp_opts_bytes], by simp,
        Or.inr (Or.inr (Or.inl ⟨a * 256 + b, [], by simp [h.1], h.2, by simp⟩))⟩
    | [a, b, x], _, hb =>
      have h := hw a b (hb a (by simp)) (hb b (by simp))
      exact ⟨[], [a, b, x], by simp [dhcp_opts_bytes], by simp,
        Or.inr (Or.inr (Or.inl ⟨a * 256 + b, [x], by simp [h.1], h.2, by simp⟩))⟩
    | a :: b :: x :: y :: rest, hn, hb =>
      have h1 := hw a b (hb a (by simp)) (hb b (by simp))
      have h2 := hw x y (hb x (by simp)) (hb y (by simp))
      by_cases hshort : rest.length < x * 256 + y
      · exact ⟨[], a :: b :: x :: y :: rest, by simp [dhcp_opts_bytes], by simp,
          Or.inr (Or.inr (Or.inr (Or.inl ⟨a * 256 + b, x * 256 + y, rest,
            by simp [h1.1, h2.1], h1.2, h2.2, hshort⟩)))⟩
      · have hlen : (rest.take (x * 256 + y)).length = x * 256 + y := by
          rw [List.length_take]
          omega
        have hsplit : a :: b :: x :: y :: rest =
            dhcp_opt_bytes (a * 256 + b, rest.take (x * 256 + y)) ++
              rest.drop (x * 256 + y) := by
          simp only [dhcp_opt_bytes, hlen, h1.1, h2.1]
          simp
        by_cases hcode : a * 256 + b = c
        · refine ⟨[], a :: b :: x :: y :: rest, by simp [dhcp_opts_bytes], by simp,
            Or.inr (Or.inr (Or.inr (Or.inr ⟨rest.take (x * 256 + y),
              rest.drop (x * 256 + y), ?_, ?_⟩)))⟩
          · rw [← hcode]
            exact hsplit
          · rw [hlen]
            exact h2.2
        · obtain ⟨l1, tail, he, hl, hs⟩ := ih (rest.drop (x * 256 + y))
            (by simp only [List.length_drop, List.length_cons] at hn ⊢; omega)
            (fun v hv => hb v (by
              simp only [List.mem_cons]
              exact Or.inr (Or.inr (Or.inr (Or.inr (List.mem_of_mem_drop hv))))))
          refine ⟨(a * 256 + b, rest.take (x * 256 + y)) :: l1, tail, ?_, ?_, hs⟩
          · rw [hsplit, he]
            simp [dhcp_opts_bytes]
          · intro o ho
            rcases List.mem_cons.1 ho with rfl | ho
            · exact ⟨h1.2, by rw [hlen]; exact h2.2, hcode⟩
            · exact hl o ho

/-- C33, amended claim: for an option code `c` other than 0, on a buffer that starts
with well-formed options of other codes `l1` followed by `tail`, `dhcp_get_option`
gives: the length of the first option with the code `c` and a cursor on exactly its
payload bytes with `err` clear, when `tail` starts with that option; `-EINVAL` when
`tail` is the code `c` followed by a length field that declares more payload than
remains, or by a cut length field; `-ENOENT` with `out.err` set when `tail` is empty,
a single byte, or another code whose length field is cut or declares more payload than
remains; and it gives a result for every input. -/
theorem dhcp_get_option_scan (mem : List Nat) (off c : Nat) (l1 : List (Nat × List Nat))
    (tail post : List Nat) (hc0 : c ≠ 0) (hc : c < 65536)
    (hl1 : ∀ o ∈ l1, o.1 < 65536 ∧ o.2.length < 65536 ∧ o.1 ≠ c)
    (hdrop : mem.drop off = dhcp_opts_bytes l1 ++ tail ++ post) :
    (∀ p rest, tail = dhcp_opt_bytes (c, p) ++ rest → p.length < 65536 →
      dhcp_get_option mem (some off) ((dhcp_opts_bytes l1).length + tail.length) c =
          some ((p.length : Int),
            { data_size := p.length, data := some (off + ((dhcp_opts_bytes l1).length + 4)),
              cnt := 0, err := false }) ∧
        (mem.drop (off + ((dhcp_opts_bytes l1).length + 4))).take p.length = p) ∧
    (∀ L short, tail = write_be16 c ++ write_be16 L ++ short → L < 65536 →
      short.length < L →
      dhcp_get_option mem (some off) ((dhcp_opts_bytes l1).length + tail.length) c =
        some (-EINVAL, dhcp_option_payload_err)) ∧
    (∀ cut, tail = write_be16 c ++ cut → cut.length < 2 →
      dhcp_get_option mem (some off) ((dhcp_opts_bytes l1).length + tail.length) c =
        some (-EINVAL, dhcp_option_payload_err)) ∧
    (tail = [] →
      dhcp_get_option mem (some off) ((dhcp_opts_bytes l1).length + tail.length) c =
        some (-ENOENT, dhcp_option_payload_err)) ∧
    (∀ b, tail = [b] →
      dhcp_get_option mem (some off) ((dhcp_opts_bytes l1).length + tail.length) c =
        some (-ENOENT, dhcp_option_payload_err)) ∧
    (∀ t cut, tail = write_be16 t ++ cut → t < 65536 → t ≠ c → cut.length < 2 →
      dhcp_get_option mem (some off) ((dhcp_opts_bytes l1).length + tail.length) c =
        some (-ENOENT, dhcp_option_payload_err)) ∧
    (∀ t L short, tail = write_be16 t ++ write_be16 L ++ short → t < 65536 → t ≠ c →
      L < 65536 → short.length < L →
      dhcp_get_option mem (some off) ((dhcp_opts_bytes l1).length + tail.length) c =
        some (-ENOENT, dhcp_option_payload_err)) ∧
    dhcp_option_payload_err.err = true ∧
    ∀ (m : List Nat) (data : Option Nat) (len option : Nat),
      ∃ r, dhcp_get_option m data len option = some r := by
  obtain ⟨fuel, hloop, hfuel, hd⟩ := dhcp_get_option_skip mem c off l1 tail post hc hl1 hdrop
  refine ⟨?_, ?_, ?_, ?_, ?_, ?_, ?_, rfl, ?_⟩
  · intro p rest ht hp
    have hlen : tail.length = 4 + p.length + rest.length := by
      rw [ht, List.length_append, dhcp_opt_bytes_length]
    have hd2 : mem.drop (off + (dhcp_opts_bytes l1).length) =
        dhcp_opt_bytes (c, p) ++ (rest ++ post) := by
      rw [hd, ht, List.append_assoc]
    refine ⟨?_, ?_⟩
    · rw [hloop]
      exact dhcp_get_option_loop_found mem c off _ _ fuel (c, p) _ hd2 hc hp rfl
        (by simp only []; omega)
    · have h4 : mem.drop (off + ((dhcp_opts_bytes l1).length + 4)) = p ++ (rest ++ post) := by
        rw [show off + ((dhcp_opts_bytes l1).length + 4) =
          off + (dhcp_opts_bytes l1).length + 2 + 2 by omega]
        apply drop_write_be16 mem _ p.length
        apply drop_write_be16 mem _ c
        rw [hd2]
        simp [dhcp_opt_bytes]
      rw [h4, List.take_left]
  · intro L short ht hL hs
    rw [hloop]
    have hlen : tail.length = 4 + short.length := by
      rw [ht]
      simp [write_be16]
      omega
    exact dhcp_get_option_loop_overrun mem c off _ _ fuel L (short ++ post)
      (by rw [hd, ht]; simp only [List.append_assoc]) hc hL (by omega) (by omega)
  · intro cut ht hcut
    rw [hloop]
    have hlen : tail.length = 2 + cut.length := by
      rw [ht]
      simp [write_be16]
      omega
    exact dhcp_get_option_loop_cut mem c off _ _ fuel (cut ++ post)
      (by rw [hd, ht]; simp only [List.append_assoc]) hc (by omega) (by omega)
  · intro ht
    rw [hloop, ht]
    exact dhcp_get_option_loop_end mem c off _ fuel
  · intro b ht
    have hf := hfuel (by rw [ht]; simp)
    obtain ⟨f, rfl⟩ : ∃ f, fuel = f + 1 := ⟨fuel - 1, by omega⟩
    rw [hloop]
    exact dhcp_get_option_loop_one_byte mem c off _ _ f hc0 (by rw [ht]; rfl)
  · intro t cut ht ht16 hne hcut
    have hlen : tail.length = 2 + cut.length := by
      rw [ht]
      simp [write_be16]
      omega
    have hf := hfuel (by intro h; rw [h] at hlen; simp at hlen; omega)
    obtain ⟨f, rfl⟩ : ∃ f, fuel = f + 1 := ⟨fuel - 1, by omega⟩
    rw [hloop]
    exact dhcp_get_option_loop_cut_other mem c off _ _ f t (cut ++ post)
      (by rw [hd, ht]; simp only [List.append_assoc]) ht16 hne (by omega) (by omega)
  · intro t L short ht ht16 hne hL hs
    have hlen : tail.length = 4 + short.length := by
      rw [ht]
      simp [write_be16]
      omega
    have hf := hfuel (by intro h; rw [h] at hlen; simp at hlen; omega)
    obtain ⟨f, rfl⟩ : ∃ f, fuel = f + 1 := ⟨fuel - 1, by omega⟩
    rw [hloop]
    exact dhcp_get_option_loop_overrun_other mem c off _ _ f t L (short ++ post)
      (by rw [hd, ht]; simp only [List.append_assoc]) ht16 hne hL (by omega) (by omega)
  · intro m data len option
    obtain ⟨r, hr, _⟩ := dhcp_get_option_total m data len option
    exact ⟨r, hr⟩

/-- Witness of C33: in the buffer that holds an option 8 with two payload bytes and
then the option 1 with the payload byte 0xaa, the lookup of the code 1 returns the
length 1 and a cursor on the byte at offset 10. -/
theorem dhcp_get_option_scan_witness :
    dhcp_get_option [0, 8, 0, 2, 0, 0, 0, 1, 0, 1, 0xaa] (some 0) 11 1 =
        some (1, { data_size := 1, data := some 10, cnt := 0, err := false }) ∧
      ([0, 8, 0, 2, 0, 0, 0, 1, 0, 1, 0xaa].drop 10).take 1 = [0xaa] :=
  (dhcp_get_option_scan [0, 8, 0, 2, 0, 0, 0, 1, 0, 1, 0xaa] 0 1 [(8, [0, 0])]
    [0, 1, 0, 1, 0xaa] [] (by decide) (by decide) (by decide) (by decide)).1
    [0xaa] [] (by decide) (by decide)

end Wisun
